import Mathlib

namespace M4rie

/-- Modelled from the spec: the Boolean plane matrix type `mzd_t` of the external GF(2)
matrix library, an `r × c` matrix with entries in GF(2). -/
abbrev mzd (r c : ℕ) := Matrix (Fin r) (Fin c) (ZMod 2)

/-- Modelled from the spec: the field descriptor `gf2e` (degree and minimal polynomial); the
multiplication schedules only pass it on to `_mzd_ptr_add_to_all`. Matrices hold a pointer to
their descriptor: `addr` is the address of the descriptor object, which is what the comparisons
`A->finite_field == B->finite_field` of the source compare. Two descriptor objects of one field
have the same degree and minimal polynomial and different addresses. -/
structure gf2e where
  degree : ℕ
  minpoly : ℕ
  addr : ℕ
  deriving DecidableEq

/-- Modelled from the spec: `mzd_add(C, A, B)` stores the XOR (sum over GF(2)) of `A` and `B`
in `C` and returns it. -/
def mzd_add {r c : ℕ} (A B : mzd r c) : mzd r c := A + B

/-- Modelled from the spec: `mzd_mul(C, A, B, 0)` stores the Boolean matrix product `A * B`
in `C` and returns it. -/
def mzd_mul {n k m : ℕ} (A : mzd n k) (B : mzd k m) : mzd n m := A * B

/-- Modelled from the spec: `mzd_addmul(C, A, B, 0)` accumulates the Boolean matrix product,
`C += A * B`. -/
def mzd_addmul {n k m : ℕ} (C : mzd n m) (A : mzd n k) (B : mzd k m) : mzd n m := C + A * B

/-- Modelled from the spec: `mzd_sum(C, N, ...)` is the fold-XOR of its `N` operands. -/
def mzd_sum {r c : ℕ} (l : List (mzd r c)) : mzd r c := l.sum

/-- Modelled from the spec: `_mzd_ptr_add_to_all(ff, T, X, t, ...)` XOR-accumulates `T` into
`X[offset]` for every listed target offset, with no modular reduction. -/
def _mzd_ptr_add_to_all {n m : ℕ} (_ff : gf2e) (T : mzd n m) (X : ℕ → mzd n m) (ts : List ℕ) :
    ℕ → mzd n m :=
  ts.foldl (fun Y t => Function.update Y t (Y t + T)) X

/-! ### The degree-specialised multiplication schedules of the source, `mzd_ptr.c` -/

/-- Embedding of `_mzd_ptr_addmul_karatsuba2`: the planes `A[0..1]`, `B[0..1]` are read, every
sub-multiplication result is XOR-accumulated into the listed planes of `X`, and the updated
plane array is returned. -/
def _mzd_ptr_addmul_karatsuba2 {n k m : ℕ} (ff : gf2e) (X : ℕ → mzd n m)
    (A : ℕ → mzd n k) (B : ℕ → mzd k m) : ℕ → mzd n m :=
  let a0 := A 0
  let a1 := A 1
  let b0 := B 0
  let b1 := B 1
  let X := Function.update X 1 (mzd_addmul (X 1) (mzd_add a0 a1) (mzd_add b0 b1))
  let X := _mzd_ptr_add_to_all ff (mzd_mul a0 b0) X [0, 1]
  let X := _mzd_ptr_add_to_all ff (mzd_mul a1 b1) X [1, 2]
  X

/-- Embedding of `_mzd_ptr_addmul_karatsuba3`: the planes `A[0..2]`, `B[0..2]` are read, every
sub-multiplication result is XOR-accumulated into the listed planes of `X`, and the updated
plane array is returned. -/
def _mzd_ptr_addmul_karatsuba3 {n k m : ℕ} (ff : gf2e) (X : ℕ → mzd n m)
    (A : ℕ → mzd n k) (B : ℕ → mzd k m) : ℕ → mzd n m :=
  let a0 := A 0
  let a1 := A 1
  let a2 := A 2
  let b0 := B 0
  let b1 := B 1
  let b2 := B 2
  let X := _mzd_ptr_add_to_all ff (mzd_mul (mzd_add a0 a1) (mzd_add b0 b1)) X [1]
  let X := _mzd_ptr_add_to_all ff (mzd_mul (mzd_add a0 a2) (mzd_add b0 b2)) X [2]
  let X := _mzd_ptr_add_to_all ff (mzd_mul (mzd_add a1 a2) (mzd_add b1 b2)) X [3]
  let X := _mzd_ptr_add_to_all ff (mzd_mul a0 b0) X [0, 1, 2]
  let X := _mzd_ptr_add_to_all ff (mzd_mul a1 b1) X [1, 2, 3]
  let X := _mzd_ptr_add_to_all ff (mzd_mul a2 b2) X [2, 3, 4]
  X

/-- Embedding of `_mzd_ptr_addmul_karatsuba4`: the planes `A[0..3]`, `B[0..3]` are read, every
sub-multiplication result is XOR-accumulated into the listed planes of `X`, and the updated
plane array is returned. -/
def _mzd_ptr_addmul_karatsuba4 {n k m : ℕ} (ff : gf2e) (X : ℕ → mzd n m)
    (A : ℕ → mzd n k) (B : ℕ → mzd k m) : ℕ → mzd n m :=
  let a0 := A 0
  let a1 := A 1
  let a2 := A 2
  let a3 := A 3
  let b0 := B 0
  let b1 := B 1
  let b2 := B 2
  let b3 := B 3
  let X := _mzd_ptr_add_to_all ff
    (mzd_mul (mzd_sum [a0, a1, a2, a3])
      (mzd_sum [b0, b1, b2, b3]))
    X [3]
  let X := _mzd_ptr_add_to_all ff (mzd_mul (mzd_sum [a0, a1]) (mzd_sum [b0, b1])) X [1, 3]
  let X := _mzd_ptr_add_to_all ff (mzd_mul (mzd_sum [a0, a2]) (mzd_sum [b0, b2])) X [2, 3]
  let X := _mzd_ptr_add_to_all ff (mzd_mul (mzd_sum [a1, a3]) (mzd_sum [b1, b3])) X [3, 4]
  let X := _mzd_ptr_add_to_all ff (mzd_mul (mzd_sum [a2, a3]) (mzd_sum [b2, b3])) X [3, 5]
  let X := _mzd_ptr_add_to_all ff (mzd_mul a0 b0) X [0, 1, 2, 3]
  let X := _mzd_ptr_add_to_all ff (mzd_mul a1 b1) X [1, 2, 3, 4]
  let X := _mzd_ptr_add_to_all ff (mzd_mul a2 b2) X [2, 3, 4, 5]
  let X := _mzd_ptr_add_to_all ff (mzd_mul a3 b3) X [3, 4, 5, 6]
  X

/-- Embedding of `_mzd_ptr_addmul_karatsuba5`: the planes `A[0..4]`, `B[0..4]` are read, every
sub-multiplication result is XOR-accumulated into the listed planes of `X`, and the updated
plane array is returned. -/
def _mzd_ptr_addmul_karatsuba5 {n k m : ℕ} (ff : gf2e) (X : ℕ → mzd n m)
    (A : ℕ → mzd n k) (B : ℕ → mzd k m) : ℕ → mzd n m :=
  let a0 := A 0
  let a1 := A 1
  let a2 := A 2
  let a3 := A 3
  let a4 := A 4
  let b0 := B 0
  let b1 := B 1
  let b2 := B 2
  let b3 := B 3
  let b4 := B 4
  let X := _mzd_ptr_add_to_all ff (mzd_mul a0 b0) X [6, 5, 4, 2, 1, 0]
  let X := _mzd_ptr_add_to_all ff (mzd_mul a1 b1) X [4, 1]
  let X := _mzd_ptr_add_to_all ff (mzd_mul a3 b3) X [7, 4]
  let X := _mzd_ptr_add_to_all ff (mzd_mul a4 b4) X [8, 7, 6, 4, 3, 2]
  let X := _mzd_ptr_add_to_all ff (mzd_mul (mzd_sum [a0, a4]) (mzd_sum [b0, b4])) X [6, 5, 3, 2]
  let X := _mzd_ptr_add_to_all ff (mzd_mul (mzd_sum [a0, a1]) (mzd_sum [b0, b1])) X [5, 4, 2, 1]
  let X := _mzd_ptr_add_to_all ff (mzd_mul (mzd_sum [a3, a4]) (mzd_sum [b3, b4])) X [7, 6, 4, 3]
  let X := _mzd_ptr_add_to_all ff (mzd_mul (mzd_sum [a1, a2, a4]) (mzd_sum [b1, b2, b4])) X [4, 2]
  let X := _mzd_ptr_add_to_all ff (mzd_mul (mzd_sum [a0, a2, a3]) (mzd_sum [b0, b2, b3])) X [6, 4]
  let X := _mzd_ptr_add_to_all ff
    (mzd_mul (mzd_sum [a0, a1, a3, a4])
      (mzd_sum [b0, b1, b3, b4]))
    X [5, 3]
  let X := _mzd_ptr_add_to_all ff
    (mzd_mul (mzd_sum [a0, a1, a2, a4])
      (mzd_sum [b0, b1, b2, b4]))
    X [5, 2]
  let X := _mzd_ptr_add_to_all ff
    (mzd_mul (mzd_sum [a0, a2, a3, a4])
      (mzd_sum [b0, b2, b3, b4]))
    X [6, 3]
  let X := _mzd_ptr_add_to_all ff
    (mzd_mul (mzd_sum [a0, a1, a2, a3, a4])
      (mzd_sum [b0, b1, b2, b3, b4]))
    X [5, 4, 3]
  X

/-- Embedding of `_mzd_ptr_addmul_karatsuba6`: the planes `A[0..5]`, `B[0..5]` are read, every
sub-multiplication result is XOR-accumulated into the listed planes of `X`, and the updated
plane array is returned. -/
def _mzd_ptr_addmul_karatsuba6 {n k m : ℕ} (ff : gf2e) (X : ℕ → mzd n m)
    (A : ℕ → mzd n k) (B : ℕ → mzd k m) : ℕ → mzd n m :=
  let a0 := A 0
  let a1 := A 1
  let a2 := A 2
  let a3 := A 3
  let a4 := A 4
  let a5 := A 5
  let b0 := B 0
  let b1 := B 1
  let b2 := B 2
  let b3 := B 3
  let b4 := B 4
  let b5 := B 5
  let X := _mzd_ptr_add_to_all ff (mzd_mul a0 b0) X [6, 5, 1, 0]
  let X := _mzd_ptr_add_to_all ff (mzd_mul a1 b1) X [7, 6, 5, 4, 3, 1]
  let X := _mzd_ptr_add_to_all ff (mzd_mul a4 b4) X [9, 7, 5, 3]
  let X := _mzd_ptr_add_to_all ff (mzd_mul a5 b5) X [10, 9, 6, 5]
  let X := _mzd_ptr_add_to_all ff (mzd_mul (mzd_sum [a4, a5]) (mzd_sum [b4, b5])) X [9, 8, 4, 3]
  let X := _mzd_ptr_add_to_all ff (mzd_mul (mzd_sum [a0, a1]) (mzd_sum [b0, b1])) X [7, 4, 2, 1]
  let X := _mzd_ptr_add_to_all ff (mzd_mul (mzd_sum [a3, a4]) (mzd_sum [b3, b4])) X [8, 7, 6, 3]
  let X := _mzd_ptr_add_to_all ff (mzd_mul (mzd_sum [a1, a2]) (mzd_sum [b1, b2])) X [7, 6, 3, 2]
  let X := _mzd_ptr_add_to_all ff (mzd_mul (mzd_sum [a1, a4]) (mzd_sum [b1, b4])) X [4, 5]
  let X := _mzd_ptr_add_to_all ff (mzd_mul (mzd_sum [a2, a3]) (mzd_sum [b2, b3])) X [7, 6, 4, 3]
  let X := _mzd_ptr_add_to_all ff
    (mzd_mul (mzd_sum [a3, a4, a5])
      (mzd_sum [b3, b4, b5]))
    X [8, 6, 4, 3]
  let X := _mzd_ptr_add_to_all ff (mzd_mul (mzd_sum [a0, a1, a2]) (mzd_sum [b0, b1, b2])) X [7, 2]
  let X := _mzd_ptr_add_to_all ff (mzd_mul (mzd_sum [a0, a3, a5]) (mzd_sum [b0, b3, b5])) X [7, 5]
  let X := _mzd_ptr_add_to_all ff
    (mzd_mul (mzd_sum [a0, a2, a5])
      (mzd_sum [b0, b2, b5]))
    X [6, 5, 4, 3]
  let X := _mzd_ptr_add_to_all ff
    (mzd_mul (mzd_sum [a0, a2, a3, a5])
      (mzd_sum [b0, b2, b3, b5]))
    X [7, 5, 4, 3]
  let X := _mzd_ptr_add_to_all ff
    (mzd_mul (mzd_sum [a0, a1, a3, a4])
      (mzd_sum [b0, b1, b3, b4]))
    X [6, 4]
  let X := _mzd_ptr_add_to_all ff
    (mzd_mul (mzd_sum [a0, a1, a2, a3, a4, a5])
      (mzd_sum [b0, b1, b2, b3, b4, b5]))
    X [6]
  X

/-- Embedding of `_mzd_ptr_addmul_karatsuba7`: the planes `A[0..6]`, `B[0..6]` are read, every
sub-multiplication result is XOR-accumulated into the listed planes of `X`, and the updated
plane array is returned. -/
def _mzd_ptr_addmul_karatsuba7 {n k m : ℕ} (ff : gf2e) (X : ℕ → mzd n m)
    (A : ℕ → mzd n k) (B : ℕ → mzd k m) : ℕ → mzd n m :=
  let a0 := A 0
  let a1 := A 1
  let a2 := A 2
  let a3 := A 3
  let a4 := A 4
  let a5 := A 5
  let a6 := A 6
  let b0 := B 0
  let b1 := B 1
  let b2 := B 2
  let b3 := B 3
  let b4 := B 4
  let b5 := B 5
  let b6 := B 6
  let X := _mzd_ptr_add_to_all ff
    (mzd_mul (mzd_sum [a0, a1, a2, a3, a4, a5, a6])
      (mzd_sum [b0, b1, b2, b3, b4, b5, b6]))
    X [7, 6, 5]
  let X := _mzd_ptr_add_to_all ff
    (mzd_mul (mzd_sum [a1, a2, a3, a5, a6])
      (mzd_sum [b1, b2, b3, b5, b6]))
    X [9, 6]
  let X := _mzd_ptr_add_to_all ff
    (mzd_mul (mzd_sum [a0, a1, a3, a4, a5])
      (mzd_sum [b0, b1, b3, b4, b5]))
    X [6, 3]
  let X := _mzd_ptr_add_to_all ff
    (mzd_mul (mzd_sum [a0, a2, a3, a4, a6])
      (mzd_sum [b0, b2, b3, b4, b6]))
    X [9, 3]
  let X := _mzd_ptr_add_to_all ff
    (mzd_mul (mzd_sum [a0, a2, a3, a5, a6])
      (mzd_sum [b0, b2, b3, b5, b6]))
    X [7, 3]
  let X := _mzd_ptr_add_to_all ff
    (mzd_mul (mzd_sum [a0, a1, a3, a4, a6])
      (mzd_sum [b0, b1, b3, b4, b6]))
    X [9, 5]
  let X := _mzd_ptr_add_to_all ff
    (mzd_mul (mzd_sum [a1, a2, a4, a5])
      (mzd_sum [b1, b2, b4, b5]))
    X [9, 7, 5, 3]
  let X := _mzd_ptr_add_to_all ff (mzd_mul (mzd_sum [a0, a1]) (mzd_sum [b0, b1])) X [9, 7, 3, 1]
  let X := _mzd_ptr_add_to_all ff (mzd_mul (mzd_sum [a0, a2]) (mzd_sum [b0, b2])) X [9, 6, 5, 2]
  let X := _mzd_ptr_add_to_all ff (mzd_mul (mzd_sum [a0, a4]) (mzd_sum [b0, b4])) X [7, 4]
  let X := _mzd_ptr_add_to_all ff (mzd_mul (mzd_sum [a1, a3]) (mzd_sum [b1, b3])) X [7, 6, 4, 3]
  let X := _mzd_ptr_add_to_all ff (mzd_mul (mzd_sum [a2, a6]) (mzd_sum [b2, b6])) X [8, 5]
  let X := _mzd_ptr_add_to_all ff (mzd_mul (mzd_sum [a3, a5]) (mzd_sum [b3, b5])) X [9, 8, 6, 5]
  let X := _mzd_ptr_add_to_all ff (mzd_mul (mzd_sum [a4, a6]) (mzd_sum [b4, b6])) X [10, 7, 6, 3]
  let X := _mzd_ptr_add_to_all ff (mzd_mul (mzd_sum [a5, a6]) (mzd_sum [b5, b6])) X [11, 9, 5, 3]
  let X := _mzd_ptr_add_to_all ff (mzd_mul a0 b0) X [6, 5, 4, 2, 1, 0]
  let X := _mzd_ptr_add_to_all ff (mzd_mul a1 b1) X [5, 4, 2, 1]
  let X := _mzd_ptr_add_to_all ff (mzd_mul a2 b2) X [8, 7, 6, 4, 3, 2]
  let X := _mzd_ptr_add_to_all ff (mzd_mul a3 b3) X [8, 7, 5, 4]
  let X := _mzd_ptr_add_to_all ff (mzd_mul a4 b4) X [10, 9, 8, 6, 5, 4]
  let X := _mzd_ptr_add_to_all ff (mzd_mul a5 b5) X [11, 10, 8, 7]
  let X := _mzd_ptr_add_to_all ff (mzd_mul a6 b6) X [12, 11, 10, 8, 7, 6]
  X

/-- Embedding of `_mzd_ptr_addmul_karatsuba8`: the planes `A[0..7]`, `B[0..7]` are read, every
sub-multiplication result is XOR-accumulated into the listed planes of `X`, and the updated
plane array is returned. -/
def _mzd_ptr_addmul_karatsuba8 {n k m : ℕ} (ff : gf2e) (X : ℕ → mzd n m)
    (A : ℕ → mzd n k) (B : ℕ → mzd k m) : ℕ → mzd n m :=
  let a0 := A 0
  let a1 := A 1
  let a2 := A 2
  let a3 := A 3
  let a4 := A 4
  let a5 := A 5
  let a6 := A 6
  let a7 := A 7
  let b0 := B 0
  let b1 := B 1
  let b2 := B 2
  let b3 := B 3
  let b4 := B 4
  let b5 := B 5
  let b6 := B 6
  let b7 := B 7
  let X := _mzd_ptr_add_to_all ff (mzd_mul a0 b0) X [0, 1, 2, 3, 4, 5, 6, 7]
  let X := _mzd_ptr_add_to_all ff (mzd_mul a1 b1) X [1, 2, 3, 4, 5, 6, 7, 8]
  let X := _mzd_ptr_add_to_all ff (mzd_mul a2 b2) X [2, 3, 4, 5, 6, 7, 8, 9]
  let X := _mzd_ptr_add_to_all ff (mzd_mul a3 b3) X [3, 4, 5, 6, 7, 8, 9, 10]
  let X := _mzd_ptr_add_to_all ff (mzd_mul a4 b4) X [4, 5, 6, 7, 8, 9, 10, 11]
  let X := _mzd_ptr_add_to_all ff (mzd_mul a5 b5) X [5, 6, 7, 8, 9, 10, 11, 12]
  let X := _mzd_ptr_add_to_all ff (mzd_mul a6 b6) X [6, 7, 8, 9, 10, 11, 12, 13]
  let X := _mzd_ptr_add_to_all ff (mzd_mul a7 b7) X [7, 8, 9, 10, 11, 12, 13, 14]
  let X := _mzd_ptr_add_to_all ff (mzd_mul (mzd_sum [a0, a2]) (mzd_sum [b0, b2])) X [2, 3, 6, 7]
  let X := _mzd_ptr_add_to_all ff (mzd_mul (mzd_sum [a2, a3]) (mzd_sum [b2, b3])) X [3, 5, 7, 9]
  let X := _mzd_ptr_add_to_all ff (mzd_mul (mzd_sum [a2, a6]) (mzd_sum [b2, b6])) X [6, 7, 8, 9]
  let X := _mzd_ptr_add_to_all ff (mzd_mul (mzd_sum [a4, a5]) (mzd_sum [b4, b5])) X [5, 7, 9, 11]
  let X := _mzd_ptr_add_to_all ff (mzd_mul (mzd_sum [a6, a7]) (mzd_sum [b6, b7])) X [7, 9, 11, 13]
  let X := _mzd_ptr_add_to_all ff
    (mzd_mul (mzd_sum [a0, a1, a2, a3])
      (mzd_sum [b0, b1, b2, b3]))
    X [3, 7]
  let X := _mzd_ptr_add_to_all ff (mzd_mul (mzd_sum [a5, a7]) (mzd_sum [b5, b7])) X [7, 8, 11, 12]
  let X := _mzd_ptr_add_to_all ff (mzd_mul (mzd_sum [a0, a4]) (mzd_sum [b0, b4])) X [4, 5, 6, 7]
  let X := _mzd_ptr_add_to_all ff (mzd_mul (mzd_sum [a1, a3]) (mzd_sum [b1, b3])) X [3, 4, 7, 8]
  let X := _mzd_ptr_add_to_all ff
    (mzd_mul (mzd_sum [a1, a3, a5, a7])
      (mzd_sum [b1, b3, b5, b7]))
    X [7, 8]
  let X := _mzd_ptr_add_to_all ff (mzd_mul (mzd_sum [a0, a1]) (mzd_sum [b0, b1])) X [1, 3, 5, 7]
  let X := _mzd_ptr_add_to_all ff (mzd_mul (mzd_sum [a4, a6]) (mzd_sum [b4, b6])) X [6, 7, 10, 11]
  let X := _mzd_ptr_add_to_all ff (mzd_mul (mzd_sum [a1, a5]) (mzd_sum [b1, b5])) X [5, 6, 7, 8]
  let X := _mzd_ptr_add_to_all ff
    (mzd_mul (mzd_sum [a0, a1, a2, a3, a4, a5, a6, a7])
      (mzd_sum [b0, b1, b2, b3, b4, b5, b6, b7]))
    X [7]
  let X := _mzd_ptr_add_to_all ff
    (mzd_mul (mzd_sum [a0, a2, a4, a6])
      (mzd_sum [b0, b2, b4, b6]))
    X [6, 7]
  let X := _mzd_ptr_add_to_all ff
    (mzd_mul (mzd_sum [a0, a1, a4, a5])
      (mzd_sum [b0, b1, b4, b5]))
    X [5, 7]
  let X := _mzd_ptr_add_to_all ff
    (mzd_mul (mzd_sum [a2, a3, a6, a7])
      (mzd_sum [b2, b3, b6, b7]))
    X [7, 9]
  let X := _mzd_ptr_add_to_all ff (mzd_mul (mzd_sum [a3, a7]) (mzd_sum [b3, b7])) X [7, 8, 9, 10]
  let X := _mzd_ptr_add_to_all ff
    (mzd_mul (mzd_sum [a4, a5, a6, a7])
      (mzd_sum [b4, b5, b6, b7]))
    X [7, 11]
  X

/-- Embedding of `_mzd_ptr_addmul_karatsuba9`: the planes `A[0..8]`, `B[0..8]` are read, every
sub-multiplication result is XOR-accumulated into the listed planes of `X`, and the updated
plane array is returned. -/
def _mzd_ptr_addmul_karatsuba9 {n k m : ℕ} (ff : gf2e) (X : ℕ → mzd n m)
    (A : ℕ → mzd n k) (B : ℕ → mzd k m) : ℕ → mzd n m :=
  let a0 := A 0
  let a1 := A 1
  let a2 := A 2
  let a3 := A 3
  let a4 := A 4
  let a5 := A 5
  let a6 := A 6
  let a7 := A 7
  let a8 := A 8
  let b0 := B 0
  let b1 := B 1
  let b2 := B 2
  let b3 := B 3
  let b4 := B 4
  let b5 := B 5
  let b6 := B 6
  let b7 := B 7
  let b8 := B 8
  let X := _mzd_ptr_add_to_all ff (mzd_mul a8 b8) X [2, 3, 5, 10, 12, 16]
  let X := _mzd_ptr_add_to_all ff (mzd_mul a0 b0) X [0, 1, 3, 8, 10, 14]
  let X := _mzd_ptr_add_to_all ff (mzd_mul a1 b1) X [1, 2, 4, 9, 11, 15]
  let X := _mzd_ptr_add_to_all ff
    (mzd_mul (mzd_sum [a0, a1])
      (mzd_sum [b0, b1]))
    X [1, 2, 4, 9, 11, 15]
  let X := _mzd_ptr_add_to_all ff
    (mzd_mul (mzd_sum [a0, a2, a4, a6, a8])
      (mzd_sum [b0, b2, b4, b6, b8]))
    X [2, 5, 6, 7, 8, 9, 12, 13, 14, 15]
  let X := _mzd_ptr_add_to_all ff
    (mzd_mul (mzd_sum [a1, a3, a5, a7])
      (mzd_sum [b1, b3, b5, b7]))
    X [2, 5, 6, 7, 8, 9, 12, 13, 14, 15]
  let X := _mzd_ptr_add_to_all ff
    (mzd_mul (mzd_sum [a0, a1, a2, a3, a4, a5, a6, a7, a8])
      (mzd_sum [b0, b1, b2, b3, b4, b5, b6, b7, b8]))
    X [2, 3, 4, 6, 8, 12, 14]
  let X := _mzd_ptr_add_to_all ff
    (mzd_mul (mzd_sum [a0, a2, a3, a5, a6, a8])
      (mzd_sum [b0, b2, b3, b5, b6, b8]))
    X [2, 3, 4, 5, 6, 8, 9, 10, 11, 12, 13, 15]
  let X := _mzd_ptr_add_to_all ff
    (mzd_mul (mzd_sum [a1, a2, a4, a5, a7, a8])
      (mzd_sum [b1, b2, b4, b5, b7, b8]))
    X [2, 4, 6, 7, 9, 11, 13, 14]
  let X := _mzd_ptr_add_to_all ff
    (mzd_mul (mzd_sum [a0, a1, a3, a4, a6, a7])
      (mzd_sum [b0, b1, b3, b4, b6, b7]))
    X [3, 5, 7, 8, 10, 12, 14, 15]
  let X := _mzd_ptr_add_to_all ff
    (mzd_mul (mzd_sum [a0, a3, a5, a6, a7])
      (mzd_sum [b0, b3, b5, b6, b7]))
    X [2, 3, 10, 12, 13, 14]
  let X := _mzd_ptr_add_to_all ff
    (mzd_mul (mzd_sum [a1, a3, a4, a5, a8])
      (mzd_sum [b1, b3, b4, b5, b8]))
    X [3, 4, 11, 13, 14, 15]
  let X := _mzd_ptr_add_to_all ff
    (mzd_mul (mzd_sum [a2, a4, a5, a6])
      (mzd_sum [b2, b4, b5, b6]))
    X [2, 3, 4, 10, 14, 15]
  let X := _mzd_ptr_add_to_all ff
    (mzd_mul (mzd_sum [a0, a1, a4, a6, a7, a8])
      (mzd_sum [b0, b1, b4, b6, b7, b8]))
    X [2, 4, 10, 11, 12, 15]
  let X := _mzd_ptr_add_to_all ff
    (mzd_mul (mzd_sum [a0, a2, a3, a4, a7])
      (mzd_sum [b0, b2, b3, b4, b7]))
    X [2, 10, 11, 13]
  let X := _mzd_ptr_add_to_all ff
    (mzd_mul (mzd_sum [a1, a2, a3, a6, a8])
      (mzd_sum [b1, b2, b3, b6, b8]))
    X [3, 11, 12, 14]
  let X := _mzd_ptr_add_to_all ff
    (mzd_mul (mzd_sum [a0, a3, a4, a5, a7])
      (mzd_sum [b0, b3, b4, b5, b7]))
    X [3, 4, 5, 6, 9, 12, 13, 14]
  let X := _mzd_ptr_add_to_all ff
    (mzd_mul (mzd_sum [a1, a4, a5, a6, a8])
      (mzd_sum [b1, b4, b5, b6, b8]))
    X [4, 5, 6, 7, 10, 13, 14, 15]
  let X := _mzd_ptr_add_to_all ff
    (mzd_mul (mzd_sum [a2, a3, a4, a6])
      (mzd_sum [b2, b3, b4, b6]))
    X [2, 3, 6, 7, 8, 10, 11, 12, 14, 15]
  let X := _mzd_ptr_add_to_all ff
    (mzd_mul (mzd_sum [a0, a1, a3, a6, a7, a8])
      (mzd_sum [b0, b1, b3, b6, b7, b8]))
    X [2, 6, 8, 9, 11, 14]
  let X := _mzd_ptr_add_to_all ff
    (mzd_mul (mzd_sum [a0, a2, a5, a6, a7])
      (mzd_sum [b0, b2, b5, b6, b7]))
    X [3, 7, 9, 10, 12, 15]
  let X := _mzd_ptr_add_to_all ff
    (mzd_mul (mzd_sum [a1, a2, a3, a5, a8])
      (mzd_sum [b1, b2, b3, b5, b8]))
    X [2, 3, 4, 5, 8, 11, 12, 13]
  let X := _mzd_ptr_add_to_all ff
    (mzd_mul (mzd_sum [a0, a4, a7, a8])
      (mzd_sum [b0, b4, b7, b8]))
    X [4, 7, 11, 14]
  let X := _mzd_ptr_add_to_all ff
    (mzd_mul (mzd_sum [a1, a4, a5, a7])
      (mzd_sum [b1, b4, b5, b7]))
    X [5, 8, 12, 15]
  let X := _mzd_ptr_add_to_all ff
    (mzd_mul (mzd_sum [a2, a5, a6, a8])
      (mzd_sum [b2, b5, b6, b8]))
    X [2, 3, 5, 6, 9, 10, 12, 13]
  let X := _mzd_ptr_add_to_all ff
    (mzd_mul (mzd_sum [a3, a6, a7])
      (mzd_sum [b3, b6, b7]))
    X [3, 4, 6, 7, 10, 11, 13, 14]
  let X := _mzd_ptr_add_to_all ff
    (mzd_mul (mzd_sum [a0, a1, a2, a3, a7])
      (mzd_sum [b0, b1, b2, b3, b7]))
    X [2, 4, 5, 7, 9, 11, 12, 14]
  let X := _mzd_ptr_add_to_all ff
    (mzd_mul (mzd_sum [a0, a1, a5, a8])
      (mzd_sum [b0, b1, b5, b8]))
    X [2, 8, 9, 15]
  let X := _mzd_ptr_add_to_all ff
    (mzd_mul (mzd_sum [a0, a2, a4, a5, a6, a7])
      (mzd_sum [b0, b2, b4, b5, b6, b7]))
    X [3, 4, 5, 6, 7, 8, 10, 11, 12, 13, 14, 15]
  let X := _mzd_ptr_add_to_all ff
    (mzd_mul (mzd_sum [a1, a3, a4, a5, a6])
      (mzd_sum [b1, b3, b4, b5, b6]))
    X [2, 3, 4, 6, 7, 8, 9, 10, 11, 13, 14, 15]
  let X := _mzd_ptr_add_to_all ff
    (mzd_mul (mzd_sum [a2, a3, a5, a7, a8])
      (mzd_sum [b2, b3, b5, b7, b8]))
    X [3, 6, 10, 13]
  X

/-- Embedding of `_mzd_ptr_addmul_karatsuba10`: the planes `A[0..9]`, `B[0..9]` are read, every
sub-multiplication result is XOR-accumulated into the listed planes of `X`, and the updated
plane array is returned. -/
def _mzd_ptr_addmul_karatsuba10 {n k m : ℕ} (ff : gf2e) (X : ℕ → mzd n m)
    (A : ℕ → mzd n k) (B : ℕ → mzd k m) : ℕ → mzd n m :=
  let a0 := A 0
  let a1 := A 1
  let a2 := A 2
  let a3 := A 3
  let a4 := A 4
  let a5 := A 5
  let a6 := A 6
  let a7 := A 7
  let a8 := A 8
  let a9 := A 9
  let b0 := B 0
  let b1 := B 1
  let b2 := B 2
  let b3 := B 3
  let b4 := B 4
  let b5 := B 5
  let b6 := B 6
  let b7 := B 7
  let b8 := B 8
  let b9 := B 9
  let X := _mzd_ptr_add_to_all ff (mzd_mul a9 b9) X [1, 6, 8, 11, 13, 18]
  let X := _mzd_ptr_add_to_all ff (mzd_mul a0 b0) X [0, 5, 7, 10, 12, 17]
  let X := _mzd_ptr_add_to_all ff
    (mzd_mul (mzd_sum [a0, a1, a2, a3, a4, a5, a6, a7, a8, a9])
      (mzd_sum [b0, b1, b2, b3, b4, b5, b6, b7, b8, b9]))
    X [1, 2, 3, 4, 5, 8, 9, 10, 13, 14, 15, 16, 17]
  let X := _mzd_ptr_add_to_all ff
    (mzd_mul (mzd_sum [a0, a2, a3, a5, a6, a8, a9])
      (mzd_sum [b0, b2, b3, b5, b6, b8, b9]))
    X [2, 3, 5, 6, 7, 12, 13, 14, 16, 17]
  let X := _mzd_ptr_add_to_all ff
    (mzd_mul (mzd_sum [a1, a2, a4, a5, a7, a8])
      (mzd_sum [b1, b2, b4, b5, b7, b8]))
    X [1, 3, 4, 7, 11, 14, 15, 17]
  let X := _mzd_ptr_add_to_all ff
    (mzd_mul (mzd_sum [a0, a1, a3, a4, a6, a7, a9])
      (mzd_sum [b0, b1, b3, b4, b6, b7, b9]))
    X [1, 2, 4, 5, 6, 11, 12, 13, 15, 16]
  let X := _mzd_ptr_add_to_all ff
    (mzd_mul (mzd_sum [a0, a3, a5, a6, a7])
      (mzd_sum [b0, b3, b5, b6, b7]))
    X [1, 3, 7, 8, 12, 13, 16, 17]
  let X := _mzd_ptr_add_to_all ff
    (mzd_mul (mzd_sum [a1, a3, a4, a5, a8])
      (mzd_sum [b1, b3, b4, b5, b8]))
    X [1, 2, 4, 6, 9, 11, 14, 17]
  let X := _mzd_ptr_add_to_all ff
    (mzd_mul (mzd_sum [a2, a4, a5, a6, a9])
      (mzd_sum [b2, b4, b5, b6, b9]))
    X [1, 2, 3, 5, 6, 7, 8, 10, 11, 12, 13, 15]
  let X := _mzd_ptr_add_to_all ff
    (mzd_mul (mzd_sum [a0, a1, a4, a6, a7, a8])
      (mzd_sum [b0, b1, b4, b6, b7, b8]))
    X [2, 3, 4, 6, 7, 8, 9, 11, 12, 13, 14, 16]
  let X := _mzd_ptr_add_to_all ff
    (mzd_mul (mzd_sum [a0, a2, a3, a4, a7, a9])
      (mzd_sum [b0, b2, b3, b4, b7, b9]))
    X [3, 4, 5, 7, 8, 9, 10, 12, 13, 14, 15, 17]
  let X := _mzd_ptr_add_to_all ff
    (mzd_mul (mzd_sum [a1, a2, a3, a6, a8, a9])
      (mzd_sum [b1, b2, b3, b6, b8, b9]))
    X [1, 4, 5, 9, 10, 14, 15, 16]
  let X := _mzd_ptr_add_to_all ff
    (mzd_mul (mzd_sum [a0, a3, a4, a5, a7])
      (mzd_sum [b0, b3, b4, b5, b7]))
    X [3, 5, 6, 7, 8, 10, 11, 12, 13, 15, 16, 17]
  let X := _mzd_ptr_add_to_all ff
    (mzd_mul (mzd_sum [a1, a4, a5, a6, a8])
      (mzd_sum [b1, b4, b5, b6, b8]))
    X [1, 4, 7, 9, 12, 14, 16, 17]
  let X := _mzd_ptr_add_to_all ff
    (mzd_mul (mzd_sum [a2, a3, a4, a6, a9])
      (mzd_sum [b2, b3, b4, b6, b9]))
    X [1, 2, 5, 6, 10, 11, 15, 17]
  let X := _mzd_ptr_add_to_all ff
    (mzd_mul (mzd_sum [a0, a1, a3, a6, a7, a8])
      (mzd_sum [b0, b1, b3, b6, b7, b8]))
    X [2, 3, 4, 8, 9, 13, 14, 17]
  let X := _mzd_ptr_add_to_all ff
    (mzd_mul (mzd_sum [a0, a2, a5, a6, a7, a9])
      (mzd_sum [b0, b2, b5, b6, b7, b9]))
    X [1, 3, 4, 5, 6, 8, 9, 10, 11, 13, 14, 15]
  let X := _mzd_ptr_add_to_all ff
    (mzd_mul (mzd_sum [a1, a2, a3, a5, a8, a9])
      (mzd_sum [b1, b2, b3, b5, b8, b9]))
    X [2, 4, 5, 6, 7, 9, 10, 11, 12, 14, 15, 16]
  let X := _mzd_ptr_add_to_all ff
    (mzd_mul (mzd_sum [a0, a4, a7, a8])
      (mzd_sum [b0, b4, b7, b8]))
    X [1, 2, 4, 8, 10, 11, 16, 17]
  let X := _mzd_ptr_add_to_all ff
    (mzd_mul (mzd_sum [a1, a4, a5, a7, a9])
      (mzd_sum [b1, b4, b5, b7, b9]))
    X [1, 2, 3, 5, 6, 8, 9, 12, 13, 17]
  let X := _mzd_ptr_add_to_all ff
    (mzd_mul (mzd_sum [a2, a5, a6, a8])
      (mzd_sum [b2, b5, b6, b8]))
    X [1, 2, 3, 4, 7, 8, 9, 10, 11, 14]
  let X := _mzd_ptr_add_to_all ff
    (mzd_mul (mzd_sum [a3, a6, a7, a9])
      (mzd_sum [b3, b6, b7, b9]))
    X [2, 3, 4, 5, 8, 9, 10, 11, 12, 15]
  let X := _mzd_ptr_add_to_all ff
    (mzd_mul (mzd_sum [a0, a1, a2, a3, a7])
      (mzd_sum [b0, b1, b2, b3, b7]))
    X [1, 5, 7, 12, 14, 15]
  let X := _mzd_ptr_add_to_all ff
    (mzd_mul (mzd_sum [a0, a1, a5, a8, a9])
      (mzd_sum [b0, b1, b5, b8, b9]))
    X [1, 3, 4, 6, 7, 9, 10, 11, 13, 14, 15, 16]
  let X := _mzd_ptr_add_to_all ff
    (mzd_mul (mzd_sum [a0, a2, a4, a5, a6, a7])
      (mzd_sum [b0, b2, b4, b5, b6, b7]))
    X [1, 4, 6, 10, 11, 13, 15, 17]
  let X := _mzd_ptr_add_to_all ff
    (mzd_mul (mzd_sum [a1, a3, a4, a5, a6])
      (mzd_sum [b1, b3, b4, b5, b6]))
    X [1, 2, 5, 6, 7, 8, 12, 13, 14, 16]
  let X := _mzd_ptr_add_to_all ff
    (mzd_mul (mzd_sum [a2, a3, a5, a7, a8, a9])
      (mzd_sum [b2, b3, b5, b7, b8, b9]))
    X [1, 3, 5, 9, 12, 15, 16, 17]
  let X := _mzd_ptr_add_to_all ff
    (mzd_mul (mzd_sum [a0, a4, a5, a6, a7, a9])
      (mzd_sum [b0, b4, b5, b6, b7, b9]))
    X [1, 2, 7, 8, 10, 14, 16, 17]
  let X := _mzd_ptr_add_to_all ff
    (mzd_mul (mzd_sum [a1, a5, a6, a7, a8])
      (mzd_sum [b1, b5, b6, b7, b8]))
    X [1, 2, 3, 6, 9, 13, 15, 17]
  let X := _mzd_ptr_add_to_all ff
    (mzd_mul (mzd_sum [a2, a6, a7, a8, a9])
      (mzd_sum [b2, b6, b7, b8, b9]))
    X [1, 2, 3, 4, 6, 7, 8, 10, 11, 13, 14, 16]
  let X := _mzd_ptr_add_to_all ff
    (mzd_mul (mzd_sum [a3, a4, a5, a6, a8])
      (mzd_sum [b3, b4, b5, b6, b8]))
    X [2, 3, 4, 5, 7, 8, 9, 11, 12, 14, 15, 17]
  let X := _mzd_ptr_add_to_all ff
    (mzd_mul (mzd_sum [a0, a1, a2, a3, a5, a7, a8])
      (mzd_sum [b0, b1, b2, b3, b5, b7, b8]))
    X [3, 6, 7, 8, 9, 10, 13, 14, 15, 16]
  let X := _mzd_ptr_add_to_all ff
    (mzd_mul (mzd_sum [a0, a1, a4, a8, a9])
      (mzd_sum [b0, b1, b4, b8, b9]))
    X [1, 3, 4, 5, 9, 10, 11, 12, 15, 16]
  let X := _mzd_ptr_add_to_all ff
    (mzd_mul (mzd_sum [a0, a2, a4, a5, a8])
      (mzd_sum [b0, b2, b4, b5, b8]))
    X [2, 3, 5, 10, 12, 16]
  let X := _mzd_ptr_add_to_all ff
    (mzd_mul (mzd_sum [a1, a3, a4, a7])
      (mzd_sum [b1, b3, b4, b7]))
    X [3, 4, 6, 11, 13, 17]
  let X := _mzd_ptr_add_to_all ff
    (mzd_mul (mzd_sum [a2, a3, a4, a5, a7, a9])
      (mzd_sum [b2, b3, b4, b5, b7, b9]))
    X [1, 3, 5, 7, 8, 12, 14, 17]
  X

/-- Embedding of `_mzd_ptr_addmul_karatsuba11`: the planes `A[0..10]`, `B[0..10]` are read, every
sub-multiplication result is XOR-accumulated into the listed planes of `X`, and the updated
plane array is returned. -/
def _mzd_ptr_addmul_karatsuba11 {n k m : ℕ} (ff : gf2e) (X : ℕ → mzd n m)
    (A : ℕ → mzd n k) (B : ℕ → mzd k m) : ℕ → mzd n m :=
  let a0 := A 0
  let a1 := A 1
  let a2 := A 2
  let a3 := A 3
  let a4 := A 4
  let a5 := A 5
  let a6 := A 6
  let a7 := A 7
  let a8 := A 8
  let a9 := A 9
  let a10 := A 10
  let b0 := B 0
  let b1 := B 1
  let b2 := B 2
  let b3 := B 3
  let b4 := B 4
  let b5 := B 5
  let b6 := B 6
  let b7 := B 7
  let b8 := B 8
  let b9 := B 9
  let b10 := B 10
  let X := _mzd_ptr_add_to_all ff (mzd_mul a10 b10) X [2, 3, 7, 8, 9, 10, 12, 13, 14, 15, 19, 20]
  let X := _mzd_ptr_add_to_all ff
    (mzd_mul (mzd_sum [a0, a2, a3, a5, a6, a8, a9])
      (mzd_sum [b0, b2, b3, b5, b6, b8, b9]))
    X [3, 5, 6, 9, 13, 16, 17, 19]
  let X := _mzd_ptr_add_to_all ff
    (mzd_mul (mzd_sum [a1, a2, a4, a5, a7, a8, a10])
      (mzd_sum [b1, b2, b4, b5, b7, b8, b10]))
    X [2, 3, 4, 6, 8, 9, 12, 13, 15, 17, 18, 19]
  let X := _mzd_ptr_add_to_all ff
    (mzd_mul (mzd_sum [a0, a1, a3, a4, a6, a7, a9, a10])
      (mzd_sum [b0, b1, b3, b4, b6, b7, b9, b10]))
    X [2, 4, 5, 8, 12, 15, 16, 18]
  let X := _mzd_ptr_add_to_all ff (mzd_mul a0 b0) X [0, 1, 5, 6, 7, 8, 10, 11, 12, 13, 17, 18]
  let X := _mzd_ptr_add_to_all ff (mzd_mul a1 b1) X [1, 2, 6, 7, 8, 9, 11, 12, 13, 14, 18, 19]
  let X := _mzd_ptr_add_to_all ff
    (mzd_mul (mzd_sum [a0, a1])
      (mzd_sum [b0, b1]))
    X [1, 2, 6, 7, 8, 9, 11, 12, 13, 14, 18, 19]
  let X := _mzd_ptr_add_to_all ff
    (mzd_mul (mzd_sum [a0, a2, a4, a6, a8, a10])
      (mzd_sum [b0, b2, b4, b6, b8, b10]))
    X [2, 7, 9, 12, 14, 19]
  let X := _mzd_ptr_add_to_all ff
    (mzd_mul (mzd_sum [a1, a3, a5, a7, a9])
      (mzd_sum [b1, b3, b5, b7, b9]))
    X [2, 7, 9, 12, 14, 19]
  let X := _mzd_ptr_add_to_all ff
    (mzd_mul (mzd_sum [a0, a1, a2, a3, a4, a5, a6, a7, a8, a9, a10])
      (mzd_sum [b0, b1, b2, b3, b4, b5, b6, b7, b8, b9, b10]))
    X [3, 4, 5, 6, 7, 10, 11, 12, 15, 16, 17, 18, 19]
  let X := _mzd_ptr_add_to_all ff
    (mzd_mul (mzd_sum [a0, a3, a5, a6, a7, a10])
      (mzd_sum [b0, b3, b5, b6, b7, b10]))
    X [3, 6, 7, 11, 12, 16, 17, 18]
  let X := _mzd_ptr_add_to_all ff
    (mzd_mul (mzd_sum [a1, a3, a4, a5, a8, a10])
      (mzd_sum [b1, b3, b4, b5, b8, b10]))
    X [4, 7, 8, 12, 13, 17, 18, 19]
  let X := _mzd_ptr_add_to_all ff
    (mzd_mul (mzd_sum [a2, a4, a5, a6, a9])
      (mzd_sum [b2, b4, b5, b6, b9]))
    X [2, 3, 5, 7, 10, 12, 15, 18]
  let X := _mzd_ptr_add_to_all ff
    (mzd_mul (mzd_sum [a0, a1, a4, a6, a7, a8])
      (mzd_sum [b0, b1, b4, b6, b7, b8]))
    X [3, 4, 6, 8, 11, 13, 16, 19]
  let X := _mzd_ptr_add_to_all ff
    (mzd_mul (mzd_sum [a0, a2, a3, a4, a7, a9, a10])
      (mzd_sum [b0, b2, b3, b4, b7, b9, b10]))
    X [2, 3, 4, 5, 8, 10, 13, 15, 17, 19]
  let X := _mzd_ptr_add_to_all ff
    (mzd_mul (mzd_sum [a1, a2, a3, a6, a8, a9, a10])
      (mzd_sum [b1, b2, b3, b6, b8, b9, b10]))
    X [2, 4, 5, 6, 7, 8, 10, 11, 12, 13, 15, 16, 18, 19]
  let X := _mzd_ptr_add_to_all ff
    (mzd_mul (mzd_sum [a0, a3, a4, a5, a7, a10])
      (mzd_sum [b0, b3, b4, b5, b7, b10]))
    X [2, 3, 5, 6, 8, 9, 10, 11, 13, 14, 15, 16, 17, 19]
  let X := _mzd_ptr_add_to_all ff
    (mzd_mul (mzd_sum [a1, a4, a5, a6, a8])
      (mzd_sum [b1, b4, b5, b6, b8]))
    X [2, 4, 6, 8, 11, 13, 16, 17, 18, 19]
  let X := _mzd_ptr_add_to_all ff
    (mzd_mul (mzd_sum [a2, a3, a4, a6, a9, a10])
      (mzd_sum [b2, b3, b4, b6, b9, b10]))
    X [2, 5, 8, 10, 13, 15, 17, 18]
  let X := _mzd_ptr_add_to_all ff
    (mzd_mul (mzd_sum [a0, a1, a3, a6, a7, a8, a10])
      (mzd_sum [b0, b1, b3, b6, b7, b8, b10]))
    X [2, 3, 4, 8, 9, 13, 14, 17]
  let X := _mzd_ptr_add_to_all ff
    (mzd_mul (mzd_sum [a0, a2, a5, a6, a7, a9])
      (mzd_sum [b0, b2, b5, b6, b7, b9]))
    X [3, 4, 5, 9, 10, 14, 15, 18]
  let X := _mzd_ptr_add_to_all ff
    (mzd_mul (mzd_sum [a1, a2, a3, a5, a8, a9, a10])
      (mzd_sum [b1, b2, b3, b5, b8, b9, b10]))
    X [4, 5, 6, 10, 11, 15, 16, 19]
  let X := _mzd_ptr_add_to_all ff
    (mzd_mul (mzd_sum [a0, a4, a7, a8, a10])
      (mzd_sum [b0, b4, b7, b8, b10]))
    X [2, 4, 6, 10, 13, 16, 17, 18]
  let X := _mzd_ptr_add_to_all ff
    (mzd_mul (mzd_sum [a1, a4, a5, a7, a9, a10])
      (mzd_sum [b1, b4, b5, b7, b9, b10]))
    X [3, 5, 7, 11, 14, 17, 18, 19]
  let X := _mzd_ptr_add_to_all ff
    (mzd_mul (mzd_sum [a2, a5, a6, a8, a10])
      (mzd_sum [b2, b5, b6, b8, b10]))
    X [2, 3, 4, 6, 7, 9, 10, 13, 14, 18]
  let X := _mzd_ptr_add_to_all ff
    (mzd_mul (mzd_sum [a3, a6, a7, a9])
      (mzd_sum [b3, b6, b7, b9]))
    X [3, 4, 5, 7, 8, 10, 11, 14, 15, 19]
  let X := _mzd_ptr_add_to_all ff
    (mzd_mul (mzd_sum [a0, a1, a2, a3, a7, a10])
      (mzd_sum [b0, b1, b2, b3, b7, b10]))
    X [2, 5, 6, 8, 9, 11, 13, 15, 18, 19]
  let X := _mzd_ptr_add_to_all ff
    (mzd_mul (mzd_sum [a0, a1, a5, a8, a9])
      (mzd_sum [b0, b1, b5, b8, b9]))
    X [3, 4, 7, 8, 9, 10, 14, 15, 16, 18]
  let X := _mzd_ptr_add_to_all ff
    (mzd_mul (mzd_sum [a0, a2, a4, a5, a6, a7])
      (mzd_sum [b0, b2, b4, b5, b6, b7]))
    X [4, 8, 10, 15, 17, 18]
  let X := _mzd_ptr_add_to_all ff
    (mzd_mul (mzd_sum [a1, a3, a4, a5, a6, a10])
      (mzd_sum [b1, b3, b4, b5, b6, b10]))
    X [5, 9, 11, 16, 18, 19]
  let X := _mzd_ptr_add_to_all ff
    (mzd_mul (mzd_sum [a2, a3, a5, a7, a8, a9, a10])
      (mzd_sum [b2, b3, b5, b7, b8, b9, b10]))
    X [2, 3, 5, 6, 7, 8, 11, 13, 14, 15, 16, 17, 18, 19]
  let X := _mzd_ptr_add_to_all ff
    (mzd_mul (mzd_sum [a0, a4, a5, a6, a7, a9])
      (mzd_sum [b0, b4, b5, b6, b7, b9]))
    X [2, 6, 7, 10, 11, 13, 14, 16, 17, 18]
  let X := _mzd_ptr_add_to_all ff
    (mzd_mul (mzd_sum [a1, a5, a6, a7, a8, a10])
      (mzd_sum [b1, b5, b6, b7, b8, b10]))
    X [3, 7, 8, 11, 12, 14, 15, 17, 18, 19]
  let X := _mzd_ptr_add_to_all ff
    (mzd_mul (mzd_sum [a2, a6, a7, a8, a9])
      (mzd_sum [b2, b6, b7, b8, b9]))
    X [2, 3, 4, 7, 10, 14, 16, 18]
  let X := _mzd_ptr_add_to_all ff
    (mzd_mul (mzd_sum [a3, a4, a5, a6, a8, a10])
      (mzd_sum [b3, b4, b5, b6, b8, b10]))
    X [3, 4, 5, 8, 11, 15, 17, 19]
  let X := _mzd_ptr_add_to_all ff
    (mzd_mul (mzd_sum [a0, a1, a2, a3, a5, a7, a8])
      (mzd_sum [b0, b1, b2, b3, b5, b7, b8]))
    X [2, 3, 6, 8, 10, 12, 13, 15, 16, 19]
  let X := _mzd_ptr_add_to_all ff
    (mzd_mul (mzd_sum [a0, a1, a4, a8, a9, a10])
      (mzd_sum [b0, b1, b4, b8, b9, b10]))
    X [2, 3, 4, 5, 6, 7, 8, 10, 13, 14, 15, 16, 18, 19]
  let X := _mzd_ptr_add_to_all ff
    (mzd_mul (mzd_sum [a0, a2, a4, a5, a8])
      (mzd_sum [b0, b2, b4, b5, b8]))
    X [2, 3, 5, 10, 12, 16]
  let X := _mzd_ptr_add_to_all ff
    (mzd_mul (mzd_sum [a1, a3, a4, a7])
      (mzd_sum [b1, b3, b4, b7]))
    X [3, 4, 6, 11, 13, 17]
  let X := _mzd_ptr_add_to_all ff
    (mzd_mul (mzd_sum [a2, a3, a4, a5, a7, a9, a10])
      (mzd_sum [b2, b3, b4, b5, b7, b9, b10]))
    X [3, 5, 6, 7, 11, 12, 13, 14, 17, 18]
  X

/-- Embedding of `_mzd_ptr_addmul_karatsuba12`: the planes `A[0..11]`, `B[0..11]` are read, every
sub-multiplication result is XOR-accumulated into the listed planes of `X`, and the updated
plane array is returned. -/
def _mzd_ptr_addmul_karatsuba12 {n k m : ℕ} (ff : gf2e) (X : ℕ → mzd n m)
    (A : ℕ → mzd n k) (B : ℕ → mzd k m) : ℕ → mzd n m :=
  let a0 := A 0
  let a1 := A 1
  let a2 := A 2
  let a3 := A 3
  let a4 := A 4
  let a5 := A 5
  let a6 := A 6
  let a7 := A 7
  let a8 := A 8
  let a9 := A 9
  let a10 := A 10
  let a11 := A 11
  let b0 := B 0
  let b1 := B 1
  let b2 := B 2
  let b3 := B 3
  let b4 := B 4
  let b5 := B 5
  let b6 := B 6
  let b7 := B 7
  let b8 := B 8
  let b9 := B 9
  let b10 := B 10
  let b11 := B 11
  let X := _mzd_ptr_add_to_all ff
    (mzd_mul a11
      b11)
    X [1, 2, 3, 4, 5, 6, 7, 16, 17, 18, 19, 20, 21, 22]
  let X := _mzd_ptr_add_to_all ff
    (mzd_mul a0
      b0)
    X [0, 1, 2, 3, 4, 5, 6, 15, 16, 17, 18, 19, 20, 21]
  let X := _mzd_ptr_add_to_all ff
    (mzd_mul (mzd_sum [a0, a1, a2, a3, a4, a5, a6, a7, a8, a9, a10, a11])
      (mzd_sum [b0, b1, b2, b3, b4, b5, b6, b7, b8, b9, b10, b11]))
    X [1, 3, 5, 7, 8, 9, 10, 11, 12, 13, 14, 15, 17, 19, 21]
  let X := _mzd_ptr_add_to_all ff
    (mzd_mul (mzd_sum [a0, a2, a3, a5, a6, a8, a9, a11])
      (mzd_sum [b0, b2, b3, b5, b6, b8, b9, b11]))
    X [1, 2, 4, 5, 7, 9, 10, 12, 13, 15, 17, 18, 20, 21]
  let X := _mzd_ptr_add_to_all ff
    (mzd_mul (mzd_sum [a1, a2, a4, a5, a7, a8, a10, a11])
      (mzd_sum [b1, b2, b4, b5, b7, b8, b10, b11]))
    X [1, 4, 7, 8, 10, 11, 13, 14, 17, 20]
  let X := _mzd_ptr_add_to_all ff
    (mzd_mul (mzd_sum [a0, a1, a3, a4, a6, a7, a9, a10])
      (mzd_sum [b0, b1, b3, b4, b6, b7, b9, b10]))
    X [2, 5, 8, 9, 11, 12, 14, 15, 18, 21]
  let X := _mzd_ptr_add_to_all ff
    (mzd_mul (mzd_sum [a0, a3, a5, a6, a7, a10])
      (mzd_sum [b0, b3, b5, b6, b7, b10]))
    X [2, 3, 4, 6, 17, 18, 19, 21]
  let X := _mzd_ptr_add_to_all ff
    (mzd_mul (mzd_sum [a1, a3, a4, a5, a8, a10, a11])
      (mzd_sum [b1, b3, b4, b5, b8, b10, b11]))
    X [1, 2, 6, 16, 17, 21]
  let X := _mzd_ptr_add_to_all ff
    (mzd_mul (mzd_sum [a2, a4, a5, a6, a9, a11])
      (mzd_sum [b2, b4, b5, b6, b9, b11]))
    X [1, 4, 5, 6, 16, 19, 20, 21]
  let X := _mzd_ptr_add_to_all ff
    (mzd_mul (mzd_sum [a0, a1, a4, a6, a7, a8, a11])
      (mzd_sum [b0, b1, b4, b6, b7, b8, b11]))
    X [1, 3, 4, 16, 18, 19]
  let X := _mzd_ptr_add_to_all ff
    (mzd_mul (mzd_sum [a0, a2, a3, a4, a7, a9, a10, a11])
      (mzd_sum [b0, b2, b3, b4, b7, b9, b10, b11]))
    X [2, 4, 5, 17, 19, 20]
  let X := _mzd_ptr_add_to_all ff
    (mzd_mul (mzd_sum [a1, a2, a3, a6, a8, a9, a10])
      (mzd_sum [b1, b2, b3, b6, b8, b9, b10]))
    X [3, 5, 6, 18, 20, 21]
  let X := _mzd_ptr_add_to_all ff
    (mzd_mul (mzd_sum [a0, a3, a4, a5, a7, a10, a11])
      (mzd_sum [b0, b3, b4, b5, b7, b10, b11]))
    X [2, 4, 5, 6, 17, 19, 20, 21]
  let X := _mzd_ptr_add_to_all ff
    (mzd_mul (mzd_sum [a1, a4, a5, a6, a8, a11])
      (mzd_sum [b1, b4, b5, b6, b8, b11]))
    X [1, 2, 4, 16, 17, 19]
  let X := _mzd_ptr_add_to_all ff
    (mzd_mul (mzd_sum [a2, a3, a4, a6, a9, a10, a11])
      (mzd_sum [b2, b3, b4, b6, b9, b10, b11]))
    X [2, 3, 5, 17, 18, 20]
  let X := _mzd_ptr_add_to_all ff
    (mzd_mul (mzd_sum [a0, a1, a3, a6, a7, a8, a10])
      (mzd_sum [b0, b1, b3, b6, b7, b8, b10]))
    X [1, 2, 3, 6, 16, 17, 18, 21]
  let X := _mzd_ptr_add_to_all ff
    (mzd_mul (mzd_sum [a0, a2, a5, a6, a7, a9])
      (mzd_sum [b0, b2, b5, b6, b7, b9]))
    X [1, 5, 6, 16, 20, 21]
  let X := _mzd_ptr_add_to_all ff
    (mzd_mul (mzd_sum [a1, a2, a3, a5, a8, a9, a10])
      (mzd_sum [b1, b2, b3, b5, b8, b9, b10]))
    X [1, 3, 4, 5, 16, 18, 19, 20]
  let X := _mzd_ptr_add_to_all ff
    (mzd_mul (mzd_sum [a0, a4, a7, a8, a10])
      (mzd_sum [b0, b4, b7, b8, b10]))
    X [1, 2, 3, 9, 13, 14, 15, 17, 20, 21]
  let X := _mzd_ptr_add_to_all ff
    (mzd_mul (mzd_sum [a1, a4, a5, a7, a9, a10, a11])
      (mzd_sum [b1, b4, b5, b7, b9, b10, b11]))
    X [1, 5, 6, 7, 10, 14, 15, 17, 19, 20]
  let X := _mzd_ptr_add_to_all ff
    (mzd_mul (mzd_sum [a2, a5, a6, a8, a10, a11])
      (mzd_sum [b2, b5, b6, b8, b10, b11]))
    X [2, 6, 7, 8, 11, 15, 16, 18, 20, 21]
  let X := _mzd_ptr_add_to_all ff
    (mzd_mul (mzd_sum [a3, a6, a7, a9, a11])
      (mzd_sum [b3, b6, b7, b9, b11]))
    X [1, 2, 4, 5, 6, 8, 9, 12, 18, 20]
  let X := _mzd_ptr_add_to_all ff
    (mzd_mul (mzd_sum [a0, a1, a2, a3, a7, a10, a11])
      (mzd_sum [b0, b1, b2, b3, b7, b10, b11]))
    X [1, 4, 5, 7, 9, 11, 12, 15, 16, 21]
  let X := _mzd_ptr_add_to_all ff
    (mzd_mul (mzd_sum [a0, a1, a5, a8, a9, a11])
      (mzd_sum [b0, b1, b5, b8, b9, b11]))
    X [1, 2, 3, 4, 6, 10, 11, 12, 13, 15, 16, 19]
  let X := _mzd_ptr_add_to_all ff
    (mzd_mul (mzd_sum [a0, a2, a4, a5, a6, a7, a11])
      (mzd_sum [b0, b2, b4, b5, b6, b7, b11]))
    X [2, 4, 7, 8, 9, 10, 12, 14, 15, 17, 18, 19]
  let X := _mzd_ptr_add_to_all ff
    (mzd_mul (mzd_sum [a1, a3, a4, a5, a6, a10])
      (mzd_sum [b1, b3, b4, b5, b6, b10]))
    X [3, 5, 8, 9, 10, 11, 13, 15, 16, 18, 19, 20]
  let X := _mzd_ptr_add_to_all ff
    (mzd_mul (mzd_sum [a2, a3, a5, a7, a8, a9, a10])
      (mzd_sum [b2, b3, b5, b7, b8, b9, b10]))
    X [3, 4, 5, 6, 8, 12, 13, 14, 15, 17, 18, 21]
  let X := _mzd_ptr_add_to_all ff
    (mzd_mul (mzd_sum [a0, a4, a5, a6, a7, a9, a11])
      (mzd_sum [b0, b4, b5, b6, b7, b9, b11]))
    X [1, 3, 9, 12, 13, 15, 16, 17, 19, 20]
  let X := _mzd_ptr_add_to_all ff
    (mzd_mul (mzd_sum [a1, a5, a6, a7, a8, a10])
      (mzd_sum [b1, b5, b6, b7, b8, b10]))
    X [2, 4, 10, 13, 14, 16, 17, 18, 20, 21]
  let X := _mzd_ptr_add_to_all ff
    (mzd_mul (mzd_sum [a2, a6, a7, a8, a9, a11])
      (mzd_sum [b2, b6, b7, b8, b9, b11]))
    X [1, 2, 4, 6, 7, 11, 14, 15, 16, 20]
  let X := _mzd_ptr_add_to_all ff
    (mzd_mul (mzd_sum [a3, a4, a5, a6, a8, a10, a11])
      (mzd_sum [b3, b4, b5, b6, b8, b10, b11]))
    X [2, 3, 5, 7, 8, 12, 15, 16, 17, 21]
  let X := _mzd_ptr_add_to_all ff
    (mzd_mul (mzd_sum [a0, a1, a2, a3, a5, a7, a8, a11])
      (mzd_sum [b0, b1, b2, b3, b5, b7, b8, b11]))
    X [1, 2, 3, 4, 9, 10, 12, 14, 15, 18, 19, 21]
  let X := _mzd_ptr_add_to_all ff
    (mzd_mul (mzd_sum [a0, a1, a4, a8, a9, a10, a11])
      (mzd_sum [b0, b1, b4, b8, b9, b10, b11]))
    X [1, 2, 5, 7, 8, 9, 13, 19, 20, 21]
  let X := _mzd_ptr_add_to_all ff
    (mzd_mul (mzd_sum [a0, a2, a4, a5, a8])
      (mzd_sum [b0, b2, b4, b5, b8]))
    X [1, 2, 3, 5, 6, 8, 10, 11, 12, 13, 16, 18]
  let X := _mzd_ptr_add_to_all ff
    (mzd_mul (mzd_sum [a1, a3, a4, a7, a11])
      (mzd_sum [b1, b3, b4, b7, b11]))
    X [2, 3, 4, 6, 7, 9, 11, 12, 13, 14, 17, 19]
  let X := _mzd_ptr_add_to_all ff
    (mzd_mul (mzd_sum [a2, a3, a4, a5, a7, a9, a10])
      (mzd_sum [b2, b3, b4, b5, b7, b9, b10]))
    X [2, 5, 6, 8, 9, 10, 11, 15, 17, 18, 19, 20]
  let X := _mzd_ptr_add_to_all ff
    (mzd_mul (mzd_sum [a0, a4, a5, a9, a10])
      (mzd_sum [b0, b4, b5, b9, b10]))
    X [2, 3, 4, 7, 8, 10, 11, 12, 13, 15, 16, 19, 20, 21]
  let X := _mzd_ptr_add_to_all ff
    (mzd_mul (mzd_sum [a1, a4, a6, a9, a11])
      (mzd_sum [b1, b4, b6, b9, b11]))
    X [1, 2, 6, 7, 8, 9, 11, 12, 13, 14, 18, 19]
  let X := _mzd_ptr_add_to_all ff
    (mzd_mul (mzd_sum [a2, a4, a7, a9])
      (mzd_sum [b2, b4, b7, b9]))
    X [2, 3, 7, 8, 9, 10, 12, 13, 14, 15, 19, 20]
  let X := _mzd_ptr_add_to_all ff
    (mzd_mul (mzd_sum [a3, a4, a8, a9])
      (mzd_sum [b3, b4, b8, b9]))
    X [3, 4, 8, 9, 10, 11, 13, 14, 15, 16, 20, 21]
  let X := _mzd_ptr_add_to_all ff
    (mzd_mul (mzd_sum [a0, a1, a2, a3, a5, a6, a7, a8, a10, a11])
      (mzd_sum [b0, b1, b2, b3, b5, b6, b7, b8, b10, b11]))
    X [1, 2, 3, 6, 7, 9, 10, 11, 12, 14, 15, 18, 19, 20]
  let X := _mzd_ptr_add_to_all ff
    (mzd_mul (mzd_sum [a0, a1, a5, a6, a10, a11])
      (mzd_sum [b0, b1, b5, b6, b10, b11]))
    X [1, 6, 8, 11, 13, 18]
  let X := _mzd_ptr_add_to_all ff
    (mzd_mul (mzd_sum [a0, a2, a5, a7, a10])
      (mzd_sum [b0, b2, b5, b7, b10]))
    X [1, 2, 4, 6, 7, 8, 12, 13, 16, 18, 19, 21]
  let X := _mzd_ptr_add_to_all ff
    (mzd_mul (mzd_sum [a1, a3, a6, a8, a11])
      (mzd_sum [b1, b3, b6, b8, b11]))
    X [1, 4, 6, 8, 9, 13, 14, 16, 18, 21]
  let X := _mzd_ptr_add_to_all ff
    (mzd_mul (mzd_sum [a2, a3, a7, a8])
      (mzd_sum [b2, b3, b7, b8]))
    X [3, 8, 10, 13, 15, 20]
  X

/-! ### Counting the Boolean matrix multiplications -/

/-- Traced `mzd_mul(C, A, B, 0)`: the product together with the number of Boolean matrix
multiplications performed to obtain it, which is one. -/
def mzd_mul_traced {n k m : ℕ} (A : mzd n k) (B : mzd k m) : mzd n m × ℕ := (mzd_mul A B, 1)

/-- Traced `_mzd_ptr_add_to_all`: the planes are updated as by `_mzd_ptr_add_to_all` and the
multiplications performed for the argument `T` are added to the running count. -/
def _mzd_ptr_add_to_all_traced {n m : ℕ} (ff : gf2e) (T : mzd n m × ℕ)
    (X : (ℕ → mzd n m) × ℕ) (ts : List ℕ) : (ℕ → mzd n m) × ℕ :=
  (_mzd_ptr_add_to_all ff T.1 X.1 ts, X.2 + T.2)

/-- Embedding of `_mzd_ptr_addmul_karatsuba5` with a call counter: the same statements in the
same order, every `mzd_mul` call site counted once; the result is the updated plane array and
the number of Boolean matrix multiplications performed by the invocation. -/
def _mzd_ptr_addmul_karatsuba5_traced {n k m : ℕ} (ff : gf2e) (X : ℕ → mzd n m)
    (A : ℕ → mzd n k) (B : ℕ → mzd k m) : (ℕ → mzd n m) × ℕ :=
  let a0 := A 0
  let a1 := A 1
  let a2 := A 2
  let a3 := A 3
  let a4 := A 4
  let b0 := B 0
  let b1 := B 1
  let b2 := B 2
  let b3 := B 3
  let b4 := B 4
  let X := (X, 0)
  let X := _mzd_ptr_add_to_all_traced ff (mzd_mul_traced a0 b0) X [6, 5, 4, 2, 1, 0]
  let X := _mzd_ptr_add_to_all_traced ff (mzd_mul_traced a1 b1) X [4, 1]
  let X := _mzd_ptr_add_to_all_traced ff (mzd_mul_traced a3 b3) X [7, 4]
  let X := _mzd_ptr_add_to_all_traced ff (mzd_mul_traced a4 b4) X [8, 7, 6, 4, 3, 2]
  let X := _mzd_ptr_add_to_all_traced ff
    (mzd_mul_traced (mzd_sum [a0, a4])
      (mzd_sum [b0, b4]))
    X [6, 5, 3, 2]
  let X := _mzd_ptr_add_to_all_traced ff
    (mzd_mul_traced (mzd_sum [a0, a1])
      (mzd_sum [b0, b1]))
    X [5, 4, 2, 1]
  let X := _mzd_ptr_add_to_all_traced ff
    (mzd_mul_traced (mzd_sum [a3, a4])
      (mzd_sum [b3, b4]))
    X [7, 6, 4, 3]
  let X := _mzd_ptr_add_to_all_traced ff
    (mzd_mul_traced (mzd_sum [a1, a2, a4])
      (mzd_sum [b1, b2, b4]))
    X [4, 2]
  let X := _mzd_ptr_add_to_all_traced ff
    (mzd_mul_traced (mzd_sum [a0, a2, a3])
      (mzd_sum [b0, b2, b3]))
    X [6, 4]
  let X := _mzd_ptr_add_to_all_traced ff
    (mzd_mul_traced (mzd_sum [a0, a1, a3, a4])
      (mzd_sum [b0, b1, b3, b4]))
    X [5, 3]
  let X := _mzd_ptr_add_to_all_traced ff
    (mzd_mul_traced (mzd_sum [a0, a1, a2, a4])
      (mzd_sum [b0, b1, b2, b4]))
    X [5, 2]
  let X := _mzd_ptr_add_to_all_traced ff
    (mzd_mul_traced (mzd_sum [a0, a2, a3, a4])
      (mzd_sum [b0, b2, b3, b4]))
    X [6, 3]
  let X := _mzd_ptr_add_to_all_traced ff
    (mzd_mul_traced (mzd_sum [a0, a1, a2, a3, a4])
      (mzd_sum [b0, b1, b2, b3, b4]))
    X [5, 4, 3]
  X

/-- Traced `mzd_addmul(C, A, B, 0)`: the accumulated product together with the number of Boolean
matrix multiplications performed to obtain it, which is one. -/
def mzd_addmul_traced {n k m : ℕ} (C : mzd n m) (A : mzd n k) (B : mzd k m) : mzd n m × ℕ :=
  (mzd_addmul C A B, 1)

/-- Embedding of `_mzd_ptr_addmul_karatsuba2` with a call counter: the same statements in the
same order, every `mzd_mul` or `mzd_addmul` call site counted once; the result is the updated plane array and
the number of Boolean matrix multiplications performed by the invocation. -/
def _mzd_ptr_addmul_karatsuba2_traced {n k m : ℕ} (ff : gf2e) (X : ℕ → mzd n m)
    (A : ℕ → mzd n k) (B : ℕ → mzd k m) : (ℕ → mzd n m) × ℕ :=
  let a0 := A 0
  let a1 := A 1
  let b0 := B 0
  let b1 := B 1
  let X := (X, 0)
  let T := mzd_addmul_traced (X.1 1) (mzd_add a0 a1) (mzd_add b0 b1)
  let X := (Function.update X.1 1 T.1, X.2 + T.2)
  let X := _mzd_ptr_add_to_all_traced ff (mzd_mul_traced a0 b0) X [0, 1]
  let X := _mzd_ptr_add_to_all_traced ff (mzd_mul_traced a1 b1) X [1, 2]
  X

/-- Embedding of `_mzd_ptr_addmul_karatsuba3` with a call counter: the same statements in the
same order, every `mzd_mul` call site counted once; the result is the updated plane array and
the number of Boolean matrix multiplications performed by the invocation. -/
def _mzd_ptr_addmul_karatsuba3_traced {n k m : ℕ} (ff : gf2e) (X : ℕ → mzd n m)
    (A : ℕ → mzd n k) (B : ℕ → mzd k m) : (ℕ → mzd n m) × ℕ :=
  let a0 := A 0
  let a1 := A 1
  let a2 := A 2
  let b0 := B 0
  let b1 := B 1
  let b2 := B 2
  let X := (X, 0)
  let X := _mzd_ptr_add_to_all_traced ff (mzd_mul_traced (mzd_add a0 a1) (mzd_add b0 b1)) X [1]
  let X := _mzd_ptr_add_to_all_traced ff (mzd_mul_traced (mzd_add a0 a2) (mzd_add b0 b2)) X [2]
  let X := _mzd_ptr_add_to_all_traced ff (mzd_mul_traced (mzd_add a1 a2) (mzd_add b1 b2)) X [3]
  let X := _mzd_ptr_add_to_all_traced ff (mzd_mul_traced a0 b0) X [0, 1, 2]
  let X := _mzd_ptr_add_to_all_traced ff (mzd_mul_traced a1 b1) X [1, 2, 3]
  let X := _mzd_ptr_add_to_all_traced ff (mzd_mul_traced a2 b2) X [2, 3, 4]
  X

/-- Embedding of `_mzd_ptr_addmul_karatsuba4` with a call counter: the same statements in the
same order, every `mzd_mul` call site counted once; the result is the updated plane array and
the number of Boolean matrix multiplications performed by the invocation. -/
def _mzd_ptr_addmul_karatsuba4_traced {n k m : ℕ} (ff : gf2e) (X : ℕ → mzd n m)
    (A : ℕ → mzd n k) (B : ℕ → mzd k m) : (ℕ → mzd n m) × ℕ :=
  let a0 := A 0
  let a1 := A 1
  let a2 := A 2
  let a3 := A 3
  let b0 := B 0
  let b1 := B 1
  let b2 := B 2
  let b3 := B 3
  let X := (X, 0)
  let X := _mzd_ptr_add_to_all_traced ff
    (mzd_mul_traced (mzd_sum [a0, a1, a2, a3])
      (mzd_sum [b0, b1, b2, b3]))
    X [3]
  let X := _mzd_ptr_add_to_all_traced ff
    (mzd_mul_traced (mzd_sum [a0, a1])
      (mzd_sum [b0, b1]))
    X [1, 3]
  let X := _mzd_ptr_add_to_all_traced ff
    (mzd_mul_traced (mzd_sum [a0, a2])
      (mzd_sum [b0, b2]))
    X [2, 3]
  let X := _mzd_ptr_add_to_all_traced ff
    (mzd_mul_traced (mzd_sum [a1, a3])
      (mzd_sum [b1, b3]))
    X [3, 4]
  let X := _mzd_ptr_add_to_all_traced ff
    (mzd_mul_traced (mzd_sum [a2, a3])
      (mzd_sum [b2, b3]))
    X [3, 5]
  let X := _mzd_ptr_add_to_all_traced ff (mzd_mul_traced a0 b0) X [0, 1, 2, 3]
  let X := _mzd_ptr_add_to_all_traced ff (mzd_mul_traced a1 b1) X [1, 2, 3, 4]
  let X := _mzd_ptr_add_to_all_traced ff (mzd_mul_traced a2 b2) X [2, 3, 4, 5]
  let X := _mzd_ptr_add_to_all_traced ff (mzd_mul_traced a3 b3) X [3, 4, 5, 6]
  X

/-- Embedding of `_mzd_ptr_addmul_karatsuba6` with a call counter: the same statements in the
same order, every `mzd_mul` call site counted once; the result is the updated plane array and
the number of Boolean matrix multiplications performed by the invocation. -/
def _mzd_ptr_addmul_karatsuba6_traced {n k m : ℕ} (ff : gf2e) (X : ℕ → mzd n m)
    (A : ℕ → mzd n k) (B : ℕ → mzd k m) : (ℕ → mzd n m) × ℕ :=
  let a0 := A 0
  let a1 := A 1
  let a2 := A 2
  let a3 := A 3
  let a4 := A 4
  let a5 := A 5
  let b0 := B 0
  let b1 := B 1
  let b2 := B 2
  let b3 := B 3
  let b4 := B 4
  let b5 := B 5
  let X := (X, 0)
  let X := _mzd_ptr_add_to_all_traced ff (mzd_mul_traced a0 b0) X [6, 5, 1, 0]
  let X := _mzd_ptr_add_to_all_traced ff (mzd_mul_traced a1 b1) X [7, 6, 5, 4, 3, 1]
  let X := _mzd_ptr_add_to_all_traced ff (mzd_mul_traced a4 b4) X [9, 7, 5, 3]
  let X := _mzd_ptr_add_to_all_traced ff (mzd_mul_traced a5 b5) X [10, 9, 6, 5]
  let X := _mzd_ptr_add_to_all_traced ff
    (mzd_mul_traced (mzd_sum [a4, a5])
      (mzd_sum [b4, b5]))
    X [9, 8, 4, 3]
  let X := _mzd_ptr_add_to_all_traced ff
    (mzd_mul_traced (mzd_sum [a0, a1])
      (mzd_sum [b0, b1]))
    X [7, 4, 2, 1]
  let X := _mzd_ptr_add_to_all_traced ff
    (mzd_mul_traced (mzd_sum [a3, a4])
      (mzd_sum [b3, b4]))
    X [8, 7, 6, 3]
  let X := _mzd_ptr_add_to_all_traced ff
    (mzd_mul_traced (mzd_sum [a1, a2])
      (mzd_sum [b1, b2]))
    X [7, 6, 3, 2]
  let X := _mzd_ptr_add_to_all_traced ff
    (mzd_mul_traced (mzd_sum [a1, a4])
      (mzd_sum [b1, b4]))
    X [4, 5]
  let X := _mzd_ptr_add_to_all_traced ff
    (mzd_mul_traced (mzd_sum [a2, a3])
      (mzd_sum [b2, b3]))
    X [7, 6, 4, 3]
  let X := _mzd_ptr_add_to_all_traced ff
    (mzd_mul_traced (mzd_sum [a3, a4, a5])
      (mzd_sum [b3, b4, b5]))
    X [8, 6, 4, 3]
  let X := _mzd_ptr_add_to_all_traced ff
    (mzd_mul_traced (mzd_sum [a0, a1, a2])
      (mzd_sum [b0, b1, b2]))
    X [7, 2]
  let X := _mzd_ptr_add_to_all_traced ff
    (mzd_mul_traced (mzd_sum [a0, a3, a5])
      (mzd_sum [b0, b3, b5]))
    X [7, 5]
  let X := _mzd_ptr_add_to_all_traced ff
    (mzd_mul_traced (mzd_sum [a0, a2, a5])
      (mzd_sum [b0, b2, b5]))
    X [6, 5, 4, 3]
  let X := _mzd_ptr_add_to_all_traced ff
    (mzd_mul_traced (mzd_sum [a0, a2, a3, a5])
      (mzd_sum [b0, b2, b3, b5]))
    X [7, 5, 4, 3]
  let X := _mzd_ptr_add_to_all_traced ff
    (mzd_mul_traced (mzd_sum [a0, a1, a3, a4])
      (mzd_sum [b0, b1, b3, b4]))
    X [6, 4]
  let X := _mzd_ptr_add_to_all_traced ff
    (mzd_mul_traced (mzd_sum [a0, a1, a2, a3, a4, a5])
      (mzd_sum [b0, b1, b2, b3, b4, b5]))
    X [6]
  X

/-- Embedding of `_mzd_ptr_addmul_karatsuba7` with a call counter: the same statements in the
same order, every `mzd_mul` call site counted once; the result is the updated plane array and
the number of Boolean matrix multiplications performed by the invocation. -/
def _mzd_ptr_addmul_karatsuba7_traced {n k m : ℕ} (ff : gf2e) (X : ℕ → mzd n m)
    (A : ℕ → mzd n k) (B : ℕ → mzd k m) : (ℕ → mzd n m) × ℕ :=
  let a0 := A 0
  let a1 := A 1
  let a2 := A 2
  let a3 := A 3
  let a4 := A 4
  let a5 := A 5
  let a6 := A 6
  let b0 := B 0
  let b1 := B 1
  let b2 := B 2
  let b3 := B 3
  let b4 := B 4
  let b5 := B 5
  let b6 := B 6
  let X := (X, 0)
  let X := _mzd_ptr_add_to_all_traced ff
    (mzd_mul_traced (mzd_sum [a0, a1, a2, a3, a4, a5, a6])
      (mzd_sum [b0, b1, b2, b3, b4, b5, b6]))
    X [7, 6, 5]
  let X := _mzd_ptr_add_to_all_traced ff
    (mzd_mul_traced (mzd_sum [a1, a2, a3, a5, a6])
      (mzd_sum [b1, b2, b3, b5, b6]))
    X [9, 6]
  let X := _mzd_ptr_add_to_all_traced ff
    (mzd_mul_traced (mzd_sum [a0, a1, a3, a4, a5])
      (mzd_sum [b0, b1, b3, b4, b5]))
    X [6, 3]
  let X := _mzd_ptr_add_to_all_traced ff
    (mzd_mul_traced (mzd_sum [a0, a2, a3, a4, a6])
      (mzd_sum [b0, b2, b3, b4, b6]))
    X [9, 3]
  let X := _mzd_ptr_add_to_all_traced ff
    (mzd_mul_traced (mzd_sum [a0, a2, a3, a5, a6])
      (mzd_sum [b0, b2, b3, b5, b6]))
    X [7, 3]
  let X := _mzd_ptr_add_to_all_traced ff
    (mzd_mul_traced (mzd_sum [a0, a1, a3, a4, a6])
      (mzd_sum [b0, b1, b3, b4, b6]))
    X [9, 5]
  let X := _mzd_ptr_add_to_all_traced ff
    (mzd_mul_traced (mzd_sum [a1, a2, a4, a5])
      (mzd_sum [b1, b2, b4, b5]))
    X [9, 7, 5, 3]
  let X := _mzd_ptr_add_to_all_traced ff
    (mzd_mul_traced (mzd_sum [a0, a1])
      (mzd_sum [b0, b1]))
    X [9, 7, 3, 1]
  let X := _mzd_ptr_add_to_all_traced ff
    (mzd_mul_traced (mzd_sum [a0, a2])
      (mzd_sum [b0, b2]))
    X [9, 6, 5, 2]
  let X := _mzd_ptr_add_to_all_traced ff
    (mzd_mul_traced (mzd_sum [a0, a4])
      (mzd_sum [b0, b4]))
    X [7, 4]
  let X := _mzd_ptr_add_to_all_traced ff
    (mzd_mul_traced (mzd_sum [a1, a3])
      (mzd_sum [b1, b3]))
    X [7, 6, 4, 3]
  let X := _mzd_ptr_add_to_all_traced ff
    (mzd_mul_traced (mzd_sum [a2, a6])
      (mzd_sum [b2, b6]))
    X [8, 5]
  let X := _mzd_ptr_add_to_all_traced ff
    (mzd_mul_traced (mzd_sum [a3, a5])
      (mzd_sum [b3, b5]))
    X [9, 8, 6, 5]
  let X := _mzd_ptr_add_to_all_traced ff
    (mzd_mul_traced (mzd_sum [a4, a6])
      (mzd_sum [b4, b6]))
    X [10, 7, 6, 3]
  let X := _mzd_ptr_add_to_all_traced ff
    (mzd_mul_traced (mzd_sum [a5, a6])
      (mzd_sum [b5, b6]))
    X [11, 9, 5, 3]
  let X := _mzd_ptr_add_to_all_traced ff (mzd_mul_traced a0 b0) X [6, 5, 4, 2, 1, 0]
  let X := _mzd_ptr_add_to_all_traced ff (mzd_mul_traced a1 b1) X [5, 4, 2, 1]
  let X := _mzd_ptr_add_to_all_traced ff (mzd_mul_traced a2 b2) X [8, 7, 6, 4, 3, 2]
  let X := _mzd_ptr_add_to_all_traced ff (mzd_mul_traced a3 b3) X [8, 7, 5, 4]
  let X := _mzd_ptr_add_to_all_traced ff (mzd_mul_traced a4 b4) X [10, 9, 8, 6, 5, 4]
  let X := _mzd_ptr_add_to_all_traced ff (mzd_mul_traced a5 b5) X [11, 10, 8, 7]
  let X := _mzd_ptr_add_to_all_traced ff (mzd_mul_traced a6 b6) X [12, 11, 10, 8, 7, 6]
  X

/-- Embedding of `_mzd_ptr_addmul_karatsuba8` with a call counter: the same statements in the
same order, every `mzd_mul` call site counted once; the result is the updated plane array and
the number of Boolean matrix multiplications performed by the invocation. -/
def _mzd_ptr_addmul_karatsuba8_traced {n k m : ℕ} (ff : gf2e) (X : ℕ → mzd n m)
    (A : ℕ → mzd n k) (B : ℕ → mzd k m) : (ℕ → mzd n m) × ℕ :=
  let a0 := A 0
  let a1 := A 1
  let a2 := A 2
  let a3 := A 3
  let a4 := A 4
  let a5 := A 5
  let a6 := A 6
  let a7 := A 7
  let b0 := B 0
  let b1 := B 1
  let b2 := B 2
  let b3 := B 3
  let b4 := B 4
  let b5 := B 5
  let b6 := B 6
  let b7 := B 7
  let X := (X, 0)
  let X := _mzd_ptr_add_to_all_traced ff (mzd_mul_traced a0 b0) X [0, 1, 2, 3, 4, 5, 6, 7]
  let X := _mzd_ptr_add_to_all_traced ff (mzd_mul_traced a1 b1) X [1, 2, 3, 4, 5, 6, 7, 8]
  let X := _mzd_ptr_add_to_all_traced ff (mzd_mul_traced a2 b2) X [2, 3, 4, 5, 6, 7, 8, 9]
  let X := _mzd_ptr_add_to_all_traced ff (mzd_mul_traced a3 b3) X [3, 4, 5, 6, 7, 8, 9, 10]
  let X := _mzd_ptr_add_to_all_traced ff (mzd_mul_traced a4 b4) X [4, 5, 6, 7, 8, 9, 10, 11]
  let X := _mzd_ptr_add_to_all_traced ff (mzd_mul_traced a5 b5) X [5, 6, 7, 8, 9, 10, 11, 12]
  let X := _mzd_ptr_add_to_all_traced ff (mzd_mul_traced a6 b6) X [6, 7, 8, 9, 10, 11, 12, 13]
  let X := _mzd_ptr_add_to_all_traced ff (mzd_mul_traced a7 b7) X [7, 8, 9, 10, 11, 12, 13, 14]
  let X := _mzd_ptr_add_to_all_traced ff
    (mzd_mul_traced (mzd_sum [a0, a2])
      (mzd_sum [b0, b2]))
    X [2, 3, 6, 7]
  let X := _mzd_ptr_add_to_all_traced ff
    (mzd_mul_traced (mzd_sum [a2, a3])
      (mzd_sum [b2, b3]))
    X [3, 5, 7, 9]
  let X := _mzd_ptr_add_to_all_traced ff
    (mzd_mul_traced (mzd_sum [a2, a6])
      (mzd_sum [b2, b6]))
    X [6, 7, 8, 9]
  let X := _mzd_ptr_add_to_all_traced ff
    (mzd_mul_traced (mzd_sum [a4, a5])
      (mzd_sum [b4, b5]))
    X [5, 7, 9, 11]
  let X := _mzd_ptr_add_to_all_traced ff
    (mzd_mul_traced (mzd_sum [a6, a7])
      (mzd_sum [b6, b7]))
    X [7, 9, 11, 13]
  let X := _mzd_ptr_add_to_all_traced ff
    (mzd_mul_traced (mzd_sum [a0, a1, a2, a3])
      (mzd_sum [b0, b1, b2, b3]))
    X [3, 7]
  let X := _mzd_ptr_add_to_all_traced ff
    (mzd_mul_traced (mzd_sum [a5, a7])
      (mzd_sum [b5, b7]))
    X [7, 8, 11, 12]
  let X := _mzd_ptr_add_to_all_traced ff
    (mzd_mul_traced (mzd_sum [a0, a4])
      (mzd_sum [b0, b4]))
    X [4, 5, 6, 7]
  let X := _mzd_ptr_add_to_all_traced ff
    (mzd_mul_traced (mzd_sum [a1, a3])
      (mzd_sum [b1, b3]))
    X [3, 4, 7, 8]
  let X := _mzd_ptr_add_to_all_traced ff
    (mzd_mul_traced (mzd_sum [a1, a3, a5, a7])
      (mzd_sum [b1, b3, b5, b7]))
    X [7, 8]
  let X := _mzd_ptr_add_to_all_traced ff
    (mzd_mul_traced (mzd_sum [a0, a1])
      (mzd_sum [b0, b1]))
    X [1, 3, 5, 7]
  let X := _mzd_ptr_add_to_all_traced ff
    (mzd_mul_traced (mzd_sum [a4, a6])
      (mzd_sum [b4, b6]))
    X [6, 7, 10, 11]
  let X := _mzd_ptr_add_to_all_traced ff
    (mzd_mul_traced (mzd_sum [a1, a5])
      (mzd_sum [b1, b5]))
    X [5, 6, 7, 8]
  let X := _mzd_ptr_add_to_all_traced ff
    (mzd_mul_traced (mzd_sum [a0, a1, a2, a3, a4, a5, a6, a7])
      (mzd_sum [b0, b1, b2, b3, b4, b5, b6, b7]))
    X [7]
  let X := _mzd_ptr_add_to_all_traced ff
    (mzd_mul_traced (mzd_sum [a0, a2, a4, a6])
      (mzd_sum [b0, b2, b4, b6]))
    X [6, 7]
  let X := _mzd_ptr_add_to_all_traced ff
    (mzd_mul_traced (mzd_sum [a0, a1, a4, a5])
      (mzd_sum [b0, b1, b4, b5]))
    X [5, 7]
  let X := _mzd_ptr_add_to_all_traced ff
    (mzd_mul_traced (mzd_sum [a2, a3, a6, a7])
      (mzd_sum [b2, b3, b6, b7]))
    X [7, 9]
  let X := _mzd_ptr_add_to_all_traced ff
    (mzd_mul_traced (mzd_sum [a3, a7])
      (mzd_sum [b3, b7]))
    X [7, 8, 9, 10]
  let X := _mzd_ptr_add_to_all_traced ff
    (mzd_mul_traced (mzd_sum [a4, a5, a6, a7])
      (mzd_sum [b4, b5, b6, b7]))
    X [7, 11]
  X

/-- Embedding of `_mzd_ptr_addmul_karatsuba9` with a call counter: the same statements in the
same order, every `mzd_mul` call site counted once; the result is the updated plane array and
the number of Boolean matrix multiplications performed by the invocation. -/
def _mzd_ptr_addmul_karatsuba9_traced {n k m : ℕ} (ff : gf2e) (X : ℕ → mzd n m)
    (A : ℕ → mzd n k) (B : ℕ → mzd k m) : (ℕ → mzd n m) × ℕ :=
  let a0 := A 0
  let a1 := A 1
  let a2 := A 2
  let a3 := A 3
  let a4 := A 4
  let a5 := A 5
  let a6 := A 6
  let a7 := A 7
  let a8 := A 8
  let b0 := B 0
  let b1 := B 1
  let b2 := B 2
  let b3 := B 3
  let b4 := B 4
  let b5 := B 5
  let b6 := B 6
  let b7 := B 7
  let b8 := B 8
  let X := (X, 0)
  let X := _mzd_ptr_add_to_all_traced ff (mzd_mul_traced a8 b8) X [2, 3, 5, 10, 12, 16]
  let X := _mzd_ptr_add_to_all_traced ff (mzd_mul_traced a0 b0) X [0, 1, 3, 8, 10, 14]
  let X := _mzd_ptr_add_to_all_traced ff (mzd_mul_traced a1 b1) X [1, 2, 4, 9, 11, 15]
  let X := _mzd_ptr_add_to_all_traced ff
    (mzd_mul_traced (mzd_sum [a0, a1])
      (mzd_sum [b0, b1]))
    X [1, 2, 4, 9, 11, 15]
  let X := _mzd_ptr_add_to_all_traced ff
    (mzd_mul_traced (mzd_sum [a0, a2, a4, a6, a8])
      (mzd_sum [b0, b2, b4, b6, b8]))
    X [2, 5, 6, 7, 8, 9, 12, 13, 14, 15]
  let X := _mzd_ptr_add_to_all_traced ff
    (mzd_mul_traced (mzd_sum [a1, a3, a5, a7])
      (mzd_sum [b1, b3, b5, b7]))
    X [2, 5, 6, 7, 8, 9, 12, 13, 14, 15]
  let X := _mzd_ptr_add_to_all_traced ff
    (mzd_mul_traced (mzd_sum [a0, a1, a2, a3, a4, a5, a6, a7, a8])
      (mzd_sum [b0, b1, b2, b3, b4, b5, b6, b7, b8]))
    X [2, 3, 4, 6, 8, 12, 14]
  let X := _mzd_ptr_add_to_all_traced ff
    (mzd_mul_traced (mzd_sum [a0, a2, a3, a5, a6, a8])
      (mzd_sum [b0, b2, b3, b5, b6, b8]))
    X [2, 3, 4, 5, 6, 8, 9, 10, 11, 12, 13, 15]
  let X := _mzd_ptr_add_to_all_traced ff
    (mzd_mul_traced (mzd_sum [a1, a2, a4, a5, a7, a8])
      (mzd_sum [b1, b2, b4, b5, b7, b8]))
    X [2, 4, 6, 7, 9, 11, 13, 14]
  let X := _mzd_ptr_add_to_all_traced ff
    (mzd_mul_traced (mzd_sum [a0, a1, a3, a4, a6, a7])
      (mzd_sum [b0, b1, b3, b4, b6, b7]))
    X [3, 5, 7, 8, 10, 12, 14, 15]
  let X := _mzd_ptr_add_to_all_traced ff
    (mzd_mul_traced (mzd_sum [a0, a3, a5, a6, a7])
      (mzd_sum [b0, b3, b5, b6, b7]))
    X [2, 3, 10, 12, 13, 14]
  let X := _mzd_ptr_add_to_all_traced ff
    (mzd_mul_traced (mzd_sum [a1, a3, a4, a5, a8])
      (mzd_sum [b1, b3, b4, b5, b8]))
    X [3, 4, 11, 13, 14, 15]
  let X := _mzd_ptr_add_to_all_traced ff
    (mzd_mul_traced (mzd_sum [a2, a4, a5, a6])
      (mzd_sum [b2, b4, b5, b6]))
    X [2, 3, 4, 10, 14, 15]
  let X := _mzd_ptr_add_to_all_traced ff
    (mzd_mul_traced (mzd_sum [a0, a1, a4, a6, a7, a8])
      (mzd_sum [b0, b1, b4, b6, b7, b8]))
    X [2, 4, 10, 11, 12, 15]
  let X := _mzd_ptr_add_to_all_traced ff
    (mzd_mul_traced (mzd_sum [a0, a2, a3, a4, a7])
      (mzd_sum [b0, b2, b3, b4, b7]))
    X [2, 10, 11, 13]
  let X := _mzd_ptr_add_to_all_traced ff
    (mzd_mul_traced (mzd_sum [a1, a2, a3, a6, a8])
      (mzd_sum [b1, b2, b3, b6, b8]))
    X [3, 11, 12, 14]
  let X := _mzd_ptr_add_to_all_traced ff
    (mzd_mul_traced (mzd_sum [a0, a3, a4, a5, a7])
      (mzd_sum [b0, b3, b4, b5, b7]))
    X [3, 4, 5, 6, 9, 12, 13, 14]
  let X := _mzd_ptr_add_to_all_traced ff
    (mzd_mul_traced (mzd_sum [a1, a4, a5, a6, a8])
      (mzd_sum [b1, b4, b5, b6, b8]))
    X [4, 5, 6, 7, 10, 13, 14, 15]
  let X := _mzd_ptr_add_to_all_traced ff
    (mzd_mul_traced (mzd_sum [a2, a3, a4, a6])
      (mzd_sum [b2, b3, b4, b6]))
    X [2, 3, 6, 7, 8, 10, 11, 12, 14, 15]
  let X := _mzd_ptr_add_to_all_traced ff
    (mzd_mul_traced (mzd_sum [a0, a1, a3, a6, a7, a8])
      (mzd_sum [b0, b1, b3, b6, b7, b8]))
    X [2, 6, 8, 9, 11, 14]
  let X := _mzd_ptr_add_to_all_traced ff
    (mzd_mul_traced (mzd_sum [a0, a2, a5, a6, a7])
      (mzd_sum [b0, b2, b5, b6, b7]))
    X [3, 7, 9, 10, 12, 15]
  let X := _mzd_ptr_add_to_all_traced ff
    (mzd_mul_traced (mzd_sum [a1, a2, a3, a5, a8])
      (mzd_sum [b1, b2, b3, b5, b8]))
    X [2, 3, 4, 5, 8, 11, 12, 13]
  let X := _mzd_ptr_add_to_all_traced ff
    (mzd_mul_traced (mzd_sum [a0, a4, a7, a8])
      (mzd_sum [b0, b4, b7, b8]))
    X [4, 7, 11, 14]
  let X := _mzd_ptr_add_to_all_traced ff
    (mzd_mul_traced (mzd_sum [a1, a4, a5, a7])
      (mzd_sum [b1, b4, b5, b7]))
    X [5, 8, 12, 15]
  let X := _mzd_ptr_add_to_all_traced ff
    (mzd_mul_traced (mzd_sum [a2, a5, a6, a8])
      (mzd_sum [b2, b5, b6, b8]))
    X [2, 3, 5, 6, 9, 10, 12, 13]
  let X := _mzd_ptr_add_to_all_traced ff
    (mzd_mul_traced (mzd_sum [a3, a6, a7])
      (mzd_sum [b3, b6, b7]))
    X [3, 4, 6, 7, 10, 11, 13, 14]
  let X := _mzd_ptr_add_to_all_traced ff
    (mzd_mul_traced (mzd_sum [a0, a1, a2, a3, a7])
      (mzd_sum [b0, b1, b2, b3, b7]))
    X [2, 4, 5, 7, 9, 11, 12, 14]
  let X := _mzd_ptr_add_to_all_traced ff
    (mzd_mul_traced (mzd_sum [a0, a1, a5, a8])
      (mzd_sum [b0, b1, b5, b8]))
    X [2, 8, 9, 15]
  let X := _mzd_ptr_add_to_all_traced ff
    (mzd_mul_traced (mzd_sum [a0, a2, a4, a5, a6, a7])
      (mzd_sum [b0, b2, b4, b5, b6, b7]))
    X [3, 4, 5, 6, 7, 8, 10, 11, 12, 13, 14, 15]
  let X := _mzd_ptr_add_to_all_traced ff
    (mzd_mul_traced (mzd_sum [a1, a3, a4, a5, a6])
      (mzd_sum [b1, b3, b4, b5, b6]))
    X [2, 3, 4, 6, 7, 8, 9, 10, 11, 13, 14, 15]
  let X := _mzd_ptr_add_to_all_traced ff
    (mzd_mul_traced (mzd_sum [a2, a3, a5, a7, a8])
      (mzd_sum [b2, b3, b5, b7, b8]))
    X [3, 6, 10, 13]
  X

/-- Embedding of `_mzd_ptr_addmul_karatsuba10` with a call counter: the same statements in the
same order, every `mzd_mul` call site counted once; the result is the updated plane array and
the number of Boolean matrix multiplications performed by the invocation. -/
def _mzd_ptr_addmul_karatsuba10_traced {n k m : ℕ} (ff : gf2e) (X : ℕ → mzd n m)
    (A : ℕ → mzd n k) (B : ℕ → mzd k m) : (ℕ → mzd n m) × ℕ :=
  let a0 := A 0
  let a1 := A 1
  let a2 := A 2
  let a3 := A 3
  let a4 := A 4
  let a5 := A 5
  let a6 := A 6
  let a7 := A 7
  let a8 := A 8
  let a9 := A 9
  let b0 := B 0
  let b1 := B 1
  let b2 := B 2
  let b3 := B 3
  let b4 := B 4
  let b5 := B 5
  let b6 := B 6
  let b7 := B 7
  let b8 := B 8
  let b9 := B 9
  let X := (X, 0)
  let X := _mzd_ptr_add_to_all_traced ff (mzd_mul_traced a9 b9) X [1, 6, 8, 11, 13, 18]
  let X := _mzd_ptr_add_to_all_traced ff (mzd_mul_traced a0 b0) X [0, 5, 7, 10, 12, 17]
  let X := _mzd_ptr_add_to_all_traced ff
    (mzd_mul_traced (mzd_sum [a0, a1, a2, a3, a4, a5, a6, a7, a8, a9])
      (mzd_sum [b0, b1, b2, b3, b4, b5, b6, b7, b8, b9]))
    X [1, 2, 3, 4, 5, 8, 9, 10, 13, 14, 15, 16, 17]
  let X := _mzd_ptr_add_to_all_traced ff
    (mzd_mul_traced (mzd_sum [a0, a2, a3, a5, a6, a8, a9])
      (mzd_sum [b0, b2, b3, b5, b6, b8, b9]))
    X [2, 3, 5, 6, 7, 12, 13, 14, 16, 17]
  let X := _mzd_ptr_add_to_all_traced ff
    (mzd_mul_traced (mzd_sum [a1, a2, a4, a5, a7, a8])
      (mzd_sum [b1, b2, b4, b5, b7, b8]))
    X [1, 3, 4, 7, 11, 14, 15, 17]
  let X := _mzd_ptr_add_to_all_traced ff
    (mzd_mul_traced (mzd_sum [a0, a1, a3, a4, a6, a7, a9])
      (mzd_sum [b0, b1, b3, b4, b6, b7, b9]))
    X [1, 2, 4, 5, 6, 11, 12, 13, 15, 16]
  let X := _mzd_ptr_add_to_all_traced ff
    (mzd_mul_traced (mzd_sum [a0, a3, a5, a6, a7])
      (mzd_sum [b0, b3, b5, b6, b7]))
    X [1, 3, 7, 8, 12, 13, 16, 17]
  let X := _mzd_ptr_add_to_all_traced ff
    (mzd_mul_traced (mzd_sum [a1, a3, a4, a5, a8])
      (mzd_sum [b1, b3, b4, b5, b8]))
    X [1, 2, 4, 6, 9, 11, 14, 17]
  let X := _mzd_ptr_add_to_all_traced ff
    (mzd_mul_traced (mzd_sum [a2, a4, a5, a6, a9])
      (mzd_sum [b2, b4, b5, b6, b9]))
    X [1, 2, 3, 5, 6, 7, 8, 10, 11, 12, 13, 15]
  let X := _mzd_ptr_add_to_all_traced ff
    (mzd_mul_traced (mzd_sum [a0, a1, a4, a6, a7, a8])
      (mzd_sum [b0, b1, b4, b6, b7, b8]))
    X [2, 3, 4, 6, 7, 8, 9, 11, 12, 13, 14, 16]
  let X := _mzd_ptr_add_to_all_traced ff
    (mzd_mul_traced (mzd_sum [a0, a2, a3, a4, a7, a9])
      (mzd_sum [b0, b2, b3, b4, b7, b9]))
    X [3, 4, 5, 7, 8, 9, 10, 12, 13, 14, 15, 17]
  let X := _mzd_ptr_add_to_all_traced ff
    (mzd_mul_traced (mzd_sum [a1, a2, a3, a6, a8, a9])
      (mzd_sum [b1, b2, b3, b6, b8, b9]))
    X [1, 4, 5, 9, 10, 14, 15, 16]
  let X := _mzd_ptr_add_to_all_traced ff
    (mzd_mul_traced (mzd_sum [a0, a3, a4, a5, a7])
      (mzd_sum [b0, b3, b4, b5, b7]))
    X [3, 5, 6, 7, 8, 10, 11, 12, 13, 15, 16, 17]
  let X := _mzd_ptr_add_to_all_traced ff
    (mzd_mul_traced (mzd_sum [a1, a4, a5, a6, a8])
      (mzd_sum [b1, b4, b5, b6, b8]))
    X [1, 4, 7, 9, 12, 14, 16, 17]
  let X := _mzd_ptr_add_to_all_traced ff
    (mzd_mul_traced (mzd_sum [a2, a3, a4, a6, a9])
      (mzd_sum [b2, b3, b4, b6, b9]))
    X [1, 2, 5, 6, 10, 11, 15, 17]
  let X := _mzd_ptr_add_to_all_traced ff
    (mzd_mul_traced (mzd_sum [a0, a1, a3, a6, a7, a8])
      (mzd_sum [b0, b1, b3, b6, b7, b8]))
    X [2, 3, 4, 8, 9, 13, 14, 17]
  let X := _mzd_ptr_add_to_all_traced ff
    (mzd_mul_traced (mzd_sum [a0, a2, a5, a6, a7, a9])
      (mzd_sum [b0, b2, b5, b6, b7, b9]))
    X [1, 3, 4, 5, 6, 8, 9, 10, 11, 13, 14, 15]
  let X := _mzd_ptr_add_to_all_traced ff
    (mzd_mul_traced (mzd_sum [a1, a2, a3, a5, a8, a9])
      (mzd_sum [b1, b2, b3, b5, b8, b9]))
    X [2, 4, 5, 6, 7, 9, 10, 11, 12, 14, 15, 16]
  let X := _mzd_ptr_add_to_all_traced ff
    (mzd_mul_traced (mzd_sum [a0, a4, a7, a8])
      (mzd_sum [b0, b4, b7, b8]))
    X [1, 2, 4, 8, 10, 11, 16, 17]
  let X := _mzd_ptr_add_to_all_traced ff
    (mzd_mul_traced (mzd_sum [a1, a4, a5, a7, a9])
      (mzd_sum [b1, b4, b5, b7, b9]))
    X [1, 2, 3, 5, 6, 8, 9, 12, 13, 17]
  let X := _mzd_ptr_add_to_all_traced ff
    (mzd_mul_traced (mzd_sum [a2, a5, a6, a8])
      (mzd_sum [b2, b5, b6, b8]))
    X [1, 2, 3, 4, 7, 8, 9, 10, 11, 14]
  let X := _mzd_ptr_add_to_all_traced ff
    (mzd_mul_traced (mzd_sum [a3, a6, a7, a9])
      (mzd_sum [b3, b6, b7, b9]))
    X [2, 3, 4, 5, 8, 9, 10, 11, 12, 15]
  let X := _mzd_ptr_add_to_all_traced ff
    (mzd_mul_traced (mzd_sum [a0, a1, a2, a3, a7])
      (mzd_sum [b0, b1, b2, b3, b7]))
    X [1, 5, 7, 12, 14, 15]
  let X := _mzd_ptr_add_to_all_traced ff
    (mzd_mul_traced (mzd_sum [a0, a1, a5, a8, a9])
      (mzd_sum [b0, b1, b5, b8, b9]))
    X [1, 3, 4, 6, 7, 9, 10, 11, 13, 14, 15, 16]
  let X := _mzd_ptr_add_to_all_traced ff
    (mzd_mul_traced (mzd_sum [a0, a2, a4, a5, a6, a7])
      (mzd_sum [b0, b2, b4, b5, b6, b7]))
    X [1, 4, 6, 10, 11, 13, 15, 17]
  let X := _mzd_ptr_add_to_all_traced ff
    (mzd_mul_traced (mzd_sum [a1, a3, a4, a5, a6])
      (mzd_sum [b1, b3, b4, b5, b6]))
    X [1, 2, 5, 6, 7, 8, 12, 13, 14, 16]
  let X := _mzd_ptr_add_to_all_traced ff
    (mzd_mul_traced (mzd_sum [a2, a3, a5, a7, a8, a9])
      (mzd_sum [b2, b3, b5, b7, b8, b9]))
    X [1, 3, 5, 9, 12, 15, 16, 17]
  let X := _mzd_ptr_add_to_all_traced ff
    (mzd_mul_traced (mzd_sum [a0, a4, a5, a6, a7, a9])
      (mzd_sum [b0, b4, b5, b6, b7, b9]))
    X [1, 2, 7, 8, 10, 14, 16, 17]
  let X := _mzd_ptr_add_to_all_traced ff
    (mzd_mul_traced (mzd_sum [a1, a5, a6, a7, a8])
      (mzd_sum [b1, b5, b6, b7, b8]))
    X [1, 2, 3, 6, 9, 13, 15, 17]
  let X := _mzd_ptr_add_to_all_traced ff
    (mzd_mul_traced (mzd_sum [a2, a6, a7, a8, a9])
      (mzd_sum [b2, b6, b7, b8, b9]))
    X [1, 2, 3, 4, 6, 7, 8, 10, 11, 13, 14, 16]
  let X := _mzd_ptr_add_to_all_traced ff
    (mzd_mul_traced (mzd_sum [a3, a4, a5, a6, a8])
      (mzd_sum [b3, b4, b5, b6, b8]))
    X [2, 3, 4, 5, 7, 8, 9, 11, 12, 14, 15, 17]
  let X := _mzd_ptr_add_to_all_traced ff
    (mzd_mul_traced (mzd_sum [a0, a1, a2, a3, a5, a7, a8])
      (mzd_sum [b0, b1, b2, b3, b5, b7, b8]))
    X [3, 6, 7, 8, 9, 10, 13, 14, 15, 16]
  let X := _mzd_ptr_add_to_all_traced ff
    (mzd_mul_traced (mzd_sum [a0, a1, a4, a8, a9])
      (mzd_sum [b0, b1, b4, b8, b9]))
    X [1, 3, 4, 5, 9, 10, 11, 12, 15, 16]
  let X := _mzd_ptr_add_to_all_traced ff
    (mzd_mul_traced (mzd_sum [a0, a2, a4, a5, a8])
      (mzd_sum [b0, b2, b4, b5, b8]))
    X [2, 3, 5, 10, 12, 16]
  let X := _mzd_ptr_add_to_all_traced ff
    (mzd_mul_traced (mzd_sum [a1, a3, a4, a7])
      (mzd_sum [b1, b3, b4, b7]))
    X [3, 4, 6, 11, 13, 17]
  let X := _mzd_ptr_add_to_all_traced ff
    (mzd_mul_traced (mzd_sum [a2, a3, a4, a5, a7, a9])
      (mzd_sum [b2, b3, b4, b5, b7, b9]))
    X [1, 3, 5, 7, 8, 12, 14, 17]
  X

/-- Embedding of `_mzd_ptr_addmul_karatsuba11` with a call counter: the same statements in the
same order, every `mzd_mul` call site counted once; the result is the updated plane array and
the number of Boolean matrix multiplications performed by the invocation. -/
def _mzd_ptr_addmul_karatsuba11_traced {n k m : ℕ} (ff : gf2e) (X : ℕ → mzd n m)
    (A : ℕ → mzd n k) (B : ℕ → mzd k m) : (ℕ → mzd n m) × ℕ :=
  let a0 := A 0
  let a1 := A 1
  let a2 := A 2
  let a3 := A 3
  let a4 := A 4
  let a5 := A 5
  let a6 := A 6
  let a7 := A 7
  let a8 := A 8
  let a9 := A 9
  let a10 := A 10
  let b0 := B 0
  let b1 := B 1
  let b2 := B 2
  let b3 := B 3
  let b4 := B 4
  let b5 := B 5
  let b6 := B 6
  let b7 := B 7
  let b8 := B 8
  let b9 := B 9
  let b10 := B 10
  let X := (X, 0)
  let X := _mzd_ptr_add_to_all_traced ff
    (mzd_mul_traced a10
      b10)
    X [2, 3, 7, 8, 9, 10, 12, 13, 14, 15, 19, 20]
  let X := _mzd_ptr_add_to_all_traced ff
    (mzd_mul_traced (mzd_sum [a0, a2, a3, a5, a6, a8, a9])
      (mzd_sum [b0, b2, b3, b5, b6, b8, b9]))
    X [3, 5, 6, 9, 13, 16, 17, 19]
  let X := _mzd_ptr_add_to_all_traced ff
    (mzd_mul_traced (mzd_sum [a1, a2, a4, a5, a7, a8, a10])
      (mzd_sum [b1, b2, b4, b5, b7, b8, b10]))
    X [2, 3, 4, 6, 8, 9, 12, 13, 15, 17, 18, 19]
  let X := _mzd_ptr_add_to_all_traced ff
    (mzd_mul_traced (mzd_sum [a0, a1, a3, a4, a6, a7, a9, a10])
      (mzd_sum [b0, b1, b3, b4, b6, b7, b9, b10]))
    X [2, 4, 5, 8, 12, 15, 16, 18]
  let X := _mzd_ptr_add_to_all_traced ff
    (mzd_mul_traced a0
      b0)
    X [0, 1, 5, 6, 7, 8, 10, 11, 12, 13, 17, 18]
  let X := _mzd_ptr_add_to_all_traced ff
    (mzd_mul_traced a1
      b1)
    X [1, 2, 6, 7, 8, 9, 11, 12, 13, 14, 18, 19]
  let X := _mzd_ptr_add_to_all_traced ff
    (mzd_mul_traced (mzd_sum [a0, a1])
      (mzd_sum [b0, b1]))
    X [1, 2, 6, 7, 8, 9, 11, 12, 13, 14, 18, 19]
  let X := _mzd_ptr_add_to_all_traced ff
    (mzd_mul_traced (mzd_sum [a0, a2, a4, a6, a8, a10])
      (mzd_sum [b0, b2, b4, b6, b8, b10]))
    X [2, 7, 9, 12, 14, 19]
  let X := _mzd_ptr_add_to_all_traced ff
    (mzd_mul_traced (mzd_sum [a1, a3, a5, a7, a9])
      (mzd_sum [b1, b3, b5, b7, b9]))
    X [2, 7, 9, 12, 14, 19]
  let X := _mzd_ptr_add_to_all_traced ff
    (mzd_mul_traced (mzd_sum [a0, a1, a2, a3, a4, a5, a6, a7, a8, a9, a10])
      (mzd_sum [b0, b1, b2, b3, b4, b5, b6, b7, b8, b9, b10]))
    X [3, 4, 5, 6, 7, 10, 11, 12, 15, 16, 17, 18, 19]
  let X := _mzd_ptr_add_to_all_traced ff
    (mzd_mul_traced (mzd_sum [a0, a3, a5, a6, a7, a10])
      (mzd_sum [b0, b3, b5, b6, b7, b10]))
    X [3, 6, 7, 11, 12, 16, 17, 18]
  let X := _mzd_ptr_add_to_all_traced ff
    (mzd_mul_traced (mzd_sum [a1, a3, a4, a5, a8, a10])
      (mzd_sum [b1, b3, b4, b5, b8, b10]))
    X [4, 7, 8, 12, 13, 17, 18, 19]
  let X := _mzd_ptr_add_to_all_traced ff
    (mzd_mul_traced (mzd_sum [a2, a4, a5, a6, a9])
      (mzd_sum [b2, b4, b5, b6, b9]))
    X [2, 3, 5, 7, 10, 12, 15, 18]
  let X := _mzd_ptr_add_to_all_traced ff
    (mzd_mul_traced (mzd_sum [a0, a1, a4, a6, a7, a8])
      (mzd_sum [b0, b1, b4, b6, b7, b8]))
    X [3, 4, 6, 8, 11, 13, 16, 19]
  let X := _mzd_ptr_add_to_all_traced ff
    (mzd_mul_traced (mzd_sum [a0, a2, a3, a4, a7, a9, a10])
      (mzd_sum [b0, b2, b3, b4, b7, b9, b10]))
    X [2, 3, 4, 5, 8, 10, 13, 15, 17, 19]
  let X := _mzd_ptr_add_to_all_traced ff
    (mzd_mul_traced (mzd_sum [a1, a2, a3, a6, a8, a9, a10])
      (mzd_sum [b1, b2, b3, b6, b8, b9, b10]))
    X [2, 4, 5, 6, 7, 8, 10, 11, 12, 13, 15, 16, 18, 19]
  let X := _mzd_ptr_add_to_all_traced ff
    (mzd_mul_traced (mzd_sum [a0, a3, a4, a5, a7, a10])
      (mzd_sum [b0, b3, b4, b5, b7, b10]))
    X [2, 3, 5, 6, 8, 9, 10, 11, 13, 14, 15, 16, 17, 19]
  let X := _mzd_ptr_add_to_all_traced ff
    (mzd_mul_traced (mzd_sum [a1, a4, a5, a6, a8])
      (mzd_sum [b1, b4, b5, b6, b8]))
    X [2, 4, 6, 8, 11, 13, 16, 17, 18, 19]
  let X := _mzd_ptr_add_to_all_traced ff
    (mzd_mul_traced (mzd_sum [a2, a3, a4, a6, a9, a10])
      (mzd_sum [b2, b3, b4, b6, b9, b10]))
    X [2, 5, 8, 10, 13, 15, 17, 18]
  let X := _mzd_ptr_add_to_all_traced ff
    (mzd_mul_traced (mzd_sum [a0, a1, a3, a6, a7, a8, a10])
      (mzd_sum [b0, b1, b3, b6, b7, b8, b10]))
    X [2, 3, 4, 8, 9, 13, 14, 17]
  let X := _mzd_ptr_add_to_all_traced ff
    (mzd_mul_traced (mzd_sum [a0, a2, a5, a6, a7, a9])
      (mzd_sum [b0, b2, b5, b6, b7, b9]))
    X [3, 4, 5, 9, 10, 14, 15, 18]
  let X := _mzd_ptr_add_to_all_traced ff
    (mzd_mul_traced (mzd_sum [a1, a2, a3, a5, a8, a9, a10])
      (mzd_sum [b1, b2, b3, b5, b8, b9, b10]))
    X [4, 5, 6, 10, 11, 15, 16, 19]
  let X := _mzd_ptr_add_to_all_traced ff
    (mzd_mul_traced (mzd_sum [a0, a4, a7, a8, a10])
      (mzd_sum [b0, b4, b7, b8, b10]))
    X [2, 4, 6, 10, 13, 16, 17, 18]
  let X := _mzd_ptr_add_to_all_traced ff
    (mzd_mul_traced (mzd_sum [a1, a4, a5, a7, a9, a10])
      (mzd_sum [b1, b4, b5, b7, b9, b10]))
    X [3, 5, 7, 11, 14, 17, 18, 19]
  let X := _mzd_ptr_add_to_all_traced ff
    (mzd_mul_traced (mzd_sum [a2, a5, a6, a8, a10])
      (mzd_sum [b2, b5, b6, b8, b10]))
    X [2, 3, 4, 6, 7, 9, 10, 13, 14, 18]
  let X := _mzd_ptr_add_to_all_traced ff
    (mzd_mul_traced (mzd_sum [a3, a6, a7, a9])
      (mzd_sum [b3, b6, b7, b9]))
    X [3, 4, 5, 7, 8, 10, 11, 14, 15, 19]
  let X := _mzd_ptr_add_to_all_traced ff
    (mzd_mul_traced (mzd_sum [a0, a1, a2, a3, a7, a10])
      (mzd_sum [b0, b1, b2, b3, b7, b10]))
    X [2, 5, 6, 8, 9, 11, 13, 15, 18, 19]
  let X := _mzd_ptr_add_to_all_traced ff
    (mzd_mul_traced (mzd_sum [a0, a1, a5, a8, a9])
      (mzd_sum [b0, b1, b5, b8, b9]))
    X [3, 4, 7, 8, 9, 10, 14, 15, 16, 18]
  let X := _mzd_ptr_add_to_all_traced ff
    (mzd_mul_traced (mzd_sum [a0, a2, a4, a5, a6, a7])
      (mzd_sum [b0, b2, b4, b5, b6, b7]))
    X [4, 8, 10, 15, 17, 18]
  let X := _mzd_ptr_add_to_all_traced ff
    (mzd_mul_traced (mzd_sum [a1, a3, a4, a5, a6, a10])
      (mzd_sum [b1, b3, b4, b5, b6, b10]))
    X [5, 9, 11, 16, 18, 19]
  let X := _mzd_ptr_add_to_all_traced ff
    (mzd_mul_traced (mzd_sum [a2, a3, a5, a7, a8, a9, a10])
      (mzd_sum [b2, b3, b5, b7, b8, b9, b10]))
    X [2, 3, 5, 6, 7, 8, 11, 13, 14, 15, 16, 17, 18, 19]
  let X := _mzd_ptr_add_to_all_traced ff
    (mzd_mul_traced (mzd_sum [a0, a4, a5, a6, a7, a9])
      (mzd_sum [b0, b4, b5, b6, b7, b9]))
    X [2, 6, 7, 10, 11, 13, 14, 16, 17, 18]
  let X := _mzd_ptr_add_to_all_traced ff
    (mzd_mul_traced (mzd_sum [a1, a5, a6, a7, a8, a10])
      (mzd_sum [b1, b5, b6, b7, b8, b10]))
    X [3, 7, 8, 11, 12, 14, 15, 17, 18, 19]
  let X := _mzd_ptr_add_to_all_traced ff
    (mzd_mul_traced (mzd_sum [a2, a6, a7, a8, a9])
      (mzd_sum [b2, b6, b7, b8, b9]))
    X [2, 3, 4, 7, 10, 14, 16, 18]
  let X := _mzd_ptr_add_to_all_traced ff
    (mzd_mul_traced (mzd_sum [a3, a4, a5, a6, a8, a10])
      (mzd_sum [b3, b4, b5, b6, b8, b10]))
    X [3, 4, 5, 8, 11, 15, 17, 19]
  let X := _mzd_ptr_add_to_all_traced ff
    (mzd_mul_traced (mzd_sum [a0, a1, a2, a3, a5, a7, a8])
      (mzd_sum [b0, b1, b2, b3, b5, b7, b8]))
    X [2, 3, 6, 8, 10, 12, 13, 15, 16, 19]
  let X := _mzd_ptr_add_to_all_traced ff
    (mzd_mul_traced (mzd_sum [a0, a1, a4, a8, a9, a10])
      (mzd_sum [b0, b1, b4, b8, b9, b10]))
    X [2, 3, 4, 5, 6, 7, 8, 10, 13, 14, 15, 16, 18, 19]
  let X := _mzd_ptr_add_to_all_traced ff
    (mzd_mul_traced (mzd_sum [a0, a2, a4, a5, a8])
      (mzd_sum [b0, b2, b4, b5, b8]))
    X [2, 3, 5, 10, 12, 16]
  let X := _mzd_ptr_add_to_all_traced ff
    (mzd_mul_traced (mzd_sum [a1, a3, a4, a7])
      (mzd_sum [b1, b3, b4, b7]))
    X [3, 4, 6, 11, 13, 17]
  let X := _mzd_ptr_add_to_all_traced ff
    (mzd_mul_traced (mzd_sum [a2, a3, a4, a5, a7, a9, a10])
      (mzd_sum [b2, b3, b4, b5, b7, b9, b10]))
    X [3, 5, 6, 7, 11, 12, 13, 14, 17, 18]
  X

/-- Embedding of `_mzd_ptr_addmul_karatsuba12` with a call counter: the same statements in the
same order, every `mzd_mul` call site counted once; the result is the updated plane array and
the number of Boolean matrix multiplications performed by the invocation. -/
def _mzd_ptr_addmul_karatsuba12_traced {n k m : ℕ} (ff : gf2e) (X : ℕ → mzd n m)
    (A : ℕ → mzd n k) (B : ℕ → mzd k m) : (ℕ → mzd n m) × ℕ :=
  let a0 := A 0
  let a1 := A 1
  let a2 := A 2
  let a3 := A 3
  let a4 := A 4
  let a5 := A 5
  let a6 := A 6
  let a7 := A 7
  let a8 := A 8
  let a9 := A 9
  let a10 := A 10
  let a11 := A 11
  let b0 := B 0
  let b1 := B 1
  let b2 := B 2
  let b3 := B 3
  let b4 := B 4
  let b5 := B 5
  let b6 := B 6
  let b7 := B 7
  let b8 := B 8
  let b9 := B 9
  let b10 := B 10
  let b11 := B 11
  let X := (X, 0)
  let X := _mzd_ptr_add_to_all_traced ff
    (mzd_mul_traced a11
      b11)
    X [1, 2, 3, 4, 5, 6, 7, 16, 17, 18, 19, 20, 21, 22]
  let X := _mzd_ptr_add_to_all_traced ff
    (mzd_mul_traced a0
      b0)
    X [0, 1, 2, 3, 4, 5, 6, 15, 16, 17, 18, 19, 20, 21]
  let X := _mzd_ptr_add_to_all_traced ff
    (mzd_mul_traced (mzd_sum [a0, a1, a2, a3, a4, a5, a6, a7, a8, a9, a10, a11])
      (mzd_sum [b0, b1, b2, b3, b4, b5, b6, b7, b8, b9, b10, b11]))
    X [1, 3, 5, 7, 8, 9, 10, 11, 12, 13, 14, 15, 17, 19, 21]
  let X := _mzd_ptr_add_to_all_traced ff
    (mzd_mul_traced (mzd_sum [a0, a2, a3, a5, a6, a8, a9, a11])
      (mzd_sum [b0, b2, b3, b5, b6, b8, b9, b11]))
    X [1, 2, 4, 5, 7, 9, 10, 12, 13, 15, 17, 18, 20, 21]
  let X := _mzd_ptr_add_to_all_traced ff
    (mzd_mul_traced (mzd_sum [a1, a2, a4, a5, a7, a8, a10, a11])
      (mzd_sum [b1, b2, b4, b5, b7, b8, b10, b11]))
    X [1, 4, 7, 8, 10, 11, 13, 14, 17, 20]
  let X := _mzd_ptr_add_to_all_traced ff
    (mzd_mul_traced (mzd_sum [a0, a1, a3, a4, a6, a7, a9, a10])
      (mzd_sum [b0, b1, b3, b4, b6, b7, b9, b10]))
    X [2, 5, 8, 9, 11, 12, 14, 15, 18, 21]
  let X := _mzd_ptr_add_to_all_traced ff
    (mzd_mul_traced (mzd_sum [a0, a3, a5, a6, a7, a10])
      (mzd_sum [b0, b3, b5, b6, b7, b10]))
    X [2, 3, 4, 6, 17, 18, 19, 21]
  let X := _mzd_ptr_add_to_all_traced ff
    (mzd_mul_traced (mzd_sum [a1, a3, a4, a5, a8, a10, a11])
      (mzd_sum [b1, b3, b4, b5, b8, b10, b11]))
    X [1, 2, 6, 16, 17, 21]
  let X := _mzd_ptr_add_to_all_traced ff
    (mzd_mul_traced (mzd_sum [a2, a4, a5, a6, a9, a11])
      (mzd_sum [b2, b4, b5, b6, b9, b11]))
    X [1, 4, 5, 6, 16, 19, 20, 21]
  let X := _mzd_ptr_add_to_all_traced ff
    (mzd_mul_traced (mzd_sum [a0, a1, a4, a6, a7, a8, a11])
      (mzd_sum [b0, b1, b4, b6, b7, b8, b11]))
    X [1, 3, 4, 16, 18, 19]
  let X := _mzd_ptr_add_to_all_traced ff
    (mzd_mul_traced (mzd_sum [a0, a2, a3, a4, a7, a9, a10, a11])
      (mzd_sum [b0, b2, b3, b4, b7, b9, b10, b11]))
    X [2, 4, 5, 17, 19, 20]
  let X := _mzd_ptr_add_to_all_traced ff
    (mzd_mul_traced (mzd_sum [a1, a2, a3, a6, a8, a9, a10])
      (mzd_sum [b1, b2, b3, b6, b8, b9, b10]))
    X [3, 5, 6, 18, 20, 21]
  let X := _mzd_ptr_add_to_all_traced ff
    (mzd_mul_traced (mzd_sum [a0, a3, a4, a5, a7, a10, a11])
      (mzd_sum [b0, b3, b4, b5, b7, b10, b11]))
    X [2, 4, 5, 6, 17, 19, 20, 21]
  let X := _mzd_ptr_add_to_all_traced ff
    (mzd_mul_traced (mzd_sum [a1, a4, a5, a6, a8, a11])
      (mzd_sum [b1, b4, b5, b6, b8, b11]))
    X [1, 2, 4, 16, 17, 19]
  let X := _mzd_ptr_add_to_all_traced ff
    (mzd_mul_traced (mzd_sum [a2, a3, a4, a6, a9, a10, a11])
      (mzd_sum [b2, b3, b4, b6, b9, b10, b11]))
    X [2, 3, 5, 17, 18, 20]
  let X := _mzd_ptr_add_to_all_traced ff
    (mzd_mul_traced (mzd_sum [a0, a1, a3, a6, a7, a8, a10])
      (mzd_sum [b0, b1, b3, b6, b7, b8, b10]))
    X [1, 2, 3, 6, 16, 17, 18, 21]
  let X := _mzd_ptr_add_to_all_traced ff
    (mzd_mul_traced (mzd_sum [a0, a2, a5, a6, a7, a9])
      (mzd_sum [b0, b2, b5, b6, b7, b9]))
    X [1, 5, 6, 16, 20, 21]
  let X := _mzd_ptr_add_to_all_traced ff
    (mzd_mul_traced (mzd_sum [a1, a2, a3, a5, a8, a9, a10])
      (mzd_sum [b1, b2, b3, b5, b8, b9, b10]))
    X [1, 3, 4, 5, 16, 18, 19, 20]
  let X := _mzd_ptr_add_to_all_traced ff
    (mzd_mul_traced (mzd_sum [a0, a4, a7, a8, a10])
      (mzd_sum [b0, b4, b7, b8, b10]))
    X [1, 2, 3, 9, 13, 14, 15, 17, 20, 21]
  let X := _mzd_ptr_add_to_all_traced ff
    (mzd_mul_traced (mzd_sum [a1, a4, a5, a7, a9, a10, a11])
      (mzd_sum [b1, b4, b5, b7, b9, b10, b11]))
    X [1, 5, 6, 7, 10, 14, 15, 17, 19, 20]
  let X := _mzd_ptr_add_to_all_traced ff
    (mzd_mul_traced (mzd_sum [a2, a5, a6, a8, a10, a11])
      (mzd_sum [b2, b5, b6, b8, b10, b11]))
    X [2, 6, 7, 8, 11, 15, 16, 18, 20, 21]
  let X := _mzd_ptr_add_to_all_traced ff
    (mzd_mul_traced (mzd_sum [a3, a6, a7, a9, a11])
      (mzd_sum [b3, b6, b7, b9, b11]))
    X [1, 2, 4, 5, 6, 8, 9, 12, 18, 20]
  let X := _mzd_ptr_add_to_all_traced ff
    (mzd_mul_traced (mzd_sum [a0, a1, a2, a3, a7, a10, a11])
      (mzd_sum [b0, b1, b2, b3, b7, b10, b11]))
    X [1, 4, 5, 7, 9, 11, 12, 15, 16, 21]
  let X := _mzd_ptr_add_to_all_traced ff
    (mzd_mul_traced (mzd_sum [a0, a1, a5, a8, a9, a11])
      (mzd_sum [b0, b1, b5, b8, b9, b11]))
    X [1, 2, 3, 4, 6, 10, 11, 12, 13, 15, 16, 19]
  let X := _mzd_ptr_add_to_all_traced ff
    (mzd_mul_traced (mzd_sum [a0, a2, a4, a5, a6, a7, a11])
      (mzd_sum [b0, b2, b4, b5, b6, b7, b11]))
    X [2, 4, 7, 8, 9, 10, 12, 14, 15, 17, 18, 19]
  let X := _mzd_ptr_add_to_all_traced ff
    (mzd_mul_traced (mzd_sum [a1, a3, a4, a5, a6, a10])
      (mzd_sum [b1, b3, b4, b5, b6, b10]))
    X [3, 5, 8, 9, 10, 11, 13, 15, 16, 18, 19, 20]
  let X := _mzd_ptr_add_to_all_traced ff
    (mzd_mul_traced (mzd_sum [a2, a3, a5, a7, a8, a9, a10])
      (mzd_sum [b2, b3, b5, b7, b8, b9, b10]))
    X [3, 4, 5, 6, 8, 12, 13, 14, 15, 17, 18, 21]
  let X := _mzd_ptr_add_to_all_traced ff
    (mzd_mul_traced (mzd_sum [a0, a4, a5, a6, a7, a9, a11])
      (mzd_sum [b0, b4, b5, b6, b7, b9, b11]))
    X [1, 3, 9, 12, 13, 15, 16, 17, 19, 20]
  let X := _mzd_ptr_add_to_all_traced ff
    (mzd_mul_traced (mzd_sum [a1, a5, a6, a7, a8, a10])
      (mzd_sum [b1, b5, b6, b7, b8, b10]))
    X [2, 4, 10, 13, 14, 16, 17, 18, 20, 21]
  let X := _mzd_ptr_add_to_all_traced ff
    (mzd_mul_traced (mzd_sum [a2, a6, a7, a8, a9, a11])
      (mzd_sum [b2, b6, b7, b8, b9, b11]))
    X [1, 2, 4, 6, 7, 11, 14, 15, 16, 20]
  let X := _mzd_ptr_add_to_all_traced ff
    (mzd_mul_traced (mzd_sum [a3, a4, a5, a6, a8, a10, a11])
      (mzd_sum [b3, b4, b5, b6, b8, b10, b11]))
    X [2, 3, 5, 7, 8, 12, 15, 16, 17, 21]
  let X := _mzd_ptr_add_to_all_traced ff
    (mzd_mul_traced (mzd_sum [a0, a1, a2, a3, a5, a7, a8, a11])
      (mzd_sum [b0, b1, b2, b3, b5, b7, b8, b11]))
    X [1, 2, 3, 4, 9, 10, 12, 14, 15, 18, 19, 21]
  let X := _mzd_ptr_add_to_all_traced ff
    (mzd_mul_traced (mzd_sum [a0, a1, a4, a8, a9, a10, a11])
      (mzd_sum [b0, b1, b4, b8, b9, b10, b11]))
    X [1, 2, 5, 7, 8, 9, 13, 19, 20, 21]
  let X := _mzd_ptr_add_to_all_traced ff
    (mzd_mul_traced (mzd_sum [a0, a2, a4, a5, a8])
      (mzd_sum [b0, b2, b4, b5, b8]))
    X [1, 2, 3, 5, 6, 8, 10, 11, 12, 13, 16, 18]
  let X := _mzd_ptr_add_to_all_traced ff
    (mzd_mul_traced (mzd_sum [a1, a3, a4, a7, a11])
      (mzd_sum [b1, b3, b4, b7, b11]))
    X [2, 3, 4, 6, 7, 9, 11, 12, 13, 14, 17, 19]
  let X := _mzd_ptr_add_to_all_traced ff
    (mzd_mul_traced (mzd_sum [a2, a3, a4, a5, a7, a9, a10])
      (mzd_sum [b2, b3, b4, b5, b7, b9, b10]))
    X [2, 5, 6, 8, 9, 10, 11, 15, 17, 18, 19, 20]
  let X := _mzd_ptr_add_to_all_traced ff
    (mzd_mul_traced (mzd_sum [a0, a4, a5, a9, a10])
      (mzd_sum [b0, b4, b5, b9, b10]))
    X [2, 3, 4, 7, 8, 10, 11, 12, 13, 15, 16, 19, 20, 21]
  let X := _mzd_ptr_add_to_all_traced ff
    (mzd_mul_traced (mzd_sum [a1, a4, a6, a9, a11])
      (mzd_sum [b1, b4, b6, b9, b11]))
    X [1, 2, 6, 7, 8, 9, 11, 12, 13, 14, 18, 19]
  let X := _mzd_ptr_add_to_all_traced ff
    (mzd_mul_traced (mzd_sum [a2, a4, a7, a9])
      (mzd_sum [b2, b4, b7, b9]))
    X [2, 3, 7, 8, 9, 10, 12, 13, 14, 15, 19, 20]
  let X := _mzd_ptr_add_to_all_traced ff
    (mzd_mul_traced (mzd_sum [a3, a4, a8, a9])
      (mzd_sum [b3, b4, b8, b9]))
    X [3, 4, 8, 9, 10, 11, 13, 14, 15, 16, 20, 21]
  let X := _mzd_ptr_add_to_all_traced ff
    (mzd_mul_traced (mzd_sum [a0, a1, a2, a3, a5, a6, a7, a8, a10, a11])
      (mzd_sum [b0, b1, b2, b3, b5, b6, b7, b8, b10, b11]))
    X [1, 2, 3, 6, 7, 9, 10, 11, 12, 14, 15, 18, 19, 20]
  let X := _mzd_ptr_add_to_all_traced ff
    (mzd_mul_traced (mzd_sum [a0, a1, a5, a6, a10, a11])
      (mzd_sum [b0, b1, b5, b6, b10, b11]))
    X [1, 6, 8, 11, 13, 18]
  let X := _mzd_ptr_add_to_all_traced ff
    (mzd_mul_traced (mzd_sum [a0, a2, a5, a7, a10])
      (mzd_sum [b0, b2, b5, b7, b10]))
    X [1, 2, 4, 6, 7, 8, 12, 13, 16, 18, 19, 21]
  let X := _mzd_ptr_add_to_all_traced ff
    (mzd_mul_traced (mzd_sum [a1, a3, a6, a8, a11])
      (mzd_sum [b1, b3, b6, b8, b11]))
    X [1, 4, 6, 8, 9, 13, 14, 16, 18, 21]
  let X := _mzd_ptr_add_to_all_traced ff
    (mzd_mul_traced (mzd_sum [a2, a3, a7, a8])
      (mzd_sum [b2, b3, b7, b8]))
    X [3, 8, 10, 13, 15, 20]
  X

/-! ### Schedules as data -/

/-- One schedule triple: the `A` planes and the `B` planes that are summed before a single
Boolean matrix multiplication, and the target offsets receiving its result. -/
structure KStep where
  as : List ℕ
  bs : List ℕ
  ts : List ℕ

/-- Operand of a sub-multiplication: a single plane is used as it is, several planes are
summed with `mzd_sum`. -/
def planeSum {r c : ℕ} (P : ℕ → mzd r c) : List ℕ → mzd r c
  | [i] => P i
  | l => mzd_sum (l.map P)

/-- Execute one schedule triple. -/
def KStep.run {n k m : ℕ} (ff : gf2e) (A : ℕ → mzd n k) (B : ℕ → mzd k m) (X : ℕ → mzd n m)
    (s : KStep) : ℕ → mzd n m :=
  _mzd_ptr_add_to_all ff (mzd_mul (planeSum A s.as) (planeSum B s.bs)) X s.ts

/-- Execute a schedule, triple after triple. -/
def runSchedule {n k m : ℕ} (ff : gf2e) (A : ℕ → mzd n k) (B : ℕ → mzd k m) (X : ℕ → mzd n m)
    (S : List KStep) : ℕ → mzd n m :=
  S.foldl (KStep.run ff A B) X

/-- Number of times the product `A[i] * B[j]` is added into plane `c` by one triple. -/
def KStep.coef (s : KStep) (c i j : ℕ) : ℕ := s.ts.count c * (s.as.count i * s.bs.count j)

/-- Number of times the product `A[i] * B[j]` is added into plane `c` by a schedule. -/
def scheduleCoef (S : List KStep) (c i j : ℕ) : ℕ := (S.map fun s => s.coef c i j).sum

/-- All plane indices of a triple are in range for degree `e`. -/
def KStep.inRange (e : ℕ) (s : KStep) : Bool :=
  s.as.all (fun i => decide (i < e)) && s.bs.all (fun j => decide (j < e)) &&
    s.ts.all (fun t => decide (t < 2 * e - 1))

/-- Bit mask of a list of plane indices: bit `j` is set when `j` occurs an odd number of
times. -/
def planeMask (l : List ℕ) : ℕ := l.foldr (fun j acc => 2 ^ j ^^^ acc) 0

/-- Bit mask over `j` of the products `A[i] * B[j]` that one triple adds into plane `c` an odd
number of times. -/
def KStep.rowMask (s : KStep) (c i : ℕ) : ℕ :=
  if (s.ts.count c * s.as.count i) % 2 = 1 then planeMask s.bs else 0

/-- Bit mask over `j` of the products `A[i] * B[j]` that a schedule adds into plane `c` an odd
number of times. -/
def scheduleRowMask (S : List KStep) (c i : ℕ) : ℕ :=
  S.foldr (fun s acc => s.rowMask c i ^^^ acc) 0

/-- Checker: the schedule is a factoring of the degree-`e` schoolbook product over GF(2), that
is, plane `c` receives `A[i] * B[j]` an odd number of times exactly when `i + j = c`. -/
def scheduleCheck (e : ℕ) (S : List KStep) : Bool :=
  S.all (KStep.inRange e) &&
    (List.range (2 * e - 1)).all fun c =>
      (List.range e).all fun i =>
        scheduleRowMask S c i == if i ≤ c ∧ c - i < e then 2 ^ (c - i) else 0

/-- Reference: the O(e²) schoolbook accumulation, plane `c` receives the XOR over all
`i + j = c` of the Boolean matrix products `A[i] * B[j]`. -/
def schoolbook {n k m : ℕ} (e : ℕ) (X : ℕ → mzd n m) (A : ℕ → mzd n k) (B : ℕ → mzd k m) (c : ℕ) :
    mzd n m :=
  X c + ∑ i in Finset.range e, ∑ j in Finset.range e, if i + j = c then A i * B j else 0

/-- The triples of `_mzd_ptr_addmul_karatsuba2`, in program order. -/
def schedule2 : List KStep :=
  [⟨[0, 1], [0, 1], [1]⟩,
   ⟨[0], [0], [0, 1]⟩,
   ⟨[1], [1], [1, 2]⟩]

/-- The triples of `_mzd_ptr_addmul_karatsuba3`, in program order. -/
def schedule3 : List KStep :=
  [⟨[0, 1], [0, 1], [1]⟩,
   ⟨[0, 2], [0, 2], [2]⟩,
   ⟨[1, 2], [1, 2], [3]⟩,
   ⟨[0], [0], [0, 1, 2]⟩,
   ⟨[1], [1], [1, 2, 3]⟩,
   ⟨[2], [2], [2, 3, 4]⟩]

/-- The triples of `_mzd_ptr_addmul_karatsuba4`, in program order. -/
def schedule4 : List KStep :=
  [⟨[0, 1, 2, 3], [0, 1, 2, 3], [3]⟩,
   ⟨[0, 1], [0, 1], [1, 3]⟩,
   ⟨[0, 2], [0, 2], [2, 3]⟩,
   ⟨[1, 3], [1, 3], [3, 4]⟩,
   ⟨[2, 3], [2, 3], [3, 5]⟩,
   ⟨[0], [0], [0, 1, 2, 3]⟩,
   ⟨[1], [1], [1, 2, 3, 4]⟩,
   ⟨[2], [2], [2, 3, 4, 5]⟩,
   ⟨[3], [3], [3, 4, 5, 6]⟩]

/-- The triples of `_mzd_ptr_addmul_karatsuba5`, in program order. -/
def schedule5 : List KStep :=
  [⟨[0], [0], [6, 5, 4, 2, 1, 0]⟩,
   ⟨[1], [1], [4, 1]⟩,
   ⟨[3], [3], [7, 4]⟩,
   ⟨[4], [4], [8, 7, 6, 4, 3, 2]⟩,
   ⟨[0, 4], [0, 4], [6, 5, 3, 2]⟩,
   ⟨[0, 1], [0, 1], [5, 4, 2, 1]⟩,
   ⟨[3, 4], [3, 4], [7, 6, 4, 3]⟩,
   ⟨[1, 2, 4], [1, 2, 4], [4, 2]⟩,
   ⟨[0, 2, 3], [0, 2, 3], [6, 4]⟩,
   ⟨[0, 1, 3, 4], [0, 1, 3, 4], [5, 3]⟩,
   ⟨[0, 1, 2, 4], [0, 1, 2, 4], [5, 2]⟩,
   ⟨[0, 2, 3, 4], [0, 2, 3, 4], [6, 3]⟩,
   ⟨[0, 1, 2, 3, 4], [0, 1, 2, 3, 4], [5, 4, 3]⟩]

/-- The triples of `_mzd_ptr_addmul_karatsuba6`, in program order. -/
def schedule6 : List KStep :=
  [⟨[0], [0], [6, 5, 1, 0]⟩,
   ⟨[1], [1], [7, 6, 5, 4, 3, 1]⟩,
   ⟨[4], [4], [9, 7, 5, 3]⟩,
   ⟨[5], [5], [10, 9, 6, 5]⟩,
   ⟨[4, 5], [4, 5], [9, 8, 4, 3]⟩,
   ⟨[0, 1], [0, 1], [7, 4, 2, 1]⟩,
   ⟨[3, 4], [3, 4], [8, 7, 6, 3]⟩,
   ⟨[1, 2], [1, 2], [7, 6, 3, 2]⟩,
   ⟨[1, 4], [1, 4], [4, 5]⟩,
   ⟨[2, 3], [2, 3], [7, 6, 4, 3]⟩,
   ⟨[3, 4, 5], [3, 4, 5], [8, 6, 4, 3]⟩,
   ⟨[0, 1, 2], [0, 1, 2], [7, 2]⟩,
   ⟨[0, 3, 5], [0, 3, 5], [7, 5]⟩,
   ⟨[0, 2, 5], [0, 2, 5], [6, 5, 4, 3]⟩,
   ⟨[0, 2, 3, 5], [0, 2, 3, 5], [7, 5, 4, 3]⟩,
   ⟨[0, 1, 3, 4], [0, 1, 3, 4], [6, 4]⟩,
   ⟨[0, 1, 2, 3, 4, 5], [0, 1, 2, 3, 4, 5], [6]⟩]

/-- The triples of `_mzd_ptr_addmul_karatsuba7`, in program order. -/
def schedule7 : List KStep :=
  [⟨[0, 1, 2, 3, 4, 5, 6], [0, 1, 2, 3, 4, 5, 6], [7, 6, 5]⟩,
   ⟨[1, 2, 3, 5, 6], [1, 2, 3, 5, 6], [9, 6]⟩,
   ⟨[0, 1, 3, 4, 5], [0, 1, 3, 4, 5], [6, 3]⟩,
   ⟨[0, 2, 3, 4, 6], [0, 2, 3, 4, 6], [9, 3]⟩,
   ⟨[0, 2, 3, 5, 6], [0, 2, 3, 5, 6], [7, 3]⟩,
   ⟨[0, 1, 3, 4, 6], [0, 1, 3, 4, 6], [9, 5]⟩,
   ⟨[1, 2, 4, 5], [1, 2, 4, 5], [9, 7, 5, 3]⟩,
   ⟨[0, 1], [0, 1], [9, 7, 3, 1]⟩,
   ⟨[0, 2], [0, 2], [9, 6, 5, 2]⟩,
   ⟨[0, 4], [0, 4], [7, 4]⟩,
   ⟨[1, 3], [1, 3], [7, 6, 4, 3]⟩,
   ⟨[2, 6], [2, 6], [8, 5]⟩,
   ⟨[3, 5], [3, 5], [9, 8, 6, 5]⟩,
   ⟨[4, 6], [4, 6], [10, 7, 6, 3]⟩,
   ⟨[5, 6], [5, 6], [11, 9, 5, 3]⟩,
   ⟨[0], [0], [6, 5, 4, 2, 1, 0]⟩,
   ⟨[1], [1], [5, 4, 2, 1]⟩,
   ⟨[2], [2], [8, 7, 6, 4, 3, 2]⟩,
   ⟨[3], [3], [8, 7, 5, 4]⟩,
   ⟨[4], [4], [10, 9, 8, 6, 5, 4]⟩,
   ⟨[5], [5], [11, 10, 8, 7]⟩,
   ⟨[6], [6], [12, 11, 10, 8, 7, 6]⟩]

/-- The triples of `_mzd_ptr_addmul_karatsuba8`, in program order. -/
def schedule8 : List KStep :=
  [⟨[0], [0], [0, 1, 2, 3, 4, 5, 6, 7]⟩,
   ⟨[1], [1], [1, 2, 3, 4, 5, 6, 7, 8]⟩,
   ⟨[2], [2], [2, 3, 4, 5, 6, 7, 8, 9]⟩,
   ⟨[3], [3], [3, 4, 5, 6, 7, 8, 9, 10]⟩,
   ⟨[4], [4], [4, 5, 6, 7, 8, 9, 10, 11]⟩,
   ⟨[5], [5], [5, 6, 7, 8, 9, 10, 11, 12]⟩,
   ⟨[6], [6], [6, 7, 8, 9, 10, 11, 12, 13]⟩,
   ⟨[7], [7], [7, 8, 9, 10, 11, 12, 13, 14]⟩,
   ⟨[0, 2], [0, 2], [2, 3, 6, 7]⟩,
   ⟨[2, 3], [2, 3], [3, 5, 7, 9]⟩,
   ⟨[2, 6], [2, 6], [6, 7, 8, 9]⟩,
   ⟨[4, 5], [4, 5], [5, 7, 9, 11]⟩,
   ⟨[6, 7], [6, 7], [7, 9, 11, 13]⟩,
   ⟨[0, 1, 2, 3], [0, 1, 2, 3], [3, 7]⟩,
   ⟨[5, 7], [5, 7], [7, 8, 11, 12]⟩,
   ⟨[0, 4], [0, 4], [4, 5, 6, 7]⟩,
   ⟨[1, 3], [1, 3], [3, 4, 7, 8]⟩,
   ⟨[1, 3, 5, 7], [1, 3, 5, 7], [7, 8]⟩,
   ⟨[0, 1], [0, 1], [1, 3, 5, 7]⟩,
   ⟨[4, 6], [4, 6], [6, 7, 10, 11]⟩,
   ⟨[1, 5], [1, 5], [5, 6, 7, 8]⟩,
   ⟨[0, 1, 2, 3, 4, 5, 6, 7], [0, 1, 2, 3, 4, 5, 6, 7], [7]⟩,
   ⟨[0, 2, 4, 6], [0, 2, 4, 6], [6, 7]⟩,
   ⟨[0, 1, 4, 5], [0, 1, 4, 5], [5, 7]⟩,
   ⟨[2, 3, 6, 7], [2, 3, 6, 7], [7, 9]⟩,
   ⟨[3, 7], [3, 7], [7, 8, 9, 10]⟩,
   ⟨[4, 5, 6, 7], [4, 5, 6, 7], [7, 11]⟩]

/-- The triples of `_mzd_ptr_addmul_karatsuba9`, in program order. -/
def schedule9 : List KStep :=
  [⟨[8], [8], [2, 3, 5, 10, 12, 16]⟩,
   ⟨[0], [0], [0, 1, 3, 8, 10, 14]⟩,
   ⟨[1], [1], [1, 2, 4, 9, 11, 15]⟩,
   ⟨[0, 1], [0, 1], [1, 2, 4, 9, 11, 15]⟩,
   ⟨[0, 2, 4, 6, 8], [0, 2, 4, 6, 8], [2, 5, 6, 7, 8, 9, 12, 13, 14, 15]⟩,
   ⟨[1, 3, 5, 7], [1, 3, 5, 7], [2, 5, 6, 7, 8, 9, 12, 13, 14, 15]⟩,
   ⟨[0, 1, 2, 3, 4, 5, 6, 7, 8], [0, 1, 2, 3, 4, 5, 6, 7, 8], [2, 3, 4, 6, 8, 12, 14]⟩,
   ⟨[0, 2, 3, 5, 6, 8], [0, 2, 3, 5, 6, 8], [2, 3, 4, 5, 6, 8, 9, 10, 11, 12, 13, 15]⟩,
   ⟨[1, 2, 4, 5, 7, 8], [1, 2, 4, 5, 7, 8], [2, 4, 6, 7, 9, 11, 13, 14]⟩,
   ⟨[0, 1, 3, 4, 6, 7], [0, 1, 3, 4, 6, 7], [3, 5, 7, 8, 10, 12, 14, 15]⟩,
   ⟨[0, 3, 5, 6, 7], [0, 3, 5, 6, 7], [2, 3, 10, 12, 13, 14]⟩,
   ⟨[1, 3, 4, 5, 8], [1, 3, 4, 5, 8], [3, 4, 11, 13, 14, 15]⟩,
   ⟨[2, 4, 5, 6], [2, 4, 5, 6], [2, 3, 4, 10, 14, 15]⟩,
   ⟨[0, 1, 4, 6, 7, 8], [0, 1, 4, 6, 7, 8], [2, 4, 10, 11, 12, 15]⟩,
   ⟨[0, 2, 3, 4, 7], [0, 2, 3, 4, 7], [2, 10, 11, 13]⟩,
   ⟨[1, 2, 3, 6, 8], [1, 2, 3, 6, 8], [3, 11, 12, 14]⟩,
   ⟨[0, 3, 4, 5, 7], [0, 3, 4, 5, 7], [3, 4, 5, 6, 9, 12, 13, 14]⟩,
   ⟨[1, 4, 5, 6, 8], [1, 4, 5, 6, 8], [4, 5, 6, 7, 10, 13, 14, 15]⟩,
   ⟨[2, 3, 4, 6], [2, 3, 4, 6], [2, 3, 6, 7, 8, 10, 11, 12, 14, 15]⟩,
   ⟨[0, 1, 3, 6, 7, 8], [0, 1, 3, 6, 7, 8], [2, 6, 8, 9, 11, 14]⟩,
   ⟨[0, 2, 5, 6, 7], [0, 2, 5, 6, 7], [3, 7, 9, 10, 12, 15]⟩,
   ⟨[1, 2, 3, 5, 8], [1, 2, 3, 5, 8], [2, 3, 4, 5, 8, 11, 12, 13]⟩,
   ⟨[0, 4, 7, 8], [0, 4, 7, 8], [4, 7, 11, 14]⟩,
   ⟨[1, 4, 5, 7], [1, 4, 5, 7], [5, 8, 12, 15]⟩,
   ⟨[2, 5, 6, 8], [2, 5, 6, 8], [2, 3, 5, 6, 9, 10, 12, 13]⟩,
   ⟨[3, 6, 7], [3, 6, 7], [3, 4, 6, 7, 10, 11, 13, 14]⟩,
   ⟨[0, 1, 2, 3, 7], [0, 1, 2, 3, 7], [2, 4, 5, 7, 9, 11, 12, 14]⟩,
   ⟨[0, 1, 5, 8], [0, 1, 5, 8], [2, 8, 9, 15]⟩,
   ⟨[0, 2, 4, 5, 6, 7], [0, 2, 4, 5, 6, 7], [3, 4, 5, 6, 7, 8, 10, 11, 12, 13, 14, 15]⟩,
   ⟨[1, 3, 4, 5, 6], [1, 3, 4, 5, 6], [2, 3, 4, 6, 7, 8, 9, 10, 11, 13, 14, 15]⟩,
   ⟨[2, 3, 5, 7, 8], [2, 3, 5, 7, 8], [3, 6, 10, 13]⟩]

/-- The triples of `_mzd_ptr_addmul_karatsuba10`, in program order. -/
def schedule10 : List KStep :=
  [⟨[9], [9], [1, 6, 8, 11, 13, 18]⟩,
   ⟨[0], [0], [0, 5, 7, 10, 12, 17]⟩,
   ⟨[0, 1, 2, 3, 4, 5, 6, 7, 8, 9], [0, 1, 2, 3, 4, 5, 6, 7, 8, 9], [1, 2, 3, 4, 5, 8, 9, 10, 13, 14, 15, 16, 17]⟩,
   ⟨[0, 2, 3, 5, 6, 8, 9], [0, 2, 3, 5, 6, 8, 9], [2, 3, 5, 6, 7, 12, 13, 14, 16, 17]⟩,
   ⟨[1, 2, 4, 5, 7, 8], [1, 2, 4, 5, 7, 8], [1, 3, 4, 7, 11, 14, 15, 17]⟩,
   ⟨[0, 1, 3, 4, 6, 7, 9], [0, 1, 3, 4, 6, 7, 9], [1, 2, 4, 5, 6, 11, 12, 13, 15, 16]⟩,
   ⟨[0, 3, 5, 6, 7], [0, 3, 5, 6, 7], [1, 3, 7, 8, 12, 13, 16, 17]⟩,
   ⟨[1, 3, 4, 5, 8], [1, 3, 4, 5, 8], [1, 2, 4, 6, 9, 11, 14, 17]⟩,
   ⟨[2, 4, 5, 6, 9], [2, 4, 5, 6, 9], [1, 2, 3, 5, 6, 7, 8, 10, 11, 12, 13, 15]⟩,
   ⟨[0, 1, 4, 6, 7, 8], [0, 1, 4, 6, 7, 8], [2, 3, 4, 6, 7, 8, 9, 11, 12, 13, 14, 16]⟩,
   ⟨[0, 2, 3, 4, 7, 9], [0, 2, 3, 4, 7, 9], [3, 4, 5, 7, 8, 9, 10, 12, 13, 14, 15, 17]⟩,
   ⟨[1, 2, 3, 6, 8, 9], [1, 2, 3, 6, 8, 9], [1, 4, 5, 9, 10, 14, 15, 16]⟩,
   ⟨[0, 3, 4, 5, 7], [0, 3, 4, 5, 7], [3, 5, 6, 7, 8, 10, 11, 12, 13, 15, 16, 17]⟩,
   ⟨[1, 4, 5, 6, 8], [1, 4, 5, 6, 8], [1, 4, 7, 9, 12, 14, 16, 17]⟩,
   ⟨[2, 3, 4, 6, 9], [2, 3, 4, 6, 9], [1, 2, 5, 6, 10, 11, 15, 17]⟩,
   ⟨[0, 1, 3, 6, 7, 8], [0, 1, 3, 6, 7, 8], [2, 3, 4, 8, 9, 13, 14, 17]⟩,
   ⟨[0, 2, 5, 6, 7, 9], [0, 2, 5, 6, 7, 9], [1, 3, 4, 5, 6, 8, 9, 10, 11, 13, 14, 15]⟩,
   ⟨[1, 2, 3, 5, 8, 9], [1, 2, 3, 5, 8, 9], [2, 4, 5, 6, 7, 9, 10, 11, 12, 14, 15, 16]⟩,
   ⟨[0, 4, 7, 8], [0, 4, 7, 8], [1, 2, 4, 8, 10, 11, 16, 17]⟩,
   ⟨[1, 4, 5, 7, 9], [1, 4, 5, 7, 9], [1, 2, 3, 5, 6, 8, 9, 12, 13, 17]⟩,
   ⟨[2, 5, 6, 8], [2, 5, 6, 8], [1, 2, 3, 4, 7, 8, 9, 10, 11, 14]⟩,
   ⟨[3, 6, 7, 9], [3, 6, 7, 9], [2, 3, 4, 5, 8, 9, 10, 11, 12, 15]⟩,
   ⟨[0, 1, 2, 3, 7], [0, 1, 2, 3, 7], [1, 5, 7, 12, 14, 15]⟩,
   ⟨[0, 1, 5, 8, 9], [0, 1, 5, 8, 9], [1, 3, 4, 6, 7, 9, 10, 11, 13, 14, 15, 16]⟩,
   ⟨[0, 2, 4, 5, 6, 7], [0, 2, 4, 5, 6, 7], [1, 4, 6, 10, 11, 13, 15, 17]⟩,
   ⟨[1, 3, 4, 5, 6], [1, 3, 4, 5, 6], [1, 2, 5, 6, 7, 8, 12, 13, 14, 16]⟩,
   ⟨[2, 3, 5, 7, 8, 9], [2, 3, 5, 7, 8, 9], [1, 3, 5, 9, 12, 15, 16, 17]⟩,
   ⟨[0, 4, 5, 6, 7, 9], [0, 4, 5, 6, 7, 9], [1, 2, 7, 8, 10, 14, 16, 17]⟩,
   ⟨[1, 5, 6, 7, 8], [1, 5, 6, 7, 8], [1, 2, 3, 6, 9, 13, 15, 17]⟩,
   ⟨[2, 6, 7, 8, 9], [2, 6, 7, 8, 9], [1, 2, 3, 4, 6, 7, 8, 10, 11, 13, 14, 16]⟩,
   ⟨[3, 4, 5, 6, 8], [3, 4, 5, 6, 8], [2, 3, 4, 5, 7, 8, 9, 11, 12, 14, 15, 17]⟩,
   ⟨[0, 1, 2, 3, 5, 7, 8], [0, 1, 2, 3, 5, 7, 8], [3, 6, 7, 8, 9, 10, 13, 14, 15, 16]⟩,
   ⟨[0, 1, 4, 8, 9], [0, 1, 4, 8, 9], [1, 3, 4, 5, 9, 10, 11, 12, 15, 16]⟩,
   ⟨[0, 2, 4, 5, 8], [0, 2, 4, 5, 8], [2, 3, 5, 10, 12, 16]⟩,
   ⟨[1, 3, 4, 7], [1, 3, 4, 7], [3, 4, 6, 11, 13, 17]⟩,
   ⟨[2, 3, 4, 5, 7, 9], [2, 3, 4, 5, 7, 9], [1, 3, 5, 7, 8, 12, 14, 17]⟩]

/-- The triples of `_mzd_ptr_addmul_karatsuba11`, in program order. -/
def schedule11 : List KStep :=
  [⟨[10], [10], [2, 3, 7, 8, 9, 10, 12, 13, 14, 15, 19, 20]⟩,
   ⟨[0, 2, 3, 5, 6, 8, 9], [0, 2, 3, 5, 6, 8, 9], [3, 5, 6, 9, 13, 16, 17, 19]⟩,
   ⟨[1, 2, 4, 5, 7, 8, 10], [1, 2, 4, 5, 7, 8, 10], [2, 3, 4, 6, 8, 9, 12, 13, 15, 17, 18, 19]⟩,
   ⟨[0, 1, 3, 4, 6, 7, 9, 10], [0, 1, 3, 4, 6, 7, 9, 10], [2, 4, 5, 8, 12, 15, 16, 18]⟩,
   ⟨[0], [0], [0, 1, 5, 6, 7, 8, 10, 11, 12, 13, 17, 18]⟩,
   ⟨[1], [1], [1, 2, 6, 7, 8, 9, 11, 12, 13, 14, 18, 19]⟩,
   ⟨[0, 1], [0, 1], [1, 2, 6, 7, 8, 9, 11, 12, 13, 14, 18, 19]⟩,
   ⟨[0, 2, 4, 6, 8, 10], [0, 2, 4, 6, 8, 10], [2, 7, 9, 12, 14, 19]⟩,
   ⟨[1, 3, 5, 7, 9], [1, 3, 5, 7, 9], [2, 7, 9, 12, 14, 19]⟩,
   ⟨[0, 1, 2, 3, 4, 5, 6, 7, 8, 9, 10], [0, 1, 2, 3, 4, 5, 6, 7, 8, 9, 10], [3, 4, 5, 6, 7, 10, 11, 12, 15, 16, 17, 18, 19]⟩,
   ⟨[0, 3, 5, 6, 7, 10], [0, 3, 5, 6, 7, 10], [3, 6, 7, 11, 12, 16, 17, 18]⟩,
   ⟨[1, 3, 4, 5, 8, 10], [1, 3, 4, 5, 8, 10], [4, 7, 8, 12, 13, 17, 18, 19]⟩,
   ⟨[2, 4, 5, 6, 9], [2, 4, 5, 6, 9], [2, 3, 5, 7, 10, 12, 15, 18]⟩,
   ⟨[0, 1, 4, 6, 7, 8], [0, 1, 4, 6, 7, 8], [3, 4, 6, 8, 11, 13, 16, 19]⟩,
   ⟨[0, 2, 3, 4, 7, 9, 10], [0, 2, 3, 4, 7, 9, 10], [2, 3, 4, 5, 8, 10, 13, 15, 17, 19]⟩,
   ⟨[1, 2, 3, 6, 8, 9, 10], [1, 2, 3, 6, 8, 9, 10], [2, 4, 5, 6, 7, 8, 10, 11, 12, 13, 15, 16, 18, 19]⟩,
   ⟨[0, 3, 4, 5, 7, 10], [0, 3, 4, 5, 7, 10], [2, 3, 5, 6, 8, 9, 10, 11, 13, 14, 15, 16, 17, 19]⟩,
   ⟨[1, 4, 5, 6, 8], [1, 4, 5, 6, 8], [2, 4, 6, 8, 11, 13, 16, 17, 18, 19]⟩,
   ⟨[2, 3, 4, 6, 9, 10], [2, 3, 4, 6, 9, 10], [2, 5, 8, 10, 13, 15, 17, 18]⟩,
   ⟨[0, 1, 3, 6, 7, 8, 10], [0, 1, 3, 6, 7, 8, 10], [2, 3, 4, 8, 9, 13, 14, 17]⟩,
   ⟨[0, 2, 5, 6, 7, 9], [0, 2, 5, 6, 7, 9], [3, 4, 5, 9, 10, 14, 15, 18]⟩,
   ⟨[1, 2, 3, 5, 8, 9, 10], [1, 2, 3, 5, 8, 9, 10], [4, 5, 6, 10, 11, 15, 16, 19]⟩,
   ⟨[0, 4, 7, 8, 10], [0, 4, 7, 8, 10], [2, 4, 6, 10, 13, 16, 17, 18]⟩,
   ⟨[1, 4, 5, 7, 9, 10], [1, 4, 5, 7, 9, 10], [3, 5, 7, 11, 14, 17, 18, 19]⟩,
   ⟨[2, 5, 6, 8, 10], [2, 5, 6, 8, 10], [2, 3, 4, 6, 7, 9, 10, 13, 14, 18]⟩,
   ⟨[3, 6, 7, 9], [3, 6, 7, 9], [3, 4, 5, 7, 8, 10, 11, 14, 15, 19]⟩,
   ⟨[0, 1, 2, 3, 7, 10], [0, 1, 2, 3, 7, 10], [2, 5, 6, 8, 9, 11, 13, 15, 18, 19]⟩,
   ⟨[0, 1, 5, 8, 9], [0, 1, 5, 8, 9], [3, 4, 7, 8, 9, 10, 14, 15, 16, 18]⟩,
   ⟨[0, 2, 4, 5, 6, 7], [0, 2, 4, 5, 6, 7], [4, 8, 10, 15, 17, 18]⟩,
   ⟨[1, 3, 4, 5, 6, 10], [1, 3, 4, 5, 6, 10], [5, 9, 11, 16, 18, 19]⟩,
   ⟨[2, 3, 5, 7, 8, 9, 10], [2, 3, 5, 7, 8, 9, 10], [2, 3, 5, 6, 7, 8, 11, 13, 14, 15, 16, 17, 18, 19]⟩,
   ⟨[0, 4, 5, 6, 7, 9], [0, 4, 5, 6, 7, 9], [2, 6, 7, 10, 11, 13, 14, 16, 17, 18]⟩,
   ⟨[1, 5, 6, 7, 8, 10], [1, 5, 6, 7, 8, 10], [3, 7, 8, 11, 12, 14, 15, 17, 18, 19]⟩,
   ⟨[2, 6, 7, 8, 9], [2, 6, 7, 8, 9], [2, 3, 4, 7, 10, 14, 16, 18]⟩,
   ⟨[3, 4, 5, 6, 8, 10], [3, 4, 5, 6, 8, 10], [3, 4, 5, 8, 11, 15, 17, 19]⟩,
   ⟨[0, 1, 2, 3, 5, 7, 8], [0, 1, 2, 3, 5, 7, 8], [2, 3, 6, 8, 10, 12, 13, 15, 16, 19]⟩,
   ⟨[0, 1, 4, 8, 9, 10], [0, 1, 4, 8, 9, 10], [2, 3, 4, 5, 6, 7, 8, 10, 13, 14, 15, 16, 18, 19]⟩,
   ⟨[0, 2, 4, 5, 8], [0, 2, 4, 5, 8], [2, 3, 5, 10, 12, 16]⟩,
   ⟨[1, 3, 4, 7], [1, 3, 4, 7], [3, 4, 6, 11, 13, 17]⟩,
   ⟨[2, 3, 4, 5, 7, 9, 10], [2, 3, 4, 5, 7, 9, 10], [3, 5, 6, 7, 11, 12, 13, 14, 17, 18]⟩]

/-- The triples of `_mzd_ptr_addmul_karatsuba12`, in program order. -/
def schedule12 : List KStep :=
  [⟨[11], [11], [1, 2, 3, 4, 5, 6, 7, 16, 17, 18, 19, 20, 21, 22]⟩,
   ⟨[0], [0], [0, 1, 2, 3, 4, 5, 6, 15, 16, 17, 18, 19, 20, 21]⟩,
   ⟨[0, 1, 2, 3, 4, 5, 6, 7, 8, 9, 10, 11], [0, 1, 2, 3, 4, 5, 6, 7, 8, 9, 10, 11], [1, 3, 5, 7, 8, 9, 10, 11, 12, 13, 14, 15, 17, 19, 21]⟩,
   ⟨[0, 2, 3, 5, 6, 8, 9, 11], [0, 2, 3, 5, 6, 8, 9, 11], [1, 2, 4, 5, 7, 9, 10, 12, 13, 15, 17, 18, 20, 21]⟩,
   ⟨[1, 2, 4, 5, 7, 8, 10, 11], [1, 2, 4, 5, 7, 8, 10, 11], [1, 4, 7, 8, 10, 11, 13, 14, 17, 20]⟩,
   ⟨[0, 1, 3, 4, 6, 7, 9, 10], [0, 1, 3, 4, 6, 7, 9, 10], [2, 5, 8, 9, 11, 12, 14, 15, 18, 21]⟩,
   ⟨[0, 3, 5, 6, 7, 10], [0, 3, 5, 6, 7, 10], [2, 3, 4, 6, 17, 18, 19, 21]⟩,
   ⟨[1, 3, 4, 5, 8, 10, 11], [1, 3, 4, 5, 8, 10, 11], [1, 2, 6, 16, 17, 21]⟩,
   ⟨[2, 4, 5, 6, 9, 11], [2, 4, 5, 6, 9, 11], [1, 4, 5, 6, 16, 19, 20, 21]⟩,
   ⟨[0, 1, 4, 6, 7, 8, 11], [0, 1, 4, 6, 7, 8, 11], [1, 3, 4, 16, 18, 19]⟩,
   ⟨[0, 2, 3, 4, 7, 9, 10, 11], [0, 2, 3, 4, 7, 9, 10, 11], [2, 4, 5, 17, 19, 20]⟩,
   ⟨[1, 2, 3, 6, 8, 9, 10], [1, 2, 3, 6, 8, 9, 10], [3, 5, 6, 18, 20, 21]⟩,
   ⟨[0, 3, 4, 5, 7, 10, 11], [0, 3, 4, 5, 7, 10, 11], [2, 4, 5, 6, 17, 19, 20, 21]⟩,
   ⟨[1, 4, 5, 6, 8, 11], [1, 4, 5, 6, 8, 11], [1, 2, 4, 16, 17, 19]⟩,
   ⟨[2, 3, 4, 6, 9, 10, 11], [2, 3, 4, 6, 9, 10, 11], [2, 3, 5, 17, 18, 20]⟩,
   ⟨[0, 1, 3, 6, 7, 8, 10], [0, 1, 3, 6, 7, 8, 10], [1, 2, 3, 6, 16, 17, 18, 21]⟩,
   ⟨[0, 2, 5, 6, 7, 9], [0, 2, 5, 6, 7, 9], [1, 5, 6, 16, 20, 21]⟩,
   ⟨[1, 2, 3, 5, 8, 9, 10], [1, 2, 3, 5, 8, 9, 10], [1, 3, 4, 5, 16, 18, 19, 20]⟩,
   ⟨[0, 4, 7, 8, 10], [0, 4, 7, 8, 10], [1, 2, 3, 9, 13, 14, 15, 17, 20, 21]⟩,
   ⟨[1, 4, 5, 7, 9, 10, 11], [1, 4, 5, 7, 9, 10, 11], [1, 5, 6, 7, 10, 14, 15, 17, 19, 20]⟩,
   ⟨[2, 5, 6, 8, 10, 11], [2, 5, 6, 8, 10, 11], [2, 6, 7, 8, 11, 15, 16, 18, 20, 21]⟩,
   ⟨[3, 6, 7, 9, 11], [3, 6, 7, 9, 11], [1, 2, 4, 5, 6, 8, 9, 12, 18, 20]⟩,
   ⟨[0, 1, 2, 3, 7, 10, 11], [0, 1, 2, 3, 7, 10, 11], [1, 4, 5, 7, 9, 11, 12, 15, 16, 21]⟩,
   ⟨[0, 1, 5, 8, 9, 11], [0, 1, 5, 8, 9, 11], [1, 2, 3, 4, 6, 10, 11, 12, 13, 15, 16, 19]⟩,
   ⟨[0, 2, 4, 5, 6, 7, 11], [0, 2, 4, 5, 6, 7, 11], [2, 4, 7, 8, 9, 10, 12, 14, 15, 17, 18, 19]⟩,
   ⟨[1, 3, 4, 5, 6, 10], [1, 3, 4, 5, 6, 10], [3, 5, 8, 9, 10, 11, 13, 15, 16, 18, 19, 20]⟩,
   ⟨[2, 3, 5, 7, 8, 9, 10], [2, 3, 5, 7, 8, 9, 10], [3, 4, 5, 6, 8, 12, 13, 14, 15, 17, 18, 21]⟩,
   ⟨[0, 4, 5, 6, 7, 9, 11], [0, 4, 5, 6, 7, 9, 11], [1, 3, 9, 12, 13, 15, 16, 17, 19, 20]⟩,
   ⟨[1, 5, 6, 7, 8, 10], [1, 5, 6, 7, 8, 10], [2, 4, 10, 13, 14, 16, 17, 18, 20, 21]⟩,
   ⟨[2, 6, 7, 8, 9, 11], [2, 6, 7, 8, 9, 11], [1, 2, 4, 6, 7, 11, 14, 15, 16, 20]⟩,
   ⟨[3, 4, 5, 6, 8, 10, 11], [3, 4, 5, 6, 8, 10, 11], [2, 3, 5, 7, 8, 12, 15, 16, 17, 21]⟩,
   ⟨[0, 1, 2, 3, 5, 7, 8, 11], [0, 1, 2, 3, 5, 7, 8, 11], [1, 2, 3, 4, 9, 10, 12, 14, 15, 18, 19, 21]⟩,
   ⟨[0, 1, 4, 8, 9, 10, 11], [0, 1, 4, 8, 9, 10, 11], [1, 2, 5, 7, 8, 9, 13, 19, 20, 21]⟩,
   ⟨[0, 2, 4, 5, 8], [0, 2, 4, 5, 8], [1, 2, 3, 5, 6, 8, 10, 11, 12, 13, 16, 18]⟩,
   ⟨[1, 3, 4, 7, 11], [1, 3, 4, 7, 11], [2, 3, 4, 6, 7, 9, 11, 12, 13, 14, 17, 19]⟩,
   ⟨[2, 3, 4, 5, 7, 9, 10], [2, 3, 4, 5, 7, 9, 10], [2, 5, 6, 8, 9, 10, 11, 15, 17, 18, 19, 20]⟩,
   ⟨[0, 4, 5, 9, 10], [0, 4, 5, 9, 10], [2, 3, 4, 7, 8, 10, 11, 12, 13, 15, 16, 19, 20, 21]⟩,
   ⟨[1, 4, 6, 9, 11], [1, 4, 6, 9, 11], [1, 2, 6, 7, 8, 9, 11, 12, 13, 14, 18, 19]⟩,
   ⟨[2, 4, 7, 9], [2, 4, 7, 9], [2, 3, 7, 8, 9, 10, 12, 13, 14, 15, 19, 20]⟩,
   ⟨[3, 4, 8, 9], [3, 4, 8, 9], [3, 4, 8, 9, 10, 11, 13, 14, 15, 16, 20, 21]⟩,
   ⟨[0, 1, 2, 3, 5, 6, 7, 8, 10, 11], [0, 1, 2, 3, 5, 6, 7, 8, 10, 11], [1, 2, 3, 6, 7, 9, 10, 11, 12, 14, 15, 18, 19, 20]⟩,
   ⟨[0, 1, 5, 6, 10, 11], [0, 1, 5, 6, 10, 11], [1, 6, 8, 11, 13, 18]⟩,
   ⟨[0, 2, 5, 7, 10], [0, 2, 5, 7, 10], [1, 2, 4, 6, 7, 8, 12, 13, 16, 18, 19, 21]⟩,
   ⟨[1, 3, 6, 8, 11], [1, 3, 6, 8, 11], [1, 4, 6, 8, 9, 13, 14, 16, 18, 21]⟩,
   ⟨[2, 3, 7, 8], [2, 3, 7, 8], [3, 8, 10, 13, 15, 20]⟩]

/-! ### Recursive blocked triangular solve, `trsm.inl` -/

/-- Modelled from the spec: the packed matrix type `matrix_t` of the TRSM template: row and
column counts, the field descriptor it references and its cells, with entries in a field `F`
standing for GF(2^e). A window is a value of the same type viewing a range of its parent. -/
structure matrix_t (F : Type) where
  finite_field : gf2e
  nrows : ℕ
  ncols : ℕ
  entry : ℕ → ℕ → F

/-- Modelled from the spec: `matrix_init_window(M, lowr, lowc, highr, highc)`, the non-owning
view of rows `lowr..highr` and columns `lowc..highc` of `M`. -/
def matrix_init_window {F : Type} (M : matrix_t F) (lowr lowc highr highc : ℕ) : matrix_t F :=
  { finite_field := M.finite_field
    nrows := highr - lowr
    ncols := highc - lowc
    entry := fun i j => M.entry (lowr + i) (lowc + j) }

/-- A window shares storage with its parent: once the cells of the window at offset
`(lowr, lowc)` hold `W`, the parent holds `W` in the viewed range and is untouched elsewhere. -/
def matrix_store_window {F : Type} (M : matrix_t F) (lowr lowc : ℕ) (W : matrix_t F) :
    matrix_t F :=
  { M with
    entry := fun i j =>
      if lowr ≤ i ∧ i < lowr + W.nrows ∧ lowc ≤ j ∧ j < lowc + W.ncols then
        W.entry (i - lowr) (j - lowc)
      else M.entry i j }

/-- Modelled from the spec: `matrix_addmul(C, A, B)` computes `C += A * B`. -/
def matrix_addmul {F : Type} [Semiring F] (C A B : matrix_t F) : matrix_t F :=
  { C with
    entry := fun i j => C.entry i j + ∑ k in Finset.range A.ncols, A.entry i k * B.entry k j }

/-- Ways in which a run of a TRSM routine stops without returning. -/
inductive trsm_stop where
  | assertion_failed
  | out_of_fuel
  deriving DecidableEq

/-- Embedding of `_matrix_trsm_lower_left(L, B, cutoff)`. The external naive solver is the
parameter `naive`, mapping `(L, B)` to the contents of `B` after the in-place solve. `fuel`
bounds the depth of the recursion; the result is the contents of `B` on return. The entry
assertion `L->finite_field == B->finite_field` compares pointers: here the addresses of the
two descriptors. -/
def _matrix_trsm_lower_left {F : Type} [Semiring F]
    (naive : matrix_t F → matrix_t F → matrix_t F) :
    ℕ → matrix_t F → matrix_t F → ℕ → Except trsm_stop (matrix_t F)
  | 0, _, _, _ => .error .out_of_fuel
  | fuel + 1, L, B, cutoff =>
    if ¬ (L.finite_field.addr = B.finite_field.addr ∧ L.nrows = L.ncols ∧ B.nrows = L.ncols) then
      .error .assertion_failed
    else if L.nrows < cutoff then
      .ok (naive L B)
    else
      let B0 := matrix_init_window B 0 0 cutoff B.ncols
      let B1 := matrix_init_window B cutoff 0 B.nrows B.ncols
      let L00 := matrix_init_window L 0 0 cutoff cutoff
      let L10 := matrix_init_window L cutoff 0 B.nrows cutoff
      let L11 := matrix_init_window L cutoff cutoff B.nrows B.nrows
      let B0 := naive L00 B0
      let B1 := matrix_addmul B1 L10 B0
      match _matrix_trsm_lower_left naive fuel L11 B1 cutoff with
      | .error stop => .error stop
      | .ok B1 => .ok (matrix_store_window (matrix_store_window B 0 0 B0) cutoff 0 B1)

/-- Embedding of `_matrix_trsm_upper_left(U, B, cutoff)`, with the external naive upper solver
as the parameter `naive` and `fuel` bounding the depth of the recursion. The entry assertion
`U->finite_field == B->finite_field` compares pointers: here the addresses of the two
descriptors. -/
def _matrix_trsm_upper_left {F : Type} [Semiring F]
    (naive : matrix_t F → matrix_t F → matrix_t F) :
    ℕ → matrix_t F → matrix_t F → ℕ → Except trsm_stop (matrix_t F)
  | 0, _, _, _ => .error .out_of_fuel
  | fuel + 1, U, B, cutoff =>
    if ¬ (U.finite_field.addr = B.finite_field.addr ∧ U.nrows = U.ncols ∧ B.nrows = U.ncols) then
      .error .assertion_failed
    else if U.nrows < cutoff then
      .ok (naive U B)
    else
      let B0 := matrix_init_window B 0 0 cutoff B.ncols
      let B1 := matrix_init_window B cutoff 0 B.nrows B.ncols
      let U00 := matrix_init_window U 0 0 cutoff cutoff
      let U01 := matrix_init_window U 0 cutoff cutoff B.nrows
      let U11 := matrix_init_window U cutoff cutoff B.nrows B.nrows
      match _matrix_trsm_upper_left naive fuel U11 B1 cutoff with
      | .error stop => .error stop
      | .ok B1 =>
        let B0 := matrix_addmul B0 U01 B1
        let B0 := naive U00 B0
        .ok (matrix_store_window (matrix_store_window B cutoff 0 B1) 0 0 B0)

/-- `L` is lower triangular: the cells above the diagonal are zero. -/
def matrix_t.lower_triangular {F : Type} [Zero F] (L : matrix_t F) : Prop :=
  ∀ i j, i < j → j < L.ncols → L.entry i j = 0

/-- `U` is upper triangular: the cells below the diagonal are zero. -/
def matrix_t.upper_triangular {F : Type} [Zero F] (U : matrix_t F) : Prop :=
  ∀ i j, j < i → i < U.nrows → U.entry i j = 0

/-- All diagonal entries are non-zero. -/
def matrix_t.diagonal_nonzero {F : Type} [Zero F] (L : matrix_t F) : Prop :=
  ∀ i, i < L.nrows → L.entry i i ≠ 0

/-- `X` has the shape and field of `B`. -/
def matrix_t.same_shape {F : Type} (X B : matrix_t F) : Prop :=
  X.finite_field = B.finite_field ∧ X.nrows = B.nrows ∧ X.ncols = B.ncols

/-- Reference: `T * X = B`, cell by cell over the rows and columns of `B`. -/
def matrix_t.is_solution {F : Type} [Semiring F] (T X B : matrix_t F) : Prop :=
  ∀ i, i < B.nrows → ∀ j, j < B.ncols →
    ∑ k in Finset.range T.ncols, T.entry i k * X.entry k j = B.entry i j

/-- `X` and `Y` are the identical matrix: same shape, same field, same cells. -/
def matrix_t.same_matrix {F : Type} (X Y : matrix_t F) : Prop :=
  X.same_shape Y ∧ ∀ i, i < Y.nrows → ∀ j, j < Y.ncols → X.entry i j = Y.entry i j

/-- Assumption on the external naive lower solver: on a square lower triangular system with
non-zero diagonal it leaves in `B` the `X` with `L * X = B`. -/
def naive_lower_correct {F : Type} [Semiring F] (naive : matrix_t F → matrix_t F → matrix_t F) :
    Prop :=
  ∀ L B : matrix_t F, L.nrows = L.ncols → B.nrows = L.ncols → L.lower_triangular →
    L.diagonal_nonzero → (naive L B).same_shape B ∧ L.is_solution (naive L B) B

/-- Assumption on the external naive upper solver: on a square upper triangular system with
non-zero diagonal it leaves in `B` the `X` with `U * X = B`. -/
def naive_upper_correct {F : Type} [Semiring F] (naive : matrix_t F → matrix_t F → matrix_t F) :
    Prop :=
  ∀ U B : matrix_t F, U.nrows = U.ncols → B.nrows = U.ncols → U.upper_triangular →
    U.diagonal_nonzero → (naive U B).same_shape B ∧ U.is_solution (naive U B) B

/-- Forward substitution on column `j`: after `r` steps the rows below `r` of the solution of
`L * X = B` are known. -/
def forward_rows {F : Type} [Field F] (L B : matrix_t F) : ℕ → ℕ → ℕ → F
  | 0 => fun _ _ => 0
  | r + 1 => fun i j =>
    if i = r then
      (B.entry r j - ∑ k in Finset.range r, L.entry r k * forward_rows L B r k j) / L.entry r r
    else forward_rows L B r i j

/-- A naive lower solver, by forward substitution; it instantiates the external solver. -/
def forward_substitution {F : Type} [Field F] (L B : matrix_t F) : matrix_t F :=
  { B with entry := forward_rows L B B.nrows }

/-- Back substitution on column `j`: after `r` steps the last `r` rows of the solution of
`U * X = B`, with `n` rows, are known. -/
def backward_rows {F : Type} [Field F] (U B : matrix_t F) (n : ℕ) : ℕ → ℕ → ℕ → F
  | 0 => fun _ _ => 0
  | r + 1 => fun i j =>
    if i = n - 1 - r then
      (B.entry i j - ∑ k in Finset.range r,
        U.entry i (n - r + k) * backward_rows U B n r (n - r + k) j) / U.entry i i
    else backward_rows U B n r i j

/-- A naive upper solver, by back substitution; it instantiates the external solver. -/
def backward_substitution {F : Type} [Field F] (U B : matrix_t F) : matrix_t F :=
  { B with entry := backward_rows U B B.nrows B.nrows }

/-- Example: the 2 x 2 lower triangular matrix with ones on and below the diagonal. -/
def example_lower : matrix_t (ZMod 2) :=
  { finite_field := ⟨1, 3, 0⟩, nrows := 2, ncols := 2, entry := fun i j => if j ≤ i then 1 else 0 }

/-- Example: the 2 x 2 upper triangular matrix with ones on and above the diagonal. -/
def example_upper : matrix_t (ZMod 2) :=
  { finite_field := ⟨1, 3, 0⟩, nrows := 2, ncols := 2, entry := fun i j => if i ≤ j then 1 else 0 }

/-- Example: a 2 x 1 right-hand side. -/
def example_rhs : matrix_t (ZMod 2) :=
  { finite_field := ⟨1, 3, 0⟩, nrows := 2, ncols := 1, entry := fun i _ => if i = 0 then 1 else 0 }

/-! ### Packed and bitsliced matrices, `conversion.h` -/

/-- Modelled from the spec: `m4ri_die(msg)`, the fatal exit of the library; a run that dies
yields its message instead of a result. -/
def m4ri_die {α : Type} (msg : String) : Except String α := .error msg

/-- Bit `i` of the word `w` as an element of GF(2): the coefficient of `a^i` in the field
element encoded by `w`. -/
def bitZ (w i : ℕ) : ZMod 2 := if w.testBit i then 1 else 0

/-- XOR of the words `f 0, ..., f (n - 1)`; XOR is the addition of GF(2^e). -/
def xor_sum : ℕ → (ℕ → ℕ) → ℕ
  | 0, _ => 0
  | n + 1, f => xor_sum n f ^^^ f n

/-- Modelled from the spec: the table of the field descriptor giving `a^t` reduced modulo the
minimal polynomial, as a word; `a^(t+1)` is `a * a^t`, reduced when its degree reaches `e`. -/
def gf2e.pow_gen (ff : gf2e) : ℕ → ℕ
  | 0 => 1
  | t + 1 =>
    if (ff.pow_gen t <<< 1).testBit ff.degree then (ff.pow_gen t <<< 1) ^^^ ff.minpoly
    else ff.pow_gen t <<< 1

/-- Modelled from the spec: reduction modulo the minimal polynomial. The coefficients
`f 0, ..., f (2e - 2)` of an unreduced polynomial are gathered into a field element,
coefficient `t` contributing `a^t` reduced modulo the minimal polynomial. -/
def gf2e.gather (ff : gf2e) (f : ℕ → ZMod 2) : ℕ :=
  xor_sum (2 * ff.degree - 1) fun t => if f t = 1 then ff.pow_gen t else 0

/-- Modelled from the spec: the carry-less product of two `e`-bit words, that is the product
of the polynomials over GF(2) they encode. -/
def clmul (e a b : ℕ) : ℕ := xor_sum e fun i => if a.testBit i then b <<< i else 0

/-- Modelled from the spec: multiplication of GF(2^e), the product of the two polynomials
reduced modulo the minimal polynomial of the field. -/
def gf2e.mul (ff : gf2e) (a b : ℕ) : ℕ := ff.gather (bitZ (clmul ff.degree a b))

/-- Modelled from the spec: the packed matrix `mzed_t`, rows x cols of field elements, each a
word of `e` bits, with the field descriptor it references. -/
structure mzed_t where
  finite_field : gf2e
  nrows : ℕ
  ncols : ℕ
  entry : ℕ → ℕ → ℕ

/-- Modelled from the spec: the bitslice matrix `mzd_slice_t`, a sequence of Boolean planes of
equal dimensions; `x t r c` is the cell `(r, c)` of plane `t`. A reduced matrix uses the planes
`0..e-1`, the working output of the multiplication engine the planes `0..2e-2`. -/
structure mzd_slice_t where
  finite_field : gf2e
  nrows : ℕ
  ncols : ℕ
  x : ℕ → ℕ → ℕ → ZMod 2

/-- Modelled from the spec: `mzed_init(ff, m, n)`, a fresh zero packed matrix. -/
def mzed_init (ff : gf2e) (m n : ℕ) : mzed_t :=
  { finite_field := ff, nrows := m, ncols := n, entry := fun _ _ => 0 }

/-- Modelled from the spec: `mzd_slice_init(ff, m, n)`, a fresh zero bitslice matrix. -/
def mzd_slice_init (ff : gf2e) (m n : ℕ) : mzd_slice_t :=
  { finite_field := ff, nrows := m, ncols := n, x := fun _ _ _ => 0 }

/-- Modelled from the spec: `mzed_set_ui(A, value)` sets `A` to `value` times the identity;
for `value = 0` this is the zero matrix. -/
def mzed_set_ui (A : mzed_t) (value : ℕ) : mzed_t :=
  { A with
    entry := fun r c =>
      if r < A.nrows ∧ c < A.ncols then (if r = c then value else 0) else A.entry r c }

/-- Modelled from the spec: the writes of `mzed_slice` into the bitslice matrix `A`. Plane `t`
of `A`, for `t < e`, receives bit `t` of every element of `Z`; the spec has a non-null output
of `slice` overwritten plane by plane and not assumed to be zero. -/
def mzed_slice_write (A : mzd_slice_t) (Z : mzed_t) : mzd_slice_t :=
  { A with
    x := fun t r c =>
      if t < Z.finite_field.degree ∧ r < Z.nrows ∧ c < Z.ncols then bitZ (Z.entry r c) t
      else A.x t r c }

/-- Modelled from the spec: `mzed_slice(A, Z)` decomposes each element of `Z` into its `e`
bits and puts bit `i` into plane `i`. With `A` null a zero bitslice matrix of the shape and
degree of `Z` is allocated; a non-null `A` must match the dimensions and field of `Z`, else the
call fails, and its planes are overwritten. -/
def mzed_slice (A : Option mzd_slice_t) (Z : mzed_t) : Except String mzd_slice_t :=
  match A with
  | none => .ok (mzed_slice_write (mzd_slice_init Z.finite_field Z.nrows Z.ncols) Z)
  | some A =>
    if A.finite_field.addr ≠ Z.finite_field.addr ∨ A.nrows ≠ Z.nrows ∨ A.ncols ≠ Z.ncols then
      m4ri_die "mzed_slice: dimensions and fields must match."
    else .ok (mzed_slice_write A Z)

/-- Modelled from the spec: the writes of `mzed_cling` into the packed matrix `A`, which is
assumed to be zero (`_mzed_cling2`, `_mzed_cling4`, `_mzed_cling8`: "must be zero"). The field
element gathered from the planes of `Z` at a position, the planes beyond `e - 1` of an unreduced
product being reduced modulo the minimal polynomial, is accumulated (XOR, the addition of
GF(2^e)) onto what `A` holds there: a zero `A` receives the gathered elements, a non-zero `A`
is not cleared first and its old contents are mixed into the result. -/
def mzed_cling_write (A : mzed_t) (Z : mzd_slice_t) : mzed_t :=
  { A with
    entry := fun r c =>
      if r < Z.nrows ∧ c < Z.ncols then
        A.entry r c ^^^ Z.finite_field.gather (fun t => Z.x t r c)
      else A.entry r c }

/-- Modelled from the spec: `mzed_cling(A, Z)` gathers the planes of `Z` back into packed
field elements, with the reduction modulo the minimal polynomial of the field. With `A` null a
zero packed matrix of the shape of `Z` is allocated; a non-null `A` must match the dimensions
and field of `Z`, else the call fails, and must be zero: it is written as it is, without being
cleared. -/
def mzed_cling (A : Option mzed_t) (Z : mzd_slice_t) : Except String mzed_t :=
  match A with
  | none => .ok (mzed_cling_write (mzed_init Z.finite_field Z.nrows Z.ncols) Z)
  | some A =>
    if A.finite_field.addr ≠ Z.finite_field.addr ∨ A.nrows ≠ Z.nrows ∨ A.ncols ≠ Z.ncols then
      m4ri_die "mzed_cling: dimensions and fields must match."
    else .ok (mzed_cling_write A Z)

/-- The Boolean plane `P` viewed as an `n x m` matrix of the GF(2) matrix library. -/
def to_mzd (n m : ℕ) (P : ℕ → ℕ → ZMod 2) : mzd n m := Matrix.of fun r c => P r c

/-- Modelled from the spec: dispatch on the field degree to the degree-specialised schedule,
`_mzd_ptr_addmul_karatsuba<e>` for `e` in `2..12`; other degrees are unsupported. -/
def _mzd_ptr_addmul_karatsuba {n k m : ℕ} (ff : gf2e) (X : ℕ → mzd n m) (A : ℕ → mzd n k)
    (B : ℕ → mzd k m) : Except String (ℕ → mzd n m) :=
  match ff.degree with
  | 2 => .ok (_mzd_ptr_addmul_karatsuba2 ff X A B)
  | 3 => .ok (_mzd_ptr_addmul_karatsuba3 ff X A B)
  | 4 => .ok (_mzd_ptr_addmul_karatsuba4 ff X A B)
  | 5 => .ok (_mzd_ptr_addmul_karatsuba5 ff X A B)
  | 6 => .ok (_mzd_ptr_addmul_karatsuba6 ff X A B)
  | 7 => .ok (_mzd_ptr_addmul_karatsuba7 ff X A B)
  | 8 => .ok (_mzd_ptr_addmul_karatsuba8 ff X A B)
  | 9 => .ok (_mzd_ptr_addmul_karatsuba9 ff X A B)
  | 10 => .ok (_mzd_ptr_addmul_karatsuba10 ff X A B)
  | 11 => .ok (_mzd_ptr_addmul_karatsuba11 ff X A B)
  | 12 => .ok (_mzd_ptr_addmul_karatsuba12 ff X A B)
  | _ => m4ri_die "degree not supported by the Karatsuba engine."

/-- Modelled from the spec: `_mzd_slice_mul_karatsuba(C, A, B)` accumulates into the bitslice
accumulator `C` the unreduced polynomial product of the bitsliced `A` and `B`, with the
schedule of the field degree; a null `C` is allocated as a zero accumulator. Shapes and fields
are not validated here. -/
def _mzd_slice_mul_karatsuba (C : Option mzd_slice_t) (A B : mzd_slice_t) :
    Except String mzd_slice_t :=
  let C := match C with
    | none => mzd_slice_init A.finite_field A.nrows B.ncols
    | some C => C
  match _mzd_ptr_addmul_karatsuba A.finite_field (fun t => to_mzd A.nrows B.ncols (C.x t))
      (fun t => to_mzd A.nrows A.ncols (A.x t)) (fun t => to_mzd A.ncols B.ncols (B.x t)) with
  | .error msg => .error msg
  | .ok X =>
    .ok { C with
          x := fun t r c =>
            if h : r < A.nrows ∧ c < B.ncols then X t ⟨r, h.1⟩ ⟨c, h.2⟩ else C.x t r c }

/-- Embedding of `_mzed_mul_karatsuba(C, A, B)`: slice `C` (when non-null), `A` and `B`, run
the engine on the slices and cling the accumulator back into `C`. -/
def _mzed_mul_karatsuba (C : Option mzed_t) (A B : mzed_t) : Except String mzed_t := do
  let Cs ← match C with
    | some C => (mzed_slice none C).map some
    | none => pure none
  let As ← mzed_slice none A
  let Bs ← mzed_slice none B
  let Cs ← _mzd_slice_mul_karatsuba Cs As Bs
  mzed_cling C Cs

/-- Embedding of `mzed_mul_karatsuba(C, A, B)`, computing `C = A * B`. The field checks
`A->finite_field != B->finite_field` and `C->finite_field != A->finite_field` compare pointers:
here the addresses of the descriptors. -/
def mzed_mul_karatsuba (C : Option mzed_t) (A B : mzed_t) : Except String mzed_t :=
  if A.ncols ≠ B.nrows ∨ A.finite_field.addr ≠ B.finite_field.addr then
    m4ri_die "mzed_mul_karatsuba: rows, columns and fields must match.\n"
  else
    match C with
    | some C =>
      if C.finite_field.addr ≠ A.finite_field.addr ∨ C.nrows ≠ A.nrows ∨ C.ncols ≠ B.ncols then
        m4ri_die "mzed_mul_karatsuba: rows and columns of returned matrix must match.\n"
      else _mzed_mul_karatsuba (some (mzed_set_ui C 0)) A B
    | none => _mzed_mul_karatsuba none A B

/-- Embedding of `mzed_addmul_karatsuba(C, A, B)`, documented as computing `C += A * B`. The
field checks compare the `finite_field` pointers: here the addresses of the descriptors. -/
def mzed_addmul_karatsuba (C : Option mzed_t) (A B : mzed_t) : Except String mzed_t :=
  match C with
  | none => m4ri_die "assert(C != NULL)"
  | some C =>
    if A.ncols ≠ B.nrows ∨ A.finite_field.addr ≠ B.finite_field.addr then
      m4ri_die "mzed_addmul_karatsuba: rows, columns and fields must match.\n"
    else if C.finite_field.addr ≠ A.finite_field.addr ∨ C.nrows ≠ A.nrows ∨ C.ncols ≠ B.ncols then
      m4ri_die "mzed_addmul_karatsuba: rows and columns of returned matrix must match.\n"
    else _mzed_mul_karatsuba (some C) A B

/-- Every element of the packed matrix is a word of `e` bits. -/
def mzed_t.well_formed (A : mzed_t) : Prop :=
  ∀ r, r < A.nrows → ∀ c, c < A.ncols → A.entry r c < 2 ^ A.finite_field.degree

/-- Reference: the element `(r, c)` of the matrix product `A * B` over GF(2^e), the sum (XOR)
over `k` of the field products `A[r, k] * B[k, c]`. -/
def mzed_mul_reference (A B : mzed_t) (r c : ℕ) : ℕ :=
  xor_sum A.ncols fun k => A.finite_field.mul (A.entry r k) (B.entry k c)

/-- `X` is the `n x m` packed matrix over the field `ff` with the elements `E`. -/
def mzed_t.is_matrix (X : mzed_t) (ff : gf2e) (n m : ℕ) (E : ℕ → ℕ → ℕ) : Prop :=
  X.finite_field = ff ∧ X.nrows = n ∧ X.ncols = m ∧
    ∀ r, r < n → ∀ c, c < m → X.entry r c = E r c

/-- Example: the field GF(4) with minimal polynomial `x^2 + x + 1`. -/
def example_gf4 : gf2e := ⟨2, 7, 0⟩

/-- Example: the packed matrix `[[1, a], [a + 1, 0]]` over GF(4). -/
def example_packed : mzed_t :=
  { finite_field := example_gf4, nrows := 2, ncols := 2,
    entry := fun r c => if r = 0 then (if c = 0 then 1 else 2) else (if c = 0 then 3 else 0) }

/-- Example: a packed matrix over GF(4) with other contents. -/
def example_packed_other : mzed_t :=
  { finite_field := example_gf4, nrows := 2, ncols := 2,
    entry := fun r c => if r = c then 2 else 3 }

/-! ### Plane bounds of the schedules, identity matrix, entry checks -/

/-- The plane accesses of a schedule are within the working planes of degree `e`: every target
offset lies in `0..2e-2` and every input plane index lies in `0..e-1`. -/
def schedule_in_bounds (e : ℕ) (S : List KStep) : Prop :=
  ∀ s ∈ S, (∀ t ∈ s.ts, t ≤ 2 * e - 2) ∧ (∀ i ∈ s.as, i < e) ∧ (∀ j ∈ s.bs, j < e)

/-- Working-output bound of a degree-`e` routine `f` whose triples, in program order, are `S`:
`f` is the execution of `S`, the accesses of `S` are in bounds, planes of `X` with index at least
`2e-1` are returned as they were, and the planes below `2e-1` of the result depend only on the
planes below `2e-1` of `X` and on the planes below `e` of `A` and `B`. -/
def working_output_bound (e : ℕ)
    (f : ∀ (n k m : ℕ), gf2e → (ℕ → mzd n m) → (ℕ → mzd n k) → (ℕ → mzd k m) → ℕ → mzd n m)
    (S : List KStep) : Prop :=
  (∀ (n k m : ℕ) (ff : gf2e) (X : ℕ → mzd n m) (A : ℕ → mzd n k) (B : ℕ → mzd k m),
      f n k m ff X A B = runSchedule ff A B X S) ∧
    schedule_in_bounds e S ∧
    (∀ (n k m : ℕ) (ff : gf2e) (X : ℕ → mzd n m) (A : ℕ → mzd n k) (B : ℕ → mzd k m) (c : ℕ),
      2 * e - 1 ≤ c → f n k m ff X A B c = X c) ∧
    (∀ (n k m : ℕ) (ff : gf2e) (X Y : ℕ → mzd n m) (A A2 : ℕ → mzd n k) (B B2 : ℕ → mzd k m),
      (∀ c, c < 2 * e - 1 → X c = Y c) → (∀ i, i < e → A i = A2 i) →
      (∀ j, j < e → B j = B2 j) →
      ∀ c, c < 2 * e - 1 → f n k m ff X A B c = f n k m ff Y A2 B2 c)

/-- The `n x n` identity matrix over the field `ff`, as `mzed_set_ui` leaves it in a fresh
matrix. -/
def mzed_identity (ff : gf2e) (n : ℕ) : mzed_t := mzed_set_ui (mzed_init ff n n) 1

/-- The operands fail the entry checks of the multiplication: `A.ncols != B.nrows`, or `A` and
`B` reference different field descriptors (descriptors at different addresses, be they of one
field), or `C` is non-null and the descriptor it references is not that of `A`, or
`C.nrows != A.nrows`, or `C.ncols != B.ncols`. -/
def mzed_mul_mismatch (C : Option mzed_t) (A B : mzed_t) : Prop :=
  A.ncols ≠ B.nrows ∨ A.finite_field.addr ≠ B.finite_field.addr ∨
    ∃ C0, C = some C0 ∧
      (C0.finite_field.addr ≠ A.finite_field.addr ∨ C0.nrows ≠ A.nrows ∨ C0.ncols ≠ B.ncols)

/-! ### Call trace of the triangular solves -/

/-- One observable step of a TRSM run: a window created by `matrix_init_window`, a call of the
external naive solver, a call of `matrix_addmul`, or a recursive call, each with its
arguments. -/
inductive trsm_event (F : Type) where
  | init_window (M : matrix_t F) (lowr lowc highr highc : ℕ)
  | naive (T B : matrix_t F)
  | addmul (C A B : matrix_t F)
  | recurse (T B : matrix_t F) (cutoff : ℕ)

/-- The step is the creation of a window. -/
def trsm_event.is_init_window {F : Type} : trsm_event F → Bool
  | .init_window _ _ _ _ _ => true
  | _ => false

/-- The step is a call of the naive solver. -/
def trsm_event.is_naive {F : Type} : trsm_event F → Bool
  | .naive _ _ => true
  | _ => false

/-- The step is a call of `matrix_addmul`. -/
def trsm_event.is_addmul {F : Type} : trsm_event F → Bool
  | .addmul _ _ _ => true
  | _ => false

/-- The step is a recursive call. -/
def trsm_event.is_recurse {F : Type} : trsm_event F → Bool
  | .recurse _ _ _ => true
  | _ => false

/-- Embedding of `_matrix_trsm_lower_left(L, B, cutoff)` with its call trace: the same
statements in the same order as `_matrix_trsm_lower_left`, every window creation, naive call,
`matrix_addmul` call and recursive call recorded in program order. The trace is available also
when the run stops without returning. -/
def _matrix_trsm_lower_left_traced {F : Type} [Semiring F]
    (naive : matrix_t F → matrix_t F → matrix_t F) :
    ℕ → matrix_t F → matrix_t F → ℕ → Except trsm_stop (matrix_t F) × List (trsm_event F)
  | 0, _, _, _ => (.error .out_of_fuel, [])
  | fuel + 1, L, B, cutoff =>
    if ¬ (L.finite_field.addr = B.finite_field.addr ∧ L.nrows = L.ncols ∧ B.nrows = L.ncols) then
      (.error .assertion_failed, [])
    else if L.nrows < cutoff then
      (.ok (naive L B), [.naive L B])
    else
      let B0 := matrix_init_window B 0 0 cutoff B.ncols
      let B1 := matrix_init_window B cutoff 0 B.nrows B.ncols
      let L00 := matrix_init_window L 0 0 cutoff cutoff
      let L10 := matrix_init_window L cutoff 0 B.nrows cutoff
      let L11 := matrix_init_window L cutoff cutoff B.nrows B.nrows
      let windows : List (trsm_event F) :=
        [.init_window B 0 0 cutoff B.ncols, .init_window B cutoff 0 B.nrows B.ncols,
          .init_window L 0 0 cutoff cutoff, .init_window L cutoff 0 B.nrows cutoff,
          .init_window L cutoff cutoff B.nrows B.nrows]
      let X0 := naive L00 B0
      let B1a := matrix_addmul B1 L10 X0
      let inner := _matrix_trsm_lower_left_traced naive fuel L11 B1a cutoff
      let trace := windows ++ [.naive L00 B0, .addmul B1 L10 X0, .recurse L11 B1a cutoff]
        ++ inner.2
      match inner.1 with
      | .error stop => (.error stop, trace)
      | .ok X1 => (.ok (matrix_store_window (matrix_store_window B 0 0 X0) cutoff 0 X1), trace)

/-- Embedding of `_matrix_trsm_upper_left(U, B, cutoff)` with its call trace, in program
order: the windows, the recursive call with what it does, then `matrix_addmul` and the naive
call. -/
def _matrix_trsm_upper_left_traced {F : Type} [Semiring F]
    (naive : matrix_t F → matrix_t F → matrix_t F) :
    ℕ → matrix_t F → matrix_t F → ℕ → Except trsm_stop (matrix_t F) × List (trsm_event F)
  | 0, _, _, _ => (.error .out_of_fuel, [])
  | fuel + 1, U, B, cutoff =>
    if ¬ (U.finite_field.addr = B.finite_field.addr ∧ U.nrows = U.ncols ∧ B.nrows = U.ncols) then
      (.error .assertion_failed, [])
    else if U.nrows < cutoff then
      (.ok (naive U B), [.naive U B])
    else
      let B0 := matrix_init_window B 0 0 cutoff B.ncols
      let B1 := matrix_init_window B cutoff 0 B.nrows B.ncols
      let U00 := matrix_init_window U 0 0 cutoff cutoff
      let U01 := matrix_init_window U 0 cutoff cutoff B.nrows
      let U11 := matrix_init_window U cutoff cutoff B.nrows B.nrows
      let windows : List (trsm_event F) :=
        [.init_window B 0 0 cutoff B.ncols, .init_window B cutoff 0 B.nrows B.ncols,
          .init_window U 0 0 cutoff cutoff, .init_window U 0 cutoff cutoff B.nrows,
          .init_window U cutoff cutoff B.nrows B.nrows]
      let inner := _matrix_trsm_upper_left_traced naive fuel U11 B1 cutoff
      let trace := windows ++ [.recurse U11 B1 cutoff] ++ inner.2
      match inner.1 with
      | .error stop => (.error stop, trace)
      | .ok X1 =>
        let B0a := matrix_addmul B0 U01 X1
        let X0 := naive U00 B0a
        (.ok (matrix_store_window (matrix_store_window B cutoff 0 X1) 0 0 X0),
          trace ++ [.addmul B0 U01 X1, .naive U00 B0a])

/-! ### Row rescale on a bitslice matrix, `conversion.h` -/

/-- Modelled from the spec: `mzd_slice_init_window(A, lowr, lowc, highr, highc)`, the
non-owning view of rows `lowr..highr` and columns `lowc..highc` of every plane of `A`. -/
def mzd_slice_init_window (A : mzd_slice_t) (lowr lowc highr highc : ℕ) : mzd_slice_t :=
  { finite_field := A.finite_field
    nrows := highr - lowr
    ncols := highc - lowc
    x := fun t i j => A.x t (lowr + i) (lowc + j) }

/-- A window shares storage with its parent: once the planes of the window at offset
`(lowr, lowc)` hold `W`, the parent holds `W` in the viewed range and is untouched elsewhere. -/
def mzd_slice_store_window (A : mzd_slice_t) (lowr lowc : ℕ) (W : mzd_slice_t) : mzd_slice_t :=
  { A with
    x := fun t i j =>
      if lowr ≤ i ∧ i < lowr + W.nrows ∧ lowc ≤ j ∧ j < lowc + W.ncols then
        W.x t (i - lowr) (j - lowc)
      else A.x t i j }

/-- Modelled from the spec: `mzed_rescale_row(A, r, start_col, x)` multiplies the elements of
row `r` of `A`, from column `start_col` on, by the field element `x`. The row has to be a row
of `A`: with `r` outside `0..nrows-1` the access is outside the storage of `A`, and the run
stops there. -/
def mzed_rescale_row (A : mzed_t) (r start_col x : ℕ) : Except String mzed_t :=
  if r < A.nrows then
    .ok { A with
          entry := fun i j =>
            if i = r ∧ start_col ≤ j ∧ j < A.ncols then A.finite_field.mul x (A.entry i j)
            else A.entry i j }
  else .error "mzed_rescale_row: row index outside the matrix."

/-- Embedding of `mzd_slice_rescale_row(A, r, c, x)`: a window on row `r` of `A`, clung into
the fresh packed matrix `A_we`, `mzed_rescale_row(A_we, r, c, x)`, and the result sliced back
into the window, that is into row `r` of `A`. The result is the contents of `A` on return. -/
def mzd_slice_rescale_row (A : mzd_slice_t) (r c x : ℕ) : Except String mzd_slice_t := do
  let A_w := mzd_slice_init_window A r 0 (r + 1) A.ncols
  let A_we ← mzed_cling none A_w
  let A_we ← mzed_rescale_row A_we r c x
  let A_w ← mzed_slice (some A_w) A_we
  pure (mzd_slice_store_window A r 0 A_w)

/-- The field element at `(r, c)` of a bitslice matrix, gathered from its planes. -/
def mzd_slice_t.element (A : mzd_slice_t) (r c : ℕ) : ℕ :=
  A.finite_field.gather (fun t => A.x t r c)

/-- Example: the bitslice form of `example_packed`, the matrix `[[1, a], [a + 1, 0]]` over
GF(4). -/
def example_sliced : mzd_slice_t :=
  mzed_slice_write (mzd_slice_init example_gf4 2 2) example_packed

/-! ### Shapes and counts along the call trace of the triangular solves -/

/-- Rows and columns of the triangular operand of a naive call; nothing for another step. -/
def trsm_event.naive_shape {F : Type} : trsm_event F → Option (ℕ × ℕ)
  | .naive T _ => some (T.nrows, T.ncols)
  | _ => none

/-- Rows of the triangular operand of a recursive call; nothing for another step. -/
def trsm_event.recurse_rows {F : Type} : trsm_event F → Option ℕ
  | .recurse T _ _ => some T.nrows
  | _ => none

/-- The step is well shaped: a window lies within the bounds of its parent, the operands of
`matrix_addmul(C, A, B)` have the shapes of `C += A * B`, and the operands of a naive or
recursive call satisfy the entry assertion of the TRSM routines. -/
def trsm_event.well_shaped {F : Type} : trsm_event F → Prop
  | .init_window M lowr lowc highr highc =>
    lowr ≤ highr ∧ highr ≤ M.nrows ∧ lowc ≤ highc ∧ highc ≤ M.ncols
  | .naive T B => T.finite_field.addr = B.finite_field.addr ∧ T.nrows = T.ncols ∧ B.nrows = T.ncols
  | .addmul C A B => C.nrows = A.nrows ∧ A.ncols = B.nrows ∧ C.ncols = B.ncols
  | .recurse T B _ => T.finite_field.addr = B.finite_field.addr ∧ T.nrows = T.ncols ∧
      B.nrows = T.ncols

/-- Assumption on the external naive solver: it works in place, so what it leaves has the
shape and field of the `B` it was given. -/
def naive_keeps_shape {F : Type} (naive : matrix_t F → matrix_t F → matrix_t F) : Prop :=
  ∀ T B : matrix_t F, (naive T B).same_shape B

/-! ### Storage of the in-out arguments made explicit -/

/-- The call of `mzed_rescale_row` made by `mzd_slice_rescale_row(A, r, c, x)`: the statements
of the source up to that call, returning the arguments `(A_we, r, c, x)` it is made with. -/
def mzd_slice_rescale_row_call (A : mzd_slice_t) (r c x : ℕ) :
    Except String (mzed_t × ℕ × ℕ × ℕ) := do
  let A_w := mzd_slice_init_window A r 0 (r + 1) A.ncols
  let A_we ← mzed_cling none A_w
  pure (A_we, r, c, x)

/-- The bitslice matrix is reduced: it has the `e` planes `0..e-1`, planes of higher index
being zero. -/
def mzd_slice_t.reduced (A : mzd_slice_t) : Prop :=
  ∀ t, A.finite_field.degree ≤ t → ∀ r c, A.x t r c = 0

/-- Embedding of `mzed_mul_karatsuba(C, A, B)` for a non-null `C`, with the storage of `C`
made explicit: the same statements as `mzed_mul_karatsuba`; the first component is the contents
of `C` when the run ends, whether it returns or stops, the second is the outcome. `C` is
written by `mzed_set_ui` and by the final `mzed_cling`. -/
def mzed_mul_karatsuba_store (C A B : mzed_t) : mzed_t × Except String mzed_t :=
  if A.ncols ≠ B.nrows ∨ A.finite_field.addr ≠ B.finite_field.addr then
    (C, m4ri_die "mzed_mul_karatsuba: rows, columns and fields must match.\n")
  else if C.finite_field.addr ≠ A.finite_field.addr ∨ C.nrows ≠ A.nrows ∨ C.ncols ≠ B.ncols then
    (C, m4ri_die "mzed_mul_karatsuba: rows and columns of returned matrix must match.\n")
  else
    let C := mzed_set_ui C 0
    match _mzed_mul_karatsuba (some C) A B with
    | .ok R => (R, .ok R)
    | .error msg => (C, .error msg)

/-! ### Semantics of schedules -/

theorem mzd_add_self {r c : ℕ} (x : mzd r c) : x + x = 0 := by
  ext i j
  simp only [Matrix.add_apply, Matrix.zero_apply]
  exact CharTwo.add_self_eq_zero (x i j)

theorem mzd_nsmul_mod_two {r c : ℕ} (n : ℕ) (x : mzd r c) : n • x = (n % 2) • x := by
  conv_lhs => rw [← Nat.div_add_mod n 2]
  rw [add_nsmul, mul_nsmul, two_nsmul, mzd_add_self, nsmul_zero, zero_add]

theorem add_to_all_apply {n m : ℕ} (ff : gf2e) (T : mzd n m) (ts : List ℕ) (X : ℕ → mzd n m)
    (c : ℕ) : _mzd_ptr_add_to_all ff T X ts c = X c + ts.count c • T := by
  unfold _mzd_ptr_add_to_all
  induction ts generalizing X with
  | nil => simp
  | cons t ts ih =>
    rw [List.foldl_cons, ih, List.count_cons]
    by_cases h : t = c
    · subst h
      simp only [Function.update_same, beq_self_eq_true, if_true, add_nsmul, one_nsmul]
      abel
    · have h2 : c ≠ t := fun h3 => h h3.symm
      simp [h, Function.update_noteq h2]

theorem planeSum_eq {r c : ℕ} (P : ℕ → mzd r c) (l : List ℕ) :
    planeSum P l = (l.map P).sum := by
  unfold planeSum mzd_sum
  split
  · simp
  · rfl

theorem sum_map_eq_count {r c : ℕ} (e : ℕ) (P : ℕ → mzd r c) (l : List ℕ)
    (h : ∀ i ∈ l, i < e) : (l.map P).sum = ∑ i in Finset.range e, l.count i • P i := by
  induction l with
  | nil => simp
  | cons a l ih =>
    have ha : a < e := h a (List.mem_cons_self a l)
    have hl : ∀ i ∈ l, i < e := fun i hi => h i (List.mem_cons_of_mem a hi)
    rw [List.map_cons, List.sum_cons, ih hl]
    have key : ∀ i ∈ Finset.range e,
        (a :: l).count i • P i = (if a = i then P i else 0) + l.count i • P i := by
      intro i _
      rw [List.count_cons]
      by_cases hai : a = i
      · subst hai
        simp [add_nsmul, add_comm]
      · simp [hai]
    rw [Finset.sum_congr rfl key, Finset.sum_add_distrib, Finset.sum_ite_eq]
    simp [ha]

theorem sum_mul_sum_count {n k m : ℕ} (e : ℕ) (A : ℕ → mzd n k) (B : ℕ → mzd k m)
    (f g : ℕ → ℕ) :
    (∑ i in Finset.range e, f i • A i) * (∑ j in Finset.range e, g j • B j) =
      ∑ i in Finset.range e, ∑ j in Finset.range e, (f i * g j) • (A i * B j) := by
  rw [Matrix.sum_mul]
  refine Finset.sum_congr rfl fun i _ => ?_
  rw [Matrix.mul_sum]
  refine Finset.sum_congr rfl fun j _ => ?_
  rw [Matrix.smul_mul, Matrix.mul_smul, smul_smul]

theorem KStep.run_apply {n k m : ℕ} (e : ℕ) (ff : gf2e) (A : ℕ → mzd n k) (B : ℕ → mzd k m)
    (X : ℕ → mzd n m) (s : KStep) (hs : s.inRange e = true) (c : ℕ) :
    s.run ff A B X c =
      X c + ∑ i in Finset.range e, ∑ j in Finset.range e, s.coef c i j • (A i * B j) := by
  simp only [KStep.inRange, Bool.and_eq_true, List.all_eq_true, decide_eq_true_eq] at hs
  obtain ⟨⟨ha, hb⟩, _⟩ := hs
  unfold KStep.run mzd_mul
  rw [add_to_all_apply, planeSum_eq, planeSum_eq, sum_map_eq_count e A s.as ha,
    sum_map_eq_count e B s.bs hb, sum_mul_sum_count, Finset.smul_sum]
  congr 1
  refine Finset.sum_congr rfl fun i _ => ?_
  rw [Finset.smul_sum]
  refine Finset.sum_congr rfl fun j _ => ?_
  rw [smul_smul, KStep.coef]

theorem runSchedule_apply {n k m : ℕ} (e : ℕ) (ff : gf2e) (A : ℕ → mzd n k) (B : ℕ → mzd k m)
    (S : List KStep) (hS : ∀ s ∈ S, s.inRange e = true) (X : ℕ → mzd n m) (c : ℕ) :
    runSchedule ff A B X S c =
      X c + ∑ i in Finset.range e, ∑ j in Finset.range e,
        scheduleCoef S c i j • (A i * B j) := by
  unfold runSchedule
  induction S generalizing X with
  | nil => simp [scheduleCoef]
  | cons s S ih =>
    have hs : s.inRange e = true := hS s (List.mem_cons_self s S)
    have hS2 : ∀ s ∈ S, s.inRange e = true := fun u hu => hS u (List.mem_cons_of_mem s hu)
    rw [List.foldl_cons, ih hS2, KStep.run_apply e ff A B X s hs, add_assoc, ← Finset.sum_add_distrib]
    congr 1
    refine Finset.sum_congr rfl fun i _ => ?_
    rw [← Finset.sum_add_distrib]
    refine Finset.sum_congr rfl fun j _ => ?_
    simp only [scheduleCoef, List.map_cons, List.sum_cons, add_nsmul]

theorem scheduleCoef_of_not_target (S : List KStep) (c i j : ℕ)
    (h : ∀ s ∈ S, c ∉ s.ts) : scheduleCoef S c i j = 0 := by
  unfold scheduleCoef
  apply List.sum_eq_zero
  intro x hx
  obtain ⟨s, hs, rfl⟩ := List.mem_map.1 hx
  simp [KStep.coef, List.count_eq_zero_of_not_mem (h s hs)]

theorem testBit_planeMask (l : List ℕ) (j : ℕ) :
    (planeMask l).testBit j = decide (l.count j % 2 = 1) := by
  unfold planeMask
  induction l with
  | nil => simp
  | cons a l ih =>
    rw [List.foldr_cons, Nat.testBit_xor, ih, Nat.testBit_two_pow, List.count_cons]
    by_cases h : a = j
    · subst h
      by_cases h2 : l.count a % 2 = 1
      · have h3 : ¬ (l.count a + 1) % 2 = 1 := by omega
        simp [h2, h3]
      · have h3 : (l.count a + 1) % 2 = 1 := by omega
        simp [h2, h3]
    · simp [h]

theorem testBit_rowMask (s : KStep) (c i j : ℕ) :
    (s.rowMask c i).testBit j = decide (s.coef c i j % 2 = 1) := by
  unfold KStep.rowMask KStep.coef
  rw [← mul_assoc, Nat.mul_mod (s.ts.count c * s.as.count i) (s.bs.count j) 2]
  by_cases h : (s.ts.count c * s.as.count i) % 2 = 1
  · rw [if_pos h, testBit_planeMask, h, one_mul, Nat.mod_mod]
  · have h0 : (s.ts.count c * s.as.count i) % 2 = 0 := by omega
    rw [if_neg h, h0, zero_mul, Nat.zero_testBit]
    simp

theorem testBit_scheduleRowMask (S : List KStep) (c i j : ℕ) :
    (scheduleRowMask S c i).testBit j = decide (scheduleCoef S c i j % 2 = 1) := by
  unfold scheduleRowMask scheduleCoef
  induction S with
  | nil => simp
  | cons s S ih =>
    rw [List.foldr_cons, Nat.testBit_xor, ih, testBit_rowMask, List.map_cons, List.sum_cons]
    by_cases h1 : s.coef c i j % 2 = 1 <;>
      by_cases h2 : (List.map (fun s => s.coef c i j) S).sum % 2 = 1
    · have h3 : ¬ (s.coef c i j + (List.map (fun s => s.coef c i j) S).sum) % 2 = 1 := by omega
      simp [h1, h2, h3]
    · have h3 : (s.coef c i j + (List.map (fun s => s.coef c i j) S).sum) % 2 = 1 := by omega
      simp [h1, h2, h3]
    · have h3 : (s.coef c i j + (List.map (fun s => s.coef c i j) S).sum) % 2 = 1 := by omega
      simp [h1, h2, h3]
    · have h3 : ¬ (s.coef c i j + (List.map (fun s => s.coef c i j) S).sum) % 2 = 1 := by omega
      simp [h1, h2, h3]

theorem scheduleCheck_sound {n k m : ℕ} (e : ℕ) (S : List KStep)
    (hS : scheduleCheck e S = true) (ff : gf2e) (X : ℕ → mzd n m) (A : ℕ → mzd n k)
    (B : ℕ → mzd k m) (c : ℕ) :
    runSchedule ff A B X S c = schoolbook e X A B c := by
  simp only [scheduleCheck, Bool.and_eq_true, List.all_eq_true, List.mem_range,
    beq_iff_eq] at hS
  obtain ⟨hr, hc⟩ := hS
  rw [runSchedule_apply e ff A B S hr X c, schoolbook]
  congr 1
  refine Finset.sum_congr rfl fun i hi => ?_
  refine Finset.sum_congr rfl fun j hj => ?_
  rw [Finset.mem_range] at hi hj
  have hcoef : scheduleCoef S c i j % 2 = if i + j = c then 1 else 0 := by
    by_cases hlt : c < 2 * e - 1
    · have hbit := testBit_scheduleRowMask S c i j
      rw [hc c hlt i hi] at hbit
      by_cases hij : i + j = c
      · have hcond : i ≤ c ∧ c - i < e := by omega
        have hj2 : c - i = j := by omega
        rw [if_pos hcond, hj2, Nat.testBit_two_pow_self] at hbit
        rw [if_pos hij]
        exact of_decide_eq_true hbit.symm
      · rw [if_neg hij]
        have hfalse : decide (scheduleCoef S c i j % 2 = 1) = false := by
          rw [← hbit]
          split
          · rename_i hcond
            apply Nat.testBit_two_pow_of_ne
            omega
          · exact Nat.zero_testBit j
        have := of_decide_eq_false hfalse
        omega
    · have hne : i + j ≠ c := by omega
      rw [if_neg hne, scheduleCoef_of_not_target, Nat.zero_mod]
      intro s hs hmem
      have h1 := hr s hs
      simp only [KStep.inRange, Bool.and_eq_true, List.all_eq_true, decide_eq_true_eq] at h1
      exact hlt (h1.2 c hmem)
  rw [mzd_nsmul_mod_two, hcoef]
  split <;> simp

/-! ### The schedules of the source agree with the schoolbook product -/

theorem karatsuba2_eq_run {n k m : ℕ} (ff : gf2e) (X : ℕ → mzd n m) (A : ℕ → mzd n k)
    (B : ℕ → mzd k m) :
    _mzd_ptr_addmul_karatsuba2 ff X A B = runSchedule ff A B X schedule2 := by
  simp only [_mzd_ptr_addmul_karatsuba2, runSchedule, schedule2, List.foldl_cons,
    List.foldl_nil, KStep.run, planeSum, List.map_cons, List.map_nil, _mzd_ptr_add_to_all, mzd_addmul, mzd_mul,
    mzd_add, mzd_sum, List.sum_cons, List.sum_nil, add_zero]

theorem schedule2_check : scheduleCheck 2 schedule2 = true := by decide!

theorem karatsuba3_eq_run {n k m : ℕ} (ff : gf2e) (X : ℕ → mzd n m) (A : ℕ → mzd n k)
    (B : ℕ → mzd k m) :
    _mzd_ptr_addmul_karatsuba3 ff X A B = runSchedule ff A B X schedule3 := by
  simp only [_mzd_ptr_addmul_karatsuba3, runSchedule, schedule3, List.foldl_cons,
    List.foldl_nil, KStep.run, planeSum, List.map_cons, List.map_nil, mzd_add, mzd_sum, List.sum_cons,
    List.sum_nil, add_zero]

theorem schedule3_check : scheduleCheck 3 schedule3 = true := by decide!

theorem karatsuba4_eq_run {n k m : ℕ} (ff : gf2e) (X : ℕ → mzd n m) (A : ℕ → mzd n k)
    (B : ℕ → mzd k m) :
    _mzd_ptr_addmul_karatsuba4 ff X A B = runSchedule ff A B X schedule4 := by
  simp only [_mzd_ptr_addmul_karatsuba4, runSchedule, schedule4, List.foldl_cons,
    List.foldl_nil, KStep.run, planeSum, List.map_cons, List.map_nil]

theorem schedule4_check : scheduleCheck 4 schedule4 = true := by decide!

theorem karatsuba5_eq_run {n k m : ℕ} (ff : gf2e) (X : ℕ → mzd n m) (A : ℕ → mzd n k)
    (B : ℕ → mzd k m) :
    _mzd_ptr_addmul_karatsuba5 ff X A B = runSchedule ff A B X schedule5 := by
  simp only [_mzd_ptr_addmul_karatsuba5, runSchedule, schedule5, List.foldl_cons,
    List.foldl_nil, KStep.run, planeSum, List.map_cons, List.map_nil]

theorem schedule5_check : scheduleCheck 5 schedule5 = true := by decide!

theorem karatsuba6_eq_run {n k m : ℕ} (ff : gf2e) (X : ℕ → mzd n m) (A : ℕ → mzd n k)
    (B : ℕ → mzd k m) :
    _mzd_ptr_addmul_karatsuba6 ff X A B = runSchedule ff A B X schedule6 := by
  simp only [_mzd_ptr_addmul_karatsuba6, runSchedule, schedule6, List.foldl_cons,
    List.foldl_nil, KStep.run, planeSum, List.map_cons, List.map_nil]

theorem schedule6_check : scheduleCheck 6 schedule6 = true := by decide!

theorem karatsuba7_eq_run {n k m : ℕ} (ff : gf2e) (X : ℕ → mzd n m) (A : ℕ → mzd n k)
    (B : ℕ → mzd k m) :
    _mzd_ptr_addmul_karatsuba7 ff X A B = runSchedule ff A B X schedule7 := by
  simp only [_mzd_ptr_addmul_karatsuba7, runSchedule, schedule7, List.foldl_cons,
    List.foldl_nil, KStep.run, planeSum, List.map_cons, List.map_nil]

theorem schedule7_check : scheduleCheck 7 schedule7 = true := by decide!

theorem karatsuba8_eq_run {n k m : ℕ} (ff : gf2e) (X : ℕ → mzd n m) (A : ℕ → mzd n k)
    (B : ℕ → mzd k m) :
    _mzd_ptr_addmul_karatsuba8 ff X A B = runSchedule ff A B X schedule8 := by
  simp only [_mzd_ptr_addmul_karatsuba8, runSchedule, schedule8, List.foldl_cons,
    List.foldl_nil, KStep.run, planeSum, List.map_cons, List.map_nil]

theorem schedule8_check : scheduleCheck 8 schedule8 = true := by decide!

theorem karatsuba9_eq_run {n k m : ℕ} (ff : gf2e) (X : ℕ → mzd n m) (A : ℕ → mzd n k)
    (B : ℕ → mzd k m) :
    _mzd_ptr_addmul_karatsuba9 ff X A B = runSchedule ff A B X schedule9 := by
  simp only [_mzd_ptr_addmul_karatsuba9, runSchedule, schedule9, List.foldl_cons,
    List.foldl_nil, KStep.run, planeSum, List.map_cons, List.map_nil]

theorem schedule9_check : scheduleCheck 9 schedule9 = true := by decide!

theorem karatsuba10_eq_run {n k m : ℕ} (ff : gf2e) (X : ℕ → mzd n m) (A : ℕ → mzd n k)
    (B : ℕ → mzd k m) :
    _mzd_ptr_addmul_karatsuba10 ff X A B = runSchedule ff A B X schedule10 := by
  simp only [_mzd_ptr_addmul_karatsuba10, runSchedule, schedule10, List.foldl_cons,
    List.foldl_nil, KStep.run, planeSum, List.map_cons, List.map_nil]

theorem schedule10_check : scheduleCheck 10 schedule10 = true := by decide!

theorem karatsuba11_eq_run {n k m : ℕ} (ff : gf2e) (X : ℕ → mzd n m) (A : ℕ → mzd n k)
    (B : ℕ → mzd k m) :
    _mzd_ptr_addmul_karatsuba11 ff X A B = runSchedule ff A B X schedule11 := by
  simp only [_mzd_ptr_addmul_karatsuba11, runSchedule, schedule11, List.foldl_cons,
    List.foldl_nil, KStep.run, planeSum, List.map_cons, List.map_nil]

theorem schedule11_check : scheduleCheck 11 schedule11 = true := by decide!

/-- C1: degree 2. For all GF(2) matrices `A[0..1]` (n x k), `B[0..1]` (k x m) and every
initial accumulator `X` (n x m planes), with add-to-all as plain XOR-accumulation,
`_mzd_ptr_addmul_karatsuba2` leaves in every plane `c` (in particular for `c` in `0..2`) the
old `X[c]` plus the sum over `i + j = c`, `0 <= i, j < 2`, of `A[i] * B[j]`, with `A` the left
factor; planes beyond `2` are left as they were. -/
theorem karatsuba2_schoolbook {n k m : ℕ} (ff : gf2e) (X : ℕ → mzd n m) (A : ℕ → mzd n k)
    (B : ℕ → mzd k m) (c : ℕ) :
    _mzd_ptr_addmul_karatsuba2 ff X A B c = schoolbook 2 X A B c := by
  rw [karatsuba2_eq_run]
  exact scheduleCheck_sound 2 schedule2 schedule2_check ff X A B c

/-- C2: degree 3. For all GF(2) matrices `A[0..2]` (n x k), `B[0..2]` (k x m) and every
initial accumulator `X` (n x m planes), with add-to-all as plain XOR-accumulation,
`_mzd_ptr_addmul_karatsuba3` leaves in every plane `c` (in particular for `c` in `0..4`) the
old `X[c]` plus the sum over `i + j = c`, `0 <= i, j < 3`, of `A[i] * B[j]`, with `A` the left
factor; planes beyond `4` are left as they were. -/
theorem karatsuba3_schoolbook {n k m : ℕ} (ff : gf2e) (X : ℕ → mzd n m) (A : ℕ → mzd n k)
    (B : ℕ → mzd k m) (c : ℕ) :
    _mzd_ptr_addmul_karatsuba3 ff X A B c = schoolbook 3 X A B c := by
  rw [karatsuba3_eq_run]
  exact scheduleCheck_sound 3 schedule3 schedule3_check ff X A B c

/-- C3: degree 4. For all GF(2) matrices `A[0..3]` (n x k), `B[0..3]` (k x m) and every
initial accumulator `X` (n x m planes), with add-to-all as plain XOR-accumulation,
`_mzd_ptr_addmul_karatsuba4` leaves in every plane `c` (in particular for `c` in `0..6`) the
old `X[c]` plus the sum over `i + j = c`, `0 <= i, j < 4`, of `A[i] * B[j]`, with `A` the left
factor; planes beyond `6` are left as they were. -/
theorem karatsuba4_schoolbook {n k m : ℕ} (ff : gf2e) (X : ℕ → mzd n m) (A : ℕ → mzd n k)
    (B : ℕ → mzd k m) (c : ℕ) :
    _mzd_ptr_addmul_karatsuba4 ff X A B c = schoolbook 4 X A B c := by
  rw [karatsuba4_eq_run]
  exact scheduleCheck_sound 4 schedule4 schedule4_check ff X A B c

/-- C4: degree 5. For all GF(2) matrices `A[0..4]` (n x k), `B[0..4]` (k x m) and every
initial accumulator `X` (n x m planes), with add-to-all as plain XOR-accumulation,
`_mzd_ptr_addmul_karatsuba5` leaves in every plane `c` (in particular for `c` in `0..8`) the
old `X[c]` plus the sum over `i + j = c`, `0 <= i, j < 5`, of `A[i] * B[j]`, with `A` the left
factor; planes beyond `8` are left as they were. -/
theorem karatsuba5_schoolbook {n k m : ℕ} (ff : gf2e) (X : ℕ → mzd n m) (A : ℕ → mzd n k)
    (B : ℕ → mzd k m) (c : ℕ) :
    _mzd_ptr_addmul_karatsuba5 ff X A B c = schoolbook 5 X A B c := by
  rw [karatsuba5_eq_run]
  exact scheduleCheck_sound 5 schedule5 schedule5_check ff X A B c

/-- C5: degree 6. For all GF(2) matrices `A[0..5]` (n x k), `B[0..5]` (k x m) and every
initial accumulator `X` (n x m planes), with add-to-all as plain XOR-accumulation,
`_mzd_ptr_addmul_karatsuba6` leaves in every plane `c` (in particular for `c` in `0..10`) the
old `X[c]` plus the sum over `i + j = c`, `0 <= i, j < 6`, of `A[i] * B[j]`, with `A` the left
factor; planes beyond `10` are left as they were. -/
theorem karatsuba6_schoolbook {n k m : ℕ} (ff : gf2e) (X : ℕ → mzd n m) (A : ℕ → mzd n k)
    (B : ℕ → mzd k m) (c : ℕ) :
    _mzd_ptr_addmul_karatsuba6 ff X A B c = schoolbook 6 X A B c := by
  rw [karatsuba6_eq_run]
  exact scheduleCheck_sound 6 schedule6 schedule6_check ff X A B c

/-- C6: degree 7. For all GF(2) matrices `A[0..6]` (n x k), `B[0..6]` (k x m) and every
initial accumulator `X` (n x m planes), with add-to-all as plain XOR-accumulation,
`_mzd_ptr_addmul_karatsuba7` leaves in every plane `c` (in particular for `c` in `0..12`) the
old `X[c]` plus the sum over `i + j = c`, `0 <= i, j < 7`, of `A[i] * B[j]`, with `A` the left
factor; planes beyond `12` are left as they were. -/
theorem karatsuba7_schoolbook {n k m : ℕ} (ff : gf2e) (X : ℕ → mzd n m) (A : ℕ → mzd n k)
    (B : ℕ → mzd k m) (c : ℕ) :
    _mzd_ptr_addmul_karatsuba7 ff X A B c = schoolbook 7 X A B c := by
  rw [karatsuba7_eq_run]
  exact scheduleCheck_sound 7 schedule7 schedule7_check ff X A B c

/-- C7: degree 8. For all GF(2) matrices `A[0..7]` (n x k), `B[0..7]` (k x m) and every
initial accumulator `X` (n x m planes), with add-to-all as plain XOR-accumulation,
`_mzd_ptr_addmul_karatsuba8` leaves in every plane `c` (in particular for `c` in `0..14`) the
old `X[c]` plus the sum over `i + j = c`, `0 <= i, j < 8`, of `A[i] * B[j]`, with `A` the left
factor; planes beyond `14` are left as they were. -/
theorem karatsuba8_schoolbook {n k m : ℕ} (ff : gf2e) (X : ℕ → mzd n m) (A : ℕ → mzd n k)
    (B : ℕ → mzd k m) (c : ℕ) :
    _mzd_ptr_addmul_karatsuba8 ff X A B c = schoolbook 8 X A B c := by
  rw [karatsuba8_eq_run]
  exact scheduleCheck_sound 8 schedule8 schedule8_check ff X A B c

/-- C8: degree 9. For all GF(2) matrices `A[0..8]` (n x k), `B[0..8]` (k x m) and every
initial accumulator `X` (n x m planes), with add-to-all as plain XOR-accumulation,
`_mzd_ptr_addmul_karatsuba9` leaves in every plane `c` (in particular for `c` in `0..16`) the
old `X[c]` plus the sum over `i + j = c`, `0 <= i, j < 9`, of `A[i] * B[j]`, with `A` the left
factor; planes beyond `16` are left as they were. -/
theorem karatsuba9_schoolbook {n k m : ℕ} (ff : gf2e) (X : ℕ → mzd n m) (A : ℕ → mzd n k)
    (B : ℕ → mzd k m) (c : ℕ) :
    _mzd_ptr_addmul_karatsuba9 ff X A B c = schoolbook 9 X A B c := by
  rw [karatsuba9_eq_run]
  exact scheduleCheck_sound 9 schedule9 schedule9_check ff X A B c

/-- C9: degree 10. For all GF(2) matrices `A[0..9]` (n x k), `B[0..9]` (k x m) and every
initial accumulator `X` (n x m planes), with add-to-all as plain XOR-accumulation,
`_mzd_ptr_addmul_karatsuba10` leaves in every plane `c` (in particular for `c` in `0..18`) the
old `X[c]` plus the sum over `i + j = c`, `0 <= i, j < 10`, of `A[i] * B[j]`, with `A` the left
factor; planes beyond `18` are left as they were. -/
theorem karatsuba10_schoolbook {n k m : ℕ} (ff : gf2e) (X : ℕ → mzd n m) (A : ℕ → mzd n k)
    (B : ℕ → mzd k m) (c : ℕ) :
    _mzd_ptr_addmul_karatsuba10 ff X A B c = schoolbook 10 X A B c := by
  rw [karatsuba10_eq_run]
  exact scheduleCheck_sound 10 schedule10 schedule10_check ff X A B c

/-- C10: degree 11. For all GF(2) matrices `A[0..10]` (n x k), `B[0..10]` (k x m) and every
initial accumulator `X` (n x m planes), with add-to-all as plain XOR-accumulation,
`_mzd_ptr_addmul_karatsuba11` leaves in every plane `c` (in particular for `c` in `0..20`) the
old `X[c]` plus the sum over `i + j = c`, `0 <= i, j < 11`, of `A[i] * B[j]`, with `A` the left
factor; planes beyond `20` are left as they were. -/
theorem karatsuba11_schoolbook {n k m : ℕ} (ff : gf2e) (X : ℕ → mzd n m) (A : ℕ → mzd n k)
    (B : ℕ → mzd k m) (c : ℕ) :
    _mzd_ptr_addmul_karatsuba11 ff X A B c = schoolbook 11 X A B c := by
  rw [karatsuba11_eq_run]
  exact scheduleCheck_sound 11 schedule11 schedule11_check ff X A B c

theorem karatsuba12_eq_run {n k m : ℕ} (ff : gf2e) (X : ℕ → mzd n m) (A : ℕ → mzd n k)
    (B : ℕ → mzd k m) :
    _mzd_ptr_addmul_karatsuba12 ff X A B = runSchedule ff A B X schedule12 := by
  simp only [_mzd_ptr_addmul_karatsuba12, runSchedule, schedule12, List.foldl_cons,
    List.foldl_nil, KStep.run, planeSum, List.map_cons, List.map_nil]

theorem schedule12_check : scheduleCheck 12 schedule12 = true := by decide!

/-- C11: degree 12. For all GF(2) matrices `A[0..11]` (n x k), `B[0..11]` (k x m) and every
initial accumulator `X` (n x m planes), with add-to-all as plain XOR-accumulation,
`_mzd_ptr_addmul_karatsuba12` leaves in every plane `c` (in particular for `c` in `0..22`) the
old `X[c]` plus the sum over `i + j = c`, `0 <= i, j < 12`, of `A[i] * B[j]`, with `A` the left
factor; planes beyond `22` are left as they were. -/
theorem karatsuba12_schoolbook {n k m : ℕ} (ff : gf2e) (X : ℕ → mzd n m) (A : ℕ → mzd n k)
    (B : ℕ → mzd k m) (c : ℕ) :
    _mzd_ptr_addmul_karatsuba12 ff X A B c = schoolbook 12 X A B c := by
  rw [karatsuba12_eq_run]
  exact scheduleCheck_sound 12 schedule12 schedule12_check ff X A B c

/-! ### Number of Boolean matrix multiplications of the degree-5 schedule -/

/-- C20, as stated, fails: on zero 1 x 1 operands over GF(2^5) the degree-5 schedule does not
perform 11 Boolean matrix multiplications. -/
theorem karatsuba5_mul_count_ne_11 :
    (_mzd_ptr_addmul_karatsuba5_traced ⟨5, 37, 0⟩ (fun _ => (0 : mzd 1 1)) (fun _ => (0 : mzd 1 1))
      (fun _ => (0 : mzd 1 1))).2 ≠ 11 := by
  simp [_mzd_ptr_addmul_karatsuba5_traced, _mzd_ptr_add_to_all_traced, mzd_mul_traced]

/-- C20, amended: for all operands, one invocation of `_mzd_ptr_addmul_karatsuba5` performs
exactly 13 Boolean matrix multiplications (`mzd_mul` calls), and the planes it leaves are those
of the untraced embedding. -/
theorem karatsuba5_mul_count {n k m : ℕ} (ff : gf2e) (X : ℕ → mzd n m) (A : ℕ → mzd n k)
    (B : ℕ → mzd k m) :
    _mzd_ptr_addmul_karatsuba5_traced ff X A B = (_mzd_ptr_addmul_karatsuba5 ff X A B, 13) := by
  simp only [_mzd_ptr_addmul_karatsuba5_traced, _mzd_ptr_addmul_karatsuba5,
    _mzd_ptr_add_to_all_traced, mzd_mul_traced]

/-! ### Correctness of the blocked triangular solves -/

theorem lower_block_solve {F : Type} [Field F] [CharP F 2] (c d : ℕ) (Lf : ℕ → ℕ → F)
    (Bf X0 X1 : ℕ → F) (htri : ∀ i k, i < k → k < c + d → Lf i k = 0)
    (h0 : ∀ i, i < c → ∑ k in Finset.range c, Lf i k * X0 k = Bf i)
    (h1 : ∀ i, i < d → ∑ k in Finset.range d, Lf (c + i) (c + k) * X1 k =
      Bf (c + i) + ∑ k in Finset.range c, Lf (c + i) k * X0 k)
    (i : ℕ) (hi : i < c + d) :
    ∑ k in Finset.range (c + d), Lf i k * (if k < c then X0 k else X1 (k - c)) = Bf i := by
  rw [Finset.sum_range_add]
  have e0 : ∑ k in Finset.range c, Lf i k * (if k < c then X0 k else X1 (k - c)) =
      ∑ k in Finset.range c, Lf i k * X0 k := by
    refine Finset.sum_congr rfl fun k hk => ?_
    rw [if_pos (Finset.mem_range.1 hk)]
  have e1 : ∑ k in Finset.range d, Lf i (c + k) * (if c + k < c then X0 (c + k)
      else X1 (c + k - c)) = ∑ k in Finset.range d, Lf i (c + k) * X1 k := by
    refine Finset.sum_congr rfl fun k _ => ?_
    rw [if_neg (by omega), Nat.add_sub_cancel_left]
  rw [e0, e1]
  by_cases hic : i < c
  · have z : ∑ k in Finset.range d, Lf i (c + k) * X1 k = 0 := by
      refine Finset.sum_eq_zero fun k hk => ?_
      have hk2 := Finset.mem_range.1 hk
      rw [htri i (c + k) (by omega) (by omega), zero_mul]
    rw [z, add_zero, h0 i hic]
  · obtain ⟨i2, rfl⟩ : ∃ i2, i = c + i2 := ⟨i - c, by omega⟩
    rw [h1 i2 (by omega), add_comm (Bf (c + i2)), ← add_assoc, CharTwo.add_self_eq_zero,
      zero_add]

theorem upper_block_solve {F : Type} [Field F] [CharP F 2] (c d : ℕ) (Uf : ℕ → ℕ → F)
    (Bf X0 X1 : ℕ → F) (htri : ∀ i k, k < i → i < c + d → Uf i k = 0)
    (h1 : ∀ i, i < d → ∑ k in Finset.range d, Uf (c + i) (c + k) * X1 k = Bf (c + i))
    (h0 : ∀ i, i < c → ∑ k in Finset.range c, Uf i k * X0 k =
      Bf i + ∑ k in Finset.range d, Uf i (c + k) * X1 k)
    (i : ℕ) (hi : i < c + d) :
    ∑ k in Finset.range (c + d), Uf i k * (if k < c then X0 k else X1 (k - c)) = Bf i := by
  rw [Finset.sum_range_add]
  have e0 : ∑ k in Finset.range c, Uf i k * (if k < c then X0 k else X1 (k - c)) =
      ∑ k in Finset.range c, Uf i k * X0 k := by
    refine Finset.sum_congr rfl fun k hk => ?_
    rw [if_pos (Finset.mem_range.1 hk)]
  have e1 : ∑ k in Finset.range d, Uf i (c + k) * (if c + k < c then X0 (c + k)
      else X1 (c + k - c)) = ∑ k in Finset.range d, Uf i (c + k) * X1 k := by
    refine Finset.sum_congr rfl fun k _ => ?_
    rw [if_neg (by omega), Nat.add_sub_cancel_left]
  rw [e0, e1]
  by_cases hic : i < c
  · rw [h0 i hic, add_assoc, CharTwo.add_self_eq_zero, add_zero]
  · obtain ⟨i2, rfl⟩ : ∃ i2, i = c + i2 := ⟨i - c, by omega⟩
    have z : ∑ k in Finset.range c, Uf (c + i2) k * X0 k = 0 := by
      refine Finset.sum_eq_zero fun k hk => ?_
      have hk2 := Finset.mem_range.1 hk
      rw [htri (c + i2) k (by omega) hi, zero_mul]
    rw [z, zero_add, h1 i2 (by omega)]

theorem store_lower_entry {F : Type} (B X0 X1 : matrix_t F) (c : ℕ) (hc : c ≤ B.nrows)
    (hX0 : X0.nrows = c ∧ X0.ncols = B.ncols)
    (hX1 : X1.nrows = B.nrows - c ∧ X1.ncols = B.ncols) (k j : ℕ) (hk : k < B.nrows)
    (hj : j < B.ncols) :
    (matrix_store_window (matrix_store_window B 0 0 X0) c 0 X1).entry k j =
      if k < c then X0.entry k j else X1.entry (k - c) j := by
  simp only [matrix_store_window, hX0.1, hX0.2, hX1.1, hX1.2]
  by_cases hkc : k < c
  · rw [if_neg (by omega), if_pos (by omega), if_pos hkc]
    simp
  · rw [if_pos (by omega), if_neg hkc]
    simp

theorem store_upper_entry {F : Type} (B X0 X1 : matrix_t F) (c : ℕ) (hc : c ≤ B.nrows)
    (hX0 : X0.nrows = c ∧ X0.ncols = B.ncols)
    (hX1 : X1.nrows = B.nrows - c ∧ X1.ncols = B.ncols) (k j : ℕ) (hk : k < B.nrows)
    (hj : j < B.ncols) :
    (matrix_store_window (matrix_store_window B c 0 X1) 0 0 X0).entry k j =
      if k < c then X0.entry k j else X1.entry (k - c) j := by
  simp only [matrix_store_window, hX0.1, hX0.2, hX1.1, hX1.2]
  by_cases hkc : k < c
  · rw [if_pos (by omega), if_pos hkc]
    simp
  · rw [if_neg (by omega), if_pos (by omega), if_neg hkc]
    simp

theorem trsm_lower_left_ok {F : Type} [Field F] [CharP F 2]
    (naive : matrix_t F → matrix_t F → matrix_t F) (hnaive : naive_lower_correct naive)
    (cutoff : ℕ) (hc : 1 ≤ cutoff) :
    ∀ (fuel : ℕ) (L B : matrix_t F), L.nrows / cutoff < fuel →
      L.finite_field.addr = B.finite_field.addr → L.nrows = L.ncols → B.nrows = L.ncols →
      L.lower_triangular → L.diagonal_nonzero →
      ∃ X, _matrix_trsm_lower_left naive fuel L B cutoff = .ok X ∧ X.same_shape B ∧
        L.is_solution X B := by
  intro fuel
  induction fuel with
  | zero => intro L B h; exact absurd h (Nat.not_lt_zero _)
  | succ fuel ih =>
    intro L B hfuel hff hsq hB htri hdiag
    have hassert : L.finite_field.addr = B.finite_field.addr ∧ L.nrows = L.ncols ∧
        B.nrows = L.ncols :=
      ⟨hff, hsq, hB⟩
    rw [_matrix_trsm_lower_left, if_neg (not_not.2 hassert)]
    by_cases hlt : L.nrows < cutoff
    · rw [if_pos hlt]
      exact ⟨naive L B, rfl, hnaive L B hsq hB htri hdiag⟩
    · rw [if_neg hlt]
      have hge : cutoff ≤ L.nrows := Nat.le_of_not_lt hlt
      -- the diagonal block
      obtain ⟨hs0, hsol0⟩ := hnaive (matrix_init_window L 0 0 cutoff cutoff)
        (matrix_init_window B 0 0 cutoff B.ncols) rfl rfl
        (by
          intro i j hij hj
          simp only [matrix_init_window, Nat.sub_zero] at hj
          simp only [matrix_init_window, Nat.zero_add]
          exact htri i j hij (by omega))
        (by
          intro i hi
          simp only [matrix_init_window, Nat.sub_zero] at hi
          simp only [matrix_init_window, Nat.zero_add]
          exact hdiag i (by omega))
      -- the trailing block
      obtain ⟨X1, hrun, hs1, hsol1⟩ := ih
        (matrix_init_window L cutoff cutoff B.nrows B.nrows)
        (matrix_addmul (matrix_init_window B cutoff 0 B.nrows B.ncols)
          (matrix_init_window L cutoff 0 B.nrows cutoff)
          (naive (matrix_init_window L 0 0 cutoff cutoff)
            (matrix_init_window B 0 0 cutoff B.ncols)))
        (by
          simp only [matrix_init_window]
          have h1 := Nat.div_eq_sub_div (by omega : 0 < cutoff) hge
          rw [hB, ← hsq]
          omega)
        hff rfl rfl
        (by
          intro i j hij hj
          simp only [matrix_init_window] at hj
          simp only [matrix_init_window]
          exact htri _ _ (by omega) (by omega))
        (by
          intro i hi
          simp only [matrix_init_window] at hi
          simp only [matrix_init_window]
          exact hdiag _ (by omega))
      simp only [hrun]
      generalize naive (matrix_init_window L 0 0 cutoff cutoff)
        (matrix_init_window B 0 0 cutoff B.ncols) = X0 at hs0 hsol0 hsol1 hs1 ⊢
      refine ⟨_, rfl, ⟨rfl, rfl, rfl⟩, ?_⟩
      intro i hi j hj
      obtain ⟨-, hr0, hc0⟩ := hs0
      obtain ⟨-, hr1, hc1⟩ := hs1
      simp only [matrix_init_window, matrix_addmul, Nat.sub_zero] at hr0 hc0 hr1 hc1
      have hsum : ∑ k in Finset.range L.ncols, L.entry i k *
          (matrix_store_window (matrix_store_window B 0 0 X0) cutoff 0 X1).entry k j =
          ∑ k in Finset.range L.ncols, L.entry i k *
            (if k < cutoff then X0.entry k j else X1.entry (k - cutoff) j) := by
        refine Finset.sum_congr rfl fun k hk => ?_
        rw [store_lower_entry B X0 X1 cutoff (by omega) ⟨hr0, hc0⟩ ⟨hr1, hc1⟩ k j
          (by rw [hB]; exact Finset.mem_range.1 hk) hj]
      rw [hsum]
      obtain ⟨d, hd⟩ : ∃ d, L.ncols = cutoff + d := ⟨L.ncols - cutoff, by omega⟩
      rw [hd]
      refine lower_block_solve cutoff d L.entry (fun r => B.entry r j)
        (fun k => X0.entry k j) (fun k => X1.entry k j) ?_ ?_ ?_ i (by omega)
      · intro r k hrk hk
        exact htri r k hrk (by omega)
      · intro r hr
        have := hsol0 r (by simp only [matrix_init_window]; omega) j
          (by simp only [matrix_init_window]; omega)
        simp only [matrix_init_window, Nat.sub_zero, Nat.zero_add] at this ⊢
        exact this
      · intro r hr
        have := hsol1 r (by simp only [matrix_init_window, matrix_addmul]; omega) j
          (by simp only [matrix_init_window, matrix_addmul]; omega)
        simp only [matrix_init_window, matrix_addmul, Nat.sub_zero, Nat.zero_add] at this ⊢
        rw [hB, hd, Nat.add_sub_cancel_left] at this
        exact this

theorem trsm_upper_left_ok {F : Type} [Field F] [CharP F 2]
    (naive : matrix_t F → matrix_t F → matrix_t F) (hnaive : naive_upper_correct naive)
    (cutoff : ℕ) (hc : 1 ≤ cutoff) :
    ∀ (fuel : ℕ) (U B : matrix_t F), U.nrows / cutoff < fuel →
      U.finite_field.addr = B.finite_field.addr → U.nrows = U.ncols → B.nrows = U.ncols →
      U.upper_triangular → U.diagonal_nonzero →
      ∃ X, _matrix_trsm_upper_left naive fuel U B cutoff = .ok X ∧ X.same_shape B ∧
        U.is_solution X B := by
  intro fuel
  induction fuel with
  | zero => intro U B h; exact absurd h (Nat.not_lt_zero _)
  | succ fuel ih =>
    intro U B hfuel hff hsq hB htri hdiag
    have hassert : U.finite_field.addr = B.finite_field.addr ∧ U.nrows = U.ncols ∧
        B.nrows = U.ncols :=
      ⟨hff, hsq, hB⟩
    rw [_matrix_trsm_upper_left, if_neg (not_not.2 hassert)]
    by_cases hlt : U.nrows < cutoff
    · rw [if_pos hlt]
      exact ⟨naive U B, rfl, hnaive U B hsq hB htri hdiag⟩
    · rw [if_neg hlt]
      have hge : cutoff ≤ U.nrows := Nat.le_of_not_lt hlt
      -- the trailing block is solved first
      obtain ⟨X1, hrun, hs1, hsol1⟩ := ih
        (matrix_init_window U cutoff cutoff B.nrows B.nrows)
        (matrix_init_window B cutoff 0 B.nrows B.ncols)
        (by
          simp only [matrix_init_window]
          have h1 := Nat.div_eq_sub_div (by omega : 0 < cutoff) hge
          rw [hB, ← hsq]
          omega)
        hff rfl rfl
        (by
          intro i j hij hi
          simp only [matrix_init_window] at hi
          simp only [matrix_init_window]
          exact htri _ _ (by omega) (by omega))
        (by
          intro i hi
          simp only [matrix_init_window] at hi
          simp only [matrix_init_window]
          exact hdiag _ (by omega))
      -- then the diagonal block
      obtain ⟨hs0, hsol0⟩ := hnaive (matrix_init_window U 0 0 cutoff cutoff)
        (matrix_addmul (matrix_init_window B 0 0 cutoff B.ncols)
          (matrix_init_window U 0 cutoff cutoff B.nrows) X1) rfl rfl
        (by
          intro i j hij hi
          simp only [matrix_init_window, Nat.sub_zero] at hi
          simp only [matrix_init_window, Nat.zero_add]
          exact htri i j hij (by omega))
        (by
          intro i hi
          simp only [matrix_init_window, Nat.sub_zero] at hi
          simp only [matrix_init_window, Nat.zero_add]
          exact hdiag i (by omega))
      simp only [hrun]
      generalize naive (matrix_init_window U 0 0 cutoff cutoff)
        (matrix_addmul (matrix_init_window B 0 0 cutoff B.ncols)
          (matrix_init_window U 0 cutoff cutoff B.nrows) X1) = X0 at hs0 hsol0 ⊢
      refine ⟨_, rfl, ⟨rfl, rfl, rfl⟩, ?_⟩
      intro i hi j hj
      obtain ⟨-, hr0, hc0⟩ := hs0
      obtain ⟨-, hr1, hc1⟩ := hs1
      simp only [matrix_init_window, matrix_addmul, Nat.sub_zero] at hr0 hc0 hr1 hc1
      have hsum : ∑ k in Finset.range U.ncols, U.entry i k *
          (matrix_store_window (matrix_store_window B cutoff 0 X1) 0 0 X0).entry k j =
          ∑ k in Finset.range U.ncols, U.entry i k *
            (if k < cutoff then X0.entry k j else X1.entry (k - cutoff) j) := by
        refine Finset.sum_congr rfl fun k hk => ?_
        rw [store_upper_entry B X0 X1 cutoff (by omega) ⟨hr0, hc0⟩ ⟨hr1, hc1⟩ k j
          (by rw [hB]; exact Finset.mem_range.1 hk) hj]
      rw [hsum]
      obtain ⟨d, hd⟩ : ∃ d, U.ncols = cutoff + d := ⟨U.ncols - cutoff, by omega⟩
      rw [hd]
      refine upper_block_solve cutoff d U.entry (fun r => B.entry r j)
        (fun k => X0.entry k j) (fun k => X1.entry k j) ?_ ?_ ?_ i (by omega)
      · intro r k hrk hr
        exact htri r k hrk (by omega)
      · intro r hr
        have := hsol1 r (by simp only [matrix_init_window]; omega) j
          (by simp only [matrix_init_window]; omega)
        simp only [matrix_init_window, Nat.sub_zero, Nat.zero_add] at this ⊢
        rw [hB, hd, Nat.add_sub_cancel_left] at this
        exact this
      · intro r hr
        have := hsol0 r (by simp only [matrix_init_window, matrix_addmul]; omega) j
          (by simp only [matrix_init_window, matrix_addmul]; omega)
        simp only [matrix_init_window, matrix_addmul, Nat.sub_zero, Nat.zero_add] at this ⊢
        rw [hB, hd, Nat.add_sub_cancel_left] at this
        exact this

theorem lower_solution_unique {F : Type} [Field F] (L X Y B : matrix_t F)
    (hsq : L.nrows = L.ncols) (hB : B.nrows = L.ncols) (htri : L.lower_triangular)
    (hdiag : L.diagonal_nonzero) (hX : L.is_solution X B) (hY : L.is_solution Y B) :
    ∀ i, i < B.nrows → ∀ j, j < B.ncols → X.entry i j = Y.entry i j := by
  intro i
  induction i using Nat.strong_induction_on with
  | _ i ih =>
    intro hi j hj
    have hdiff : ∑ k in Finset.range L.ncols, L.entry i k * (X.entry k j - Y.entry k j) = 0 := by
      simp only [mul_sub, Finset.sum_sub_distrib]
      rw [hX i hi j hj, hY i hi j hj, sub_self]
    rw [Finset.sum_eq_single i] at hdiff
    · rcases mul_eq_zero.1 hdiff with h | h
      · exact absurd h (hdiag i (by omega))
      · exact sub_eq_zero.1 h
    · intro k hk hki
      have hk2 := Finset.mem_range.1 hk
      rcases Nat.lt_or_gt_of_ne hki with h | h
      · rw [ih k h (by omega) j hj, sub_self, mul_zero]
      · rw [htri i k h hk2, zero_mul]
    · intro hni
      exact absurd (Finset.mem_range.2 (by omega)) hni

theorem upper_solution_unique {F : Type} [Field F] (U X Y B : matrix_t F)
    (hsq : U.nrows = U.ncols) (hB : B.nrows = U.ncols) (htri : U.upper_triangular)
    (hdiag : U.diagonal_nonzero) (hX : U.is_solution X B) (hY : U.is_solution Y B) :
    ∀ i, i < B.nrows → ∀ j, j < B.ncols → X.entry i j = Y.entry i j := by
  have key : ∀ t i, i < B.nrows → B.nrows - i = t → ∀ j, j < B.ncols →
      X.entry i j = Y.entry i j := by
    intro t
    induction t using Nat.strong_induction_on with
    | _ t ih =>
      intro i hi ht j hj
      have hdiff : ∑ k in Finset.range U.ncols, U.entry i k * (X.entry k j - Y.entry k j) = 0 := by
        simp only [mul_sub, Finset.sum_sub_distrib]
        rw [hX i hi j hj, hY i hi j hj, sub_self]
      rw [Finset.sum_eq_single i] at hdiff
      · rcases mul_eq_zero.1 hdiff with h | h
        · exact absurd h (hdiag i (by omega))
        · exact sub_eq_zero.1 h
      · intro k hk hki
        have hk2 := Finset.mem_range.1 hk
        rcases Nat.lt_or_gt_of_ne hki with h | h
        · rw [htri i k h (by omega), zero_mul]
        · rw [ih (B.nrows - k) (by omega) k (by omega) rfl j hj, sub_self, mul_zero]
      · intro hni
        exact absurd (Finset.mem_range.2 (by omega)) hni
  intro i hi j hj
  exact key (B.nrows - i) i hi rfl j hj

theorem forward_rows_stable {F : Type} [Field F] (L B : matrix_t F) (j : ℕ) :
    ∀ r i, i < r → forward_rows L B r i j = forward_rows L B (i + 1) i j := by
  intro r
  induction r with
  | zero => intro i hi; omega
  | succ r ih =>
    intro i hi
    by_cases h : i = r
    · rw [h]
    · rw [forward_rows]
      beta_reduce
      rw [if_neg h]
      exact ih i (by omega)

theorem forward_substitution_correct {F : Type} [Field F] :
    naive_lower_correct (forward_substitution : matrix_t F → matrix_t F → matrix_t F) := by
  intro L B hsq hB htri hdiag
  refine ⟨⟨rfl, rfl, rfl⟩, ?_⟩
  intro i hi j hj
  simp only [forward_substitution]
  have hx : ∀ k, k < B.nrows → forward_rows L B B.nrows k j = forward_rows L B (k + 1) k j :=
    fun k hk => forward_rows_stable L B j B.nrows k hk
  obtain ⟨d, hd⟩ : ∃ d, L.ncols = (i + 1) + d := ⟨L.ncols - (i + 1), by omega⟩
  rw [hd, Finset.sum_range_add, Finset.sum_range_succ]
  have z : ∑ k in Finset.range d, L.entry i (i + 1 + k) * forward_rows L B B.nrows (i + 1 + k) j
      = 0 := by
    refine Finset.sum_eq_zero fun k hk => ?_
    have hk2 := Finset.mem_range.1 hk
    rw [htri i (i + 1 + k) (by omega) (by omega), zero_mul]
  have e : ∑ k in Finset.range i, L.entry i k * forward_rows L B B.nrows k j =
      ∑ k in Finset.range i, L.entry i k * forward_rows L B i k j := by
    refine Finset.sum_congr rfl fun k hk => ?_
    have hk2 := Finset.mem_range.1 hk
    rw [hx k (by omega), forward_rows_stable L B j i k hk2]
  rw [z, add_zero, e, hx i hi]
  have hne : L.entry i i ≠ 0 := hdiag i (by omega)
  simp only [forward_rows, if_true]
  rw [mul_div_cancel₀ _ hne]
  ring

theorem backward_rows_stable {F : Type} [Field F] (U B : matrix_t F) (n j : ℕ) :
    ∀ r i, r ≤ n → i < n → n - r ≤ i →
      backward_rows U B n r i j = backward_rows U B n (n - i) i j := by
  intro r
  induction r with
  | zero => intro i _ hi h; omega
  | succ r ih =>
    intro i hr hi h
    by_cases h2 : i = n - 1 - r
    · have : n - i = r + 1 := by omega
      rw [this]
    · rw [backward_rows]
      beta_reduce
      rw [if_neg h2]
      exact ih i (by omega) hi (by omega)

theorem backward_substitution_correct {F : Type} [Field F] :
    naive_upper_correct (backward_substitution : matrix_t F → matrix_t F → matrix_t F) := by
  intro U B hsq hB htri hdiag
  refine ⟨⟨rfl, rfl, rfl⟩, ?_⟩
  intro i hi j hj
  simp only [backward_substitution]
  have hx : ∀ k, k < B.nrows →
      backward_rows U B B.nrows B.nrows k j = backward_rows U B B.nrows (B.nrows - k) k j :=
    fun k hk => backward_rows_stable U B B.nrows j B.nrows k (le_refl _) hk (by omega)
  obtain ⟨r, hr⟩ : ∃ r, B.nrows = (i + 1) + r := ⟨B.nrows - (i + 1), by omega⟩
  have hcols : U.ncols = (i + 1) + r := by omega
  rw [hcols, Finset.sum_range_add, Finset.sum_range_succ]
  have z : ∑ k in Finset.range i, U.entry i k * backward_rows U B B.nrows B.nrows k j = 0 := by
    refine Finset.sum_eq_zero fun k hk => ?_
    have hk2 := Finset.mem_range.1 hk
    rw [htri i k hk2 (by omega), zero_mul]
  have e : ∑ k in Finset.range r,
      U.entry i (i + 1 + k) * backward_rows U B B.nrows B.nrows (i + 1 + k) j =
      ∑ k in Finset.range r,
        U.entry i (B.nrows - r + k) * backward_rows U B B.nrows r (B.nrows - r + k) j := by
    refine Finset.sum_congr rfl fun k hk => ?_
    have hk2 := Finset.mem_range.1 hk
    have h1 : B.nrows - r + k = i + 1 + k := by omega
    rw [h1, hx (i + 1 + k) (by omega),
      backward_rows_stable U B B.nrows j r (i + 1 + k) (by omega) (by omega) (by omega)]
  have hstep : B.nrows - i = r + 1 := by omega
  have hrow : i = B.nrows - 1 - r := by omega
  rw [z, zero_add, e, hx i hi, hstep]
  have hne : U.entry i i ≠ 0 := hdiag i (by omega)
  simp only [backward_rows]
  rw [if_pos hrow, mul_div_cancel₀ _ hne]
  ring

theorem example_lower_triangular : example_lower.lower_triangular := by
  intro i j hij _
  simp only [example_lower]
  rw [if_neg (by omega)]

theorem example_upper_triangular : example_upper.upper_triangular := by
  intro i j hij _
  simp only [example_upper]
  rw [if_neg (by omega)]

theorem example_lower_diagonal : example_lower.diagonal_nonzero := by
  intro i _
  simp [example_lower]

theorem example_upper_diagonal : example_upper.diagonal_nonzero := by
  intro i _
  simp [example_upper]

/-- C12: lower-left TRSM correctness. For every cutoff `>= 1`, every square lower triangular
`L` with non-zero diagonal over a field of characteristic 2 and every `B` with as many rows,
if the naive solver is correct on the systems it is given (and `matrix_addmul` computes
`C + A * B`), then with fuel for `nrows / cutoff + 1` nested calls `_matrix_trsm_lower_left`
returns, and leaves in `B` a matrix `X` of the same shape with `L * X = B_original`. -/
theorem matrix_trsm_lower_left_correct {F : Type} [Field F] [CharP F 2]
    (naive : matrix_t F → matrix_t F → matrix_t F) (hnaive : naive_lower_correct naive)
    (L B : matrix_t F) (cutoff fuel : ℕ) (hc : 1 ≤ cutoff) (hfuel : L.nrows / cutoff < fuel)
    (hff : L.finite_field.addr = B.finite_field.addr) (hsq : L.nrows = L.ncols)
        (hB : B.nrows = L.ncols)
    (htri : L.lower_triangular) (hdiag : L.diagonal_nonzero) :
    ∃ X, _matrix_trsm_lower_left naive fuel L B cutoff = .ok X ∧ X.same_shape B ∧
      L.is_solution X B :=
  trsm_lower_left_ok naive hnaive cutoff hc fuel L B hfuel hff hsq hB htri hdiag

theorem matrix_trsm_lower_left_correct_witness :
    naive_lower_correct (forward_substitution : matrix_t (ZMod 2) → _ → _) ∧
      example_lower.lower_triangular ∧ example_lower.diagonal_nonzero ∧
      ∃ X, _matrix_trsm_lower_left forward_substitution 3 example_lower example_rhs 1 = .ok X ∧
        X.same_shape example_rhs ∧ example_lower.is_solution X example_rhs :=
  ⟨forward_substitution_correct, example_lower_triangular, example_lower_diagonal,
    matrix_trsm_lower_left_correct forward_substitution forward_substitution_correct
      example_lower example_rhs 1 3 (by decide) (by decide) rfl rfl rfl
      example_lower_triangular example_lower_diagonal⟩

/-- C13: upper-left TRSM correctness. For every cutoff `>= 1`, every square upper triangular
`U` with non-zero diagonal over a field of characteristic 2 and every `B` with as many rows,
if the naive upper solver is correct on the systems it is given (and `matrix_addmul` computes
`C + A * B`), then with fuel for `nrows / cutoff + 1` nested calls `_matrix_trsm_upper_left`
returns, and leaves in `B` a matrix `X` of the same shape with `U * X = B_original`. -/
theorem matrix_trsm_upper_left_correct {F : Type} [Field F] [CharP F 2]
    (naive : matrix_t F → matrix_t F → matrix_t F) (hnaive : naive_upper_correct naive)
    (U B : matrix_t F) (cutoff fuel : ℕ) (hc : 1 ≤ cutoff) (hfuel : U.nrows / cutoff < fuel)
    (hff : U.finite_field.addr = B.finite_field.addr) (hsq : U.nrows = U.ncols)
        (hB : B.nrows = U.ncols)
    (htri : U.upper_triangular) (hdiag : U.diagonal_nonzero) :
    ∃ X, _matrix_trsm_upper_left naive fuel U B cutoff = .ok X ∧ X.same_shape B ∧
      U.is_solution X B :=
  trsm_upper_left_ok naive hnaive cutoff hc fuel U B hfuel hff hsq hB htri hdiag

theorem matrix_trsm_upper_left_correct_witness :
    naive_upper_correct (backward_substitution : matrix_t (ZMod 2) → _ → _) ∧
      example_upper.upper_triangular ∧ example_upper.diagonal_nonzero ∧
      ∃ X, _matrix_trsm_upper_left backward_substitution 3 example_upper example_rhs 1 = .ok X ∧
        X.same_shape example_rhs ∧ example_upper.is_solution X example_rhs :=
  ⟨backward_substitution_correct, example_upper_triangular, example_upper_diagonal,
    matrix_trsm_upper_left_correct backward_substitution backward_substitution_correct
      example_upper example_rhs 1 3 (by decide) (by decide) rfl rfl rfl
      example_upper_triangular example_upper_diagonal⟩

theorem same_matrix_of_solutions {F : Type} (X Y B : matrix_t F) (hX : X.same_shape B)
    (hY : Y.same_shape B)
    (h : ∀ i, i < B.nrows → ∀ j, j < B.ncols → X.entry i j = Y.entry i j) :
    X.same_matrix Y := by
  obtain ⟨hf, hr, hc⟩ := hX
  obtain ⟨hf2, hr2, hc2⟩ := hY
  refine ⟨⟨hf.trans hf2.symm, hr.trans hr2.symm, hc.trans hc2.symm⟩, ?_⟩
  intro i hi j hj
  exact h i (hr2 ▸ hi) j (hc2 ▸ hj)

/-- C14: the lower-left TRSM is cutoff-independent. For an invertible (non-zero diagonal)
square lower triangular `L`, every `B` and all cutoffs `c1, c2 >= 1`, with a naive solver that
is correct on the systems it is given, the runs with `c1` and with `c2` both return, they
produce the identical matrix, and that matrix is the one produced by one call of the naive
solver on `(L, B)`. -/
theorem matrix_trsm_lower_left_cutoff_independent {F : Type} [Field F] [CharP F 2]
    (naive : matrix_t F → matrix_t F → matrix_t F) (hnaive : naive_lower_correct naive)
    (L B : matrix_t F) (c1 c2 fuel1 fuel2 : ℕ) (h1 : 1 ≤ c1) (h2 : 1 ≤ c2)
    (hfuel1 : L.nrows / c1 < fuel1) (hfuel2 : L.nrows / c2 < fuel2)
    (hff : L.finite_field.addr = B.finite_field.addr) (hsq : L.nrows = L.ncols)
        (hB : B.nrows = L.ncols)
    (htri : L.lower_triangular) (hdiag : L.diagonal_nonzero) :
    ∃ X1 X2, _matrix_trsm_lower_left naive fuel1 L B c1 = .ok X1 ∧
      _matrix_trsm_lower_left naive fuel2 L B c2 = .ok X2 ∧
      X1.same_matrix X2 ∧ X1.same_matrix (naive L B) := by
  obtain ⟨X1, hr1, hs1, hsol1⟩ :=
    trsm_lower_left_ok naive hnaive c1 h1 fuel1 L B hfuel1 hff hsq hB htri hdiag
  obtain ⟨X2, hr2, hs2, hsol2⟩ :=
    trsm_lower_left_ok naive hnaive c2 h2 fuel2 L B hfuel2 hff hsq hB htri hdiag
  obtain ⟨hs3, hsol3⟩ := hnaive L B hsq hB htri hdiag
  exact ⟨X1, X2, hr1, hr2,
    same_matrix_of_solutions X1 X2 B hs1 hs2
      (lower_solution_unique L X1 X2 B hsq hB htri hdiag hsol1 hsol2),
    same_matrix_of_solutions X1 (naive L B) B hs1 hs3
      (lower_solution_unique L X1 (naive L B) B hsq hB htri hdiag hsol1 hsol3)⟩

theorem matrix_trsm_lower_left_cutoff_independent_witness :
    ∃ X1 X2, _matrix_trsm_lower_left forward_substitution 3 example_lower example_rhs 1 = .ok X1 ∧
      _matrix_trsm_lower_left forward_substitution 2 example_lower example_rhs 2 = .ok X2 ∧
      X1.same_matrix X2 ∧ X1.same_matrix (forward_substitution example_lower example_rhs) :=
  matrix_trsm_lower_left_cutoff_independent forward_substitution forward_substitution_correct
    example_lower example_rhs 1 2 3 2 (by decide) (by decide) (by decide) (by decide) rfl rfl rfl
    example_lower_triangular example_lower_diagonal

/-- C15: the upper-left TRSM is cutoff-independent. For an invertible (non-zero diagonal)
square upper triangular `U`, every `B` and all cutoffs `c1, c2 >= 1`, with a naive upper solver
that is correct on the systems it is given, the runs with `c1` and with `c2` both return, they
produce the identical matrix, and that matrix is the one produced by one call of the naive
upper solver on `(U, B)`. -/
theorem matrix_trsm_upper_left_cutoff_independent {F : Type} [Field F] [CharP F 2]
    (naive : matrix_t F → matrix_t F → matrix_t F) (hnaive : naive_upper_correct naive)
    (U B : matrix_t F) (c1 c2 fuel1 fuel2 : ℕ) (h1 : 1 ≤ c1) (h2 : 1 ≤ c2)
    (hfuel1 : U.nrows / c1 < fuel1) (hfuel2 : U.nrows / c2 < fuel2)
    (hff : U.finite_field.addr = B.finite_field.addr) (hsq : U.nrows = U.ncols)
        (hB : B.nrows = U.ncols)
    (htri : U.upper_triangular) (hdiag : U.diagonal_nonzero) :
    ∃ X1 X2, _matrix_trsm_upper_left naive fuel1 U B c1 = .ok X1 ∧
      _matrix_trsm_upper_left naive fuel2 U B c2 = .ok X2 ∧
      X1.same_matrix X2 ∧ X1.same_matrix (naive U B) := by
  obtain ⟨X1, hr1, hs1, hsol1⟩ :=
    trsm_upper_left_ok naive hnaive c1 h1 fuel1 U B hfuel1 hff hsq hB htri hdiag
  obtain ⟨X2, hr2, hs2, hsol2⟩ :=
    trsm_upper_left_ok naive hnaive c2 h2 fuel2 U B hfuel2 hff hsq hB htri hdiag
  obtain ⟨hs3, hsol3⟩ := hnaive U B hsq hB htri hdiag
  exact ⟨X1, X2, hr1, hr2,
    same_matrix_of_solutions X1 X2 B hs1 hs2
      (upper_solution_unique U X1 X2 B hsq hB htri hdiag hsol1 hsol2),
    same_matrix_of_solutions X1 (naive U B) B hs1 hs3
      (upper_solution_unique U X1 (naive U B) B hsq hB htri hdiag hsol1 hsol3)⟩

theorem matrix_trsm_upper_left_cutoff_independent_witness :
    ∃ X1 X2, _matrix_trsm_upper_left backward_substitution 3 example_upper example_rhs 1 = .ok X1 ∧
      _matrix_trsm_upper_left backward_substitution 2 example_upper example_rhs 2 = .ok X2 ∧
      X1.same_matrix X2 ∧ X1.same_matrix (backward_substitution example_upper example_rhs) :=
  matrix_trsm_upper_left_cutoff_independent backward_substitution backward_substitution_correct
    example_upper example_rhs 1 2 3 2 (by decide) (by decide) (by decide) (by decide) rfl rfl rfl
    example_upper_triangular example_upper_diagonal

/-! ### Words, bits and the arithmetic of GF(2^e) -/

theorem zmod2_cases (x : ZMod 2) : x = 0 ∨ x = 1 := by
  revert x
  decide

theorem bitZ_zero (i : ℕ) : bitZ 0 i = 0 := by
  simp [bitZ]

theorem bitZ_xor (a b i : ℕ) : bitZ (a ^^^ b) i = bitZ a i + bitZ b i := by
  unfold bitZ
  rw [Nat.testBit_xor]
  cases a.testBit i <;> cases b.testBit i <;> decide

theorem bitZ_xor_sum (n : ℕ) (f : ℕ → ℕ) (i : ℕ) :
    bitZ (xor_sum n f) i = ∑ t in Finset.range n, bitZ (f t) i := by
  induction n with
  | zero => simp [xor_sum, bitZ_zero]
  | succ n ih => rw [xor_sum, bitZ_xor, ih, Finset.sum_range_succ]

theorem eq_of_bitZ_eq (a b : ℕ) (h : ∀ i, bitZ a i = bitZ b i) : a = b := by
  apply Nat.eq_of_testBit_eq
  intro i
  have hi := h i
  unfold bitZ at hi
  cases ha : a.testBit i <;> cases hb : b.testBit i <;> simp [ha, hb] at hi ⊢

theorem bitZ_eq_one_iff (w i : ℕ) : bitZ w i = 1 ↔ w.testBit i = true := by
  unfold bitZ
  cases w.testBit i <;> simp

theorem bitZ_shiftLeft (b s t : ℕ) :
    bitZ (b <<< s) t = if s ≤ t then bitZ b (t - s) else 0 := by
  unfold bitZ
  rw [Nat.testBit_shiftLeft]
  by_cases h : s ≤ t
  · simp [h]
  · simp [h]

theorem bitZ_two_pow (t i : ℕ) : bitZ (2 ^ t) i = if t = i then 1 else 0 := by
  unfold bitZ
  rw [Nat.testBit_two_pow]
  by_cases h : t = i
  · simp [h]
  · simp [h]

theorem bitZ_of_lt (w e i : ℕ) (hw : w < 2 ^ e) (hi : e ≤ i) : bitZ w i = 0 := by
  unfold bitZ
  rw [Nat.testBit_lt_two_pow (lt_of_lt_of_le hw (Nat.pow_le_pow_right (by decide) hi))]
  simp

theorem pow_gen_of_lt (ff : gf2e) (t : ℕ) (ht : t < ff.degree) : ff.pow_gen t = 2 ^ t := by
  induction t with
  | zero => rfl
  | succ t ih =>
    have h1 : ff.pow_gen t = 2 ^ t := ih (by omega)
    have h2 : ff.pow_gen t <<< 1 = 2 ^ (t + 1) := by
      rw [h1, Nat.shiftLeft_eq, pow_one, pow_succ]
    rw [gf2e.pow_gen, h2, Nat.testBit_two_pow]
    simp
    omega

theorem bitZ_ite (p : Prop) [Decidable p] (w i : ℕ) :
    bitZ (if p then w else 0) i = if p then bitZ w i else 0 := by
  split
  · rfl
  · exact bitZ_zero i

theorem bitZ_gather (ff : gf2e) (f : ℕ → ZMod 2) (i : ℕ) :
    bitZ (ff.gather f) i =
      ∑ t in Finset.range (2 * ff.degree - 1), f t * bitZ (ff.pow_gen t) i := by
  unfold gf2e.gather
  rw [bitZ_xor_sum]
  refine Finset.sum_congr rfl fun t _ => ?_
  rw [bitZ_ite]
  rcases zmod2_cases (f t) with h | h
  · rw [h]
    simp
  · rw [h]
    simp

theorem gather_add (ff : gf2e) (f g : ℕ → ZMod 2) :
    ff.gather (fun t => f t + g t) = ff.gather f ^^^ ff.gather g := by
  apply eq_of_bitZ_eq
  intro i
  rw [bitZ_xor, bitZ_gather, bitZ_gather, bitZ_gather, ← Finset.sum_add_distrib]
  refine Finset.sum_congr rfl fun t _ => ?_
  rw [add_mul]

theorem gather_sum (ff : gf2e) (K : ℕ) (f : ℕ → ℕ → ZMod 2) :
    ff.gather (fun t => ∑ k in Finset.range K, f k t) = xor_sum K fun k => ff.gather (f k) := by
  apply eq_of_bitZ_eq
  intro i
  rw [bitZ_gather, bitZ_xor_sum]
  simp only [bitZ_gather, Finset.sum_mul]
  rw [Finset.sum_comm]

theorem gather_congr (ff : gf2e) (f g : ℕ → ZMod 2)
    (h : ∀ t, t < 2 * ff.degree - 1 → f t = g t) : ff.gather f = ff.gather g := by
  apply eq_of_bitZ_eq
  intro i
  rw [bitZ_gather, bitZ_gather]
  refine Finset.sum_congr rfl fun t ht => ?_
  rw [h t (Finset.mem_range.1 ht)]

theorem gather_bits (ff : gf2e) (w : ℕ) (hw : w < 2 ^ ff.degree) :
    ff.gather (fun t => if t < ff.degree then bitZ w t else 0) = w := by
  apply eq_of_bitZ_eq
  intro i
  rw [bitZ_gather]
  have key : ∀ t ∈ Finset.range (2 * ff.degree - 1),
      (if t < ff.degree then bitZ w t else 0) * bitZ (ff.pow_gen t) i =
        if t = i then (if i < ff.degree then bitZ w i else 0) else 0 := by
    intro t _
    by_cases ht : t < ff.degree
    · rw [if_pos ht, pow_gen_of_lt ff t ht, bitZ_two_pow]
      by_cases hti : t = i
      · subst hti
        simp [ht]
      · simp [hti]
    · rw [if_neg ht, zero_mul]
      by_cases hti : t = i
      · subst hti
        simp [ht]
      · simp [hti]
  rw [Finset.sum_congr rfl key, Finset.sum_ite_eq']
  by_cases hi : i < ff.degree
  · rw [if_pos (Finset.mem_range.2 (by omega)), if_pos hi]
  · rw [if_neg hi, bitZ_of_lt w ff.degree i hw (by omega)]
    simp

theorem bitZ_clmul (e a b t : ℕ) (hb : b < 2 ^ e) :
    bitZ (clmul e a b) t =
      ∑ i in Finset.range e, ∑ j in Finset.range e,
        if i + j = t then bitZ a i * bitZ b j else 0 := by
  unfold clmul
  rw [bitZ_xor_sum]
  refine Finset.sum_congr rfl fun i _ => ?_
  rw [bitZ_ite, bitZ_shiftLeft]
  have hl : ∀ x : ZMod 2, (if a.testBit i = true then x else 0) = bitZ a i * x := by
    intro x
    unfold bitZ
    split <;> simp
  rw [hl]
  by_cases hit : i ≤ t
  · rw [if_pos hit]
    by_cases hte : t - i < e
    · rw [Finset.sum_eq_single (t - i)]
      · rw [if_pos (by omega)]
      · intro j _ hj
        have hne : i + j ≠ t := by omega
        rw [if_neg hne]
      · intro h
        exact absurd (Finset.mem_range.2 hte) h
    · rw [bitZ_of_lt b e (t - i) hb (by omega), mul_zero]
      symm
      refine Finset.sum_eq_zero fun j hj => ?_
      have hj2 := Finset.mem_range.1 hj
      have hne : i + j ≠ t := by omega
      rw [if_neg hne]
  · rw [if_neg hit, mul_zero]
    symm
    refine Finset.sum_eq_zero fun j _ => ?_
    have hne : i + j ≠ t := by omega
    rw [if_neg hne]

/-! ### The multiplication pipeline: slice, engine, cling -/

theorem karatsuba_dispatch_ok {n k m : ℕ} (ff : gf2e) (h2 : 2 ≤ ff.degree)
    (h12 : ff.degree ≤ 12) (X : ℕ → mzd n m) (A : ℕ → mzd n k) (B : ℕ → mzd k m) :
    ∃ Y, _mzd_ptr_addmul_karatsuba ff X A B = .ok Y ∧
      ∀ c, Y c = schoolbook ff.degree X A B c := by
  obtain ⟨e, p⟩ := ff
  simp only at h2 h12 ⊢
  interval_cases e
  · exact ⟨_, rfl, fun c => by
      rw [karatsuba2_eq_run]; exact scheduleCheck_sound 2 schedule2 schedule2_check _ X A B c⟩
  · exact ⟨_, rfl, fun c => by
      rw [karatsuba3_eq_run]; exact scheduleCheck_sound 3 schedule3 schedule3_check _ X A B c⟩
  · exact ⟨_, rfl, fun c => by
      rw [karatsuba4_eq_run]; exact scheduleCheck_sound 4 schedule4 schedule4_check _ X A B c⟩
  · exact ⟨_, rfl, fun c => by
      rw [karatsuba5_eq_run]; exact scheduleCheck_sound 5 schedule5 schedule5_check _ X A B c⟩
  · exact ⟨_, rfl, fun c => by
      rw [karatsuba6_eq_run]; exact scheduleCheck_sound 6 schedule6 schedule6_check _ X A B c⟩
  · exact ⟨_, rfl, fun c => by
      rw [karatsuba7_eq_run]; exact scheduleCheck_sound 7 schedule7 schedule7_check _ X A B c⟩
  · exact ⟨_, rfl, fun c => by
      rw [karatsuba8_eq_run]; exact scheduleCheck_sound 8 schedule8 schedule8_check _ X A B c⟩
  · exact ⟨_, rfl, fun c => by
      rw [karatsuba9_eq_run]; exact scheduleCheck_sound 9 schedule9 schedule9_check _ X A B c⟩
  · exact ⟨_, rfl, fun c => by
      rw [karatsuba10_eq_run]
      exact scheduleCheck_sound 10 schedule10 schedule10_check _ X A B c⟩
  · exact ⟨_, rfl, fun c => by
      rw [karatsuba11_eq_run]
      exact scheduleCheck_sound 11 schedule11 schedule11_check _ X A B c⟩
  · exact ⟨_, rfl, fun c => by
      rw [karatsuba12_eq_run]
      exact scheduleCheck_sound 12 schedule12 schedule12_check _ X A B c⟩

theorem to_mzd_mul_apply (n k m : ℕ) (P Q : ℕ → ℕ → ZMod 2) (r : Fin n) (c : Fin m) :
    (to_mzd n k P * to_mzd k m Q) r c = ∑ x in Finset.range k, P r x * Q x c := by
  rw [Matrix.mul_apply, ← Fin.sum_univ_eq_sum_range (fun x => P r x * Q x c) k]
  rfl

theorem schoolbook_apply {n k m : ℕ} (e : ℕ) (X P Q : ℕ → ℕ → ℕ → ZMod 2) (t : ℕ) (r : Fin n)
    (c : Fin m) :
    schoolbook e (fun t => to_mzd n m (X t)) (fun t => to_mzd n k (P t))
        (fun t => to_mzd k m (Q t)) t r c =
      X t r c + ∑ i in Finset.range e, ∑ j in Finset.range e,
        if i + j = t then ∑ x in Finset.range k, P i r x * Q j x c else 0 := by
  unfold schoolbook
  rw [Matrix.add_apply, Finset.sum_apply, Finset.sum_apply]
  congr 1
  refine Finset.sum_congr rfl fun i _ => ?_
  rw [Finset.sum_apply, Finset.sum_apply]
  refine Finset.sum_congr rfl fun j _ => ?_
  split
  · rw [to_mzd_mul_apply]
  · rfl

theorem slice_mul_karatsuba_ok (C A B : mzd_slice_t) (h2 : 2 ≤ A.finite_field.degree)
    (h12 : A.finite_field.degree ≤ 12) :
    ∃ R, _mzd_slice_mul_karatsuba (some C) A B = .ok R ∧ R.finite_field = C.finite_field ∧
      R.nrows = C.nrows ∧ R.ncols = C.ncols ∧
      ∀ t r c, r < A.nrows → c < B.ncols →
        R.x t r c = C.x t r c +
          ∑ i in Finset.range A.finite_field.degree, ∑ j in Finset.range A.finite_field.degree,
            if i + j = t then ∑ x in Finset.range A.ncols, A.x i r x * B.x j x c else 0 := by
  obtain ⟨Y, hY, hsb⟩ := karatsuba_dispatch_ok A.finite_field h2 h12
    (fun t => to_mzd A.nrows B.ncols (C.x t)) (fun t => to_mzd A.nrows A.ncols (A.x t))
    (fun t => to_mzd A.ncols B.ncols (B.x t))
  simp only [_mzd_slice_mul_karatsuba, hY]
  refine ⟨_, rfl, rfl, rfl, rfl, ?_⟩
  intro t r c hr hc
  simp only [dif_pos (And.intro hr hc)]
  rw [hsb t, schoolbook_apply]

theorem slice_mul_karatsuba_none (A B : mzd_slice_t) :
    _mzd_slice_mul_karatsuba none A B =
      _mzd_slice_mul_karatsuba (some (mzd_slice_init A.finite_field A.nrows B.ncols)) A B :=
  rfl

theorem gather_zero (ff : gf2e) : ff.gather (fun _ => 0) = 0 := by
  apply eq_of_bitZ_eq
  intro i
  rw [bitZ_gather, bitZ_zero]
  simp

/-- The element at `(r, c)` gathered from the accumulator after the engine has run on the
slices of `A` and `B`: what the accumulator held, plus the element of the product. -/
theorem pipeline_entry (A B : mzed_t) (hd : A.ncols = B.nrows)
    (hf : A.finite_field = B.finite_field) (hB : B.well_formed) (acc : ℕ → ZMod 2) (r c : ℕ)
    (hr : r < A.nrows) (hc : c < B.ncols) :
    A.finite_field.gather (fun t => acc t +
      ∑ i in Finset.range A.finite_field.degree, ∑ j in Finset.range A.finite_field.degree,
        if i + j = t then
          ∑ x in Finset.range A.ncols,
            (mzed_slice_write (mzd_slice_init A.finite_field A.nrows A.ncols) A).x i r x *
              (mzed_slice_write (mzd_slice_init B.finite_field B.nrows B.ncols) B).x j x c
        else 0) =
      A.finite_field.gather acc ^^^ mzed_mul_reference A B r c := by
  rw [gather_add]
  congr 1
  unfold mzed_mul_reference gf2e.mul
  rw [← gather_sum]
  apply gather_congr
  intro t _
  have hcl : ∀ x, x < A.ncols →
      bitZ (clmul A.finite_field.degree (A.entry r x) (B.entry x c)) t =
        ∑ i in Finset.range A.finite_field.degree, ∑ j in Finset.range A.finite_field.degree,
          if i + j = t then bitZ (A.entry r x) i * bitZ (B.entry x c) j else 0 := by
    intro x hx
    apply bitZ_clmul
    rw [hf]
    exact hB x (by omega) c hc
  rw [Finset.sum_congr rfl fun x hx => hcl x (Finset.mem_range.1 hx)]
  conv_rhs => rw [Finset.sum_comm]
  refine Finset.sum_congr rfl fun i hi => ?_
  conv_rhs => rw [Finset.sum_comm]
  refine Finset.sum_congr rfl fun j hj => ?_
  have hi2 := Finset.mem_range.1 hi
  have hj2 := Finset.mem_range.1 hj
  by_cases hij : i + j = t
  · simp only [if_pos hij]
    refine Finset.sum_congr rfl fun x hx => ?_
    have hx2 := Finset.mem_range.1 hx
    simp only [mzed_slice_write, mzd_slice_init]
    rw [if_pos ⟨hi2, hr, hx2⟩, if_pos ⟨by rw [← hf]; exact hj2, by omega, hc⟩]
  · simp only [if_neg hij]
    simp

theorem mzed_mul_karatsuba_none_ok (A B : mzed_t) (hd : A.ncols = B.nrows)
    (hf : A.finite_field = B.finite_field) (h2 : 2 ≤ A.finite_field.degree)
    (h12 : A.finite_field.degree ≤ 12) (hB : B.well_formed) :
    ∃ R, _mzed_mul_karatsuba none A B = .ok R ∧
      R.is_matrix A.finite_field A.nrows B.ncols (mzed_mul_reference A B) := by
  obtain ⟨R, hR, hRf, hRr, hRc, hRx⟩ := slice_mul_karatsuba_ok
    (mzd_slice_init A.finite_field A.nrows B.ncols)
    (mzed_slice_write (mzd_slice_init A.finite_field A.nrows A.ncols) A)
    (mzed_slice_write (mzd_slice_init B.finite_field B.nrows B.ncols) B) h2 h12
  have hrun : _mzed_mul_karatsuba none A B =
      .ok (mzed_cling_write (mzed_init R.finite_field R.nrows R.ncols) R) := by
    simp only [_mzed_mul_karatsuba, mzed_slice, bind, Except.bind, pure, Except.pure,
      slice_mul_karatsuba_none]
    simp only [mzed_slice_write, mzd_slice_init] at hR ⊢
    rw [hR]
    rfl
  refine ⟨_, hrun, ?_, ?_, ?_, ?_⟩
  · exact hRf
  · exact hRr
  · exact hRc
  · intro r hr c hc
    simp only [mzed_cling_write, mzed_init]
    rw [if_pos ⟨by rw [hRr]; exact hr, by rw [hRc]; exact hc⟩, hRf]
    have hfun : (fun t => R.x t r c) = fun t =>
        (mzd_slice_init A.finite_field A.nrows B.ncols).x t r c +
          ∑ i in Finset.range A.finite_field.degree,
            ∑ j in Finset.range A.finite_field.degree,
              if i + j = t then
                ∑ x in Finset.range A.ncols,
                  (mzed_slice_write (mzd_slice_init A.finite_field A.nrows A.ncols) A).x i r x *
                    (mzed_slice_write (mzd_slice_init B.finite_field B.nrows B.ncols) B).x j x c
              else 0 := by
      funext t
      exact hRx t r c hr hc
    rw [Nat.zero_xor]
    show A.finite_field.gather (fun t => R.x t r c) = _
    rw [hfun, pipeline_entry A B hd hf hB _ r c hr hc]
    simp only [mzd_slice_init]
    rw [gather_zero, Nat.zero_xor]

theorem mzed_mul_karatsuba_some_ok (C A B : mzed_t) (hd : A.ncols = B.nrows)
    (hf : A.finite_field = B.finite_field) (hCf : C.finite_field = A.finite_field)
    (hCr : C.nrows = A.nrows) (hCc : C.ncols = B.ncols) (h2 : 2 ≤ A.finite_field.degree)
    (h12 : A.finite_field.degree ≤ 12) (hB : B.well_formed) (hC : C.well_formed) :
    ∃ R, _mzed_mul_karatsuba (some C) A B = .ok R ∧
      R.is_matrix A.finite_field A.nrows B.ncols
        (fun r c => C.entry r c ^^^ (C.entry r c ^^^ mzed_mul_reference A B r c)) := by
  obtain ⟨R, hR, hRf, hRr, hRc, hRx⟩ := slice_mul_karatsuba_ok
    (mzed_slice_write (mzd_slice_init C.finite_field C.nrows C.ncols) C)
    (mzed_slice_write (mzd_slice_init A.finite_field A.nrows A.ncols) A)
    (mzed_slice_write (mzd_slice_init B.finite_field B.nrows B.ncols) B) h2 h12
  have hRf2 : R.finite_field = C.finite_field := hRf
  have hRr2 : R.nrows = C.nrows := hRr
  have hRc2 : R.ncols = C.ncols := hRc
  have hrun : _mzed_mul_karatsuba (some C) A B = .ok (mzed_cling_write C R) := by
    simp only [_mzed_mul_karatsuba, mzed_slice, bind, Except.bind, pure, Except.pure,
      Except.map]
    simp only [mzed_slice_write, mzd_slice_init] at hR ⊢
    rw [hR]
    simp only [mzed_cling]
    rw [if_neg (by
      rw [hRf2, hRr2, hRc2]
      simp)]
  refine ⟨_, hrun, ?_, ?_, ?_, ?_⟩
  · exact hCf
  · exact hCr
  · exact hCc
  · intro r hr c hc
    simp only [mzed_cling_write]
    rw [if_pos ⟨by rw [hRr2, hCr]; exact hr, by rw [hRc2, hCc]; exact hc⟩, hRf2, hCf]
    have hfun : (fun t => R.x t r c) = fun t =>
        (mzed_slice_write (mzd_slice_init C.finite_field C.nrows C.ncols) C).x t r c +
          ∑ i in Finset.range A.finite_field.degree,
            ∑ j in Finset.range A.finite_field.degree,
              if i + j = t then
                ∑ x in Finset.range A.ncols,
                  (mzed_slice_write (mzd_slice_init A.finite_field A.nrows A.ncols) A).x i r x *
                    (mzed_slice_write (mzd_slice_init B.finite_field B.nrows B.ncols) B).x j x c
              else 0 := by
      funext t
      exact hRx t r c hr hc
    congr 1
    show A.finite_field.gather (fun t => R.x t r c) = _
    rw [hfun, pipeline_entry A B hd hf hB _ r c hr hc]
    congr 1
    have hbits : (fun t =>
        (mzed_slice_write (mzd_slice_init C.finite_field C.nrows C.ncols) C).x t r c) =
        fun t => if t < A.finite_field.degree then bitZ (C.entry r c) t else 0 := by
      funext t
      simp only [mzed_slice_write, mzd_slice_init, hCf]
      by_cases ht : t < A.finite_field.degree
      · rw [if_pos ⟨ht, by rw [hCr]; exact hr, by rw [hCc]; exact hc⟩, if_pos ht]
      · rw [if_neg (fun h => ht h.1), if_neg ht]
    rw [hbits]
    apply gather_bits
    rw [← hCf]
    exact hC r (by rw [hCr]; exact hr) c (by rw [hCc]; exact hc)

theorem is_matrix_congr (X : mzed_t) (ff : gf2e) (n m : ℕ) (E E2 : ℕ → ℕ → ℕ)
    (h : X.is_matrix ff n m E) (hE : ∀ r, r < n → ∀ c, c < m → E r c = E2 r c) :
    X.is_matrix ff n m E2 :=
  ⟨h.1, h.2.1, h.2.2.1, fun r hr c hc => (h.2.2.2 r hr c hc).trans (hE r hr c hc)⟩

theorem mzed_set_ui_zero_entry (C : mzed_t) (r c : ℕ) (hr : r < C.nrows) (hc : c < C.ncols) :
    (mzed_set_ui C 0).entry r c = 0 := by
  simp only [mzed_set_ui]
  rw [if_pos ⟨hr, hc⟩]
  split <;> rfl

theorem mzed_mul_karatsuba_some_product (C A B : mzed_t) (hd : A.ncols = B.nrows)
    (hf : A.finite_field = B.finite_field) (hCf : C.finite_field = A.finite_field)
    (hCr : C.nrows = A.nrows) (hCc : C.ncols = B.ncols) (h2 : 2 ≤ A.finite_field.degree)
    (h12 : A.finite_field.degree ≤ 12) (hB : B.well_formed) :
    ∃ R, mzed_mul_karatsuba (some C) A B = .ok R ∧
      R.is_matrix A.finite_field A.nrows B.ncols (mzed_mul_reference A B) := by
  have hcheck1 : ¬ (A.ncols ≠ B.nrows ∨ A.finite_field.addr ≠ B.finite_field.addr) := by
    simp [hd, hf]
  have hcheck2 : ¬ (C.finite_field.addr ≠ A.finite_field.addr ∨ C.nrows ≠ A.nrows ∨
      C.ncols ≠ B.ncols) := by
    simp [hCf, hCr, hCc]
  obtain ⟨R, hR, hm⟩ := mzed_mul_karatsuba_some_ok (mzed_set_ui C 0) A B hd hf hCf hCr hCc
    h2 h12 hB (by
      intro r hr c hc
      rw [mzed_set_ui_zero_entry C r c hr hc]
      exact Nat.two_pow_pos _)
  refine ⟨R, ?_, is_matrix_congr R _ _ _ _ _ hm ?_⟩
  · simp only [mzed_mul_karatsuba]
    rw [if_neg hcheck1, if_neg hcheck2]
    exact hR
  · intro r hr c hc
    show (mzed_set_ui C 0).entry r c ^^^
      ((mzed_set_ui C 0).entry r c ^^^ mzed_mul_reference A B r c) = _
    rw [mzed_set_ui_zero_entry C r c (by rw [hCr]; exact hr) (by rw [hCc]; exact hc),
      Nat.zero_xor, Nat.zero_xor]

theorem mzed_mul_karatsuba_null_product (A B : mzed_t) (hd : A.ncols = B.nrows)
    (hf : A.finite_field = B.finite_field) (h2 : 2 ≤ A.finite_field.degree)
    (h12 : A.finite_field.degree ≤ 12) (hB : B.well_formed) :
    ∃ R, mzed_mul_karatsuba none A B = .ok R ∧
      R.is_matrix A.finite_field A.nrows B.ncols (mzed_mul_reference A B) := by
  have hcheck1 : ¬ (A.ncols ≠ B.nrows ∨ A.finite_field.addr ≠ B.finite_field.addr) := by
    simp [hd, hf]
  obtain ⟨R, hR, hm⟩ := mzed_mul_karatsuba_none_ok A B hd hf h2 h12 hB
  refine ⟨R, ?_, hm⟩
  simp only [mzed_mul_karatsuba]
  rw [if_neg hcheck1]
  exact hR

theorem example_packed_well_formed : example_packed.well_formed := by
  intro r _ c _
  simp only [example_packed, example_gf4]
  split_ifs <;> decide

theorem example_packed_other_well_formed : example_packed_other.well_formed := by
  intro r _ c _
  simp only [example_packed_other, example_gf4]
  split_ifs <;> decide

/-- C16: end-to-end product. For every degree `e` in `2..12` and packed matrices `A` (n x k)
and `B` (k x m) over the same GF(2^e), the elements being words of `e` bits (which is used for
`B` only),
`mzed_mul_karatsuba(NULL, A, B)` returns the n x m matrix over that field whose element
`(r, c)` is the element of the matrix product `A * B` over GF(2^e): slice puts bit `i` in plane
`i`, the engine runs the degree-`e` schedule and cling reduces the unreduced planes modulo the
minimal polynomial. -/
theorem mzed_mul_karatsuba_product (A B : mzed_t) (hd : A.ncols = B.nrows)
    (hf : A.finite_field = B.finite_field) (h2 : 2 ≤ A.finite_field.degree)
    (h12 : A.finite_field.degree ≤ 12) (hB : B.well_formed) :
    ∃ R, mzed_mul_karatsuba none A B = .ok R ∧
      R.is_matrix A.finite_field A.nrows B.ncols (mzed_mul_reference A B) :=
  mzed_mul_karatsuba_null_product A B hd hf h2 h12 hB

theorem mzed_mul_karatsuba_product_witness :
    example_packed.well_formed ∧
      ∃ R, mzed_mul_karatsuba none example_packed example_packed = .ok R ∧
        R.is_matrix example_gf4 2 2 (mzed_mul_reference example_packed example_packed) :=
  ⟨example_packed_well_formed,
    mzed_mul_karatsuba_product example_packed example_packed rfl rfl (by decide) (by decide)
      example_packed_well_formed⟩

/-- C18: overwriting product. For compatible `A`, `B` over a field of degree `2..12` and any
two pre-allocated result matrices `C1`, `C2` of the right shape and field, whatever their
prior contents, `mzed_mul_karatsuba(C1, A, B)`, `mzed_mul_karatsuba(C2, A, B)` and
`mzed_mul_karatsuba(NULL, A, B)` all return the same matrix, the product `A * B`: the prior
contents of `C` do not influence the result. -/
theorem mzed_mul_karatsuba_overwrites (C1 C2 A B : mzed_t) (hd : A.ncols = B.nrows)
    (hf : A.finite_field = B.finite_field)
    (hC1 : C1.finite_field = A.finite_field ∧ C1.nrows = A.nrows ∧ C1.ncols = B.ncols)
    (hC2 : C2.finite_field = A.finite_field ∧ C2.nrows = A.nrows ∧ C2.ncols = B.ncols)
    (h2 : 2 ≤ A.finite_field.degree) (h12 : A.finite_field.degree ≤ 12)
    (hB : B.well_formed) :
    ∃ R1 R2 R0, mzed_mul_karatsuba (some C1) A B = .ok R1 ∧
      mzed_mul_karatsuba (some C2) A B = .ok R2 ∧ mzed_mul_karatsuba none A B = .ok R0 ∧
      R1.is_matrix A.finite_field A.nrows B.ncols R0.entry ∧
      R2.is_matrix A.finite_field A.nrows B.ncols R0.entry ∧
      R0.is_matrix A.finite_field A.nrows B.ncols (mzed_mul_reference A B) := by
  obtain ⟨R1, hR1, hm1⟩ :=
    mzed_mul_karatsuba_some_product C1 A B hd hf hC1.1 hC1.2.1 hC1.2.2 h2 h12 hB
  obtain ⟨R2, hR2, hm2⟩ :=
    mzed_mul_karatsuba_some_product C2 A B hd hf hC2.1 hC2.2.1 hC2.2.2 h2 h12 hB
  obtain ⟨R0, hR0, hm0⟩ := mzed_mul_karatsuba_null_product A B hd hf h2 h12 hB
  exact ⟨R1, R2, R0, hR1, hR2, hR0,
    is_matrix_congr R1 _ _ _ _ _ hm1 fun r hr c hc => (hm0.2.2.2 r hr c hc).symm,
    is_matrix_congr R2 _ _ _ _ _ hm2 fun r hr c hc => (hm0.2.2.2 r hr c hc).symm, hm0⟩

theorem mzed_mul_karatsuba_overwrites_witness :
    ∃ R1 R2 R0, mzed_mul_karatsuba (some example_packed) example_packed example_packed = .ok R1 ∧
      mzed_mul_karatsuba (some example_packed_other) example_packed example_packed = .ok R2 ∧
      mzed_mul_karatsuba none example_packed example_packed = .ok R0 ∧
      R1.is_matrix example_gf4 2 2 R0.entry ∧ R2.is_matrix example_gf4 2 2 R0.entry ∧
      R0.is_matrix example_gf4 2 2 (mzed_mul_reference example_packed example_packed) :=
  mzed_mul_karatsuba_overwrites example_packed example_packed_other example_packed
    example_packed rfl rfl ⟨rfl, rfl, rfl⟩ ⟨rfl, rfl, rfl⟩ (by decide) (by decide)
    example_packed_well_formed

/-- C19: round trip. For every field degree `e` and every packed matrix `A` over GF(2^e)
(elements words of `e` bits), `mzed_slice(NULL, A)` and then `mzed_cling(NULL, .)` return, and
the result has the field and shape of `A` and equals `A` element for element. `A` is passed
by value (the parameters are const-qualified), so it is unchanged by the two calls. -/
theorem mzed_cling_slice_round_trip (A : mzed_t) (hA : A.well_formed) :
    ∃ S R, mzed_slice none A = .ok S ∧ mzed_cling none S = .ok R ∧
      R.is_matrix A.finite_field A.nrows A.ncols A.entry := by
  refine ⟨_, _, rfl, rfl, rfl, rfl, rfl, ?_⟩
  intro r hr c hc
  simp only [mzed_cling_write, mzed_init, mzed_slice_write, mzd_slice_init]
  rw [if_pos ⟨hr, hc⟩]
  have hbits : (fun t => if t < A.finite_field.degree ∧ r < A.nrows ∧ c < A.ncols then
      bitZ (A.entry r c) t else 0) =
      fun t => if t < A.finite_field.degree then bitZ (A.entry r c) t else 0 := by
    funext t
    by_cases ht : t < A.finite_field.degree
    · rw [if_pos ⟨ht, hr, hc⟩, if_pos ht]
    · rw [if_neg (fun h => ht h.1), if_neg ht]
  rw [hbits, Nat.zero_xor]
  exact gather_bits A.finite_field (A.entry r c) (hA r hr c hc)

theorem mzed_cling_slice_round_trip_witness :
    example_packed.well_formed ∧
      ∃ S R, mzed_slice none example_packed = .ok S ∧ mzed_cling none S = .ok R ∧
        R.is_matrix example_gf4 2 2 example_packed.entry :=
  ⟨example_packed_well_formed,
    mzed_cling_slice_round_trip example_packed example_packed_well_formed⟩

/-! ### Sanity of the reference arithmetic -/

theorem example_gf4_pow_gen : example_gf4.pow_gen 2 = 3 ∧ example_gf4.pow_gen 3 = 1 := by
  decide

theorem example_gf4_mul :
    example_gf4.mul 2 2 = 3 ∧ example_gf4.mul 2 3 = 1 ∧ example_gf4.mul 3 3 = 2 ∧
      example_gf4.mul 1 3 = 3 := by
  decide!

theorem example_gf256_mul :
    gf2e.mul ⟨8, 283, 0⟩ 83 202 = 1 ∧ gf2e.mul ⟨8, 283, 0⟩ 87 131 = 193 := by
  decide!

/-! ### Number of Boolean matrix multiplications of every schedule -/

/-- The counted copy of the degree-2 schedule leaves the planes of the uncounted embedding and
counts 3 Boolean matrix multiplications, for all operands. -/
theorem karatsuba2_traced_eq {n k m : ℕ} (ff : gf2e) (X : ℕ → mzd n m) (A : ℕ → mzd n k)
    (B : ℕ → mzd k m) :
    _mzd_ptr_addmul_karatsuba2_traced ff X A B
      = (_mzd_ptr_addmul_karatsuba2 ff X A B, 3) := by
  simp only [_mzd_ptr_addmul_karatsuba2_traced, _mzd_ptr_addmul_karatsuba2,
    _mzd_ptr_add_to_all_traced, mzd_mul_traced, mzd_addmul_traced]

/-- The counted copy of the degree-3 schedule leaves the planes of the uncounted embedding and
counts 6 Boolean matrix multiplications, for all operands. -/
theorem karatsuba3_traced_eq {n k m : ℕ} (ff : gf2e) (X : ℕ → mzd n m) (A : ℕ → mzd n k)
    (B : ℕ → mzd k m) :
    _mzd_ptr_addmul_karatsuba3_traced ff X A B
      = (_mzd_ptr_addmul_karatsuba3 ff X A B, 6) := by
  simp only [_mzd_ptr_addmul_karatsuba3_traced, _mzd_ptr_addmul_karatsuba3,
    _mzd_ptr_add_to_all_traced, mzd_mul_traced]

/-- The counted copy of the degree-4 schedule leaves the planes of the uncounted embedding and
counts 9 Boolean matrix multiplications, for all operands. -/
theorem karatsuba4_traced_eq {n k m : ℕ} (ff : gf2e) (X : ℕ → mzd n m) (A : ℕ → mzd n k)
    (B : ℕ → mzd k m) :
    _mzd_ptr_addmul_karatsuba4_traced ff X A B
      = (_mzd_ptr_addmul_karatsuba4 ff X A B, 9) := by
  simp only [_mzd_ptr_addmul_karatsuba4_traced, _mzd_ptr_addmul_karatsuba4,
    _mzd_ptr_add_to_all_traced, mzd_mul_traced]

/-- The counted copy of the degree-5 schedule leaves the planes of the uncounted embedding and
counts 13 Boolean matrix multiplications, for all operands. -/
theorem karatsuba5_traced_eq {n k m : ℕ} (ff : gf2e) (X : ℕ → mzd n m) (A : ℕ → mzd n k)
    (B : ℕ → mzd k m) :
    _mzd_ptr_addmul_karatsuba5_traced ff X A B
      = (_mzd_ptr_addmul_karatsuba5 ff X A B, 13) := by
  simp only [_mzd_ptr_addmul_karatsuba5_traced, _mzd_ptr_addmul_karatsuba5,
    _mzd_ptr_add_to_all_traced, mzd_mul_traced]

/-- The counted copy of the degree-6 schedule leaves the planes of the uncounted embedding and
counts 17 Boolean matrix multiplications, for all operands. -/
theorem karatsuba6_traced_eq {n k m : ℕ} (ff : gf2e) (X : ℕ → mzd n m) (A : ℕ → mzd n k)
    (B : ℕ → mzd k m) :
    _mzd_ptr_addmul_karatsuba6_traced ff X A B
      = (_mzd_ptr_addmul_karatsuba6 ff X A B, 17) := by
  simp only [_mzd_ptr_addmul_karatsuba6_traced, _mzd_ptr_addmul_karatsuba6,
    _mzd_ptr_add_to_all_traced, mzd_mul_traced]

/-- The counted copy of the degree-7 schedule leaves the planes of the uncounted embedding and
counts 22 Boolean matrix multiplications, for all operands. -/
theorem karatsuba7_traced_eq {n k m : ℕ} (ff : gf2e) (X : ℕ → mzd n m) (A : ℕ → mzd n k)
    (B : ℕ → mzd k m) :
    _mzd_ptr_addmul_karatsuba7_traced ff X A B
      = (_mzd_ptr_addmul_karatsuba7 ff X A B, 22) := by
  simp only [_mzd_ptr_addmul_karatsuba7_traced, _mzd_ptr_addmul_karatsuba7,
    _mzd_ptr_add_to_all_traced, mzd_mul_traced]

/-- The counted copy of the degree-8 schedule leaves the planes of the uncounted embedding and
counts 27 Boolean matrix multiplications, for all operands. -/
theorem karatsuba8_traced_eq {n k m : ℕ} (ff : gf2e) (X : ℕ → mzd n m) (A : ℕ → mzd n k)
    (B : ℕ → mzd k m) :
    _mzd_ptr_addmul_karatsuba8_traced ff X A B
      = (_mzd_ptr_addmul_karatsuba8 ff X A B, 27) := by
  simp only [_mzd_ptr_addmul_karatsuba8_traced, _mzd_ptr_addmul_karatsuba8,
    _mzd_ptr_add_to_all_traced, mzd_mul_traced]

/-- The counted copy of the degree-9 schedule leaves the planes of the uncounted embedding and
counts 31 Boolean matrix multiplications, for all operands. -/
theorem karatsuba9_traced_eq {n k m : ℕ} (ff : gf2e) (X : ℕ → mzd n m) (A : ℕ → mzd n k)
    (B : ℕ → mzd k m) :
    _mzd_ptr_addmul_karatsuba9_traced ff X A B
      = (_mzd_ptr_addmul_karatsuba9 ff X A B, 31) := by
  simp only [_mzd_ptr_addmul_karatsuba9_traced, _mzd_ptr_addmul_karatsuba9,
    _mzd_ptr_add_to_all_traced, mzd_mul_traced]

/-- The counted copy of the degree-10 schedule leaves the planes of the uncounted embedding and
counts 36 Boolean matrix multiplications, for all operands. -/
theorem karatsuba10_traced_eq {n k m : ℕ} (ff : gf2e) (X : ℕ → mzd n m) (A : ℕ → mzd n k)
    (B : ℕ → mzd k m) :
    _mzd_ptr_addmul_karatsuba10_traced ff X A B
      = (_mzd_ptr_addmul_karatsuba10 ff X A B, 36) := by
  simp only [_mzd_ptr_addmul_karatsuba10_traced, _mzd_ptr_addmul_karatsuba10,
    _mzd_ptr_add_to_all_traced, mzd_mul_traced]

/-- The counted copy of the degree-11 schedule leaves the planes of the uncounted embedding and
counts 40 Boolean matrix multiplications, for all operands. -/
theorem karatsuba11_traced_eq {n k m : ℕ} (ff : gf2e) (X : ℕ → mzd n m) (A : ℕ → mzd n k)
    (B : ℕ → mzd k m) :
    _mzd_ptr_addmul_karatsuba11_traced ff X A B
      = (_mzd_ptr_addmul_karatsuba11 ff X A B, 40) := by
  simp only [_mzd_ptr_addmul_karatsuba11_traced, _mzd_ptr_addmul_karatsuba11,
    _mzd_ptr_add_to_all_traced, mzd_mul_traced]

/-- The counted copy of the degree-12 schedule leaves the planes of the uncounted embedding and
counts 45 Boolean matrix multiplications, for all operands. -/
theorem karatsuba12_traced_eq {n k m : ℕ} (ff : gf2e) (X : ℕ → mzd n m) (A : ℕ → mzd n k)
    (B : ℕ → mzd k m) :
    _mzd_ptr_addmul_karatsuba12_traced ff X A B
      = (_mzd_ptr_addmul_karatsuba12 ff X A B, 45) := by
  simp only [_mzd_ptr_addmul_karatsuba12_traced, _mzd_ptr_addmul_karatsuba12,
    _mzd_ptr_add_to_all_traced, mzd_mul_traced]


/-- C21, evaluated on the code: for all operands one invocation of `_mzd_ptr_addmul_karatsuba6`
performs exactly 17 Boolean matrix multiplications (`mzd_mul` calls), so never the 22 that its
header comment announces. -/
theorem karatsuba6_mul_count {n k m : ℕ} (ff : gf2e) (X : ℕ → mzd n m) (A : ℕ → mzd n k)
    (B : ℕ → mzd k m) :
    (_mzd_ptr_addmul_karatsuba6_traced ff X A B).2 = 17
      ∧ (_mzd_ptr_addmul_karatsuba6_traced ff X A B).2 ≠ 22 := by
  simp only [karatsuba6_traced_eq]
  decide

/-- C22: for all operands the number of Boolean matrix multiplications (`mzd_mul` and
`mzd_addmul` calls) of one invocation is exactly 3 for e = 2, 22 for e = 7, 27 for e = 8, 31 for
e = 9, 36 for e = 10, 40 for e = 11 and 45 for e = 12. -/
theorem karatsuba_documented_mul_counts {n k m : ℕ} (ff : gf2e) (X : ℕ → mzd n m)
    (A : ℕ → mzd n k) (B : ℕ → mzd k m) :
    (_mzd_ptr_addmul_karatsuba2_traced ff X A B).2 = 3
      ∧ (_mzd_ptr_addmul_karatsuba7_traced ff X A B).2 = 22
      ∧ (_mzd_ptr_addmul_karatsuba8_traced ff X A B).2 = 27
      ∧ (_mzd_ptr_addmul_karatsuba9_traced ff X A B).2 = 31
      ∧ (_mzd_ptr_addmul_karatsuba10_traced ff X A B).2 = 36
      ∧ (_mzd_ptr_addmul_karatsuba11_traced ff X A B).2 = 40
      ∧ (_mzd_ptr_addmul_karatsuba12_traced ff X A B).2 = 45 := by
  rw [karatsuba2_traced_eq, karatsuba7_traced_eq, karatsuba8_traced_eq, karatsuba9_traced_eq,
    karatsuba10_traced_eq, karatsuba11_traced_eq, karatsuba12_traced_eq]
  exact ⟨rfl, rfl, rfl, rfl, rfl, rfl, rfl⟩

/-- C23: for every degree e in 2..12 and all operands, the number of Boolean matrix
multiplications performed by `_mzd_ptr_addmul_karatsuba<e>` is strictly less than e * e. -/
theorem karatsuba_mul_count_lt_schoolbook {n k m : ℕ} (ff : gf2e) (X : ℕ → mzd n m)
    (A : ℕ → mzd n k) (B : ℕ → mzd k m) :
    (_mzd_ptr_addmul_karatsuba2_traced ff X A B).2 < 2 * 2
      ∧ (_mzd_ptr_addmul_karatsuba3_traced ff X A B).2 < 3 * 3
      ∧ (_mzd_ptr_addmul_karatsuba4_traced ff X A B).2 < 4 * 4
      ∧ (_mzd_ptr_addmul_karatsuba5_traced ff X A B).2 < 5 * 5
      ∧ (_mzd_ptr_addmul_karatsuba6_traced ff X A B).2 < 6 * 6
      ∧ (_mzd_ptr_addmul_karatsuba7_traced ff X A B).2 < 7 * 7
      ∧ (_mzd_ptr_addmul_karatsuba8_traced ff X A B).2 < 8 * 8
      ∧ (_mzd_ptr_addmul_karatsuba9_traced ff X A B).2 < 9 * 9
      ∧ (_mzd_ptr_addmul_karatsuba10_traced ff X A B).2 < 10 * 10
      ∧ (_mzd_ptr_addmul_karatsuba11_traced ff X A B).2 < 11 * 11
      ∧ (_mzd_ptr_addmul_karatsuba12_traced ff X A B).2 < 12 * 12 := by
  simp only [karatsuba2_traced_eq, karatsuba3_traced_eq, karatsuba4_traced_eq,
    karatsuba5_traced_eq, karatsuba6_traced_eq, karatsuba7_traced_eq, karatsuba8_traced_eq,
    karatsuba9_traced_eq, karatsuba10_traced_eq, karatsuba11_traced_eq, karatsuba12_traced_eq]
  decide


/-! ### Planes touched by the schedules -/

theorem schedule_in_bounds_of_check (e : ℕ) (S : List KStep) (hS : scheduleCheck e S = true) :
    schedule_in_bounds e S := by
  simp only [scheduleCheck, Bool.and_eq_true, List.all_eq_true] at hS
  intro s hs
  have h := hS.1 s hs
  simp only [KStep.inRange, Bool.and_eq_true, List.all_eq_true, decide_eq_true_eq] at h
  exact ⟨fun t ht => by have := h.2 t ht; omega, h.1.1, h.1.2⟩

theorem schoolbook_frame {n k m : ℕ} (e : ℕ) (X : ℕ → mzd n m) (A : ℕ → mzd n k)
    (B : ℕ → mzd k m) (c : ℕ) (hc : 2 * e - 1 ≤ c) : schoolbook e X A B c = X c := by
  unfold schoolbook
  rw [add_right_eq_self]
  refine Finset.sum_eq_zero fun i hi => Finset.sum_eq_zero fun j hj => ?_
  rw [Finset.mem_range] at hi hj
  rw [if_neg (by omega)]

theorem schoolbook_congr {n k m : ℕ} (e : ℕ) (X Y : ℕ → mzd n m) (A A2 : ℕ → mzd n k)
    (B B2 : ℕ → mzd k m) (c : ℕ) (hX : X c = Y c) (hA : ∀ i, i < e → A i = A2 i)
    (hB : ∀ j, j < e → B j = B2 j) : schoolbook e X A B c = schoolbook e Y A2 B2 c := by
  unfold schoolbook
  rw [hX]
  congr 1
  refine Finset.sum_congr rfl fun i hi => Finset.sum_congr rfl fun j hj => ?_
  rw [Finset.mem_range] at hi hj
  rw [hA i hi, hB j hj]

theorem working_output_bound_of_check (e : ℕ)
    (f : ∀ (n k m : ℕ), gf2e → (ℕ → mzd n m) → (ℕ → mzd n k) → (ℕ → mzd k m) → ℕ → mzd n m)
    (S : List KStep) (hS : scheduleCheck e S = true)
    (hf : ∀ (n k m : ℕ) (ff : gf2e) (X : ℕ → mzd n m) (A : ℕ → mzd n k) (B : ℕ → mzd k m),
      f n k m ff X A B = runSchedule ff A B X S) :
    working_output_bound e f S := by
  refine ⟨hf, schedule_in_bounds_of_check e S hS, ?_, ?_⟩
  · intro n k m ff X A B c hc
    rw [hf, scheduleCheck_sound e S hS, schoolbook_frame e X A B c hc]
  · intro n k m ff X Y A A2 B B2 hX hA hB c hc
    rw [hf, hf, scheduleCheck_sound e S hS, scheduleCheck_sound e S hS]
    exact schoolbook_congr e X Y A A2 B B2 c (hX c hc) hA hB

/-- C28: for every degree e in 2..12, `_mzd_ptr_addmul_karatsuba<e>` is the execution of its
triples in program order, every target offset of a triple lies in `0..2e-2` and every input
plane index in `0..e-1`; planes of `X` with index at least `2e-1` are returned as they were, and
the planes `0..2e-2` of the result are determined by the planes `0..2e-2` of `X` and the planes
`0..e-1` of `A` and `B`, so that an accumulator of exactly `2e-1` planes suffices. -/
theorem karatsuba_working_output_bound :
    working_output_bound 2 @_mzd_ptr_addmul_karatsuba2 schedule2
      ∧ working_output_bound 3 @_mzd_ptr_addmul_karatsuba3 schedule3
      ∧ working_output_bound 4 @_mzd_ptr_addmul_karatsuba4 schedule4
      ∧ working_output_bound 5 @_mzd_ptr_addmul_karatsuba5 schedule5
      ∧ working_output_bound 6 @_mzd_ptr_addmul_karatsuba6 schedule6
      ∧ working_output_bound 7 @_mzd_ptr_addmul_karatsuba7 schedule7
      ∧ working_output_bound 8 @_mzd_ptr_addmul_karatsuba8 schedule8
      ∧ working_output_bound 9 @_mzd_ptr_addmul_karatsuba9 schedule9
      ∧ working_output_bound 10 @_mzd_ptr_addmul_karatsuba10 schedule10
      ∧ working_output_bound 11 @_mzd_ptr_addmul_karatsuba11 schedule11
      ∧ working_output_bound 12 @_mzd_ptr_addmul_karatsuba12 schedule12 :=
  ⟨working_output_bound_of_check 2 _ _ schedule2_check fun _ _ _ => karatsuba2_eq_run,
    working_output_bound_of_check 3 _ _ schedule3_check fun _ _ _ => karatsuba3_eq_run,
    working_output_bound_of_check 4 _ _ schedule4_check fun _ _ _ => karatsuba4_eq_run,
    working_output_bound_of_check 5 _ _ schedule5_check fun _ _ _ => karatsuba5_eq_run,
    working_output_bound_of_check 6 _ _ schedule6_check fun _ _ _ => karatsuba6_eq_run,
    working_output_bound_of_check 7 _ _ schedule7_check fun _ _ _ => karatsuba7_eq_run,
    working_output_bound_of_check 8 _ _ schedule8_check fun _ _ _ => karatsuba8_eq_run,
    working_output_bound_of_check 9 _ _ schedule9_check fun _ _ _ => karatsuba9_eq_run,
    working_output_bound_of_check 10 _ _ schedule10_check fun _ _ _ => karatsuba10_eq_run,
    working_output_bound_of_check 11 _ _ schedule11_check fun _ _ _ => karatsuba11_eq_run,
    working_output_bound_of_check 12 _ _ schedule12_check fun _ _ _ => karatsuba12_eq_run⟩

/-! ### Identity law and plane convention -/

theorem xor_sum_single (n c v : ℕ) :
    xor_sum n (fun k => if k = c then v else 0) = if c < n then v else 0 := by
  induction n with
  | zero => simp [xor_sum]
  | succ n ih =>
    rw [xor_sum, ih]
    by_cases h1 : c < n
    · rw [if_pos h1, if_neg (by omega), if_pos (by omega), Nat.xor_zero]
    · by_cases h2 : n = c
      · rw [if_neg h1, if_pos h2, if_pos (by omega), Nat.zero_xor]
      · rw [if_neg h1, if_neg h2, if_neg (by omega), Nat.zero_xor]

theorem xor_sum_congr (n : ℕ) (f g : ℕ → ℕ) (h : ∀ k, k < n → f k = g k) :
    xor_sum n f = xor_sum n g := by
  induction n with
  | zero => rfl
  | succ n ih =>
    rw [xor_sum, xor_sum, ih fun k hk => h k (by omega), h n (by omega)]

theorem example_gf4_mul_one_zero :
    ∀ a, a < 4 → example_gf4.mul a 1 = a ∧ example_gf4.mul a 0 = 0 := by
  decide!

theorem mzed_identity_well_formed (ff : gf2e) (h : 1 ≤ ff.degree) (n : ℕ) :
    (mzed_identity ff n).well_formed := by
  intro r hr c hc
  have h2 : 1 < 2 ^ ff.degree := Nat.one_lt_two_pow (by omega)
  simp only [mzed_identity, mzed_set_ui, mzed_init] at hr hc ⊢
  split_ifs <;> omega

theorem pow_gen_addr (d p a b : ℕ) (t : ℕ) :
    gf2e.pow_gen ⟨d, p, a⟩ t = gf2e.pow_gen ⟨d, p, b⟩ t := by
  induction t with
  | zero => rfl
  | succ t ih => simp only [gf2e.pow_gen, ih]

theorem gf2e_mul_addr (d p a b x y : ℕ) :
    gf2e.mul ⟨d, p, a⟩ x y = gf2e.mul ⟨d, p, b⟩ x y := by
  simp only [gf2e.mul, gf2e.gather, pow_gen_addr d p a b]

theorem mzed_mul_reference_identity_gf4 (A : mzed_t) (a : ℕ) (hf : A.finite_field = ⟨2, 7, a⟩)
    (hA : A.well_formed) (r c : ℕ) (hr : r < A.nrows) (hc : c < A.ncols) :
    mzed_mul_reference A (mzed_identity ⟨2, 7, a⟩ A.ncols) r c = A.entry r c := by
  unfold mzed_mul_reference
  rw [xor_sum_congr A.ncols _ (fun k => if k = c then A.entry r c else 0), xor_sum_single,
    if_pos hc]
  intro k hk
  have hlt : A.entry r k < 4 := by
    have := hA r hr k hk
    rw [hf] at this
    exact this
  have hmul := example_gf4_mul_one_zero (A.entry r k) hlt
  simp only [mzed_identity, mzed_set_ui, mzed_init]
  rw [if_pos ⟨hk, hc⟩, hf]
  by_cases hkc : k = c
  · rw [if_pos hkc, if_pos hkc, gf2e_mul_addr 2 7 a 0]
    exact hmul.1.trans (by rw [hkc])
  · rw [if_neg hkc, if_neg hkc, gf2e_mul_addr 2 7 a 0]
    exact hmul.2

/-- C29: identity law at degree 2. For every packed matrix `A` over GF(4) with minimal
polynomial `x^2 + x + 1` (elements words of 2 bits), whatever the address `a` of its field
descriptor, and `I` the identity matrix of matching size: slicing `A` and `I`, accumulating
into a zero `X` the product of the degree-2 engine `_mzd_ptr_addmul_karatsuba2` on the slices
and gathering the three planes of `X` with the reduction `a^2 = a + 1` gives at every position
the element of `A`; and the pipeline `_mzed_mul_karatsuba(NULL, A, I)` returns a matrix equal
to `A`. -/
theorem mzed_mul_identity_gf4 (A : mzed_t) (a : ℕ) (hf : A.finite_field = ⟨2, 7, a⟩)
    (hA : A.well_formed) :
    ∃ As Is R, mzed_slice none A = .ok As ∧
      mzed_slice none (mzed_identity ⟨2, 7, a⟩ A.ncols) = .ok Is ∧
      (∀ (r : Fin A.nrows) (c : Fin A.ncols),
        gf2e.gather ⟨2, 7, a⟩ (fun t =>
          _mzd_ptr_addmul_karatsuba2 ⟨2, 7, a⟩ (fun _ => (0 : mzd A.nrows A.ncols))
            (fun t => to_mzd A.nrows A.ncols (As.x t))
            (fun t => to_mzd A.ncols A.ncols (Is.x t)) t r c) = A.entry r c) ∧
      _mzed_mul_karatsuba none A (mzed_identity ⟨2, 7, a⟩ A.ncols) = .ok R ∧
      R.is_matrix ⟨2, 7, a⟩ A.nrows A.ncols A.entry := by
  obtain ⟨R, hR, hm⟩ := mzed_mul_karatsuba_none_ok A (mzed_identity ⟨2, 7, a⟩ A.ncols) rfl hf
    (by rw [hf]) (by rw [hf]; exact (by decide : 2 ≤ 12))
    (mzed_identity_well_formed ⟨2, 7, a⟩ (by decide : 1 ≤ 2) A.ncols)
  have hm2 : R.is_matrix ⟨2, 7, a⟩ A.nrows A.ncols A.entry := by
    have := is_matrix_congr R _ _ _ _ _ hm fun r hr c hc =>
      mzed_mul_reference_identity_gf4 A a hf hA r c hr hc
    rw [hf] at this
    exact this
  refine ⟨_, _, R, rfl, rfl, ?_, hR, hm2⟩
  intro r c
  rw [← hm2.2.2.2 r r.2 c c.2]
  obtain ⟨ff, n, k, E⟩ := A
  simp only at hf
  subst hf
  have hR2 : _mzed_mul_karatsuba none ⟨⟨2, 7, a⟩, n, k, E⟩ (mzed_identity ⟨2, 7, a⟩ k) =
      .ok (mzed_cling_write (mzed_init ⟨2, 7, a⟩ n k)
        { mzd_slice_init ⟨2, 7, a⟩ n k with
          x := fun t r c =>
            if h : r < n ∧ c < k then
              _mzd_ptr_addmul_karatsuba2 ⟨2, 7, a⟩ (fun _ => (0 : mzd n k))
                (fun t => to_mzd n k
                  ((mzed_slice_write (mzd_slice_init ⟨2, 7, a⟩ n k) ⟨⟨2, 7, a⟩, n, k, E⟩).x t))
                (fun t => to_mzd k k
                  ((mzed_slice_write (mzd_slice_init ⟨2, 7, a⟩ k k)
                    (mzed_identity ⟨2, 7, a⟩ k)).x t)) t ⟨r, h.1⟩ ⟨c, h.2⟩
            else 0 }) := rfl
  rw [hR2] at hR
  injection hR with hR
  subst hR
  simp only [mzed_cling_write, mzed_init, mzd_slice_init]
  rw [if_pos ⟨r.2, c.2⟩, Nat.zero_xor]
  simp only [dif_pos (And.intro r.2 c.2)]
  rfl

theorem mzed_mul_identity_gf4_witness :
    example_packed.well_formed ∧
      ∃ As Is R, mzed_slice none example_packed = .ok As ∧
        mzed_slice none (mzed_identity example_gf4 2) = .ok Is ∧
        (∀ (r : Fin 2) (c : Fin 2),
          example_gf4.gather (fun t =>
            _mzd_ptr_addmul_karatsuba2 example_gf4 (fun _ => (0 : mzd 2 2))
              (fun t => to_mzd 2 2 (As.x t))
              (fun t => to_mzd 2 2 (Is.x t)) t r c) = example_packed.entry r c) ∧
        _mzed_mul_karatsuba none example_packed (mzed_identity example_gf4 2) = .ok R ∧
        R.is_matrix example_gf4 2 2 example_packed.entry :=
  ⟨example_packed_well_formed,
    mzed_mul_identity_gf4 example_packed 0 rfl example_packed_well_formed⟩

/-- C30: plane convention of slice. For every packed matrix `Z` over GF(2^e),
`mzed_slice(NULL, Z)` returns a bitslice matrix of the field and shape of `Z` in which, for
every plane index `i` in `0..e-1`, the cell `(row, col)` of plane `i` is bit `i` (the
coefficient of `a^i`) of `Z[row, col]`. -/
theorem mzed_slice_plane_convention (Z : mzed_t) :
    ∃ S, mzed_slice none Z = .ok S ∧ S.finite_field = Z.finite_field ∧ S.nrows = Z.nrows ∧
      S.ncols = Z.ncols ∧
      ∀ i r c, i < Z.finite_field.degree → r < Z.nrows → c < Z.ncols →
        S.x i r c = bitZ (Z.entry r c) i := by
  refine ⟨_, rfl, rfl, rfl, rfl, ?_⟩
  intro i r c hi hr hc
  simp only [mzed_slice_write, mzd_slice_init]
  rw [if_pos ⟨hi, hr, hc⟩]

theorem mzed_slice_plane_convention_witness :
    ∃ S, mzed_slice none example_packed = .ok S ∧
      (S.x 0 0 0 = 1 ∧ S.x 0 0 1 = 0 ∧ S.x 0 1 0 = 1 ∧ S.x 0 1 1 = 0) ∧
      (S.x 1 0 0 = 0 ∧ S.x 1 0 1 = 1 ∧ S.x 1 1 0 = 1 ∧ S.x 1 1 1 = 0) := by
  obtain ⟨S, hS, _, _, _, h⟩ := mzed_slice_plane_convention example_packed
  have h2 : ∀ i r c, i < 2 → r < 2 → c < 2 → S.x i r c = bitZ (example_packed.entry r c) i := h
  refine ⟨S, hS, ⟨?_, ?_, ?_, ?_⟩, ⟨?_, ?_, ?_, ?_⟩⟩
  · rw [h2 0 0 0 (by decide) (by decide) (by decide)]; decide
  · rw [h2 0 0 1 (by decide) (by decide) (by decide)]; decide
  · rw [h2 0 1 0 (by decide) (by decide) (by decide)]; decide
  · rw [h2 0 1 1 (by decide) (by decide) (by decide)]; decide
  · rw [h2 1 0 0 (by decide) (by decide) (by decide)]; decide
  · rw [h2 1 0 1 (by decide) (by decide) (by decide)]; decide
  · rw [h2 1 1 0 (by decide) (by decide) (by decide)]; decide
  · rw [h2 1 1 1 (by decide) (by decide) (by decide)]; decide

/-! ### Call trace of the triangular solves: base case and entry assertion -/

theorem trsm_lower_left_traced_fst {F : Type} [Semiring F]
    (naive : matrix_t F → matrix_t F → matrix_t F) (fuel : ℕ) (L B : matrix_t F) (cutoff : ℕ) :
    (_matrix_trsm_lower_left_traced naive fuel L B cutoff).1 =
      _matrix_trsm_lower_left naive fuel L B cutoff := by
  induction fuel generalizing L B with
  | zero => rfl
  | succ fuel ih =>
    rw [_matrix_trsm_lower_left_traced, _matrix_trsm_lower_left]
    by_cases h1 : L.finite_field.addr = B.finite_field.addr ∧ L.nrows = L.ncols ∧ B.nrows = L.ncols
    · rw [if_neg (not_not_intro h1), if_neg (not_not_intro h1)]
      by_cases h2 : L.nrows < cutoff
      · rw [if_pos h2, if_pos h2]
      · rw [if_neg h2, if_neg h2]
        simp only
        rw [← ih]
        split <;> rename_i heq <;> simp only [heq]
    · rw [if_pos h1, if_pos h1]

theorem trsm_upper_left_traced_fst {F : Type} [Semiring F]
    (naive : matrix_t F → matrix_t F → matrix_t F) (fuel : ℕ) (U B : matrix_t F) (cutoff : ℕ) :
    (_matrix_trsm_upper_left_traced naive fuel U B cutoff).1 =
      _matrix_trsm_upper_left naive fuel U B cutoff := by
  induction fuel generalizing U B with
  | zero => rfl
  | succ fuel ih =>
    rw [_matrix_trsm_upper_left_traced, _matrix_trsm_upper_left]
    by_cases h1 : U.finite_field.addr = B.finite_field.addr ∧ U.nrows = U.ncols ∧ B.nrows = U.ncols
    · rw [if_neg (not_not_intro h1), if_neg (not_not_intro h1)]
      by_cases h2 : U.nrows < cutoff
      · rw [if_pos h2, if_pos h2]
      · rw [if_neg h2, if_neg h2]
        simp only
        rw [← ih]
        split <;> rename_i heq <;> simp only [heq]
    · rw [if_pos h1, if_pos h1]

theorem trsm_lower_left_traced_assert_ok {F : Type} [Semiring F]
    (naive : matrix_t F → matrix_t F → matrix_t F) (fuel : ℕ) (L B : matrix_t F) (cutoff : ℕ)
    (h : L.finite_field.addr = B.finite_field.addr ∧ L.nrows = L.ncols ∧ B.nrows = L.ncols) :
    (_matrix_trsm_lower_left_traced naive fuel L B cutoff).1 ≠ .error .assertion_failed := by
  induction fuel generalizing L B with
  | zero =>
    rw [_matrix_trsm_lower_left_traced]
    intro hc
    cases hc
  | succ fuel ih =>
    rw [_matrix_trsm_lower_left_traced, if_neg (not_not_intro h)]
    by_cases h2 : L.nrows < cutoff
    · rw [if_pos h2]
      intro hc
      cases hc
    · rw [if_neg h2]
      simp only
      have hin := ih (matrix_init_window L cutoff cutoff B.nrows B.nrows)
        (matrix_addmul (matrix_init_window B cutoff 0 B.nrows B.ncols)
          (matrix_init_window L cutoff 0 B.nrows cutoff)
          (naive (matrix_init_window L 0 0 cutoff cutoff)
            (matrix_init_window B 0 0 cutoff B.ncols)))
        ⟨h.1, rfl, rfl⟩
      split
      · rename_i stop heq
        intro hc
        apply hin
        rw [heq]
        exact hc
      · intro hc
        cases hc

theorem trsm_upper_left_traced_assert_ok {F : Type} [Semiring F]
    (naive : matrix_t F → matrix_t F → matrix_t F) (fuel : ℕ) (U B : matrix_t F) (cutoff : ℕ)
    (h : U.finite_field.addr = B.finite_field.addr ∧ U.nrows = U.ncols ∧ B.nrows = U.ncols) :
    (_matrix_trsm_upper_left_traced naive fuel U B cutoff).1 ≠ .error .assertion_failed := by
  induction fuel generalizing U B with
  | zero =>
    rw [_matrix_trsm_upper_left_traced]
    intro hc
    cases hc
  | succ fuel ih =>
    rw [_matrix_trsm_upper_left_traced, if_neg (not_not_intro h)]
    by_cases h2 : U.nrows < cutoff
    · rw [if_pos h2]
      intro hc
      cases hc
    · rw [if_neg h2]
      simp only
      have hin := ih (matrix_init_window U cutoff cutoff B.nrows B.nrows)
        (matrix_init_window B cutoff 0 B.nrows B.ncols) ⟨h.1, rfl, rfl⟩
      split
      · rename_i stop heq
        intro hc
        apply hin
        rw [heq]
        exact hc
      · intro hc
        cases hc

/-- C25, as stated, fails at cutoff = n: on the 2 x 2 examples with cutoff 2 (so cutoff >= n)
the lower and the upper routine each take the recursive path, creating five windows, calling
the naive solver twice and `matrix_addmul` once and making one recursive call. -/
theorem matrix_trsm_cutoff_eq_nrows_not_base_case :
    example_lower.nrows ≤ 2 ∧
      ((_matrix_trsm_lower_left_traced forward_substitution 2 example_lower example_rhs 2).2.map
        fun ev => (ev.is_init_window, ev.is_naive, ev.is_addmul, ev.is_recurse)) =
        [(true, false, false, false), (true, false, false, false), (true, false, false, false),
          (true, false, false, false), (true, false, false, false), (false, true, false, false),
          (false, false, true, false), (false, false, false, true),
          (false, true, false, false)] ∧
      example_upper.nrows ≤ 2 ∧
      ((_matrix_trsm_upper_left_traced backward_substitution 2 example_upper example_rhs 2).2.map
        fun ev => (ev.is_init_window, ev.is_naive, ev.is_addmul, ev.is_recurse)) =
        [(true, false, false, false), (true, false, false, false), (true, false, false, false),
          (true, false, false, false), (true, false, false, false), (false, false, false, true),
          (false, true, false, false), (false, false, true, false),
          (false, true, false, false)] := by
  refine ⟨by decide, ?_, by decide, ?_⟩
  · rfl
  · rfl

/-- C25, amended: for every cutoff > n = L.nrows and operands passing the entry assertion,
`_matrix_trsm_lower_left` and `_matrix_trsm_upper_left` are a pure base case: the run returns
what the naive solver leaves on the whole `(L, B)`, and its trace is exactly that one naive
call: no window, no `matrix_addmul`, no recursive call. -/
theorem matrix_trsm_pure_base_case {F : Type} [Semiring F]
    (naive : matrix_t F → matrix_t F → matrix_t F) (fuel : ℕ) (L B : matrix_t F) (cutoff : ℕ)
    (hassert : L.finite_field.addr = B.finite_field.addr ∧ L.nrows = L.ncols ∧ B.nrows = L.ncols)
    (hcut : L.nrows < cutoff) :
    _matrix_trsm_lower_left_traced naive (fuel + 1) L B cutoff =
        (.ok (naive L B), [.naive L B]) ∧
      _matrix_trsm_upper_left_traced naive (fuel + 1) L B cutoff =
        (.ok (naive L B), [.naive L B]) := by
  constructor
  · rw [_matrix_trsm_lower_left_traced, if_neg (not_not_intro hassert), if_pos hcut]
  · rw [_matrix_trsm_upper_left_traced, if_neg (not_not_intro hassert), if_pos hcut]

theorem matrix_trsm_pure_base_case_witness :
    _matrix_trsm_lower_left_traced forward_substitution 1 example_lower example_rhs 3 =
        (.ok (forward_substitution example_lower example_rhs),
          [.naive example_lower example_rhs]) ∧
      _matrix_trsm_upper_left_traced forward_substitution 1 example_lower example_rhs 3 =
        (.ok (forward_substitution example_lower example_rhs),
          [.naive example_lower example_rhs]) :=
  matrix_trsm_pure_base_case forward_substitution 0 example_lower example_rhs 3
    ⟨rfl, rfl, rfl⟩ (by decide)

/-- C26: with the assertion compiled in, a run of `_matrix_trsm_lower_left(L, B, cutoff)` or
`_matrix_trsm_upper_left(U, B, cutoff)` stops on a failed assertion if and only if the
triangular operand and `B` reference different field descriptors (the `finite_field` pointers
differ: descriptors at different addresses, be they of one field), or the triangular operand
is not square, or `B.nrows` differs from the triangular operand's `ncols`; and when that is the
case the trace is empty: the naive solver and `matrix_addmul` have not been called. -/
theorem matrix_trsm_precondition_check {F : Type} [Semiring F]
    (naive : matrix_t F → matrix_t F → matrix_t F) (fuel : ℕ) (T B : matrix_t F) (cutoff : ℕ) :
    (((_matrix_trsm_lower_left_traced naive (fuel + 1) T B cutoff).1 = .error .assertion_failed ↔
        (T.finite_field.addr ≠ B.finite_field.addr ∨ T.nrows ≠ T.ncols ∨ B.nrows ≠ T.ncols)) ∧
      ((T.finite_field.addr ≠ B.finite_field.addr ∨ T.nrows ≠ T.ncols ∨ B.nrows ≠ T.ncols) →
        (_matrix_trsm_lower_left_traced naive (fuel + 1) T B cutoff).2 = [])) ∧
    (((_matrix_trsm_upper_left_traced naive (fuel + 1) T B cutoff).1 = .error .assertion_failed ↔
        (T.finite_field.addr ≠ B.finite_field.addr ∨ T.nrows ≠ T.ncols ∨ B.nrows ≠ T.ncols)) ∧
      ((T.finite_field.addr ≠ B.finite_field.addr ∨ T.nrows ≠ T.ncols ∨ B.nrows ≠ T.ncols) →
        (_matrix_trsm_upper_left_traced naive (fuel + 1) T B cutoff).2 = [])) := by
  have hiff : (T.finite_field.addr ≠ B.finite_field.addr ∨ T.nrows ≠ T.ncols ∨ B.nrows ≠ T.ncols) ↔
      ¬ (T.finite_field.addr = B.finite_field.addr ∧ T.nrows = T.ncols ∧ B.nrows = T.ncols) := by
    tauto
  rw [hiff]
  refine ⟨⟨⟨?_, ?_⟩, ?_⟩, ⟨⟨?_, ?_⟩, ?_⟩⟩
  · intro hfail hassert
    exact trsm_lower_left_traced_assert_ok naive (fuel + 1) T B cutoff hassert hfail
  · intro hn
    rw [_matrix_trsm_lower_left_traced, if_pos hn]
  · intro hn
    rw [_matrix_trsm_lower_left_traced, if_pos hn]
  · intro hfail hassert
    exact trsm_upper_left_traced_assert_ok naive (fuel + 1) T B cutoff hassert hfail
  · intro hn
    rw [_matrix_trsm_upper_left_traced, if_pos hn]
  · intro hn
    rw [_matrix_trsm_upper_left_traced, if_pos hn]

theorem matrix_trsm_precondition_check_witness :
    (_matrix_trsm_lower_left_traced forward_substitution 3 example_lower
        { example_rhs with finite_field := ⟨1, 3, 1⟩ } 1 = (.error .assertion_failed, [])) ∧
      (_matrix_trsm_upper_left_traced backward_substitution 3 example_rhs example_rhs 1 =
        (.error .assertion_failed, [])) ∧
      (_matrix_trsm_lower_left_traced forward_substitution 3 example_lower example_rhs 1).1 ≠
        .error .assertion_failed := by
  have h1 := matrix_trsm_precondition_check forward_substitution 2 example_lower
    { example_rhs with finite_field := ⟨1, 3, 1⟩ } 1
  have h2 := matrix_trsm_precondition_check backward_substitution 2 example_rhs example_rhs 1
  have h3 := matrix_trsm_precondition_check forward_substitution 2 example_lower example_rhs 1
  refine ⟨Prod.ext (h1.1.1.2 (Or.inl (by decide))) (h1.1.2 (Or.inl (by decide))),
    Prod.ext (h2.2.1.2 (Or.inr (Or.inl (by decide)))) (h2.2.2 (Or.inr (Or.inl (by decide)))),
    fun hfail => ?_⟩
  have := h3.1.1.1 hfail
  revert this
  decide

/-! ### Entry checks of the multiplication -/

theorem karatsuba_dispatch_cases {n k m : ℕ} (ff : gf2e) (X : ℕ → mzd n m) (A : ℕ → mzd n k)
    (B : ℕ → mzd k m) :
    (∃ Y, _mzd_ptr_addmul_karatsuba ff X A B = .ok Y) ∨
      _mzd_ptr_addmul_karatsuba ff X A B =
        .error "degree not supported by the Karatsuba engine." := by
  unfold _mzd_ptr_addmul_karatsuba
  split
  all_goals first
    | exact Or.inl ⟨_, rfl⟩
    | exact Or.inr rfl

theorem mzed_mul_karatsuba_pipeline_cases (C : Option mzed_t) (A B : mzed_t) :
    (∃ R, _mzed_mul_karatsuba C A B = .ok R) ∨
      _mzed_mul_karatsuba C A B = .error "degree not supported by the Karatsuba engine." := by
  cases C with
  | none =>
    simp only [_mzed_mul_karatsuba, mzed_slice, bind, Except.bind, pure, Except.pure,
      _mzd_slice_mul_karatsuba]
    rcases karatsuba_dispatch_cases
      (mzed_slice_write (mzd_slice_init A.finite_field A.nrows A.ncols) A).finite_field
      (fun t => to_mzd (mzed_slice_write (mzd_slice_init A.finite_field A.nrows A.ncols) A).nrows
        (mzed_slice_write (mzd_slice_init B.finite_field B.nrows B.ncols) B).ncols
        ((mzd_slice_init
          (mzed_slice_write (mzd_slice_init A.finite_field A.nrows A.ncols) A).finite_field
          (mzed_slice_write (mzd_slice_init A.finite_field A.nrows A.ncols) A).nrows
          (mzed_slice_write (mzd_slice_init B.finite_field B.nrows B.ncols) B).ncols).x t))
      (fun t => to_mzd _ _
        ((mzed_slice_write (mzd_slice_init A.finite_field A.nrows A.ncols) A).x t))
      (fun t => to_mzd _ _
        ((mzed_slice_write (mzd_slice_init B.finite_field B.nrows B.ncols) B).x t))
      with ⟨Y, hY⟩ | hY
    · left
      rw [hY]
      exact ⟨_, rfl⟩
    · right
      rw [hY]
  | some C =>
    simp only [_mzed_mul_karatsuba, mzed_slice, bind, Except.bind, pure, Except.pure,
      Except.map, _mzd_slice_mul_karatsuba]
    rcases karatsuba_dispatch_cases
      (mzed_slice_write (mzd_slice_init A.finite_field A.nrows A.ncols) A).finite_field
      (fun t => to_mzd (mzed_slice_write (mzd_slice_init A.finite_field A.nrows A.ncols) A).nrows
        (mzed_slice_write (mzd_slice_init B.finite_field B.nrows B.ncols) B).ncols
        ((mzed_slice_write (mzd_slice_init C.finite_field C.nrows C.ncols) C).x t))
      (fun t => to_mzd _ _
        ((mzed_slice_write (mzd_slice_init A.finite_field A.nrows A.ncols) A).x t))
      (fun t => to_mzd _ _
        ((mzed_slice_write (mzd_slice_init B.finite_field B.nrows B.ncols) B).x t))
      with ⟨Y, hY⟩ | hY
    · left
      rw [hY]
      simp only [mzed_cling]
      rw [if_neg (by simp [mzed_slice_write, mzd_slice_init])]
      exact ⟨_, rfl⟩
    · right
      rw [hY]

theorem mzed_mul_karatsuba_pipeline_returns (C : Option mzed_t) (A B : mzed_t)
    (h2 : 2 ≤ A.finite_field.degree) (h12 : A.finite_field.degree ≤ 12) :
    ∃ R, _mzed_mul_karatsuba C A B = .ok R := by
  rcases mzed_mul_karatsuba_pipeline_cases C A B with h | h
  · exact h
  · exfalso
    cases C with
    | none =>
      obtain ⟨R, hR, -⟩ := slice_mul_karatsuba_ok
        (mzd_slice_init A.finite_field A.nrows B.ncols)
        (mzed_slice_write (mzd_slice_init A.finite_field A.nrows A.ncols) A)
        (mzed_slice_write (mzd_slice_init B.finite_field B.nrows B.ncols) B) h2 h12
      simp only [_mzed_mul_karatsuba, mzed_slice, bind, Except.bind, pure, Except.pure,
        slice_mul_karatsuba_none] at h
      simp only [mzed_slice_write, mzd_slice_init] at hR h
      rw [hR] at h
      cases h
    | some C =>
      obtain ⟨R, hR, hRf, hRr, hRc, -⟩ := slice_mul_karatsuba_ok
        (mzed_slice_write (mzd_slice_init C.finite_field C.nrows C.ncols) C)
        (mzed_slice_write (mzd_slice_init A.finite_field A.nrows A.ncols) A)
        (mzed_slice_write (mzd_slice_init B.finite_field B.nrows B.ncols) B) h2 h12
      have hRf2 : R.finite_field = C.finite_field := hRf
      have hRr2 : R.nrows = C.nrows := hRr
      have hRc2 : R.ncols = C.ncols := hRc
      simp only [_mzed_mul_karatsuba, mzed_slice, bind, Except.bind, pure, Except.pure,
        Except.map] at h
      simp only [mzed_slice_write, mzd_slice_init] at hR h
      rw [hR] at h
      simp only [mzed_cling] at h
      rw [if_neg (by
        rw [hRf2, hRr2, hRc2]
        simp)] at h
      cases h

theorem mzed_mul_karatsuba_checked (C : Option mzed_t) (A B : mzed_t)
    (h : ¬ mzed_mul_mismatch C A B) :
    mzed_mul_karatsuba C A B = _mzed_mul_karatsuba (C.map fun C0 => mzed_set_ui C0 0) A B := by
  have h1 : ¬ (A.ncols ≠ B.nrows ∨ A.finite_field.addr ≠ B.finite_field.addr) := fun h1 =>
    h (h1.elim Or.inl fun h2 => Or.inr (Or.inl h2))
  cases C with
  | none =>
    simp only [mzed_mul_karatsuba]
    rw [if_neg h1]
    rfl
  | some C0 =>
    have h2 : ¬ (C0.finite_field.addr ≠ A.finite_field.addr ∨ C0.nrows ≠ A.nrows ∨
        C0.ncols ≠ B.ncols) :=
      fun h2 => h (Or.inr (Or.inr ⟨C0, rfl, h2⟩))
    simp only [mzed_mul_karatsuba]
    rw [if_neg h1, if_neg h2]
    rfl

theorem mzed_addmul_karatsuba_checked (C0 : mzed_t) (A B : mzed_t)
    (h : ¬ mzed_mul_mismatch (some C0) A B) :
    mzed_addmul_karatsuba (some C0) A B = _mzed_mul_karatsuba (some C0) A B := by
  have h1 : ¬ (A.ncols ≠ B.nrows ∨ A.finite_field.addr ≠ B.finite_field.addr) := fun h1 =>
    h (h1.elim Or.inl fun h2 => Or.inr (Or.inl h2))
  have h2 : ¬ (C0.finite_field.addr ≠ A.finite_field.addr ∨ C0.nrows ≠ A.nrows ∨
      C0.ncols ≠ B.ncols) :=
    fun h2 => h (Or.inr (Or.inr ⟨C0, rfl, h2⟩))
  simp only [mzed_addmul_karatsuba]
  rw [if_neg h1, if_neg h2]

theorem mzed_mul_karatsuba_rejected (C : Option mzed_t) (A B : mzed_t)
    (h : mzed_mul_mismatch C A B) :
    mzed_mul_karatsuba C A B =
        m4ri_die "mzed_mul_karatsuba: rows, columns and fields must match.\n" ∨
      mzed_mul_karatsuba C A B =
        m4ri_die "mzed_mul_karatsuba: rows and columns of returned matrix must match.\n" := by
  by_cases h1 : A.ncols ≠ B.nrows ∨ A.finite_field.addr ≠ B.finite_field.addr
  · left
    simp only [mzed_mul_karatsuba]
    rw [if_pos h1]
  · right
    rcases h with h | h | ⟨C0, rfl, h2⟩
    · exact absurd (Or.inl h) h1
    · exact absurd (Or.inr h) h1
    · simp only [mzed_mul_karatsuba]
      rw [if_neg h1, if_pos h2]

theorem mzed_addmul_karatsuba_rejected (C : Option mzed_t) (A B : mzed_t)
    (h : mzed_mul_mismatch C A B ∨ C = none) :
    mzed_addmul_karatsuba C A B = m4ri_die "assert(C != NULL)" ∨
      mzed_addmul_karatsuba C A B =
        m4ri_die "mzed_addmul_karatsuba: rows, columns and fields must match.\n" ∨
      mzed_addmul_karatsuba C A B =
        m4ri_die "mzed_addmul_karatsuba: rows and columns of returned matrix must match.\n" := by
  cases C with
  | none => exact Or.inl rfl
  | some C0 =>
    right
    by_cases h1 : A.ncols ≠ B.nrows ∨ A.finite_field.addr ≠ B.finite_field.addr
    · left
      simp only [mzed_addmul_karatsuba]
      rw [if_pos h1]
    · right
      rcases h with (h | h | ⟨C1, hC, h2⟩) | h
      · exact absurd (Or.inl h) h1
      · exact absurd (Or.inr h) h1
      · cases hC
        simp only [mzed_addmul_karatsuba]
        rw [if_neg h1, if_pos h2]
      · cases h

/-- C27: entry checks of the multiplication. `mzed_mul_karatsuba(C, A, B)` dies in its entry
checks if and only if `A.ncols != B.nrows`, or `A` and `B` reference different field
descriptors (the `finite_field` pointers differ: descriptors at different addresses, be they of
one field), or `C` is non-null and (the descriptor it references is not that of `A`, or
`C.nrows != A.nrows`, or `C.ncols != B.ncols`); `mzed_addmul_karatsuba(C, A, B)` dies in its
entry checks under the same conditions and additionally when `C` is null. Over a field of
supported degree `2..12` the pipeline behind the checks returns, so these conditions are
exactly those under which the two calls fail at all. -/
theorem mzed_mul_karatsuba_entry_checks (C : Option mzed_t) (A B : mzed_t) :
    ((mzed_mul_karatsuba C A B =
          m4ri_die "mzed_mul_karatsuba: rows, columns and fields must match.\n" ∨
        mzed_mul_karatsuba C A B =
          m4ri_die "mzed_mul_karatsuba: rows and columns of returned matrix must match.\n") ↔
      mzed_mul_mismatch C A B) ∧
    ((mzed_addmul_karatsuba C A B = m4ri_die "assert(C != NULL)" ∨
        mzed_addmul_karatsuba C A B =
          m4ri_die "mzed_addmul_karatsuba: rows, columns and fields must match.\n" ∨
        mzed_addmul_karatsuba C A B =
          m4ri_die "mzed_addmul_karatsuba: rows and columns of returned matrix must match.\n") ↔
      (mzed_mul_mismatch C A B ∨ C = none)) ∧
    (2 ≤ A.finite_field.degree → A.finite_field.degree ≤ 12 →
      ((∃ msg, mzed_mul_karatsuba C A B = .error msg) ↔ mzed_mul_mismatch C A B) ∧
      ((∃ msg, mzed_addmul_karatsuba C A B = .error msg) ↔
        (mzed_mul_mismatch C A B ∨ C = none))) := by
  refine ⟨⟨?_, mzed_mul_karatsuba_rejected C A B⟩, ⟨?_, mzed_addmul_karatsuba_rejected C A B⟩,
    fun h2 h12 => ⟨⟨?_, ?_⟩, ⟨?_, ?_⟩⟩⟩
  · intro hdie
    by_contra hno
    rw [mzed_mul_karatsuba_checked C A B hno] at hdie
    rcases mzed_mul_karatsuba_pipeline_cases (C.map fun C0 => mzed_set_ui C0 0) A B with
      ⟨R, hR⟩ | hR
    · rw [hR] at hdie
      rcases hdie with hdie | hdie <;> cases hdie
    · rw [hR] at hdie
      rcases hdie with hdie | hdie <;> revert hdie <;> simp [m4ri_die]
  · intro hdie
    by_contra hno
    rw [not_or] at hno
    obtain ⟨C0, rfl⟩ := Option.ne_none_iff_exists'.1 hno.2
    rw [mzed_addmul_karatsuba_checked C0 A B hno.1] at hdie
    rcases mzed_mul_karatsuba_pipeline_cases (some C0) A B with ⟨R, hR⟩ | hR
    · rw [hR] at hdie
      rcases hdie with hdie | hdie | hdie <;> cases hdie
    · rw [hR] at hdie
      rcases hdie with hdie | hdie | hdie <;> revert hdie <;> simp [m4ri_die]
  · rintro ⟨msg, hmsg⟩
    by_contra hno
    rw [mzed_mul_karatsuba_checked C A B hno] at hmsg
    obtain ⟨R, hR⟩ :=
      mzed_mul_karatsuba_pipeline_returns (C.map fun C0 => mzed_set_ui C0 0) A B h2 h12
    rw [hR] at hmsg
    cases hmsg
  · intro hm
    rcases mzed_mul_karatsuba_rejected C A B hm with h | h
    · exact ⟨_, h⟩
    · exact ⟨_, h⟩
  · rintro ⟨msg, hmsg⟩
    by_contra hno
    rw [not_or] at hno
    obtain ⟨C0, rfl⟩ := Option.ne_none_iff_exists'.1 hno.2
    rw [mzed_addmul_karatsuba_checked C0 A B hno.1] at hmsg
    obtain ⟨R, hR⟩ := mzed_mul_karatsuba_pipeline_returns (some C0) A B h2 h12
    rw [hR] at hmsg
    cases hmsg
  · intro hm
    rcases mzed_addmul_karatsuba_rejected C A B hm with h | h | h
    · exact ⟨_, h⟩
    · exact ⟨_, h⟩
    · exact ⟨_, h⟩

theorem mzed_mul_karatsuba_entry_checks_witness :
    (¬ ∃ msg, mzed_mul_karatsuba none example_packed example_packed = .error msg) ∧
      (∃ msg, mzed_addmul_karatsuba none example_packed example_packed = .error msg) ∧
      (∃ msg, mzed_mul_karatsuba (some (mzed_init example_gf4 1 2)) example_packed
        example_packed = .error msg) ∧
      (mzed_mul_karatsuba none example_packed { example_packed with finite_field := ⟨2, 7, 1⟩ } =
          m4ri_die "mzed_mul_karatsuba: rows, columns and fields must match.\n" ∨
        mzed_mul_karatsuba none example_packed
            { example_packed with finite_field := ⟨2, 7, 1⟩ } =
          m4ri_die "mzed_mul_karatsuba: rows and columns of returned matrix must match.\n") := by
  have hnone := (mzed_mul_karatsuba_entry_checks none example_packed example_packed).2.2
    (by decide) (by decide)
  have hsome := (mzed_mul_karatsuba_entry_checks (some (mzed_init example_gf4 1 2))
    example_packed example_packed).2.2 (by decide) (by decide)
  have hobj := (mzed_mul_karatsuba_entry_checks none example_packed
    { example_packed with finite_field := ⟨2, 7, 1⟩ }).1
  refine ⟨fun h => ?_, hnone.2.2 (Or.inr rfl), hsome.1.2 (Or.inr (Or.inr ⟨_, rfl, ?_⟩)),
    hobj.2 (Or.inr (Or.inl (by decide)))⟩
  · rcases hnone.1.1 h with h1 | h1 | ⟨C0, hC, -⟩
    · exact h1 rfl
    · exact h1 rfl
    · cases hC
  · right
    left
    decide

/-! ### Row rescale on a bitslice matrix -/

/-- With row index 0 the same call returns, the window being row 0 and `A_we` having that row:
for every column `j >= c` the planes `0..e-1` of the result hold at `(0, j)` the bits of `x`
times the old element at `(0, j)`. -/
theorem mzd_slice_rescale_row_zero (A : mzd_slice_t) (c x : ℕ) :
    ∃ R, mzd_slice_rescale_row A 0 c x = .ok R ∧
      ∀ t j, t < A.finite_field.degree → c ≤ j → j < A.ncols →
        R.x t 0 j = bitZ (A.finite_field.mul x (A.element 0 j)) t := by
  simp only [mzd_slice_rescale_row, mzed_cling, bind, Except.bind, mzed_rescale_row,
    mzed_cling_write, mzed_init, mzd_slice_init_window, mzed_slice, pure, Except.pure]
  rw [if_pos (by omega)]
  simp only
  rw [if_neg (by simp)]
  refine ⟨_, rfl, ?_⟩
  intro t j ht hcj hj
  simp only [mzd_slice_store_window, mzed_slice_write, mzd_slice_t.element]
  have hj0 : j - 0 < A.ncols - 0 := by omega
  have h1 : 0 ≤ 0 ∧ 0 < 0 + (0 + 1 - 0) ∧ 0 ≤ j ∧ j < 0 + (A.ncols - 0) :=
    ⟨le_refl 0, by omega, by omega, by omega⟩
  have h2 : 0 - 0 < 0 + 1 - 0 ∧ j - 0 < A.ncols - 0 := ⟨by omega, hj0⟩
  have h3 : True ∧ c ≤ j - 0 ∧ j - 0 < A.ncols - 0 := ⟨trivial, by omega, hj0⟩
  rw [if_pos h1, if_pos ⟨ht, h2⟩, if_pos h3, if_pos h2]
  simp only [Nat.sub_zero, Nat.zero_add, Nat.zero_xor]

/-- C24, evaluated on the code: for every bitslice matrix `A`, every column `c` and scalar `x`
and every row index `r >= 1`, the call `mzd_slice_rescale_row(A, r, c, x)` hands the row index
`r` to `mzed_rescale_row` on the one-row matrix `A_we`, whose only row is row 0; the access is
outside `A_we` and the run stops without rescaling row `r` of `A`. -/
theorem mzd_slice_rescale_row_fails (A : mzd_slice_t) (r c x : ℕ) (hr : 1 ≤ r) :
    mzd_slice_rescale_row A r c x =
      .error "mzed_rescale_row: row index outside the matrix." := by
  have hrow : ¬ r < r + 1 - r := by omega
  simp only [mzd_slice_rescale_row, mzed_cling, bind, Except.bind, mzed_rescale_row,
    mzed_cling_write, mzed_init, mzd_slice_init_window]
  rw [if_neg hrow]

theorem mzd_slice_rescale_row_fails_witness :
    (1 < example_sliced.nrows ∧ 0 < example_sliced.ncols) ∧
      example_sliced.element 1 0 = 3 ∧ example_gf4.mul 2 3 = 1 ∧
      mzd_slice_rescale_row example_sliced 1 0 2 =
        .error "mzed_rescale_row: row index outside the matrix." :=
  ⟨by decide, by decide, by decide!, mzd_slice_rescale_row_fails example_sliced 1 0 2 (by decide)⟩


/-! ### Recursion structure of the triangular solves -/

theorem forward_substitution_keeps_shape {F : Type} [Field F] :
    naive_keeps_shape (forward_substitution : matrix_t F → matrix_t F → matrix_t F) :=
  fun _ _ => ⟨rfl, rfl, rfl⟩

theorem backward_substitution_keeps_shape {F : Type} [Field F] :
    naive_keeps_shape (backward_substitution : matrix_t F → matrix_t F → matrix_t F) :=
  fun _ _ => ⟨rfl, rfl, rfl⟩

theorem trsm_lower_left_shape {F : Type} [Semiring F]
    (naive : matrix_t F → matrix_t F → matrix_t F) (hkeep : naive_keeps_shape naive)
    (fuel : ℕ) (L B X : matrix_t F) (cutoff : ℕ)
    (h : _matrix_trsm_lower_left naive fuel L B cutoff = .ok X) : X.same_shape B := by
  cases fuel with
  | zero => cases h
  | succ fuel =>
    rw [_matrix_trsm_lower_left] at h
    split_ifs at h with h1 h2
    · cases h
      exact hkeep L B
    · simp only at h
      split at h
      · cases h
      · cases h
        exact ⟨rfl, rfl, rfl⟩

theorem trsm_upper_left_shape {F : Type} [Semiring F]
    (naive : matrix_t F → matrix_t F → matrix_t F) (hkeep : naive_keeps_shape naive)
    (fuel : ℕ) (U B X : matrix_t F) (cutoff : ℕ)
    (h : _matrix_trsm_upper_left naive fuel U B cutoff = .ok X) : X.same_shape B := by
  cases fuel with
  | zero => cases h
  | succ fuel =>
    rw [_matrix_trsm_upper_left] at h
    split_ifs at h with h1 h2
    · cases h
      exact hkeep U B
    · simp only at h
      split at h
      · cases h
      · cases h
        exact ⟨rfl, rfl, rfl⟩

theorem trsm_lower_left_traced_unfold {F : Type} [Semiring F]
    (naive : matrix_t F → matrix_t F → matrix_t F) (fuel : ℕ) (L B : matrix_t F) (cutoff : ℕ)
    (hassert : L.finite_field.addr = B.finite_field.addr ∧ L.nrows = L.ncols ∧ B.nrows = L.ncols)
    (hge : cutoff ≤ L.nrows) :
    (_matrix_trsm_lower_left_traced naive (fuel + 1) L B cutoff).2 =
      [.init_window B 0 0 cutoff B.ncols, .init_window B cutoff 0 B.nrows B.ncols,
        .init_window L 0 0 cutoff cutoff, .init_window L cutoff 0 B.nrows cutoff,
        .init_window L cutoff cutoff B.nrows B.nrows,
        .naive (matrix_init_window L 0 0 cutoff cutoff) (matrix_init_window B 0 0 cutoff B.ncols),
        .addmul (matrix_init_window B cutoff 0 B.nrows B.ncols)
          (matrix_init_window L cutoff 0 B.nrows cutoff)
          (naive (matrix_init_window L 0 0 cutoff cutoff)
            (matrix_init_window B 0 0 cutoff B.ncols)),
        .recurse (matrix_init_window L cutoff cutoff B.nrows B.nrows)
          (matrix_addmul (matrix_init_window B cutoff 0 B.nrows B.ncols)
            (matrix_init_window L cutoff 0 B.nrows cutoff)
            (naive (matrix_init_window L 0 0 cutoff cutoff)
              (matrix_init_window B 0 0 cutoff B.ncols))) cutoff] ++
        (_matrix_trsm_lower_left_traced naive fuel
          (matrix_init_window L cutoff cutoff B.nrows B.nrows)
          (matrix_addmul (matrix_init_window B cutoff 0 B.nrows B.ncols)
            (matrix_init_window L cutoff 0 B.nrows cutoff)
            (naive (matrix_init_window L 0 0 cutoff cutoff)
              (matrix_init_window B 0 0 cutoff B.ncols))) cutoff).2 := by
  rw [_matrix_trsm_lower_left_traced, if_neg (not_not_intro hassert),
    if_neg (Nat.not_lt.2 hge)]
  simp only
  split <;> simp

theorem trsm_upper_left_traced_unfold {F : Type} [Semiring F]
    (naive : matrix_t F → matrix_t F → matrix_t F) (fuel : ℕ) (U B : matrix_t F) (cutoff : ℕ)
    (hassert : U.finite_field.addr = B.finite_field.addr ∧ U.nrows = U.ncols ∧ B.nrows = U.ncols)
    (hge : cutoff ≤ U.nrows) (X1 : matrix_t F)
    (hX1 : (_matrix_trsm_upper_left_traced naive fuel
      (matrix_init_window U cutoff cutoff B.nrows B.nrows)
      (matrix_init_window B cutoff 0 B.nrows B.ncols) cutoff).1 = .ok X1) :
    (_matrix_trsm_upper_left_traced naive (fuel + 1) U B cutoff).2 =
      [.init_window B 0 0 cutoff B.ncols, .init_window B cutoff 0 B.nrows B.ncols,
        .init_window U 0 0 cutoff cutoff, .init_window U 0 cutoff cutoff B.nrows,
        .init_window U cutoff cutoff B.nrows B.nrows,
        .recurse (matrix_init_window U cutoff cutoff B.nrows B.nrows)
          (matrix_init_window B cutoff 0 B.nrows B.ncols) cutoff] ++
        (_matrix_trsm_upper_left_traced naive fuel
          (matrix_init_window U cutoff cutoff B.nrows B.nrows)
          (matrix_init_window B cutoff 0 B.nrows B.ncols) cutoff).2 ++
        [.addmul (matrix_init_window B 0 0 cutoff B.ncols)
            (matrix_init_window U 0 cutoff cutoff B.nrows) X1,
          .naive (matrix_init_window U 0 0 cutoff cutoff)
            (matrix_addmul (matrix_init_window B 0 0 cutoff B.ncols)
              (matrix_init_window U 0 cutoff cutoff B.nrows) X1)] := by
  rw [_matrix_trsm_upper_left_traced, if_neg (not_not_intro hassert),
    if_neg (Nat.not_lt.2 hge)]
  simp only [hX1]
  simp

theorem trsm_lower_left_trace_summary {F : Type} [Semiring F]
    (naive : matrix_t F → matrix_t F → matrix_t F) (cutoff : ℕ) (hc : 1 ≤ cutoff) :
    ∀ (fuel : ℕ) (L B : matrix_t F),
      (L.finite_field.addr = B.finite_field.addr ∧ L.nrows = L.ncols ∧ B.nrows = L.ncols) →
      L.nrows / cutoff < fuel →
      (∃ X, (_matrix_trsm_lower_left_traced naive fuel L B cutoff).1 = .ok X) ∧
        (_matrix_trsm_lower_left_traced naive fuel L B cutoff).2.filterMap
            trsm_event.naive_shape =
          List.replicate (L.nrows / cutoff) (cutoff, cutoff) ++
            [(L.nrows % cutoff, L.nrows % cutoff)] ∧
        (_matrix_trsm_lower_left_traced naive fuel L B cutoff).2.filterMap
            trsm_event.recurse_rows =
          (List.range (L.nrows / cutoff)).map (fun i => L.nrows - (i + 1) * cutoff) ∧
        (_matrix_trsm_lower_left_traced naive fuel L B cutoff).2.countP
            trsm_event.is_addmul = L.nrows / cutoff ∧
        (_matrix_trsm_lower_left_traced naive fuel L B cutoff).2.countP
            trsm_event.is_init_window = 5 * (L.nrows / cutoff) := by
  intro fuel
  induction fuel with
  | zero => intro L B _ h; exact absurd h (Nat.not_lt_zero _)
  | succ fuel ih =>
    intro L B hassert hfuel
    by_cases hlt : L.nrows < cutoff
    · have hq : L.nrows / cutoff = 0 := Nat.div_eq_of_lt hlt
      have hm : L.nrows % cutoff = L.nrows := Nat.mod_eq_of_lt hlt
      rw [_matrix_trsm_lower_left_traced, if_neg (not_not_intro hassert), if_pos hlt, hq, hm]
      refine ⟨⟨_, rfl⟩, ?_, ?_, ?_, ?_⟩
      · simp [trsm_event.naive_shape, hassert.2.1.symm]
      · simp [trsm_event.recurse_rows]
      · simp [trsm_event.is_addmul]
      · simp [trsm_event.is_init_window]
    · have hge : cutoff ≤ L.nrows := Nat.le_of_not_lt hlt
      have hdiv : L.nrows / cutoff = (L.nrows - cutoff) / cutoff + 1 :=
        Nat.div_eq_sub_div (by omega) hge
      have hmod : L.nrows % cutoff = (L.nrows - cutoff) % cutoff := Nat.mod_eq_sub_mod hge
      have hn : B.nrows = L.nrows := by rw [hassert.2.2, hassert.2.1]
      obtain ⟨⟨X1, hX1⟩, hnaive, hrec, hadd, hwin⟩ := ih
        (matrix_init_window L cutoff cutoff B.nrows B.nrows)
        (matrix_addmul (matrix_init_window B cutoff 0 B.nrows B.ncols)
          (matrix_init_window L cutoff 0 B.nrows cutoff)
          (naive (matrix_init_window L 0 0 cutoff cutoff)
            (matrix_init_window B 0 0 cutoff B.ncols)))
        ⟨hassert.1, rfl, rfl⟩
        (by
          simp only [matrix_init_window]
          rw [hn]
          omega)
      have hrows : (matrix_init_window L cutoff cutoff B.nrows B.nrows).nrows =
          L.nrows - cutoff := by
        simp only [matrix_init_window]
        rw [hn]
      rw [hrows] at hnaive hrec hadd hwin
      refine ⟨?_, ?_, ?_, ?_, ?_⟩
      · rw [trsm_lower_left_traced_fst] at hX1 ⊢
        rw [_matrix_trsm_lower_left, if_neg (not_not_intro hassert), if_neg hlt]
        simp only [hX1]
        exact ⟨_, rfl⟩
      · rw [trsm_lower_left_traced_unfold naive fuel L B cutoff hassert hge,
          List.filterMap_append, hnaive, hdiv, hmod, List.replicate_succ]
        simp [trsm_event.naive_shape, matrix_init_window]
      · rw [trsm_lower_left_traced_unfold naive fuel L B cutoff hassert hge,
          List.filterMap_append, hrec, hdiv, List.range_succ_eq_map, List.map_cons,
          List.map_map]
        simp only [trsm_event.recurse_rows, List.filterMap_cons, List.filterMap_nil, hrows,
          List.singleton_append, zero_add, one_mul, List.cons.injEq, true_and]
        apply List.map_congr_left
        intro i _
        simp only [Function.comp, Nat.succ_eq_add_one]
        rw [Nat.sub_sub]
        congr 1
        ring
      · rw [trsm_lower_left_traced_unfold naive fuel L B cutoff hassert hge,
          List.countP_append, hadd, hdiv]
        simp [trsm_event.is_addmul, List.countP_cons]
        omega
      · rw [trsm_lower_left_traced_unfold naive fuel L B cutoff hassert hge,
          List.countP_append, hwin, hdiv]
        simp [trsm_event.is_init_window, List.countP_cons]
        omega

theorem trsm_upper_left_trace_summary {F : Type} [Semiring F]
    (naive : matrix_t F → matrix_t F → matrix_t F) (cutoff : ℕ) (hc : 1 ≤ cutoff) :
    ∀ (fuel : ℕ) (U B : matrix_t F),
      (U.finite_field.addr = B.finite_field.addr ∧ U.nrows = U.ncols ∧ B.nrows = U.ncols) →
      U.nrows / cutoff < fuel →
      (∃ X, (_matrix_trsm_upper_left_traced naive fuel U B cutoff).1 = .ok X) ∧
        (_matrix_trsm_upper_left_traced naive fuel U B cutoff).2.filterMap
            trsm_event.naive_shape =
          (U.nrows % cutoff, U.nrows % cutoff) ::
            List.replicate (U.nrows / cutoff) (cutoff, cutoff) ∧
        (_matrix_trsm_upper_left_traced naive fuel U B cutoff).2.filterMap
            trsm_event.recurse_rows =
          (List.range (U.nrows / cutoff)).map (fun i => U.nrows - (i + 1) * cutoff) ∧
        (_matrix_trsm_upper_left_traced naive fuel U B cutoff).2.countP
            trsm_event.is_addmul = U.nrows / cutoff ∧
        (_matrix_trsm_upper_left_traced naive fuel U B cutoff).2.countP
            trsm_event.is_init_window = 5 * (U.nrows / cutoff) := by
  intro fuel
  induction fuel with
  | zero => intro U B _ h; exact absurd h (Nat.not_lt_zero _)
  | succ fuel ih =>
    intro U B hassert hfuel
    by_cases hlt : U.nrows < cutoff
    · have hq : U.nrows / cutoff = 0 := Nat.div_eq_of_lt hlt
      have hm : U.nrows % cutoff = U.nrows := Nat.mod_eq_of_lt hlt
      rw [_matrix_trsm_upper_left_traced, if_neg (not_not_intro hassert), if_pos hlt, hq, hm]
      refine ⟨⟨_, rfl⟩, ?_, ?_, ?_, ?_⟩
      · simp [trsm_event.naive_shape, hassert.2.1.symm]
      · simp [trsm_event.recurse_rows]
      · simp [trsm_event.is_addmul]
      · simp [trsm_event.is_init_window]
    · have hge : cutoff ≤ U.nrows := Nat.le_of_not_lt hlt
      have hdiv : U.nrows / cutoff = (U.nrows - cutoff) / cutoff + 1 :=
        Nat.div_eq_sub_div (by omega) hge
      have hmod : U.nrows % cutoff = (U.nrows - cutoff) % cutoff := Nat.mod_eq_sub_mod hge
      have hn : B.nrows = U.nrows := by rw [hassert.2.2, hassert.2.1]
      obtain ⟨⟨X1, hX1⟩, hnaive, hrec, hadd, hwin⟩ := ih
        (matrix_init_window U cutoff cutoff B.nrows B.nrows)
        (matrix_init_window B cutoff 0 B.nrows B.ncols)
        ⟨hassert.1, rfl, rfl⟩
        (by
          simp only [matrix_init_window]
          rw [hn]
          omega)
      have hrows : (matrix_init_window U cutoff cutoff B.nrows B.nrows).nrows =
          U.nrows - cutoff := by
        simp only [matrix_init_window]
        rw [hn]
      rw [hrows] at hnaive hrec hadd hwin
      have htrace := trsm_upper_left_traced_unfold naive fuel U B cutoff hassert hge X1 hX1
      refine ⟨?_, ?_, ?_, ?_, ?_⟩
      · rw [trsm_upper_left_traced_fst] at hX1 ⊢
        rw [_matrix_trsm_upper_left, if_neg (not_not_intro hassert), if_neg hlt]
        simp only [hX1]
        exact ⟨_, rfl⟩
      · rw [htrace, List.filterMap_append, List.filterMap_append, hnaive, hdiv, hmod,
          List.replicate_succ']
        simp [trsm_event.naive_shape, matrix_init_window]
      · rw [htrace, List.filterMap_append, List.filterMap_append, hrec, hdiv,
          List.range_succ_eq_map, List.map_cons, List.map_map]
        simp only [trsm_event.recurse_rows, List.filterMap_cons, List.filterMap_nil, hrows,
          List.singleton_append, List.append_nil, zero_add, one_mul, List.cons.injEq, true_and]
        apply List.map_congr_left
        intro i _
        simp only [Function.comp, Nat.succ_eq_add_one]
        rw [Nat.sub_sub]
        congr 1
        ring
      · rw [htrace, List.countP_append, List.countP_append, hadd, hdiv]
        simp [trsm_event.is_addmul, List.countP_cons]
      · rw [htrace, List.countP_append, List.countP_append, hwin, hdiv]
        simp [trsm_event.is_init_window, List.countP_cons]
        omega

theorem trsm_lower_left_out_of_fuel {F : Type} [Semiring F]
    (naive : matrix_t F → matrix_t F → matrix_t F) (cutoff : ℕ) :
    ∀ (fuel : ℕ) (L B : matrix_t F),
      (L.finite_field.addr = B.finite_field.addr ∧ L.nrows = L.ncols ∧ B.nrows = L.ncols) →
      fuel * cutoff ≤ L.nrows →
      (_matrix_trsm_lower_left_traced naive fuel L B cutoff).1 = .error .out_of_fuel := by
  intro fuel
  induction fuel with
  | zero => intro L B _ _; rfl
  | succ fuel ih =>
    intro L B hassert hfuel
    have hmul : (fuel + 1) * cutoff = fuel * cutoff + cutoff := Nat.succ_mul fuel cutoff
    have hge : cutoff ≤ L.nrows := by omega
    have hn : B.nrows = L.nrows := by rw [hassert.2.2, hassert.2.1]
    have hin := ih (matrix_init_window L cutoff cutoff B.nrows B.nrows)
      (matrix_addmul (matrix_init_window B cutoff 0 B.nrows B.ncols)
        (matrix_init_window L cutoff 0 B.nrows cutoff)
        (naive (matrix_init_window L 0 0 cutoff cutoff)
          (matrix_init_window B 0 0 cutoff B.ncols)))
      ⟨hassert.1, rfl, rfl⟩
      (by
        simp only [matrix_init_window]
        rw [hn]
        omega)
    rw [trsm_lower_left_traced_fst] at hin ⊢
    rw [_matrix_trsm_lower_left, if_neg (not_not_intro hassert), if_neg (Nat.not_lt.2 hge)]
    simp only [hin]

theorem trsm_upper_left_out_of_fuel {F : Type} [Semiring F]
    (naive : matrix_t F → matrix_t F → matrix_t F) (cutoff : ℕ) :
    ∀ (fuel : ℕ) (U B : matrix_t F),
      (U.finite_field.addr = B.finite_field.addr ∧ U.nrows = U.ncols ∧ B.nrows = U.ncols) →
      fuel * cutoff ≤ U.nrows →
      (_matrix_trsm_upper_left_traced naive fuel U B cutoff).1 = .error .out_of_fuel := by
  intro fuel
  induction fuel with
  | zero => intro U B _ _; rfl
  | succ fuel ih =>
    intro U B hassert hfuel
    have hmul : (fuel + 1) * cutoff = fuel * cutoff + cutoff := Nat.succ_mul fuel cutoff
    have hge : cutoff ≤ U.nrows := by omega
    have hn : B.nrows = U.nrows := by rw [hassert.2.2, hassert.2.1]
    have hin := ih (matrix_init_window U cutoff cutoff B.nrows B.nrows)
      (matrix_init_window B cutoff 0 B.nrows B.ncols)
      ⟨hassert.1, rfl, rfl⟩
      (by
        simp only [matrix_init_window]
        rw [hn]
        omega)
    rw [trsm_upper_left_traced_fst] at hin ⊢
    rw [_matrix_trsm_upper_left, if_neg (not_not_intro hassert), if_neg (Nat.not_lt.2 hge)]
    simp only [hin]

theorem trsm_lower_left_well_shaped {F : Type} [Semiring F]
    (naive : matrix_t F → matrix_t F → matrix_t F) (hkeep : naive_keeps_shape naive)
    (cutoff : ℕ) :
    ∀ (fuel : ℕ) (L B : matrix_t F),
      (L.finite_field.addr = B.finite_field.addr ∧ L.nrows = L.ncols ∧ B.nrows = L.ncols) →
      ∀ ev ∈ (_matrix_trsm_lower_left_traced naive fuel L B cutoff).2, ev.well_shaped := by
  intro fuel
  induction fuel with
  | zero =>
    intro L B _ ev hev
    simp [_matrix_trsm_lower_left_traced] at hev
  | succ fuel ih =>
    intro L B hassert ev hev
    by_cases hlt : L.nrows < cutoff
    · rw [_matrix_trsm_lower_left_traced, if_neg (not_not_intro hassert), if_pos hlt] at hev
      simp only [List.mem_singleton] at hev
      subst hev
      exact hassert
    · have hge : cutoff ≤ L.nrows := Nat.le_of_not_lt hlt
      have hn : B.nrows = L.nrows := by rw [hassert.2.2, hassert.2.1]
      have hsq := hassert.2.1
      obtain ⟨-, hr0, hc0⟩ := hkeep (matrix_init_window L 0 0 cutoff cutoff)
        (matrix_init_window B 0 0 cutoff B.ncols)
      rw [trsm_lower_left_traced_unfold naive fuel L B cutoff hassert hge,
        List.mem_append] at hev
      rcases hev with hev | hev
      · simp only [List.mem_cons, List.mem_singleton, List.not_mem_nil, or_false] at hev
        rcases hev with h | h | h | h | h | h | h | h <;> subst h
        · simp only [trsm_event.well_shaped]
          omega
        · simp only [trsm_event.well_shaped]
          omega
        · simp only [trsm_event.well_shaped]
          omega
        · simp only [trsm_event.well_shaped]
          omega
        · simp only [trsm_event.well_shaped]
          omega
        · exact ⟨hassert.1, rfl, rfl⟩
        · exact ⟨rfl, hr0.symm, hc0.symm⟩
        · exact ⟨hassert.1, rfl, rfl⟩
      · refine ih _ _ ?_ ev hev
        exact ⟨hassert.1, rfl, rfl⟩

theorem trsm_upper_left_well_shaped {F : Type} [Semiring F]
    (naive : matrix_t F → matrix_t F → matrix_t F) (hkeep : naive_keeps_shape naive)
    (cutoff : ℕ) :
    ∀ (fuel : ℕ) (U B : matrix_t F),
      (U.finite_field.addr = B.finite_field.addr ∧ U.nrows = U.ncols ∧ B.nrows = U.ncols) →
      ∀ ev ∈ (_matrix_trsm_upper_left_traced naive fuel U B cutoff).2, ev.well_shaped := by
  intro fuel
  induction fuel with
  | zero =>
    intro U B _ ev hev
    simp [_matrix_trsm_upper_left_traced] at hev
  | succ fuel ih =>
    intro U B hassert ev hev
    by_cases hlt : U.nrows < cutoff
    · rw [_matrix_trsm_upper_left_traced, if_neg (not_not_intro hassert), if_pos hlt] at hev
      simp only [List.mem_singleton] at hev
      subst hev
      exact hassert
    · have hge : cutoff ≤ U.nrows := Nat.le_of_not_lt hlt
      have hn : B.nrows = U.nrows := by rw [hassert.2.2, hassert.2.1]
      have hsq := hassert.2.1
      have hin := ih (matrix_init_window U cutoff cutoff B.nrows B.nrows)
        (matrix_init_window B cutoff 0 B.nrows B.ncols) ⟨hassert.1, rfl, rfl⟩
      have hwin : ∀ ev ∈ ([.init_window B 0 0 cutoff B.ncols,
          .init_window B cutoff 0 B.nrows B.ncols, .init_window U 0 0 cutoff cutoff,
          .init_window U 0 cutoff cutoff B.nrows, .init_window U cutoff cutoff B.nrows B.nrows]
            ++ [.recurse (matrix_init_window U cutoff cutoff B.nrows B.nrows)
              (matrix_init_window B cutoff 0 B.nrows B.ncols) cutoff] : List (trsm_event F)),
          ev.well_shaped := by
        intro ev hev
        simp only [List.mem_append, List.mem_cons, List.mem_singleton, List.not_mem_nil,
          or_false] at hev
        rcases hev with (h | h | h | h | h) | h <;> subst h
        · simp only [trsm_event.well_shaped]
          omega
        · simp only [trsm_event.well_shaped]
          omega
        · simp only [trsm_event.well_shaped]
          omega
        · simp only [trsm_event.well_shaped]
          omega
        · simp only [trsm_event.well_shaped]
          omega
        · exact ⟨hassert.1, rfl, rfl⟩
      rw [_matrix_trsm_upper_left_traced, if_neg (not_not_intro hassert), if_neg hlt] at hev
      simp only at hev
      split at hev
      · rw [List.mem_append] at hev
        rcases hev with hev | hev
        · exact hwin ev hev
        · exact hin ev hev
      · rename_i X1 hX1
        rw [trsm_upper_left_traced_fst] at hX1
        obtain ⟨-, hr1, hc1⟩ := trsm_upper_left_shape naive hkeep fuel _ _ X1 cutoff hX1
        rw [List.mem_append, List.mem_append] at hev
        rcases hev with (hev | hev) | hev
        · exact hwin ev hev
        · exact hin ev hev
        · simp only [List.mem_cons, List.mem_singleton, List.not_mem_nil, or_false] at hev
          rcases hev with h | h <;> subst h
          · exact ⟨rfl, hr1.symm, hc1.symm⟩
          · exact ⟨hassert.1, rfl, rfl⟩

theorem naive_shape_length {F : Type} (l : List (trsm_event F)) :
    (l.filterMap trsm_event.naive_shape).length = l.countP trsm_event.is_naive := by
  induction l with
  | nil => rfl
  | cons ev l ih =>
    cases ev <;>
      simp [List.filterMap_cons, List.countP_cons, trsm_event.naive_shape,
        trsm_event.is_naive, ih]

theorem trsm_window_whole {F : Type} (M : matrix_t F) (n m : ℕ) (hn : n = M.nrows)
    (hm : m = M.ncols) : matrix_init_window M 0 0 n m = M := by
  cases M
  simp only [matrix_init_window, Nat.sub_zero, Nat.zero_add] at hn hm ⊢
  rw [hn, hm]

theorem trsm_addmul_empty {F : Type} [Semiring F] (C A X : matrix_t F) (hA : A.ncols = 0) :
    matrix_addmul C A X = C := by
  cases C
  simp [matrix_addmul, hA]

theorem trsm_lower_left_cutoff_zero_recurse {F : Type} [Semiring F]
    (naive : matrix_t F → matrix_t F → matrix_t F) (fuel : ℕ) (L B : matrix_t F)
    (hassert : L.finite_field.addr = B.finite_field.addr ∧ L.nrows = L.ncols ∧ B.nrows = L.ncols) :
    trsm_event.recurse L B 0 ∈ (_matrix_trsm_lower_left_traced naive (fuel + 1) L B 0).2 := by
  have hn : B.nrows = L.nrows := by rw [hassert.2.2, hassert.2.1]
  rw [trsm_lower_left_traced_unfold naive fuel L B 0 hassert (Nat.zero_le _),
    trsm_window_whole L B.nrows B.nrows hn (hassert.2.2),
    trsm_addmul_empty _ (matrix_init_window L 0 0 B.nrows 0) _ rfl,
    trsm_window_whole B B.nrows B.ncols rfl rfl]
  simp

theorem trsm_upper_left_cutoff_zero_recurse {F : Type} [Semiring F]
    (naive : matrix_t F → matrix_t F → matrix_t F) (fuel : ℕ) (U B : matrix_t F)
    (hassert : U.finite_field.addr = B.finite_field.addr ∧ U.nrows = U.ncols ∧ B.nrows = U.ncols) :
    trsm_event.recurse U B 0 ∈ (_matrix_trsm_upper_left_traced naive (fuel + 1) U B 0).2 := by
  have hn : B.nrows = U.nrows := by rw [hassert.2.2, hassert.2.1]
  rw [_matrix_trsm_upper_left_traced, if_neg (not_not_intro hassert),
    if_neg (Nat.not_lt_zero _), trsm_window_whole U B.nrows B.nrows hn (hassert.2.2),
    trsm_window_whole B B.nrows B.ncols rfl rfl]
  simp only
  split <;> simp

/-- C32: defining recursion of the lower-left solve, for operands passing the entry assertion
and a naive solver working in place. If `L.nrows < cutoff` the run returns `naive(L, B)`.
Otherwise, with `c = cutoff >= 1`, `L00 = L[0..c, 0..c]`, `L10 = L[c..n, 0..c]`,
`L11 = L[c..n, c..n]`, `B0 = B[0..c, *]`, `B1 = B[c..n, *]` and `X0 = naive(L00, B0)`, the
recursive call on `(L11, B1 + L10 * X0)` returns some `X1` and the run returns a matrix of the
shape of `B` whose first `c` rows are `X0` and whose remaining rows are `X1`; the block width is
`cutoff` at every level. -/
theorem matrix_trsm_lower_left_recursion {F : Type} [Semiring F]
    (naive : matrix_t F → matrix_t F → matrix_t F) (hkeep : naive_keeps_shape naive)
    (fuel : ℕ) (L B : matrix_t F) (cutoff : ℕ)
    (hassert : L.finite_field.addr = B.finite_field.addr ∧ L.nrows = L.ncols ∧ B.nrows = L.ncols) :
    (L.nrows < cutoff → _matrix_trsm_lower_left naive (fuel + 1) L B cutoff = .ok (naive L B)) ∧
    (cutoff ≤ L.nrows → 1 ≤ cutoff → L.nrows / cutoff ≤ fuel →
      ∃ X1 X,
        _matrix_trsm_lower_left naive fuel (matrix_init_window L cutoff cutoff B.nrows B.nrows)
          (matrix_addmul (matrix_init_window B cutoff 0 B.nrows B.ncols)
            (matrix_init_window L cutoff 0 B.nrows cutoff)
            (naive (matrix_init_window L 0 0 cutoff cutoff)
              (matrix_init_window B 0 0 cutoff B.ncols))) cutoff = .ok X1 ∧
        _matrix_trsm_lower_left naive (fuel + 1) L B cutoff = .ok X ∧ X.same_shape B ∧
        (∀ i j, i < cutoff → j < B.ncols →
          X.entry i j = (naive (matrix_init_window L 0 0 cutoff cutoff)
            (matrix_init_window B 0 0 cutoff B.ncols)).entry i j) ∧
        (∀ i j, cutoff ≤ i → i < B.nrows → j < B.ncols →
          X.entry i j = X1.entry (i - cutoff) j)) := by
  have hn : B.nrows = L.nrows := by rw [hassert.2.2, hassert.2.1]
  constructor
  · intro hlt
    rw [_matrix_trsm_lower_left, if_neg (not_not_intro hassert), if_pos hlt]
  · intro hge h1 hfuel
    have hdiv : L.nrows / cutoff = (L.nrows - cutoff) / cutoff + 1 :=
      Nat.div_eq_sub_div (by omega) hge
    obtain ⟨⟨X1, hX1⟩, -⟩ := trsm_lower_left_trace_summary naive cutoff h1 fuel
      (matrix_init_window L cutoff cutoff B.nrows B.nrows)
      (matrix_addmul (matrix_init_window B cutoff 0 B.nrows B.ncols)
        (matrix_init_window L cutoff 0 B.nrows cutoff)
        (naive (matrix_init_window L 0 0 cutoff cutoff)
          (matrix_init_window B 0 0 cutoff B.ncols)))
      ⟨hassert.1, rfl, rfl⟩
      (by
        simp only [matrix_init_window]
        rw [hn]
        omega)
    rw [trsm_lower_left_traced_fst] at hX1
    obtain ⟨-, hr1, hc1⟩ := trsm_lower_left_shape naive hkeep fuel _ _ X1 cutoff hX1
    obtain ⟨-, hr0, hc0⟩ := hkeep (matrix_init_window L 0 0 cutoff cutoff)
      (matrix_init_window B 0 0 cutoff B.ncols)
    have hrun : _matrix_trsm_lower_left naive (fuel + 1) L B cutoff =
        .ok (matrix_store_window (matrix_store_window B 0 0
          (naive (matrix_init_window L 0 0 cutoff cutoff)
            (matrix_init_window B 0 0 cutoff B.ncols))) cutoff 0 X1) := by
      rw [_matrix_trsm_lower_left, if_neg (not_not_intro hassert), if_neg (Nat.not_lt.2 hge)]
      simp only [hX1]
    generalize naive (matrix_init_window L 0 0 cutoff cutoff)
      (matrix_init_window B 0 0 cutoff B.ncols) = X0 at hr0 hc0 hr1 hc1 hX1 hrun ⊢
    simp only [matrix_init_window, matrix_addmul, Nat.sub_zero] at hr0 hc0 hr1 hc1
    refine ⟨X1, _, hX1, hrun, ⟨rfl, rfl, rfl⟩, ?_, ?_⟩
    · intro i j hi hj
      rw [store_lower_entry B _ X1 cutoff (by omega) ⟨hr0, hc0⟩ ⟨hr1, hc1⟩ i j (by omega) hj,
        if_pos hi]
    · intro i j hci hi hj
      rw [store_lower_entry B _ X1 cutoff (by omega) ⟨hr0, hc0⟩ ⟨hr1, hc1⟩ i j hi hj,
        if_neg (by omega)]

theorem matrix_trsm_lower_left_recursion_witness :
    ∃ X1 X,
      _matrix_trsm_lower_left forward_substitution 2
        (matrix_init_window example_lower 1 1 example_rhs.nrows example_rhs.nrows)
        (matrix_addmul (matrix_init_window example_rhs 1 0 example_rhs.nrows example_rhs.ncols)
          (matrix_init_window example_lower 1 0 example_rhs.nrows 1)
          (forward_substitution (matrix_init_window example_lower 0 0 1 1)
            (matrix_init_window example_rhs 0 0 1 example_rhs.ncols))) 1 = .ok X1 ∧
      _matrix_trsm_lower_left forward_substitution 3 example_lower example_rhs 1 = .ok X ∧
      X.same_shape example_rhs ∧
      (∀ i j, i < 1 → j < example_rhs.ncols →
        X.entry i j = (forward_substitution (matrix_init_window example_lower 0 0 1 1)
          (matrix_init_window example_rhs 0 0 1 example_rhs.ncols)).entry i j) ∧
      (∀ i j, 1 ≤ i → i < example_rhs.nrows → j < example_rhs.ncols →
        X.entry i j = X1.entry (i - 1) j) :=
  (matrix_trsm_lower_left_recursion forward_substitution forward_substitution_keeps_shape 2
    example_lower example_rhs 1 ⟨rfl, rfl, rfl⟩).2 (by decide) (by decide) (by decide)

/-- C33: defining recursion of the upper-left solve, for operands passing the entry assertion
and a naive solver working in place. If `U.nrows < cutoff` the run returns `naive(U, B)`.
Otherwise, with `c = cutoff >= 1`, `U00 = U[0..c, 0..c]`, `U01 = U[0..c, c..n]`,
`U11 = U[c..n, c..n]`, the recursive call on `(U11, B1)`, with `B1 = B[c..n, *]` as it was on
entry, returns some `X1`; the run returns a matrix of the shape of `B` whose last `n - c` rows
are `X1` and whose first `c` rows are `naive(U00, B0 + U01 * X1)`; and in the call trace the
recursive call and all it does come before that `matrix_addmul` and that naive call. -/
theorem matrix_trsm_upper_left_recursion {F : Type} [Semiring F]
    (naive : matrix_t F → matrix_t F → matrix_t F) (hkeep : naive_keeps_shape naive)
    (fuel : ℕ) (U B : matrix_t F) (cutoff : ℕ)
    (hassert : U.finite_field.addr = B.finite_field.addr ∧ U.nrows = U.ncols ∧ B.nrows = U.ncols) :
    (U.nrows < cutoff → _matrix_trsm_upper_left naive (fuel + 1) U B cutoff = .ok (naive U B)) ∧
    (cutoff ≤ U.nrows → 1 ≤ cutoff → U.nrows / cutoff ≤ fuel →
      ∃ X1 X,
        _matrix_trsm_upper_left naive fuel (matrix_init_window U cutoff cutoff B.nrows B.nrows)
          (matrix_init_window B cutoff 0 B.nrows B.ncols) cutoff = .ok X1 ∧
        _matrix_trsm_upper_left naive (fuel + 1) U B cutoff = .ok X ∧ X.same_shape B ∧
        (∀ i j, i < cutoff → j < B.ncols →
          X.entry i j = (naive (matrix_init_window U 0 0 cutoff cutoff)
            (matrix_addmul (matrix_init_window B 0 0 cutoff B.ncols)
              (matrix_init_window U 0 cutoff cutoff B.nrows) X1)).entry i j) ∧
        (∀ i j, cutoff ≤ i → i < B.nrows → j < B.ncols →
          X.entry i j = X1.entry (i - cutoff) j) ∧
        (_matrix_trsm_upper_left_traced naive (fuel + 1) U B cutoff).2 =
          [.init_window B 0 0 cutoff B.ncols, .init_window B cutoff 0 B.nrows B.ncols,
            .init_window U 0 0 cutoff cutoff, .init_window U 0 cutoff cutoff B.nrows,
            .init_window U cutoff cutoff B.nrows B.nrows,
            .recurse (matrix_init_window U cutoff cutoff B.nrows B.nrows)
              (matrix_init_window B cutoff 0 B.nrows B.ncols) cutoff] ++
          (_matrix_trsm_upper_left_traced naive fuel
            (matrix_init_window U cutoff cutoff B.nrows B.nrows)
            (matrix_init_window B cutoff 0 B.nrows B.ncols) cutoff).2 ++
          [.addmul (matrix_init_window B 0 0 cutoff B.ncols)
              (matrix_init_window U 0 cutoff cutoff B.nrows) X1,
            .naive (matrix_init_window U 0 0 cutoff cutoff)
              (matrix_addmul (matrix_init_window B 0 0 cutoff B.ncols)
                (matrix_init_window U 0 cutoff cutoff B.nrows) X1)]) := by
  have hn : B.nrows = U.nrows := by rw [hassert.2.2, hassert.2.1]
  constructor
  · intro hlt
    rw [_matrix_trsm_upper_left, if_neg (not_not_intro hassert), if_pos hlt]
  · intro hge h1 hfuel
    have hdiv : U.nrows / cutoff = (U.nrows - cutoff) / cutoff + 1 :=
      Nat.div_eq_sub_div (by omega) hge
    obtain ⟨⟨X1, hX1t⟩, -⟩ := trsm_upper_left_trace_summary naive cutoff h1 fuel
      (matrix_init_window U cutoff cutoff B.nrows B.nrows)
      (matrix_init_window B cutoff 0 B.nrows B.ncols)
      ⟨hassert.1, rfl, rfl⟩
      (by
        simp only [matrix_init_window]
        rw [hn]
        omega)
    have hX1 := hX1t
    rw [trsm_upper_left_traced_fst] at hX1
    obtain ⟨-, hr1, hc1⟩ := trsm_upper_left_shape naive hkeep fuel _ _ X1 cutoff hX1
    obtain ⟨-, hr0, hc0⟩ := hkeep (matrix_init_window U 0 0 cutoff cutoff)
      (matrix_addmul (matrix_init_window B 0 0 cutoff B.ncols)
        (matrix_init_window U 0 cutoff cutoff B.nrows) X1)
    have hrun : _matrix_trsm_upper_left naive (fuel + 1) U B cutoff =
        .ok (matrix_store_window (matrix_store_window B cutoff 0 X1) 0 0
          (naive (matrix_init_window U 0 0 cutoff cutoff)
            (matrix_addmul (matrix_init_window B 0 0 cutoff B.ncols)
              (matrix_init_window U 0 cutoff cutoff B.nrows) X1))) := by
      rw [_matrix_trsm_upper_left, if_neg (not_not_intro hassert), if_neg (Nat.not_lt.2 hge)]
      simp only [hX1]
    have htrace := trsm_upper_left_traced_unfold naive fuel U B cutoff hassert hge X1 hX1t
    refine ⟨X1, _, hX1, hrun, ⟨rfl, rfl, rfl⟩, ?_, ?_, htrace⟩
    all_goals
      generalize naive (matrix_init_window U 0 0 cutoff cutoff)
        (matrix_addmul (matrix_init_window B 0 0 cutoff B.ncols)
          (matrix_init_window U 0 cutoff cutoff B.nrows) X1) = X0 at hr0 hc0 ⊢
      simp only [matrix_init_window, matrix_addmul, Nat.sub_zero] at hr0 hc0 hr1 hc1
    · intro i j hi hj
      rw [store_upper_entry B _ X1 cutoff (by omega) ⟨hr0, hc0⟩ ⟨hr1, hc1⟩ i j (by omega) hj,
        if_pos hi]
    · intro i j hci hi hj
      rw [store_upper_entry B _ X1 cutoff (by omega) ⟨hr0, hc0⟩ ⟨hr1, hc1⟩ i j hi hj,
        if_neg (by omega)]

theorem matrix_trsm_upper_left_recursion_witness :
    ∃ X1 X,
      _matrix_trsm_upper_left backward_substitution 2
        (matrix_init_window example_upper 1 1 example_rhs.nrows example_rhs.nrows)
        (matrix_init_window example_rhs 1 0 example_rhs.nrows example_rhs.ncols) 1 = .ok X1 ∧
      _matrix_trsm_upper_left backward_substitution 3 example_upper example_rhs 1 = .ok X ∧
      X.same_shape example_rhs ∧
      (∀ i j, i < 1 → j < example_rhs.ncols →
        X.entry i j = (backward_substitution (matrix_init_window example_upper 0 0 1 1)
          (matrix_addmul (matrix_init_window example_rhs 0 0 1 example_rhs.ncols)
            (matrix_init_window example_upper 0 1 1 example_rhs.nrows) X1)).entry i j) ∧
      (∀ i j, 1 ≤ i → i < example_rhs.nrows → j < example_rhs.ncols →
        X.entry i j = X1.entry (i - 1) j) := by
  obtain ⟨X1, X, h1, h2, h3, h4, h5, -⟩ :=
    (matrix_trsm_upper_left_recursion backward_substitution backward_substitution_keeps_shape 2
      example_upper example_rhs 1 ⟨rfl, rfl, rfl⟩).2 (by decide) (by decide) (by decide)
  exact ⟨X1, X, h1, h2, h3, h4, h5⟩

/-- C35: termination. For every cutoff >= 1 and operands passing the entry assertion, with
`n = T.nrows`, a run of `_matrix_trsm_lower_left` or `_matrix_trsm_upper_left` returns as soon
as its recursion may nest `n / cutoff + 1` calls, and does not return when it may nest only
`n / cutoff`; the recursive calls are made, in this order, on triangular operands of
`n - cutoff`, `n - 2 cutoff`, ... rows, each `cutoff` rows less than its caller, `n / cutoff`
of them in all. -/
theorem matrix_trsm_terminates {F : Type} [Semiring F]
    (naive : matrix_t F → matrix_t F → matrix_t F) (T B : matrix_t F) (cutoff : ℕ)
    (hcut : 1 ≤ cutoff)
    (hassert : T.finite_field.addr = B.finite_field.addr ∧ T.nrows = T.ncols ∧ B.nrows = T.ncols) :
    ((∀ fuel, T.nrows / cutoff < fuel →
        (∃ X, _matrix_trsm_lower_left naive fuel T B cutoff = .ok X) ∧
        (_matrix_trsm_lower_left_traced naive fuel T B cutoff).2.filterMap
            trsm_event.recurse_rows =
          (List.range (T.nrows / cutoff)).map (fun i => T.nrows - (i + 1) * cutoff)) ∧
      _matrix_trsm_lower_left naive (T.nrows / cutoff) T B cutoff = .error .out_of_fuel) ∧
    ((∀ fuel, T.nrows / cutoff < fuel →
        (∃ X, _matrix_trsm_upper_left naive fuel T B cutoff = .ok X) ∧
        (_matrix_trsm_upper_left_traced naive fuel T B cutoff).2.filterMap
            trsm_event.recurse_rows =
          (List.range (T.nrows / cutoff)).map (fun i => T.nrows - (i + 1) * cutoff)) ∧
      _matrix_trsm_upper_left naive (T.nrows / cutoff) T B cutoff = .error .out_of_fuel) := by
  refine ⟨⟨fun fuel hfuel => ?_, ?_⟩, ⟨fun fuel hfuel => ?_, ?_⟩⟩
  · obtain ⟨hret, -, hrec, -⟩ :=
      trsm_lower_left_trace_summary naive cutoff hcut fuel T B hassert hfuel
    rw [trsm_lower_left_traced_fst] at hret
    exact ⟨hret, hrec⟩
  · rw [← trsm_lower_left_traced_fst]
    exact trsm_lower_left_out_of_fuel naive cutoff _ T B hassert (Nat.div_mul_le_self _ _)
  · obtain ⟨hret, -, hrec, -⟩ :=
      trsm_upper_left_trace_summary naive cutoff hcut fuel T B hassert hfuel
    rw [trsm_upper_left_traced_fst] at hret
    exact ⟨hret, hrec⟩
  · rw [← trsm_upper_left_traced_fst]
    exact trsm_upper_left_out_of_fuel naive cutoff _ T B hassert (Nat.div_mul_le_self _ _)

theorem matrix_trsm_terminates_witness :
    ((∀ fuel, 2 < fuel →
        (∃ X, _matrix_trsm_lower_left forward_substitution fuel example_lower example_rhs 1 =
          .ok X) ∧
        (_matrix_trsm_lower_left_traced forward_substitution fuel example_lower example_rhs
          1).2.filterMap trsm_event.recurse_rows = [1, 0]) ∧
      _matrix_trsm_lower_left forward_substitution 2 example_lower example_rhs 1 =
        .error .out_of_fuel) ∧
    ((∀ fuel, 2 < fuel →
        (∃ X, _matrix_trsm_upper_left forward_substitution fuel example_lower example_rhs 1 =
          .ok X) ∧
        (_matrix_trsm_upper_left_traced forward_substitution fuel example_lower example_rhs
          1).2.filterMap trsm_event.recurse_rows = [1, 0]) ∧
      _matrix_trsm_upper_left forward_substitution 2 example_lower example_rhs 1 =
        .error .out_of_fuel) :=
  matrix_trsm_terminates forward_substitution example_lower example_rhs 1 (by decide)
    ⟨rfl, rfl, rfl⟩

/-- C36: no progress at cutoff 0. For operands passing the entry assertion and cutoff = 0 the
base-case test `n < cutoff` is false; the recursive call of `_matrix_trsm_lower_left` (resp.
`_matrix_trsm_upper_left`) is made on operands equal to `L` and `B` (resp. `U` and `B`), with
cutoff 0 again, and the run returns for no bound on the nesting of the recursion. Hence a run
that returns has cutoff >= 1. -/
theorem matrix_trsm_cutoff_zero {F : Type} [Semiring F]
    (naive : matrix_t F → matrix_t F → matrix_t F) (T B : matrix_t F)
    (hassert : T.finite_field.addr = B.finite_field.addr ∧ T.nrows = T.ncols ∧ B.nrows = T.ncols) :
    ¬ T.nrows < 0 ∧
    (∀ fuel, trsm_event.recurse T B 0 ∈ (_matrix_trsm_lower_left_traced naive (fuel + 1) T B 0).2 ∧
      _matrix_trsm_lower_left naive fuel T B 0 = .error .out_of_fuel) ∧
    (∀ fuel, trsm_event.recurse T B 0 ∈ (_matrix_trsm_upper_left_traced naive (fuel + 1) T B 0).2 ∧
      _matrix_trsm_upper_left naive fuel T B 0 = .error .out_of_fuel) ∧
    (∀ cutoff fuel X, _matrix_trsm_lower_left naive fuel T B cutoff = .ok X → 1 ≤ cutoff) ∧
    (∀ cutoff fuel X, _matrix_trsm_upper_left naive fuel T B cutoff = .ok X → 1 ≤ cutoff) := by
  have hl : ∀ fuel, _matrix_trsm_lower_left naive fuel T B 0 = .error .out_of_fuel := by
    intro fuel
    rw [← trsm_lower_left_traced_fst]
    exact trsm_lower_left_out_of_fuel naive 0 fuel T B hassert (by simp)
  have hu : ∀ fuel, _matrix_trsm_upper_left naive fuel T B 0 = .error .out_of_fuel := by
    intro fuel
    rw [← trsm_upper_left_traced_fst]
    exact trsm_upper_left_out_of_fuel naive 0 fuel T B hassert (by simp)
  refine ⟨Nat.not_lt_zero _,
    fun fuel => ⟨trsm_lower_left_cutoff_zero_recurse naive fuel T B hassert, hl fuel⟩,
    fun fuel => ⟨trsm_upper_left_cutoff_zero_recurse naive fuel T B hassert, hu fuel⟩, ?_, ?_⟩
  · intro cutoff fuel X hX
    by_contra hc
    have h0 : cutoff = 0 := by omega
    subst h0
    rw [hl fuel] at hX
    cases hX
  · intro cutoff fuel X hX
    by_contra hc
    have h0 : cutoff = 0 := by omega
    subst h0
    rw [hu fuel] at hX
    cases hX

theorem matrix_trsm_cutoff_zero_witness :
    (∀ fuel, _matrix_trsm_lower_left forward_substitution fuel example_lower example_rhs 0 =
      .error .out_of_fuel) ∧
    (∀ fuel, _matrix_trsm_upper_left backward_substitution fuel example_upper example_rhs 0 =
      .error .out_of_fuel) :=
  ⟨fun fuel => ((matrix_trsm_cutoff_zero forward_substitution example_lower example_rhs
      ⟨rfl, rfl, rfl⟩).2.1 fuel).2,
    fun fuel => ((matrix_trsm_cutoff_zero backward_substitution example_upper example_rhs
      ⟨rfl, rfl, rfl⟩).2.2.1 fuel).2⟩

/-- C37: windows and assertion down the recursion. For operands passing the entry assertion,
a naive solver working in place and `cutoff <= n = T.nrows`: the run first creates the five
windows, `B0` with `cutoff` rows, `B1` with `n - cutoff` rows, the off-diagonal block and the
trailing block with `n - cutoff` rows or columns against `cutoff`; every step of the whole
trace is well shaped, so each window lies within its parent, each `matrix_addmul` has operands
of matching shapes and each recursive call has operands satisfying the entry assertion; and
no run stops on a failed assertion. -/
theorem matrix_trsm_windows_in_bounds {F : Type} [Semiring F]
    (naive : matrix_t F → matrix_t F → matrix_t F) (hkeep : naive_keeps_shape naive)
    (fuel : ℕ) (T B : matrix_t F) (cutoff : ℕ)
    (hassert : T.finite_field.addr = B.finite_field.addr ∧ T.nrows = T.ncols ∧ B.nrows = T.ncols)
    (hle : cutoff ≤ T.nrows) :
    ((_matrix_trsm_lower_left_traced naive (fuel + 1) T B cutoff).2.take 5 =
        [.init_window B 0 0 cutoff B.ncols, .init_window B cutoff 0 B.nrows B.ncols,
          .init_window T 0 0 cutoff cutoff, .init_window T cutoff 0 B.nrows cutoff,
          .init_window T cutoff cutoff B.nrows B.nrows] ∧
      (_matrix_trsm_upper_left_traced naive (fuel + 1) T B cutoff).2.take 5 =
        [.init_window B 0 0 cutoff B.ncols, .init_window B cutoff 0 B.nrows B.ncols,
          .init_window T 0 0 cutoff cutoff, .init_window T 0 cutoff cutoff B.nrows,
          .init_window T cutoff cutoff B.nrows B.nrows]) ∧
    ((matrix_init_window B 0 0 cutoff B.ncols).nrows = cutoff ∧
      (matrix_init_window B cutoff 0 B.nrows B.ncols).nrows = T.nrows - cutoff ∧
      (matrix_init_window T cutoff 0 B.nrows cutoff).nrows = T.nrows - cutoff ∧
      (matrix_init_window T cutoff 0 B.nrows cutoff).ncols = cutoff ∧
      (matrix_init_window T 0 cutoff cutoff B.nrows).nrows = cutoff ∧
      (matrix_init_window T 0 cutoff cutoff B.nrows).ncols = T.nrows - cutoff ∧
      (matrix_init_window T cutoff cutoff B.nrows B.nrows).nrows = T.nrows - cutoff ∧
      (matrix_init_window T cutoff cutoff B.nrows B.nrows).ncols = T.nrows - cutoff) ∧
    ((∀ ev ∈ (_matrix_trsm_lower_left_traced naive fuel T B cutoff).2, ev.well_shaped) ∧
      (_matrix_trsm_lower_left_traced naive fuel T B cutoff).1 ≠ .error .assertion_failed) ∧
    ((∀ ev ∈ (_matrix_trsm_upper_left_traced naive fuel T B cutoff).2, ev.well_shaped) ∧
      (_matrix_trsm_upper_left_traced naive fuel T B cutoff).1 ≠ .error .assertion_failed) := by
  have hn : B.nrows = T.nrows := by rw [hassert.2.2, hassert.2.1]
  refine ⟨⟨?_, ?_⟩, ?_,
    ⟨trsm_lower_left_well_shaped naive hkeep cutoff fuel T B hassert,
      trsm_lower_left_traced_assert_ok naive fuel T B cutoff hassert⟩,
    ⟨trsm_upper_left_well_shaped naive hkeep cutoff fuel T B hassert,
      trsm_upper_left_traced_assert_ok naive fuel T B cutoff hassert⟩⟩
  · rw [trsm_lower_left_traced_unfold naive fuel T B cutoff hassert hle]
    rfl
  · rw [_matrix_trsm_upper_left_traced, if_neg (not_not_intro hassert),
      if_neg (Nat.not_lt.2 hle)]
    simp only
    split <;> rfl
  · simp only [matrix_init_window, Nat.sub_zero, hn, and_self]

theorem matrix_trsm_windows_in_bounds_witness :
    (∀ ev ∈ (_matrix_trsm_lower_left_traced forward_substitution 3 example_lower example_rhs
        1).2, ev.well_shaped) ∧
      (_matrix_trsm_lower_left_traced forward_substitution 3 example_lower example_rhs 1).1 ≠
        .error .assertion_failed :=
  (matrix_trsm_windows_in_bounds forward_substitution forward_substitution_keeps_shape 3
    example_lower example_rhs 1 ⟨rfl, rfl, rfl⟩ (by decide)).2.2.1

/-- C38: call counts. For every cutoff >= 1 and operands passing the entry assertion, with
`n = T.nrows`, a run that may nest more than `n / cutoff` calls makes exactly
`n / cutoff + 1` calls of the naive solver and exactly `n / cutoff` calls of `matrix_addmul`;
`n / cutoff` of the naive calls are on `cutoff x cutoff` diagonal blocks and one, the call of
the innermost level on the last diagonal block, is on a block of `n mod cutoff` rows. In
program order that one is the last naive call of `_matrix_trsm_lower_left` and the first of
`_matrix_trsm_upper_left`. -/
theorem matrix_trsm_call_counts {F : Type} [Semiring F]
    (naive : matrix_t F → matrix_t F → matrix_t F) (fuel : ℕ) (T B : matrix_t F) (cutoff : ℕ)
    (hcut : 1 ≤ cutoff)
    (hassert : T.finite_field.addr = B.finite_field.addr ∧ T.nrows = T.ncols ∧ B.nrows = T.ncols)
    (hfuel : T.nrows / cutoff < fuel) :
    ((_matrix_trsm_lower_left_traced naive fuel T B cutoff).2.countP trsm_event.is_naive =
        T.nrows / cutoff + 1 ∧
      (_matrix_trsm_lower_left_traced naive fuel T B cutoff).2.countP trsm_event.is_addmul =
        T.nrows / cutoff ∧
      (_matrix_trsm_lower_left_traced naive fuel T B cutoff).2.filterMap
          trsm_event.naive_shape =
        List.replicate (T.nrows / cutoff) (cutoff, cutoff) ++
          [(T.nrows % cutoff, T.nrows % cutoff)]) ∧
    ((_matrix_trsm_upper_left_traced naive fuel T B cutoff).2.countP trsm_event.is_naive =
        T.nrows / cutoff + 1 ∧
      (_matrix_trsm_upper_left_traced naive fuel T B cutoff).2.countP trsm_event.is_addmul =
        T.nrows / cutoff ∧
      (_matrix_trsm_upper_left_traced naive fuel T B cutoff).2.filterMap
          trsm_event.naive_shape =
        (T.nrows % cutoff, T.nrows % cutoff) ::
          List.replicate (T.nrows / cutoff) (cutoff, cutoff)) := by
  obtain ⟨-, hl1, -, hl2, -⟩ :=
    trsm_lower_left_trace_summary naive cutoff hcut fuel T B hassert hfuel
  obtain ⟨-, hu1, -, hu2, -⟩ :=
    trsm_upper_left_trace_summary naive cutoff hcut fuel T B hassert hfuel
  refine ⟨⟨?_, hl2, hl1⟩, ⟨?_, hu2, hu1⟩⟩
  · rw [← naive_shape_length, hl1]
    simp
  · rw [← naive_shape_length, hu1]
    simp

theorem matrix_trsm_call_counts_witness :
    ((_matrix_trsm_lower_left_traced forward_substitution 3 example_lower example_rhs
          1).2.countP trsm_event.is_naive = 3 ∧
      (_matrix_trsm_lower_left_traced forward_substitution 3 example_lower example_rhs
          1).2.countP trsm_event.is_addmul = 2 ∧
      (_matrix_trsm_lower_left_traced forward_substitution 3 example_lower example_rhs
          1).2.filterMap trsm_event.naive_shape = [(1, 1), (1, 1), (0, 0)]) ∧
    ((_matrix_trsm_upper_left_traced backward_substitution 3 example_upper example_rhs
          1).2.countP trsm_event.is_naive = 3 ∧
      (_matrix_trsm_upper_left_traced backward_substitution 3 example_upper example_rhs
          1).2.countP trsm_event.is_addmul = 2 ∧
      (_matrix_trsm_upper_left_traced backward_substitution 3 example_upper example_rhs
          1).2.filterMap trsm_event.naive_shape = [(0, 0), (1, 1), (1, 1)]) :=
  ⟨(matrix_trsm_call_counts forward_substitution 3 example_lower example_rhs 1 (by decide)
      ⟨rfl, rfl, rfl⟩ (by decide)).1,
    (matrix_trsm_call_counts backward_substitution 3 example_upper example_rhs 1 (by decide)
      ⟨rfl, rfl, rfl⟩ (by decide)).2⟩

/-! ### Frame and safety of the row rescale, failure atomicity of the multiplication -/

theorem bitZ_gather_reduced (ff : gf2e) (f : ℕ → ZMod 2)
    (hf : ∀ t, ff.degree ≤ t → f t = 0) (i : ℕ) (hi : i < ff.degree) :
    bitZ (ff.gather f) i = f i := by
  rw [bitZ_gather]
  have key : ∀ t ∈ Finset.range (2 * ff.degree - 1),
      f t * bitZ (ff.pow_gen t) i = if t = i then f i else 0 := by
    intro t _
    by_cases ht : t < ff.degree
    · rw [pow_gen_of_lt ff t ht, bitZ_two_pow]
      by_cases hti : t = i
      · rw [if_pos hti, if_pos hti, hti, mul_one]
      · rw [if_neg hti, if_neg hti, mul_zero]
    · rw [hf t (by omega), zero_mul, if_neg (by omega)]
  rw [Finset.sum_congr rfl key, Finset.sum_ite_eq', if_pos (Finset.mem_range.2 (by omega))]

theorem example_sliced_reduced : example_sliced.reduced := by
  intro t ht r c
  have h2 : ¬ t < 2 := Nat.not_lt.2 ht
  simp only [example_sliced, mzed_slice_write, mzd_slice_init, example_packed, example_gf4]
  rw [if_neg (fun h => h2 h.1)]

/-- With row index 0 the call `mzd_slice_rescale_row(A, 0, c, x)` on a reduced bitslice matrix
`A` (planes `0..e-1`) returns, and every entry of `A` in a row other than 0 and every entry of
row 0 in a column `j < c` is what it was, in every plane. The unscaled entries of row 0 are
written back by `mzed_slice` with the values they had. -/
theorem mzd_slice_rescale_row_zero_frame (A : mzd_slice_t) (hred : A.reduced) (c x : ℕ) :
    ∃ R, mzd_slice_rescale_row A 0 c x = .ok R ∧
      ∀ t i j, (i ≠ 0 ∨ j < c) → R.x t i j = A.x t i j := by
  simp only [mzd_slice_rescale_row, mzed_cling, bind, Except.bind, mzed_rescale_row,
    mzed_cling_write, mzed_init, mzd_slice_init_window, mzed_slice, pure, Except.pure]
  rw [if_pos (by omega)]
  simp only
  rw [if_neg (by simp)]
  refine ⟨_, rfl, ?_⟩
  intro t i j hij
  simp only [mzd_slice_store_window, mzed_slice_write]
  by_cases hin : 0 ≤ i ∧ i < 0 + (0 + 1 - 0) ∧ 0 ≤ j ∧ j < 0 + (A.ncols - 0)
  · have hi0 : i = 0 := by omega
    have hjc : j < c := by
      rcases hij with h | h
      · exact absurd hi0 h
      · exact h
    subst hi0
    rw [if_pos hin]
    by_cases ht : t < A.finite_field.degree
    · have h2 : 0 - 0 < 0 + 1 - 0 ∧ j - 0 < A.ncols - 0 := ⟨by omega, by omega⟩
      have h3 : ¬ (0 - 0 = 0 ∧ c ≤ j - 0 ∧ j - 0 < A.ncols - 0) := by
        intro h
        omega
      rw [if_pos ⟨ht, h2⟩, if_neg h3, if_pos h2]
      simp only [Nat.sub_zero, Nat.zero_add, Nat.zero_xor]
      exact bitZ_gather_reduced A.finite_field (fun t => A.x t 0 j)
        (fun t ht => hred t ht 0 j) t ht
    · rw [if_neg (fun h => ht h.1)]
      simp only [Nat.sub_zero, Nat.zero_add]
  · rw [if_neg hin]

/-- C31, evaluated on the code: for every bitslice matrix `A`, every column `c`, every scalar
`x` and every row index `r >= 1`, no run of `mzd_slice_rescale_row(A, r, c, x)` returns with
the entries of `A` outside row `r`, and those of row `r` in the columns `j < c`, unchanged in
all planes: the call of `mzed_rescale_row` is on row `r` of the one-row matrix `A_we`, outside
its storage, and what the run leaves in memory is not determined by the code. -/
theorem mzd_slice_rescale_row_frame_not_established (A : mzd_slice_t) (r c x : ℕ)
    (hr : 1 ≤ r) :
    ¬ ∃ R, mzd_slice_rescale_row A r c x = .ok R ∧
      ∀ t i j, (i ≠ r ∨ j < c) → R.x t i j = A.x t i j := by
  have hout : ¬ r < r + 1 - r := by omega
  rintro ⟨R, hR, -⟩
  simp only [mzd_slice_rescale_row, mzed_cling, bind, Except.bind, mzed_rescale_row,
    mzed_cling_write, mzed_init, mzd_slice_init_window] at hR
  rw [if_neg hout] at hR
  cases hR

theorem mzd_slice_rescale_row_frame_not_established_witness :
    (1 ≤ 1 ∧ 1 < example_sliced.nrows ∧ 1 < example_sliced.ncols) ∧
      ¬ ∃ R, mzd_slice_rescale_row example_sliced 1 1 2 = .ok R ∧
        ∀ t i j, (i ≠ 1 ∨ j < 1) → R.x t i j = example_sliced.x t i j :=
  ⟨⟨le_refl 1, by decide, by decide⟩,
    mzd_slice_rescale_row_frame_not_established example_sliced 1 1 2 (le_refl 1)⟩

/-- C34, evaluated on the code: for every bitslice matrix `A` and all `r`, `c`, `x`, the call
of `mzed_rescale_row` made by `mzd_slice_rescale_row(A, r, c, x)` is made on the packed matrix
`A_we` with exactly one row and with the row index `r`, which is a valid row index of `A_we`
only for `r = 0`; for `r >= 1` it is not, and the call and with it the run stop there. -/
theorem mzd_slice_rescale_row_index (A : mzd_slice_t) (r c x : ℕ) :
    ∃ A_we, mzd_slice_rescale_row_call A r c x = .ok (A_we, r, c, x) ∧ A_we.nrows = 1 ∧
      (r < A_we.nrows ↔ r = 0) ∧
      (1 ≤ r → ¬ r < A_we.nrows ∧
        mzed_rescale_row A_we r c x =
          .error "mzed_rescale_row: row index outside the matrix." ∧
        mzd_slice_rescale_row A r c x =
          .error "mzed_rescale_row: row index outside the matrix.") := by
  have hone : r + 1 - r = 1 := by omega
  refine ⟨_, rfl, ?_, ?_, ?_⟩
  · simp only [mzed_cling_write, mzed_init, mzd_slice_init_window]
    exact hone
  · simp only [mzed_cling_write, mzed_init, mzd_slice_init_window]
    omega
  · intro hr
    have hrow : ¬ r < r + 1 - r := by omega
    refine ⟨?_, ?_, ?_⟩
    · simp only [mzed_cling_write, mzed_init, mzd_slice_init_window]
      exact hrow
    · simp only [mzed_rescale_row, mzed_cling_write, mzed_init, mzd_slice_init_window]
      rw [if_neg hrow]
    · simp only [mzd_slice_rescale_row, mzed_cling, bind, Except.bind, mzed_rescale_row,
        mzed_cling_write, mzed_init, mzd_slice_init_window]
      rw [if_neg hrow]

theorem mzd_slice_rescale_row_index_witness :
    1 < example_sliced.nrows ∧
      ∃ A_we, mzd_slice_rescale_row_call example_sliced 1 0 2 = .ok (A_we, 1, 0, 2) ∧
        A_we.nrows = 1 ∧ ¬ 1 < A_we.nrows := by
  obtain ⟨A_we, h1, h2, -, h4⟩ := mzd_slice_rescale_row_index example_sliced 1 0 2
  exact ⟨by decide, A_we, h1, h2, (h4 (le_refl 1)).1⟩

theorem mzed_mul_karatsuba_store_snd (C A B : mzed_t) :
    (mzed_mul_karatsuba_store C A B).2 = mzed_mul_karatsuba (some C) A B := by
  by_cases h1 : A.ncols ≠ B.nrows ∨ A.finite_field.addr ≠ B.finite_field.addr
  · simp only [mzed_mul_karatsuba_store, mzed_mul_karatsuba]
    rw [if_pos h1, if_pos h1]
  · by_cases h2 : C.finite_field.addr ≠ A.finite_field.addr ∨ C.nrows ≠ A.nrows ∨ C.ncols ≠ B.ncols
    · simp only [mzed_mul_karatsuba_store, mzed_mul_karatsuba]
      rw [if_neg h1, if_neg h1, if_pos h2, if_pos h2]
    · simp only [mzed_mul_karatsuba_store, mzed_mul_karatsuba]
      rw [if_neg h1, if_neg h1, if_neg h2, if_neg h2]
      split <;> rename_i heq <;> rw [heq]

/-- C39: failure atomicity of `mzed_mul_karatsuba`. Whenever `mzed_mul_karatsuba(C, A, B)`
with a non-null `C` dies in its dimension and field check or in its check of the returned
matrix, the contents of `C` when the run ends are the contents it had on entry: both checks
come before `mzed_set_ui(C, 0)` and before any slicing or clinging. -/
theorem mzed_mul_karatsuba_failure_atomic (C A B : mzed_t)
    (hfail : mzed_mul_karatsuba (some C) A B =
        m4ri_die "mzed_mul_karatsuba: rows, columns and fields must match.\n" ∨
      mzed_mul_karatsuba (some C) A B =
        m4ri_die "mzed_mul_karatsuba: rows and columns of returned matrix must match.\n") :
    (mzed_mul_karatsuba_store C A B).2 = mzed_mul_karatsuba (some C) A B ∧
      (mzed_mul_karatsuba_store C A B).1 = C := by
  refine ⟨mzed_mul_karatsuba_store_snd C A B, ?_⟩
  by_cases h1 : A.ncols ≠ B.nrows ∨ A.finite_field.addr ≠ B.finite_field.addr
  · simp only [mzed_mul_karatsuba_store]
    rw [if_pos h1]
  · by_cases h2 : C.finite_field.addr ≠ A.finite_field.addr ∨ C.nrows ≠ A.nrows ∨ C.ncols ≠ B.ncols
    · simp only [mzed_mul_karatsuba_store]
      rw [if_neg h1, if_pos h2]
    · exfalso
      have hrun : mzed_mul_karatsuba (some C) A B =
          _mzed_mul_karatsuba (some (mzed_set_ui C 0)) A B := by
        simp only [mzed_mul_karatsuba]
        rw [if_neg h1, if_neg h2]
      rw [hrun] at hfail
      rcases mzed_mul_karatsuba_pipeline_cases (some (mzed_set_ui C 0)) A B with ⟨R, hR⟩ | hR
      · rw [hR] at hfail
        rcases hfail with h | h <;> cases h
      · rw [hR] at hfail
        rcases hfail with h | h <;> revert h <;> simp [m4ri_die]

theorem mzed_mul_karatsuba_failure_atomic_witness :
    (mzed_identity example_gf4 1).entry 0 0 = 1 ∧
      mzed_mul_karatsuba (some (mzed_identity example_gf4 1)) example_packed example_packed =
        m4ri_die "mzed_mul_karatsuba: rows and columns of returned matrix must match.\n" ∧
      (mzed_mul_karatsuba_store (mzed_identity example_gf4 1) example_packed example_packed).1 =
        mzed_identity example_gf4 1 :=
  ⟨by decide, rfl,
    (mzed_mul_karatsuba_failure_atomic (mzed_identity example_gf4 1) example_packed
      example_packed (Or.inr rfl)).2⟩

/-! ### The accumulating product clings into a non-zero matrix -/

end M4rie
